import Mathlib

/-! # nexus-cli: reconciliation engine

A shallow embedding of the Go packages `pkg/config`, `pkg/nexus` and
`pkg/service` of nexus-cli, followed by theorems about the apply and delete
engines.

Conventions of the embedding

* A Go `string` is a Lean `String`; a Go `error` is the text of its `Error()`
  method, and a possibly-nil error is an `Option String` (`none` is `nil`).
  `fmt.Errorf("... %s: %w", a, err)` is string concatenation.
* A Go `int` is an `Int`; loop counters, which only count list entries, are `Nat`.
* Everything that talks to the server runs in `Gw σ β`: a computation that
  threads the state `σ` of the outside world (HTTP transport plus remote server)
  and emits the events it causes, in order: every request handed to
  `Client.doRequest` together with the reply it got, and every message passed to
  the formatter.  The world is an arbitrary function
  `σ → Request → Reply β × σ`, so a statement for all worlds covers every
  behaviour of the remote side.
* `β` is the type of raw response bodies; the library functions that read them
  (`string(body)`, `json.Unmarshal`) and `strings.ToLower` are fields of `Lib`.
* A `for _, x := range xs` loop whose body may `continue`, fall through to
  `count++`, or `return count, err` is `forRange body xs count`, the body
  reporting which of the three happened as a `Step`.
-/

/-! ## Go library functions -/

/-- Go `strings.Contains s sub`: `sub` occurs in `s` as a contiguous run. -/
def stringsContains (s sub : String) : Bool :=
  decide (sub.data <:+: s.data)

/-- An ASCII-only instance of `strings.ToLower`, used for concrete examples. -/
def asciiToLower (s : String) : String :=
  ⟨s.data.map Char.toLower⟩

/-- A value of Go type `interface{}` produced by `json.Unmarshal`: `nil`, `bool`,
`float64` (kept as its literal), `string`, or a slice/map (kept as raw text). -/
inductive JsonValue where
  | null
  | bool (b : Bool)
  | number (literal : String)
  | str (s : String)
  | composite (raw : String)
  deriving DecidableEq

deriving instance DecidableEq for Except

/-! ## Package config: the manifest -/

namespace config

structure User where
  ID : String
  FirstName : String
  LastName : String
  EmailAddress : String
  Password : String
  Status : String
  Roles : List String
  deriving DecidableEq

structure StorageConfig where
  BlobStoreName : String
  StrictContentTypeValidation : Bool
  WritePolicy : String
  deriving DecidableEq

structure AuthConfig where
  Type_ : String
  Username : String
  Password : String
  NtlmHost : String
  NtlmDomain : String
  deriving DecidableEq

structure ProxyConfig where
  RemoteURL : String
  ContentMaxAge : Int
  MetadataMaxAge : Int
  Authentication : Option AuthConfig
  deriving DecidableEq

structure MavenConfig where
  VersionPolicy : String
  LayoutPolicy : String
  deriving DecidableEq

structure DockerConfig where
  HTTPPort : Int
  HTTPSPort : Int
  ForceBasicAuth : Bool
  V1Enabled : Bool
  SubdomainAddr : String
  deriving DecidableEq

structure AptConfig where
  Distribution : String
  Flat : Bool
  deriving DecidableEq

structure CleanupConfig where
  PolicyNames : List String
  deriving DecidableEq

structure Repository where
  Name : String
  Format : String
  Type_ : String
  Online : Bool
  Storage : StorageConfig
  Proxy : Option ProxyConfig
  Maven : Option MavenConfig
  Docker : Option DockerConfig
  Apt : Option AptConfig
  Cleanup : Option CleanupConfig
  deriving DecidableEq

structure Privilege where
  Name : String
  Description : String
  Type_ : String
  Format : String
  Repository : String
  Actions : List String
  deriving DecidableEq

structure Role where
  ID : String
  Name : String
  Description : String
  Privileges : List String
  Roles : List String
  deriving DecidableEq

structure UserRepositoryPermission where
  UserID : String
  Repository : String
  Privileges : List String
  deriving DecidableEq

structure Config where
  Users : List User
  Repositories : List Repository
  Privileges : List Privilege
  Roles : List Role
  UserRepositoryPermissions : List UserRepositoryPermission
  deriving DecidableEq

/-- The keys of a manifest that `Apply` and `Delete` put into URLs: privilege
names, role identifiers, repository names, user identifiers, and the user and the
repository of every grant. -/
def Config.urlKeys (cfg : Config) : List String :=
  cfg.Privileges.map (fun p => p.Name) ++ cfg.Roles.map (fun r => r.ID) ++
    cfg.Repositories.map (fun r => r.Name) ++ cfg.Users.map (fun u => u.ID) ++
    cfg.UserRepositoryPermissions.map (fun g => g.UserID) ++
    cfg.UserRepositoryPermissions.map (fun g => g.Repository)

end config

/-! ## Package nexus: request and response types -/

namespace nexus

structure UserRequest where
  UserID : String
  FirstName : String
  LastName : String
  EmailAddress : String
  Password : String
  Status : String
  Source : String
  Roles : List String
  deriving DecidableEq

structure UserResponse where
  UserID : String
  FirstName : String
  LastName : String
  EmailAddress : String
  Status : String
  Roles : List String
  Source : String
  deriving DecidableEq

structure RoleRequest where
  ID : String
  Name : String
  Description : String
  Privileges : List String
  Roles : List String
  deriving DecidableEq

structure RoleResponse where
  ID : String
  Name : String
  Description : String
  Privileges : List String
  Roles : List String
  Source : String
  ReadOnly : Bool
  deriving DecidableEq

structure PrivilegeRequest where
  Name : String
  Description : String
  Type_ : String
  Format : String
  Repository : String
  Actions : List String
  Pattern : String
  Domain : String
  deriving DecidableEq

structure PrivilegeResponse where
  Name : String
  Description : String
  Type_ : String
  Format : String
  Repository : String
  Actions : List String
  ReadOnly : Bool
  deriving DecidableEq

structure CleanupPolicy where
  PolicyNames : List String
  deriving DecidableEq

structure Authentication where
  Type_ : String
  Username : String
  Password : String
  NtlmHost : String
  NtlmDomain : String
  deriving DecidableEq

structure ProxySettings where
  RemoteURL : String
  ContentMaxAge : Int
  MetadataMaxAge : Int
  Authentication : Option Authentication
  deriving DecidableEq

structure NegativeCacheSettings where
  Enabled : Bool
  TimeToLive : Int
  deriving DecidableEq

structure HTTPClientConnection where
  RetryAttempts : Int
  Timeout : Int
  deriving DecidableEq

structure HTTPClientSettings where
  Blocked : Bool
  AutoBlock : Bool
  Connection : Option HTTPClientConnection
  deriving DecidableEq

structure MavenSettings where
  VersionPolicy : String
  LayoutPolicy : String
  deriving DecidableEq

structure DockerSettings where
  HTTPPort : Option Int
  HTTPSPort : Option Int
  ForceBasicAuth : Bool
  V1Enabled : Bool
  SubdomainAddr : String
  deriving DecidableEq

structure AptSettings where
  Distribution : String
  Flat : Bool
  deriving DecidableEq

/-- RepositoryRequest: `Storage` is a Go `map[string]interface{}`, kept as the
list of its entries in the order they are set (keys are set at most once). -/
structure RepositoryRequest where
  Name : String
  Online : Bool
  Storage : List (String × JsonValue)
  Cleanup : Option CleanupPolicy
  Proxy : Option ProxySettings
  NegativeCache : Option NegativeCacheSettings
  HTTPClient : Option HTTPClientSettings
  Maven : Option MavenSettings
  Docker : Option DockerSettings
  Apt : Option AptSettings
  deriving DecidableEq

end nexus

/-! ## The world: requests, replies, events -/

open nexus

/-- The `body interface{}` argument of `doRequest`: `nil` for GET and DELETE, else
the value that is marshalled to JSON. -/
inductive Body where
  | none
  | privilege (req : PrivilegeRequest)
  | role (req : RoleRequest)
  | repository (req : RepositoryRequest)
  | user (req : UserRequest)
  | password (newPassword : String)
  deriving DecidableEq

/-- The HTTP request built by `doRequest`: method, URL (`baseURL + path`), the
basic-auth credentials, and the body.  The two JSON headers are constant. -/
structure Request where
  method : String
  url : String
  username : String
  password : String
  body : Body
  deriving DecidableEq

/-- What comes back for a request: `http.NewRequest` rejected it, the transport
failed (`httpClient.Do`, including the 30 s timeout), reading the body failed, or
a response with a status code and a body arrived. -/
inductive Reply (β : Type) where
  | requestError (msg : String)
  | doError (msg : String)
  | readError (msg : String)
  | response (status : Int) (body : β)
  deriving DecidableEq

/-- One observable action of a run. -/
inductive Event (β : Type) where
  | http (req : Request) (reply : Reply β)
  | info (msg : String)
  | success (msg : String)
  | warning (msg : String)
  deriving DecidableEq

/-- The request of an event, if it is a remote call. -/
def Event.request? {β : Type} : Event β → Option Request
  | .http req _ => some req
  | _ => none

/-- The warning text of an event, if it is a formatter warning. -/
def Event.warning? {β : Type} : Event β → Option String
  | .warning msg => some msg
  | _ => none

/-- Library functions reading a response body, and `strings.ToLower`. -/
structure Lib (β : Type) where
  bodyText : β → String
  unmarshalRole : β → Except String RoleResponse
  unmarshalPrivilege : β → Except String PrivilegeResponse
  unmarshalUsers : β → Except String (List UserResponse)
  unmarshalRepository : β → Except String (List (String × JsonValue))
  toLower : String → String

/-- A computation against the world: from a world state it yields a value, the
next world state, and the events it emitted. -/
def Gw (σ β α : Type) : Type := σ → α × σ × List (Event β)

namespace Gw

variable {σ β α γ : Type}

def run (x : Gw σ β α) (s : σ) : α × σ × List (Event β) := x s

/-- The value returned by `x` started in `s`. -/
def result (x : Gw σ β α) (s : σ) : α := (x s).1

/-- The world state left by `x` started in `s`. -/
def final (x : Gw σ β α) (s : σ) : σ := (x s).2.1

/-- The events emitted by `x` started in `s`. -/
def events (x : Gw σ β α) (s : σ) : List (Event β) := (x s).2.2

/-- The remote calls issued by `x` started in `s`, in order. -/
def calls (x : Gw σ β α) (s : σ) : List Request :=
  (events x s).filterMap Event.request?

def ret (a : α) : Gw σ β α := fun s => (a, s, [])

def andThen (x : Gw σ β α) (f : α → Gw σ β γ) : Gw σ β γ := fun s =>
  (((f (x s).1) (x s).2.1).1, ((f (x s).1) (x s).2.1).2.1,
    (x s).2.2 ++ ((f (x s).1) (x s).2.1).2.2)

instance : Monad (Gw σ β) where
  pure := ret
  bind := andThen

/-- Emit one event. -/
def emit (e : Event β) : Gw σ β Unit := fun s => ((), s, [e])

end Gw

/-! ## The loop combinator -/

/-- How one iteration of a counting loop ended: `next false` is `continue`,
`next true` falls through to `count++`, `abort err` is `return count, err`. -/
inductive Step where
  | next (counted : Bool)
  | abort (err : String)
  deriving DecidableEq

/-- The loop `count := c; for _, x := range xs { body }; return count, nil`. -/
def forRange {σ β α : Type} (body : α → Gw σ β Step) :
    List α → Nat → Gw σ β (Nat × Option String)
  | [], count => pure (count, none)
  | x :: xs, count => do
    match ← body x with
    | .abort err => pure (count, some err)
    | .next counted => forRange body xs (if counted then count + 1 else count)

/-! ## Package output: the formatter, as events -/

namespace formatter

variable {σ β : Type}

def Info (msg : String) : Gw σ β Unit := Gw.emit (.info msg)
def Success (msg : String) : Gw σ β Unit := Gw.emit (.success msg)
def Warning (msg : String) : Gw σ β Unit := Gw.emit (.warning msg)

end formatter

/-! ## Package nexus: the client -/

namespace nexus

/-- The Go `http.Client` together with the network and the server behind it. -/
abbrev HttpClient (σ β : Type) : Type := σ → Request → Reply β × σ

structure Client (σ β : Type) where
  baseURL : String
  username : String
  password : String
  httpClient : HttpClient σ β

namespace Client

variable {σ β : Type}

/-- The request `doRequest` builds with `http.NewRequest` and `SetBasicAuth`. -/
def newRequest (c : Client σ β) (method path : String) (body : Body) : Request :=
  { method := method, url := c.baseURL ++ path, username := c.username,
    password := c.password, body := body }

/-- What `doRequest` returns for a reply: the body of a 2xx response, and an
error for a failed exchange or any other status. -/
def readReply (L : Lib β) : Reply β → Except String β
  | .requestError e => .error ("failed to create request: " ++ e)
  | .doError e => .error ("failed to execute request: " ++ e)
  | .readError e => .error ("failed to read response body: " ++ e)
  | .response status respBody =>
    if status < 200 ∨ status ≥ 300 then
      .error ("request failed with status " ++ toString status ++ ": " ++ L.bodyText respBody)
    else .ok respBody

/-- doRequest: build the request, send it, and turn a transport failure or a
non-2xx status into an error.  (`json.Marshal` cannot fail on the request types
used here, so that branch is not represented.) -/
def doRequest (L : Lib β) (c : Client σ β) (method path : String) (body : Body) :
    Gw σ β (Except String β) := fun s =>
  let req := c.newRequest method path body
  let out := c.httpClient s req
  (readReply L out.1, out.2, [Event.http req out.1])

def get (L : Lib β) (c : Client σ β) (path : String) : Gw σ β (Except String β) :=
  c.doRequest L "GET" path .none

def post (L : Lib β) (c : Client σ β) (path : String) (body : Body) : Gw σ β (Except String β) :=
  c.doRequest L "POST" path body

def put (L : Lib β) (c : Client σ β) (path : String) (body : Body) : Gw σ β (Except String β) :=
  c.doRequest L "PUT" path body

def delete (L : Lib β) (c : Client σ β) (path : String) : Gw σ β (Except String β) :=
  c.doRequest L "DELETE" path .none

/-! ### user.go -/

def CreateUser (L : Lib β) (c : Client σ β) (req : UserRequest) : Gw σ β (Option String) := do
  match ← c.post L "/service/rest/v1/security/users" (.user req) with
  | .error err => pure (some ("failed to create user " ++ req.UserID ++ ": " ++ err))
  | .ok _ => pure none

def GetUser (L : Lib β) (c : Client σ β) (userID : String) : Gw σ β (Except String UserResponse) := do
  match ← c.get L ("/service/rest/v1/security/users?userId=" ++ userID) with
  | .error err => pure (.error ("failed to get user " ++ userID ++ ": " ++ err))
  | .ok data =>
    match L.unmarshalUsers data with
    | .error err => pure (.error ("failed to parse user response: " ++ err))
    | .ok [] => pure (.error ("user " ++ userID ++ " not found"))
    | .ok (u :: _) => pure (.ok u)

def UpdateUser (L : Lib β) (c : Client σ β) (userID : String) (req : UserRequest) :
    Gw σ β (Option String) := do
  match ← c.put L ("/service/rest/v1/security/users/" ++ userID) (.user req) with
  | .error err => pure (some ("failed to update user " ++ userID ++ ": " ++ err))
  | .ok _ => pure none

def DeleteUser (L : Lib β) (c : Client σ β) (userID : String) : Gw σ β (Option String) := do
  match ← c.delete L ("/service/rest/v1/security/users/" ++ userID) with
  | .error err => pure (some ("failed to delete user " ++ userID ++ ": " ++ err))
  | .ok _ => pure none

def UserExists (L : Lib β) (c : Client σ β) (userID : String) : Gw σ β (Bool × Option String) := do
  match ← c.GetUser L userID with
  | .error err =>
    if stringsContains err "404" || stringsContains err "not found" then pure (false, none)
    else pure (false, some err)
  | .ok _ => pure (true, none)

def ChangePassword (L : Lib β) (c : Client σ β) (userID newPassword : String) :
    Gw σ β (Option String) := do
  match ← c.put L ("/service/rest/v1/security/users/" ++ userID ++ "/change-password")
      (.password newPassword) with
  | .error err => pure (some ("failed to change password for user " ++ userID ++ ": " ++ err))
  | .ok _ => pure none

/-! ### role.go -/

def CreateRole (L : Lib β) (c : Client σ β) (req : RoleRequest) : Gw σ β (Option String) := do
  match ← c.post L "/service/rest/v1/security/roles" (.role req) with
  | .error err => pure (some ("failed to create role " ++ req.ID ++ ": " ++ err))
  | .ok _ => pure none

def GetRole (L : Lib β) (c : Client σ β) (roleID : String) : Gw σ β (Except String RoleResponse) := do
  match ← c.get L ("/service/rest/v1/security/roles/" ++ roleID) with
  | .error err => pure (.error ("failed to get role " ++ roleID ++ ": " ++ err))
  | .ok data =>
    match L.unmarshalRole data with
    | .error err => pure (.error ("failed to parse role response: " ++ err))
    | .ok role => pure (.ok role)

def UpdateRole (L : Lib β) (c : Client σ β) (roleID : String) (req : RoleRequest) :
    Gw σ β (Option String) := do
  match ← c.put L ("/service/rest/v1/security/roles/" ++ roleID) (.role req) with
  | .error err => pure (some ("failed to update role " ++ roleID ++ ": " ++ err))
  | .ok _ => pure none

def DeleteRole (L : Lib β) (c : Client σ β) (roleID : String) : Gw σ β (Option String) := do
  match ← c.delete L ("/service/rest/v1/security/roles/" ++ roleID) with
  | .error err => pure (some ("failed to delete role " ++ roleID ++ ": " ++ err))
  | .ok _ => pure none

def RoleExists (L : Lib β) (c : Client σ β) (roleID : String) : Gw σ β (Bool × Option String) := do
  match ← c.GetRole L roleID with
  | .error err =>
    if stringsContains err "404" || stringsContains err "not found" then pure (false, none)
    else pure (false, some err)
  | .ok _ => pure (true, none)

/-! ### privilege.go -/

/-- The endpoint chosen by the `switch req.Type_` of `CreatePrivilege`. -/
def privilegePath (type : String) : Option String :=
  if type = "repository-view" then some "/service/rest/v1/security/privileges/repository-view"
  else if type = "repository-admin" then some "/service/rest/v1/security/privileges/repository-admin"
  else if type = "repository-content-selector" then
    some "/service/rest/v1/security/privileges/repository-content-selector"
  else if type = "script" then some "/service/rest/v1/security/privileges/script"
  else if type = "application" then some "/service/rest/v1/security/privileges/application"
  else if type = "wildcard" then some "/service/rest/v1/security/privileges/wildcard"
  else none

def CreatePrivilege (L : Lib β) (c : Client σ β) (req : PrivilegeRequest) :
    Gw σ β (Option String) :=
  match privilegePath req.Type_ with
  | none => pure (some ("unsupported privilege type: " ++ req.Type_))
  | some path => do
    match ← c.post L path (.privilege req) with
    | .error err => pure (some ("failed to create privilege " ++ req.Name ++ ": " ++ err))
    | .ok _ => pure none

def GetPrivilege (L : Lib β) (c : Client σ β) (name : String) :
    Gw σ β (Except String PrivilegeResponse) := do
  match ← c.get L ("/service/rest/v1/security/privileges/" ++ name) with
  | .error err => pure (.error ("failed to get privilege " ++ name ++ ": " ++ err))
  | .ok data =>
    match L.unmarshalPrivilege data with
    | .error err => pure (.error ("failed to parse privilege response: " ++ err))
    | .ok priv => pure (.ok priv)

def DeletePrivilege (L : Lib β) (c : Client σ β) (name : String) : Gw σ β (Option String) := do
  match ← c.delete L ("/service/rest/v1/security/privileges/" ++ name) with
  | .error err => pure (some ("failed to delete privilege " ++ name ++ ": " ++ err))
  | .ok _ => pure none

def PrivilegeExists (L : Lib β) (c : Client σ β) (name : String) : Gw σ β (Bool × Option String) := do
  match ← c.GetPrivilege L name with
  | .error err =>
    if stringsContains err "404" || stringsContains err "not found" then pure (false, none)
    else pure (false, some err)
  | .ok _ => pure (true, none)

/-! ### repository.go -/

/-- The common shape of the fourteen `Create<Format><Type>Repository` methods:
POST the request to `path`, wrapping a failure with the method's own text. -/
def createRepositoryAt (L : Lib β) (c : Client σ β) (path label : String)
    (req : RepositoryRequest) : Gw σ β (Option String) := do
  match ← c.post L path (.repository req) with
  | .error err =>
    pure (some ("failed to create " ++ label ++ " repository " ++ req.Name ++ ": " ++ err))
  | .ok _ => pure none

def CreateMavenHostedRepository (L : Lib β) (c : Client σ β) (req : RepositoryRequest) :
    Gw σ β (Option String) :=
  c.createRepositoryAt L "/service/rest/v1/repositories/maven/hosted" "maven hosted" req

def CreateMavenProxyRepository (L : Lib β) (c : Client σ β) (req : RepositoryRequest) :
    Gw σ β (Option String) :=
  c.createRepositoryAt L "/service/rest/v1/repositories/maven/proxy" "maven proxy" req

def CreateMavenGroupRepository (L : Lib β) (c : Client σ β) (req : RepositoryRequest) :
    Gw σ β (Option String) :=
  c.createRepositoryAt L "/service/rest/v1/repositories/maven/group" "maven group" req

def CreateDockerHostedRepository (L : Lib β) (c : Client σ β) (req : RepositoryRequest) :
    Gw σ β (Option String) :=
  c.createRepositoryAt L "/service/rest/v1/repositories/docker/hosted" "docker hosted" req

def CreateDockerProxyRepository (L : Lib β) (c : Client σ β) (req : RepositoryRequest) :
    Gw σ β (Option String) :=
  c.createRepositoryAt L "/service/rest/v1/repositories/docker/proxy" "docker proxy" req

def CreateDockerGroupRepository (L : Lib β) (c : Client σ β) (req : RepositoryRequest) :
    Gw σ β (Option String) :=
  c.createRepositoryAt L "/service/rest/v1/repositories/docker/group" "docker group" req

def CreateNpmHostedRepository (L : Lib β) (c : Client σ β) (req : RepositoryRequest) :
    Gw σ β (Option String) :=
  c.createRepositoryAt L "/service/rest/v1/repositories/npm/hosted" "npm hosted" req

def CreateNpmProxyRepository (L : Lib β) (c : Client σ β) (req : RepositoryRequest) :
    Gw σ β (Option String) :=
  c.createRepositoryAt L "/service/rest/v1/repositories/npm/proxy" "npm proxy" req

def CreateNpmGroupRepository (L : Lib β) (c : Client σ β) (req : RepositoryRequest) :
    Gw σ β (Option String) :=
  c.createRepositoryAt L "/service/rest/v1/repositories/npm/group" "npm group" req

def CreatePypiHostedRepository (L : Lib β) (c : Client σ β) (req : RepositoryRequest) :
    Gw σ β (Option String) :=
  c.createRepositoryAt L "/service/rest/v1/repositories/pypi/hosted" "pypi hosted" req

def CreatePypiProxyRepository (L : Lib β) (c : Client σ β) (req : RepositoryRequest) :
    Gw σ β (Option String) :=
  c.createRepositoryAt L "/service/rest/v1/repositories/pypi/proxy" "pypi proxy" req

def CreatePypiGroupRepository (L : Lib β) (c : Client σ β) (req : RepositoryRequest) :
    Gw σ β (Option String) :=
  c.createRepositoryAt L "/service/rest/v1/repositories/pypi/group" "pypi group" req

def CreateGoProxyRepository (L : Lib β) (c : Client σ β) (req : RepositoryRequest) :
    Gw σ β (Option String) :=
  c.createRepositoryAt L "/service/rest/v1/repositories/go/proxy" "go proxy" req

def CreateGoGroupRepository (L : Lib β) (c : Client σ β) (req : RepositoryRequest) :
    Gw σ β (Option String) :=
  c.createRepositoryAt L "/service/rest/v1/repositories/go/group" "go group" req

def GetRepository (L : Lib β) (c : Client σ β) (name : String) :
    Gw σ β (Except String (List (String × JsonValue))) := do
  match ← c.get L ("/service/rest/v1/repositories/" ++ name) with
  | .error err => pure (.error ("failed to get repository " ++ name ++ ": " ++ err))
  | .ok data =>
    match L.unmarshalRepository data with
    | .error err => pure (.error ("failed to parse repository response: " ++ err))
    | .ok repo => pure (.ok repo)

def DeleteRepository (L : Lib β) (c : Client σ β) (name : String) : Gw σ β (Option String) := do
  match ← c.delete L ("/service/rest/v1/repositories/" ++ name) with
  | .error err => pure (some ("failed to delete repository " ++ name ++ ": " ++ err))
  | .ok _ => pure none

def RepositoryExists (L : Lib β) (c : Client σ β) (name : String) :
    Gw σ β (Bool × Option String) := do
  match ← c.GetRepository L name with
  | .error err =>
    if stringsContains err "404" || stringsContains err "not found" then pure (false, none)
    else pure (false, some err)
  | .ok _ => pure (true, none)

end Client

end nexus

/-! ## Package service: apply.go -/

namespace service

open nexus

structure ApplyService (σ β : Type) where
  client : Client σ β
  config : config.Config

structure ApplyResult where
  Total : Nat
  Success : Nat
  Failed : Nat
  Skipped : Nat
  UsersCreated : Nat
  RepositoriesCreated : Nat
  RolesCreated : Nat
  PrivilegesCreated : Nat
  Errors : List String
  Warnings : List String
  deriving DecidableEq

namespace ApplyService

variable {σ β : Type}

/-- The body of the loop of `applyPrivileges`. -/
def applyPrivilege (L : Lib β) (s : ApplyService σ β) (priv : config.Privilege) :
    Gw σ β Step := do
  let r ← s.client.PrivilegeExists L priv.Name
  match r.2 with
  | some err => pure (.abort ("failed to check privilege " ++ priv.Name ++ ": " ++ err))
  | none =>
    let req : PrivilegeRequest :=
      { Name := priv.Name, Description := priv.Description, Type_ := priv.Type_,
        Format := priv.Format, Repository := priv.Repository, Actions := priv.Actions,
        Pattern := "", Domain := "" }
    if r.1 then do
      formatter.Info ("Privilege " ++ priv.Name ++ " already exists, skipping...")
      pure (.next false)
    else do
      match ← s.client.CreatePrivilege L req with
      | some err => pure (.abort ("failed to create privilege " ++ priv.Name ++ ": " ++ err))
      | none => do
        formatter.Success ("Created privilege: " ++ priv.Name)
        pure (.next true)

def applyPrivileges (L : Lib β) (s : ApplyService σ β) : Gw σ β (Nat × Option String) := do
  formatter.Info "Applying privileges..."
  forRange (s.applyPrivilege L) s.config.Privileges 0

/-- The body of the loop of `applyRoles`. -/
def applyRole (L : Lib β) (s : ApplyService σ β) (role : config.Role) : Gw σ β Step := do
  let r ← s.client.RoleExists L role.ID
  match r.2 with
  | some err => pure (.abort ("failed to check role " ++ role.ID ++ ": " ++ err))
  | none =>
    let req : RoleRequest :=
      { ID := role.ID, Name := role.Name, Description := role.Description,
        Privileges := role.Privileges, Roles := role.Roles }
    if r.1 then do
      match ← s.client.UpdateRole L role.ID req with
      | some err => pure (.abort ("failed to update role " ++ role.ID ++ ": " ++ err))
      | none => do
        formatter.Success ("Updated role: " ++ role.ID)
        pure (.next true)
    else do
      match ← s.client.CreateRole L req with
      | some err => pure (.abort ("failed to create role " ++ role.ID ++ ": " ++ err))
      | none => do
        formatter.Success ("Created role: " ++ role.ID)
        pure (.next true)

def applyRoles (L : Lib β) (s : ApplyService σ β) : Gw σ β (Nat × Option String) := do
  formatter.Info "Applying roles..."
  forRange (s.applyRole L) s.config.Roles 0

/-- The request assembled by `createRepository` before it dispatches on
format and type. -/
def repositoryRequest (repo : config.Repository) : RepositoryRequest :=
  { Name := repo.Name
    Online := repo.Online
    Storage :=
      [("blobStoreName", JsonValue.str repo.Storage.BlobStoreName),
       ("strictContentTypeValidation", JsonValue.bool repo.Storage.StrictContentTypeValidation)]
      ++ (if repo.Type_ = "hosted" ∧ repo.Storage.WritePolicy ≠ "" then
            [("writePolicy", JsonValue.str repo.Storage.WritePolicy)]
          else [])
    Proxy := repo.Proxy.map fun p =>
      { RemoteURL := p.RemoteURL
        ContentMaxAge := p.ContentMaxAge
        MetadataMaxAge := p.MetadataMaxAge
        Authentication := p.Authentication.map fun a =>
          { Type_ := a.Type_, Username := a.Username, Password := a.Password,
            NtlmHost := a.NtlmHost, NtlmDomain := a.NtlmDomain } }
    NegativeCache := repo.Proxy.map fun _ => { Enabled := true, TimeToLive := 1440 }
    HTTPClient := repo.Proxy.map fun _ =>
      { Blocked := false, AutoBlock := true,
        Connection := some { RetryAttempts := 3, Timeout := 60 } }
    Maven := repo.Maven.map fun m =>
      { VersionPolicy := m.VersionPolicy, LayoutPolicy := m.LayoutPolicy }
    Docker := repo.Docker.map fun (d : config.DockerConfig) =>
      { ForceBasicAuth := d.ForceBasicAuth
        V1Enabled := d.V1Enabled
        HTTPPort := if d.HTTPPort > 0 then some d.HTTPPort else none
        HTTPSPort := if d.HTTPSPort > 0 then some d.HTTPSPort else none
        SubdomainAddr := if d.SubdomainAddr ≠ "" then d.SubdomainAddr else "" }
    Apt := none
    Cleanup := repo.Cleanup.map fun cl => { PolicyNames := cl.PolicyNames } }

def createRepository (L : Lib β) (s : ApplyService σ β) (repo : config.Repository) :
    Gw σ β (Option String) :=
  let req := repositoryRequest repo
  let unsupportedType : Gw σ β (Option String) :=
    pure (some ("unsupported repository type: " ++ repo.Type_ ++ " for format: " ++ repo.Format))
  if repo.Format = "maven2" then
    if repo.Type_ = "hosted" then s.client.CreateMavenHostedRepository L req
    else if repo.Type_ = "proxy" then s.client.CreateMavenProxyRepository L req
    else if repo.Type_ = "group" then s.client.CreateMavenGroupRepository L req
    else unsupportedType
  else if repo.Format = "docker" then
    if repo.Type_ = "hosted" then s.client.CreateDockerHostedRepository L req
    else if repo.Type_ = "proxy" then s.client.CreateDockerProxyRepository L req
    else if repo.Type_ = "group" then s.client.CreateDockerGroupRepository L req
    else unsupportedType
  else if repo.Format = "npm" then
    if repo.Type_ = "hosted" then s.client.CreateNpmHostedRepository L req
    else if repo.Type_ = "proxy" then s.client.CreateNpmProxyRepository L req
    else if repo.Type_ = "group" then s.client.CreateNpmGroupRepository L req
    else unsupportedType
  else if repo.Format = "pypi" then
    if repo.Type_ = "hosted" then s.client.CreatePypiHostedRepository L req
    else if repo.Type_ = "proxy" then s.client.CreatePypiProxyRepository L req
    else if repo.Type_ = "group" then s.client.CreatePypiGroupRepository L req
    else unsupportedType
  else if repo.Format = "go" then
    if repo.Type_ = "proxy" then s.client.CreateGoProxyRepository L req
    else if repo.Type_ = "group" then s.client.CreateGoGroupRepository L req
    else pure (some "go format only supports proxy and group types")
  else pure (some ("unsupported repository format: " ++ repo.Format))

/-- The body of the loop of `applyRepositories`. -/
def applyRepository (L : Lib β) (s : ApplyService σ β) (repo : config.Repository) :
    Gw σ β Step := do
  let r ← s.client.RepositoryExists L repo.Name
  match r.2 with
  | some err => pure (.abort ("failed to check repository " ++ repo.Name ++ ": " ++ err))
  | none =>
    if r.1 then do
      formatter.Info ("Repository " ++ repo.Name ++ " already exists, skipping...")
      pure (.next false)
    else do
      match ← s.createRepository L repo with
      | some err => pure (.abort ("failed to create repository " ++ repo.Name ++ ": " ++ err))
      | none => do
        formatter.Success ("Created repository: " ++ repo.Name ++ " (format: " ++ repo.Format
          ++ ", type: " ++ repo.Type_ ++ ")")
        pure (.next true)

def applyRepositories (L : Lib β) (s : ApplyService σ β) : Gw σ β (Nat × Option String) := do
  formatter.Info "Applying repositories..."
  forRange (s.applyRepository L) s.config.Repositories 0

/-- The body of the loop of `applyUsers`. -/
def applyUser (L : Lib β) (s : ApplyService σ β) (user : config.User) : Gw σ β Step := do
  let r ← s.client.UserExists L user.ID
  match r.2 with
  | some err => pure (.abort ("failed to check user " ++ user.ID ++ ": " ++ err))
  | none =>
    let req : UserRequest :=
      { UserID := user.ID, FirstName := user.FirstName, LastName := user.LastName,
        EmailAddress := user.EmailAddress, Status := user.Status, Roles := user.Roles,
        Password := "", Source := "" }
    if r.1 then do
      match ← s.client.GetUser L user.ID with
      | .error err => pure (.abort ("failed to get existing user " ++ user.ID ++ ": " ++ err))
      | .ok existingUser =>
        let req := { req with Source := existingUser.Source }
        match ← s.client.UpdateUser L user.ID req with
        | some err => pure (.abort ("failed to update user " ++ user.ID ++ ": " ++ err))
        | none => do
          formatter.Success ("Updated user: " ++ user.ID)
          if user.Password ≠ "" then do
            match ← s.client.ChangePassword L user.ID user.Password with
            | some err =>
              formatter.Warning ("Failed to change password for user " ++ user.ID ++ ": " ++ err)
              pure (.next true)
            | none => pure (.next true)
          else pure (.next true)
    else do
      let req := { req with Password := user.Password }
      match ← s.client.CreateUser L req with
      | some err => pure (.abort ("failed to create user " ++ user.ID ++ ": " ++ err))
      | none => do
        formatter.Success ("Created user: " ++ user.ID)
        pure (.next true)

def applyUsers (L : Lib β) (s : ApplyService σ β) : Gw σ β (Nat × Option String) := do
  formatter.Info "Applying users..."
  forRange (s.applyUser L) s.config.Users 0

/-- The name of the role synthesised for a grant: `"%s-%s-role"`. -/
def permissionRoleName (perm : config.UserRepositoryPermission) : String :=
  perm.UserID ++ "-" ++ perm.Repository ++ "-role"

/-- The format read off a fetched repository map: the `"format"` entry when it
is a string, else the empty string. -/
def repositoryFormat (repo : List (String × JsonValue)) : String :=
  match repo.lookup "format" with
  | some (JsonValue.str formatStr) => formatStr
  | _ => ""

/-- The privilege list built for a grant: one
`"nx-repository-view-%s-%s-%s"` name per action. -/
def permissionPrivileges (L : Lib β) (perm : config.UserRepositoryPermission)
    (repoFormat : String) : List String :=
  perm.Privileges.map fun action =>
    "nx-repository-view-" ++ repoFormat ++ "-" ++ perm.Repository ++ "-" ++ L.toLower action

/-- The second half of the loop body of `applyUserRepositoryPermissions`: fetch
the user and, unless the role is already among its roles, append it and update. -/
def assignPermissionRole (L : Lib β) (s : ApplyService σ β)
    (perm : config.UserRepositoryPermission) (roleName : String) : Gw σ β Step := do
  match ← s.client.GetUser L perm.UserID with
  | .error err => pure (.abort ("failed to get user " ++ perm.UserID ++ ": " ++ err))
  | .ok user =>
    let roleExists := user.Roles.any fun r => r == roleName
    if !roleExists then do
      let user := { user with Roles := user.Roles ++ [roleName] }
      let userReq : UserRequest :=
        { UserID := user.UserID, FirstName := user.FirstName, LastName := user.LastName,
          EmailAddress := user.EmailAddress, Status := user.Status, Source := user.Source,
          Roles := user.Roles, Password := "" }
      match ← s.client.UpdateUser L perm.UserID userReq with
      | some err =>
        pure (.abort ("failed to update user " ++ perm.UserID ++ " with role " ++ roleName
          ++ ": " ++ err))
      | none => do
        formatter.Success ("Assigned role " ++ roleName ++ " to user " ++ perm.UserID)
        pure (.next true)
    else pure (.next true)

/-- The body of the loop of `applyUserRepositoryPermissions`. -/
def applyUserRepositoryPermission (L : Lib β) (s : ApplyService σ β)
    (perm : config.UserRepositoryPermission) : Gw σ β Step := do
  let roleName := permissionRoleName perm
  match ← s.client.GetRepository L perm.Repository with
  | .error err => pure (.abort ("failed to get repository " ++ perm.Repository ++ ": " ++ err))
  | .ok repo =>
    let repoFormat := repositoryFormat repo
    if repoFormat = "" then
      pure (.abort ("failed to determine format for repository " ++ perm.Repository))
    else do
      let privileges := permissionPrivileges L perm repoFormat
      let r ← s.client.RoleExists L roleName
      match r.2 with
      | some err => pure (.abort ("failed to check role " ++ roleName ++ ": " ++ err))
      | none =>
        let roleReq : RoleRequest :=
          { ID := roleName
            Name := perm.UserID ++ " access to " ++ perm.Repository
            Description := "Auto-generated role for " ++ perm.UserID ++ " to access "
              ++ perm.Repository
            Privileges := privileges
            Roles := [] }
        if r.1 then do
          match ← s.client.UpdateRole L roleName roleReq with
          | some err => pure (.abort ("failed to update role " ++ roleName ++ ": " ++ err))
          | none => do
            formatter.Success ("Updated permission role: " ++ roleName)
            s.assignPermissionRole L perm roleName
        else do
          match ← s.client.CreateRole L roleReq with
          | some err => pure (.abort ("failed to create role " ++ roleName ++ ": " ++ err))
          | none => do
            formatter.Success ("Created permission role: " ++ roleName)
            s.assignPermissionRole L perm roleName

def applyUserRepositoryPermissions (L : Lib β) (s : ApplyService σ β) :
    Gw σ β (Nat × Option String) := do
  formatter.Info "Applying user repository permissions..."
  forRange (s.applyUserRepositoryPermission L) s.config.UserRepositoryPermissions 0

/-- The result value `Apply` starts from. -/
def emptyResult : ApplyResult :=
  { Total := 0, Success := 0, Failed := 0, Skipped := 0, UsersCreated := 0,
    RepositoriesCreated := 0, RolesCreated := 0, PrivilegesCreated := 0,
    Errors := [], Warnings := [] }

def Apply (L : Lib β) (s : ApplyService σ β) : Gw σ β (ApplyResult × Option String) := do
  let result := emptyResult
  formatter.Info "Starting to apply configuration..."
  let r ← s.applyPrivileges L
  match r.2 with
  | some err =>
    pure ({ result with Errors := result.Errors ++ [err] },
      some ("failed to apply privileges: " ++ err))
  | none =>
  let result := { result with PrivilegesCreated := r.1, Success := result.Success + r.1 }
  let r ← s.applyRoles L
  match r.2 with
  | some err =>
    pure ({ result with Errors := result.Errors ++ [err] },
      some ("failed to apply roles: " ++ err))
  | none =>
  let result := { result with RolesCreated := r.1, Success := result.Success + r.1 }
  let r ← s.applyRepositories L
  match r.2 with
  | some err =>
    pure ({ result with Errors := result.Errors ++ [err] },
      some ("failed to apply repositories: " ++ err))
  | none =>
  let result := { result with RepositoriesCreated := r.1, Success := result.Success + r.1 }
  let r ← s.applyUsers L
  match r.2 with
  | some err =>
    pure ({ result with Errors := result.Errors ++ [err] },
      some ("failed to apply users: " ++ err))
  | none =>
  let result := { result with UsersCreated := r.1, Success := result.Success + r.1 }
  let r ← s.applyUserRepositoryPermissions L
  match r.2 with
  | some err =>
    pure ({ result with Errors := result.Errors ++ [err] },
      some ("failed to apply user repository permissions: " ++ err))
  | none =>
  let result := { result with Success := result.Success + r.1 }
  let result := { result with Total := result.Success + result.Failed + result.Skipped }
  formatter.Success "Configuration applied successfully!"
  pure (result, none)

end ApplyService

end service

/-! ## Package service: delete.go -/

namespace service

open nexus

structure DeleteService (σ β : Type) where
  client : Client σ β
  config : config.Config

structure DeleteResult where
  Total : Nat
  Success : Nat
  Failed : Nat
  Skipped : Nat
  UsersDeleted : Nat
  RepositoriesDeleted : Nat
  RolesDeleted : Nat
  PrivilegesDeleted : Nat
  Errors : List String
  Warnings : List String
  deriving DecidableEq

namespace DeleteService

variable {σ β : Type}

/-- The body of the loop of `deleteUserRepositoryPermissionRoles`. -/
def deleteUserRepositoryPermissionRole (L : Lib β) (s : DeleteService σ β)
    (perm : config.UserRepositoryPermission) : Gw σ β Step := do
  let roleName := perm.UserID ++ "-" ++ perm.Repository ++ "-role"
  let r ← s.client.RoleExists L roleName
  match r.2 with
  | some err => do
    formatter.Warning ("Failed to check role " ++ roleName ++ ": " ++ err)
    pure (.next false)
  | none =>
    if !r.1 then do
      formatter.Info ("Role " ++ roleName ++ " does not exist, skipping...")
      pure (.next false)
    else do
      match ← s.client.DeleteRole L roleName with
      | some err => do
        formatter.Warning ("Failed to delete role " ++ roleName ++ ": " ++ err)
        pure (.next false)
      | none => do
        formatter.Success ("Deleted permission role: " ++ roleName)
        pure (.next true)

def deleteUserRepositoryPermissionRoles (L : Lib β) (s : DeleteService σ β) :
    Gw σ β (Nat × Option String) := do
  formatter.Info "Deleting user repository permission roles..."
  forRange (s.deleteUserRepositoryPermissionRole L) s.config.UserRepositoryPermissions 0

/-- The body of the loop of `deleteUsers`. -/
def deleteUser (L : Lib β) (s : DeleteService σ β) (user : config.User) : Gw σ β Step := do
  let r ← s.client.UserExists L user.ID
  match r.2 with
  | some err => pure (.abort ("failed to check user " ++ user.ID ++ ": " ++ err))
  | none =>
    if !r.1 then do
      formatter.Info ("User " ++ user.ID ++ " does not exist, skipping...")
      pure (.next false)
    else do
      match ← s.client.DeleteUser L user.ID with
      | some err => pure (.abort ("failed to delete user " ++ user.ID ++ ": " ++ err))
      | none => do
        formatter.Success ("Deleted user: " ++ user.ID)
        pure (.next true)

def deleteUsers (L : Lib β) (s : DeleteService σ β) : Gw σ β (Nat × Option String) := do
  formatter.Info "Deleting users..."
  forRange (s.deleteUser L) s.config.Users 0

/-- The body of the loop of `deleteRepositories`. -/
def deleteRepository (L : Lib β) (s : DeleteService σ β) (repo : config.Repository) :
    Gw σ β Step := do
  let r ← s.client.RepositoryExists L repo.Name
  match r.2 with
  | some err => pure (.abort ("failed to check repository " ++ repo.Name ++ ": " ++ err))
  | none =>
    if !r.1 then do
      formatter.Info ("Repository " ++ repo.Name ++ " does not exist, skipping...")
      pure (.next false)
    else do
      match ← s.client.DeleteRepository L repo.Name with
      | some err => pure (.abort ("failed to delete repository " ++ repo.Name ++ ": " ++ err))
      | none => do
        formatter.Success ("Deleted repository: " ++ repo.Name)
        pure (.next true)

def deleteRepositories (L : Lib β) (s : DeleteService σ β) : Gw σ β (Nat × Option String) := do
  formatter.Info "Deleting repositories..."
  forRange (s.deleteRepository L) s.config.Repositories 0

/-- The body of the loop of `deleteRoles`. -/
def deleteRole (L : Lib β) (s : DeleteService σ β) (role : config.Role) : Gw σ β Step := do
  let r ← s.client.RoleExists L role.ID
  match r.2 with
  | some err => pure (.abort ("failed to check role " ++ role.ID ++ ": " ++ err))
  | none =>
    if !r.1 then do
      formatter.Info ("Role " ++ role.ID ++ " does not exist, skipping...")
      pure (.next false)
    else do
      match ← s.client.GetRole L role.ID with
      | .error err => pure (.abort ("failed to get role " ++ role.ID ++ ": " ++ err))
      | .ok roleInfo =>
        if roleInfo.ReadOnly then do
          formatter.Warning ("Role " ++ role.ID ++ " is read-only (built-in), skipping...")
          pure (.next false)
        else do
          match ← s.client.DeleteRole L role.ID with
          | some err =>
            if stringsContains err "in use" || stringsContains err "assigned" then do
              formatter.Warning ("Cannot delete role " ++ role.ID ++ ": still in use by users")
              pure (.next false)
            else pure (.abort ("failed to delete role " ++ role.ID ++ ": " ++ err))
          | none => do
            formatter.Success ("Deleted role: " ++ role.ID)
            pure (.next true)

def deleteRoles (L : Lib β) (s : DeleteService σ β) : Gw σ β (Nat × Option String) := do
  formatter.Info "Deleting roles..."
  forRange (s.deleteRole L) s.config.Roles 0

/-- The body of the loop of `deletePrivileges`. -/
def deletePrivilege (L : Lib β) (s : DeleteService σ β) (priv : config.Privilege) :
    Gw σ β Step := do
  let r ← s.client.PrivilegeExists L priv.Name
  match r.2 with
  | some err => pure (.abort ("failed to check privilege " ++ priv.Name ++ ": " ++ err))
  | none =>
    if !r.1 then do
      formatter.Info ("Privilege " ++ priv.Name ++ " does not exist, skipping...")
      pure (.next false)
    else do
      match ← s.client.GetPrivilege L priv.Name with
      | .error err => pure (.abort ("failed to get privilege " ++ priv.Name ++ ": " ++ err))
      | .ok privInfo =>
        if privInfo.ReadOnly then do
          formatter.Warning ("Privilege " ++ priv.Name ++ " is read-only (built-in), skipping...")
          pure (.next false)
        else do
          match ← s.client.DeletePrivilege L priv.Name with
          | some err => pure (.abort ("failed to delete privilege " ++ priv.Name ++ ": " ++ err))
          | none => do
            formatter.Success ("Deleted privilege: " ++ priv.Name)
            pure (.next true)

def deletePrivileges (L : Lib β) (s : DeleteService σ β) : Gw σ β (Nat × Option String) := do
  formatter.Info "Deleting privileges..."
  forRange (s.deletePrivilege L) s.config.Privileges 0

/-- The result value `Delete` starts from. -/
def emptyResult : DeleteResult :=
  { Total := 0, Success := 0, Failed := 0, Skipped := 0, UsersDeleted := 0,
    RepositoriesDeleted := 0, RolesDeleted := 0, PrivilegesDeleted := 0,
    Errors := [], Warnings := [] }

def Delete (L : Lib β) (s : DeleteService σ β) : Gw σ β (DeleteResult × Option String) := do
  let result := emptyResult
  formatter.Info "Starting to delete resources..."
  let r ← s.deleteUserRepositoryPermissionRoles L
  let result ← (match r.2 with
    | some err => do
      formatter.Warning ("Failed to delete some permission roles: " ++ err)
      pure { result with Errors := result.Errors ++ [err] }
    | none => pure result : Gw σ β DeleteResult)
  let result := { result with Success := result.Success + r.1 }
  let r ← s.deleteUsers L
  match r.2 with
  | some err =>
    pure ({ result with Errors := result.Errors ++ [err] },
      some ("failed to delete users: " ++ err))
  | none =>
  let result := { result with UsersDeleted := r.1, Success := result.Success + r.1 }
  let r ← s.deleteRepositories L
  match r.2 with
  | some err =>
    pure ({ result with Errors := result.Errors ++ [err] },
      some ("failed to delete repositories: " ++ err))
  | none =>
  let result := { result with RepositoriesDeleted := r.1, Success := result.Success + r.1 }
  let r ← s.deleteRoles L
  match r.2 with
  | some err =>
    pure ({ result with Errors := result.Errors ++ [err] },
      some ("failed to delete roles: " ++ err))
  | none =>
  let result := { result with RolesDeleted := r.1, Success := result.Success + r.1 }
  let r ← s.deletePrivileges L
  match r.2 with
  | some err =>
    pure ({ result with Errors := result.Errors ++ [err] },
      some ("failed to delete privileges: " ++ err))
  | none =>
  let result := { result with PrivilegesDeleted := r.1, Success := result.Success + r.1 }
  let result := { result with Total := result.Success + result.Failed + result.Skipped }
  formatter.Success "Resources deleted successfully!"
  pure (result, none)

end DeleteService

end service

/-! ## A model of the remote server

An in-memory server: a create stores the resource under its key, an update
replaces the stored resource, a delete removes it, and a lookup answers from what
is stored.  Response bodies are typed payloads, decoded by `model.lib`.  A request
reaches the server without the fragment of its URL (`model.server`); `model.route`
is the server proper, which routes the URL it receives. -/

namespace model

open nexus

/-- A response body of the model server. -/
inductive Payload where
  | empty
  | text (s : String)
  | privilege (p : PrivilegeResponse)
  | role (r : RoleResponse)
  | users (us : List UserResponse)
  | repository (fields : List (String × JsonValue))
  deriving DecidableEq

/-- The decoding side of the model: a payload decodes as what it holds. -/
def lib : Lib Payload where
  bodyText
    | .text s => s
    | _ => ""
  unmarshalRole
    | .role r => .ok r
    | _ => .error "unexpected end of JSON input"
  unmarshalPrivilege
    | .privilege p => .ok p
    | _ => .error "unexpected end of JSON input"
  unmarshalUsers
    | .users us => .ok us
    | _ => .error "unexpected end of JSON input"
  unmarshalRepository
    | .repository fields => .ok fields
    | _ => .error "unexpected end of JSON input"
  toLower := asciiToLower

/-- A stored user: what a lookup returns, plus the write-only password. -/
structure UserRecord where
  user : UserResponse
  password : String
  deriving DecidableEq

/-- The remote state: one keyed table per resource kind. -/
structure Store where
  privileges : String → Option PrivilegeResponse
  roles : String → Option RoleResponse
  repositories : String → Option (List (String × JsonValue))
  users : String → Option UserRecord

/-- The store holding nothing. -/
def Store.empty : Store :=
  { privileges := fun _ => none, roles := fun _ => none,
    repositories := fun _ => none, users := fun _ => none }

/-- The rest of `s` after the leading `pre`, when `s` starts with `pre`. -/
def stripLeading (pre s : String) : Option String :=
  if pre.data.isPrefixOf s.data then some ⟨s.data.drop pre.data.length⟩ else none

/-- The part of `s` before the trailing `suf`, when `s` ends with `suf`. -/
def stripTrailing (suf s : String) : Option String :=
  if suf.data.isSuffixOf s.data then some ⟨s.data.take (s.data.length - suf.data.length)⟩
  else none

/-- The fourteen repository-creation endpoints with the format and type of the
repositories they create. -/
def repositoryEndpoints : List (String × String × String) :=
  [("/service/rest/v1/repositories/maven/hosted", "maven2", "hosted"),
   ("/service/rest/v1/repositories/maven/proxy", "maven2", "proxy"),
   ("/service/rest/v1/repositories/maven/group", "maven2", "group"),
   ("/service/rest/v1/repositories/docker/hosted", "docker", "hosted"),
   ("/service/rest/v1/repositories/docker/proxy", "docker", "proxy"),
   ("/service/rest/v1/repositories/docker/group", "docker", "group"),
   ("/service/rest/v1/repositories/npm/hosted", "npm", "hosted"),
   ("/service/rest/v1/repositories/npm/proxy", "npm", "proxy"),
   ("/service/rest/v1/repositories/npm/group", "npm", "group"),
   ("/service/rest/v1/repositories/pypi/hosted", "pypi", "hosted"),
   ("/service/rest/v1/repositories/pypi/proxy", "pypi", "proxy"),
   ("/service/rest/v1/repositories/pypi/group", "pypi", "group"),
   ("/service/rest/v1/repositories/go/proxy", "go", "proxy"),
   ("/service/rest/v1/repositories/go/group", "go", "group")]

def notFound : Reply Payload := .response 404 (.text "not found")

def noContent : Reply Payload := .response 204 .empty

def handleGet (st : Store) (path : String) : Reply Payload :=
  match stripLeading "/service/rest/v1/security/privileges/" path with
  | some name =>
    match st.privileges name with
    | some p => .response 200 (.privilege p)
    | none => notFound
  | none =>
  match stripLeading "/service/rest/v1/security/roles/" path with
  | some id =>
    match st.roles id with
    | some r => .response 200 (.role r)
    | none => notFound
  | none =>
  match stripLeading "/service/rest/v1/repositories/" path with
  | some name =>
    match st.repositories name with
    | some fields => .response 200 (.repository fields)
    | none => notFound
  | none =>
  match stripLeading "/service/rest/v1/security/users?userId=" path with
  | some id =>
    match st.users id with
    | some u => .response 200 (.users [u.user])
    | none => .response 200 (.users [])
  | none => notFound

def handlePost (st : Store) (path : String) (body : Body) : Reply Payload × Store :=
  match body with
  | .privilege req =>
    if stripLeading "/service/rest/v1/security/privileges/" path = some req.Type_ then
      (noContent, { st with privileges := Function.update st.privileges req.Name (some
        { Name := req.Name, Description := req.Description, Type_ := req.Type_,
          Format := req.Format, Repository := req.Repository, Actions := req.Actions,
          ReadOnly := false }) })
    else (notFound, st)
  | .role req =>
    if path = "/service/rest/v1/security/roles" then
      (.response 200 .empty, { st with roles := Function.update st.roles req.ID (some
        { ID := req.ID, Name := req.Name, Description := req.Description,
          Privileges := req.Privileges, Roles := req.Roles, Source := "default",
          ReadOnly := false }) })
    else (notFound, st)
  | .repository req =>
    match repositoryEndpoints.lookup path with
    | some (format, type) =>
      let fields : List (String × JsonValue) :=
        [("name", .str req.Name), ("format", .str format), ("type", .str type),
         ("online", .bool req.Online)]
      (.response 201 .empty,
        { st with repositories := Function.update st.repositories req.Name (some fields) })
    | none => (notFound, st)
  | .user req =>
    if path = "/service/rest/v1/security/users" then
      (.response 200 .empty, { st with users := Function.update st.users req.UserID (some
        { user :=
            { UserID := req.UserID, FirstName := req.FirstName, LastName := req.LastName,
              EmailAddress := req.EmailAddress, Status := req.Status, Roles := req.Roles,
              Source := "default" }
          password := req.Password }) })
    else (notFound, st)
  | _ => (notFound, st)

def handlePut (st : Store) (path : String) (body : Body) : Reply Payload × Store :=
  match body with
  | .role req =>
    match stripLeading "/service/rest/v1/security/roles/" path with
    | some id =>
      match st.roles id with
      | some old =>
        (noContent, { st with roles := Function.update st.roles id (some
          { ID := req.ID, Name := req.Name, Description := req.Description,
            Privileges := req.Privileges, Roles := req.Roles, Source := old.Source,
            ReadOnly := old.ReadOnly }) })
      | none => (notFound, st)
    | none => (notFound, st)
  | .user req =>
    match stripLeading "/service/rest/v1/security/users/" path with
    | some id =>
      match st.users id with
      | some old =>
        (noContent, { st with users := Function.update st.users id (some
          { user :=
              { UserID := req.UserID, FirstName := req.FirstName, LastName := req.LastName,
                EmailAddress := req.EmailAddress, Status := req.Status, Roles := req.Roles,
                Source := req.Source }
            password := old.password }) })
      | none => (notFound, st)
    | none => (notFound, st)
  | .password newPassword =>
    match (stripLeading "/service/rest/v1/security/users/" path).bind
        (stripTrailing "/change-password") with
    | some id =>
      match st.users id with
      | some old =>
        (noContent, { st with users := Function.update st.users id (some
          { old with password := newPassword }) })
      | none => (notFound, st)
    | none => (notFound, st)
  | _ => (notFound, st)

def handleDelete (st : Store) (path : String) : Reply Payload × Store :=
  match stripLeading "/service/rest/v1/security/privileges/" path with
  | some name =>
    match st.privileges name with
    | some _ => (noContent, { st with privileges := Function.update st.privileges name none })
    | none => (notFound, st)
  | none =>
  match stripLeading "/service/rest/v1/security/roles/" path with
  | some id =>
    match st.roles id with
    | some _ => (noContent, { st with roles := Function.update st.roles id none })
    | none => (notFound, st)
  | none =>
  match stripLeading "/service/rest/v1/repositories/" path with
  | some name =>
    match st.repositories name with
    | some _ => (noContent, { st with repositories := Function.update st.repositories name none })
    | none => (notFound, st)
  | none =>
  match stripLeading "/service/rest/v1/security/users/" path with
  | some id =>
    match st.users id with
    | some _ => (noContent, { st with users := Function.update st.users id none })
    | none => (notFound, st)
  | none => (notFound, st)

/-- What the server at `base` does with a request whose URL reached it as written:
it routes on the method, the path after `base`, and the body. -/
def route (base : String) : HttpClient Store Payload := fun st req =>
  match stripLeading base req.url with
  | none => (notFound, st)
  | some path =>
    if req.method = "GET" then (handleGet st path, st)
    else if req.method = "POST" then handlePost st path req.body
    else if req.method = "PUT" then handlePut st path req.body
    else if req.method = "DELETE" then handleDelete st path
    else (.response 405 .empty, st)

/-- The URL as it leaves the client.  `doRequest` passes `baseURL + path` to
`http.NewRequest`, which parses it with `url.Parse`; the URL is cut at its first
`#`, and the fragment after it is never sent. -/
def withoutFragment (url : String) : String :=
  ⟨url.data.takeWhile fun c => c ≠ '#'⟩

/-- The model server reachable at `base` through the Go HTTP client: the request
leaves without the fragment of its URL, and the server routes what it receives.
The rest of the URL is taken as written.  That is what Go and the server do for
keys made of unreserved characters (`urlSafe`); a `?` or a `%` inside a key, and
the characters that Go escapes or refuses, are not interpreted by this model. -/
def server (base : String) : HttpClient Store Payload := fun st req =>
  route base st { req with url := withoutFragment req.url }

/-- A client of the model server at `base`. -/
def client (base : String) : Client Store Payload :=
  { baseURL := base, username := "admin", password := "admin123", httpClient := server base }

/-- A client whose URLs reach the server at `base` as written. -/
def routeClient (base : String) : Client Store Payload :=
  { baseURL := base, username := "admin", password := "admin123", httpClient := route base }

/-- The unreserved characters of a URL: ASCII letters and digits, `-`, `_`, `.`
and `~`.  They stand for themselves in every part of a URL. -/
def urlUnreserved (c : Char) : Bool :=
  c.isAlphanum || c == '-' || c == '_' || c == '.' || c == '~'

/-- A key made of unreserved characters: wherever the client puts it in a URL, it
reaches the server as written. -/
def urlSafe (key : String) : Bool := key.data.all urlUnreserved

/-- A base URL made of unreserved characters, `:` and `/`, such as
`http://nexus:8081`. -/
def urlSafeBase (base : String) : Bool :=
  base.data.all fun c => urlUnreserved c || c == ':' || c == '/'

/-- The model server with one injected fault: the request number `k` (counting
from 0) is answered `500 Internal Server Error` without reaching the store; every
other request is served normally.  The state pairs the number of requests seen
with the store. -/
def failingAt (base : String) (k : Nat) : HttpClient (Nat × Store) Payload := fun st req =>
  if st.1 = k then (.response 500 (.text "Internal Server Error"), (st.1 + 1, st.2))
  else ((server base st.2 req).1, (st.1 + 1, (server base st.2 req).2))

/-- A client of the faulty model server. -/
def failingClient (base : String) (k : Nat) : Client (Nat × Store) Payload :=
  { baseURL := base, username := "admin", password := "admin123",
    httpClient := failingAt base k }

end model

/-! ## Vocabulary of the statements -/

/-- Every remote call that `x` can issue, from any world, satisfies `P`. -/
def Gw.CallsSatisfy {σ β α : Type} (P : Request → Prop) (x : Gw σ β α) : Prop :=
  ∀ w, ∀ r ∈ x.calls w, P r

/-! ## Example manifests -/

namespace example_

/-- An application privilege named `name`. -/
def privilege (name : String) : config.Privilege :=
  { Name := name, Description := "", Type_ := "application", Format := "", Repository := "",
    Actions := ["READ"] }

/-- A manifest of five privileges and nothing else. -/
def fivePrivileges : config.Config :=
  { Users := [], Repositories := [], Roles := [], UserRepositoryPermissions := [],
    Privileges := [privilege "p1", privilege "p2", privilege "p3", privilege "p4",
      privilege "p5"] }

/-- The apply service for the five privileges against a server, reachable at
`http://nexus:8081`, that fails the sixth request of the run: the create of the
third privilege. -/
def thirdCreateFails : service.ApplyService (Nat × model.Store) model.Payload :=
  { client := model.failingClient "http://nexus:8081" 5, config := fivePrivileges }

/-- The world before the run: no request seen, nothing stored. -/
def fresh : Nat × model.Store := (0, model.Store.empty)

/-- The grant of the derived-naming example. -/
def aliceGrant : config.UserRepositoryPermission :=
  { UserID := "alice", Repository := "maven-releases", Privileges := ["READ", "WRITE"] }

/-- What the server returns for the repository `maven-releases`. -/
def mavenReleases : List (String × JsonValue) :=
  [("name", .str "maven-releases"), ("format", .str "maven2"), ("type", .str "hosted"),
   ("online", .bool true)]

/-- The user `alice` as the server returns her: one role, `nx-anonymous`. -/
def alice : UserResponse :=
  { UserID := "alice", FirstName := "Alice", LastName := "Liddell",
    EmailAddress := "alice@example.com", Status := "active", Roles := ["nx-anonymous"],
    Source := "default" }

/-- A server holding the `maven2` repository `maven-releases` and the user `alice`. -/
def aliceStore : model.Store :=
  { model.Store.empty with
    repositories := fun name => if name = "maven-releases" then some mavenReleases else none
    users := fun id => if id = "alice" then some { user := alice, password := "secret" } else none }

/-- The apply service whose manifest is just the grant to `alice`. -/
def aliceService : service.ApplyService model.Store model.Payload :=
  { client := model.client "http://nexus:8081"
    config := { Users := [], Repositories := [], Privileges := [], Roles := [],
                UserRepositoryPermissions := [aliceGrant] } }

/-- A built-in role: what the server returns for `nx-admin`, with `readOnly` set. -/
def nxAdmin : RoleResponse :=
  { ID := "nx-admin", Name := "nx-admin", Description := "Administrator Role",
    Privileges := ["nx-all"], Roles := [], Source := "default", ReadOnly := true }

/-- A built-in privilege: what the server returns for `nx-all`, with `readOnly` set. -/
def nxAll : PrivilegeResponse :=
  { Name := "nx-all", Description := "All permissions", Type_ := "wildcard", Format := "",
    Repository := "", Actions := [], ReadOnly := true }

/-- An ordinary role on the server. -/
def developers : RoleResponse :=
  { ID := "developers", Name := "developers", Description := "", Privileges := [],
    Roles := [], Source := "default", ReadOnly := false }

/-- A server holding the built-in role `nx-admin`, the built-in privilege `nx-all`
and the ordinary role `developers`. -/
def builtinStore : model.Store :=
  { model.Store.empty with
    roles := fun id =>
      if id = "nx-admin" then some nxAdmin
      else if id = "developers" then some developers else none
    privileges := fun name => if name = "nx-all" then some nxAll else none }

/-- The manifest entry naming the built-in role. -/
def adminEntry : config.Role :=
  { ID := "nx-admin", Name := "nx-admin", Description := "changed", Privileges := [],
    Roles := [] }

/-- The manifest entry naming the ordinary role. -/
def developersEntry : config.Role :=
  { ID := "developers", Name := "developers", Description := "", Privileges := [],
    Roles := [] }

/-- The manifest entry naming the built-in privilege. -/
def allEntry : config.Privilege :=
  { Name := "nx-all", Description := "", Type_ := "wildcard", Format := "", Repository := "",
    Actions := [] }

/-- A manifest naming the built-in role and privilege, and the ordinary role. -/
def builtinManifest : config.Config :=
  { Users := [], Repositories := [], UserRepositoryPermissions := []
    Privileges := [allEntry]
    Roles := [adminEntry, developersEntry] }

/-- The apply service for `builtinManifest`. -/
def builtinApply : service.ApplyService model.Store model.Payload :=
  { client := model.client "http://nexus:8081", config := builtinManifest }

/-- The delete service for `builtinManifest`. -/
def builtinDelete : service.DeleteService model.Store model.Payload :=
  { client := model.client "http://nexus:8081", config := builtinManifest }

end example_

/-! ## The effect of an apply run on the model server -/

namespace model

open nexus service

/-- What the server stores when a role is written: the request's fields, with
the source and read-only flag of the role it replaces (or those of a new role). -/
def roleRecord (req : RoleRequest) (old : Option RoleResponse) : RoleResponse :=
  { ID := req.ID, Name := req.Name, Description := req.Description,
    Privileges := req.Privileges, Roles := req.Roles,
    Source := match old with
      | some o => o.Source
      | none => "default"
    ReadOnly := match old with
      | some o => o.ReadOnly
      | none => false }

/-- The store after a role is created or updated under `k`. -/
def Store.putRole (st : Store) (k : String) (req : RoleRequest) : Store :=
  { st with roles := Function.update st.roles k (some (roleRecord req (st.roles k))) }

/-- The request `applyRoles` sends for a manifest role. -/
def roleRequestOf (role : config.Role) : RoleRequest :=
  { ID := role.ID, Name := role.Name, Description := role.Description,
    Privileges := role.Privileges, Roles := role.Roles }

/-- What the server stores for a created privilege. -/
def privilegeRecord (priv : config.Privilege) : PrivilegeResponse :=
  { Name := priv.Name, Description := priv.Description, Type_ := priv.Type_,
    Format := priv.Format, Repository := priv.Repository, Actions := priv.Actions,
    ReadOnly := false }

/-- The store after `applyPrivileges` has processed `priv` without error. -/
def privilegeEffect (priv : config.Privilege) (st : Store) : Store :=
  if (st.privileges priv.Name).isSome then st
  else { st with privileges :=
    Function.update st.privileges priv.Name (some (privilegeRecord priv)) }

/-- The store after `applyRoles` has processed `role`. -/
def roleEffect (role : config.Role) (st : Store) : Store :=
  st.putRole role.ID (roleRequestOf role)

/-- What the server stores after `applyUsers` has processed `user`: the manifest
fields; the source of the user it replaces, or that of a new user; the manifest
password if it is non-empty or the user is new, else the password it had. -/
def userRecord (user : config.User) (old : Option UserRecord) : UserRecord :=
  { user :=
      { UserID := user.ID, FirstName := user.FirstName, LastName := user.LastName,
        EmailAddress := user.EmailAddress, Status := user.Status, Roles := user.Roles,
        Source := match old with
          | some o => o.user.Source
          | none => "default" }
    password := match old with
      | some o => if user.Password ≠ "" then user.Password else o.password
      | none => user.Password }

/-- The store after `applyUsers` has processed `user`. -/
def userEffect (user : config.User) (st : Store) : Store :=
  { st with users := Function.update st.users user.ID (some (userRecord user (st.users user.ID))) }

/-- A stored user after a derived role is merged into its role list. -/
def assignRole (roleName : String) (o : UserRecord) : UserRecord :=
  if roleName ∈ o.user.Roles then o
  else { o with user := { o.user with Roles := o.user.Roles ++ [roleName] } }

/-- The role request synthesised for a grant on a repository of format `fmt`. -/
def derivedRoleRequest (perm : config.UserRepositoryPermission) (fmt : String) : RoleRequest :=
  { ID := ApplyService.permissionRoleName perm
    Name := perm.UserID ++ " access to " ++ perm.Repository
    Description := "Auto-generated role for " ++ perm.UserID ++ " to access " ++ perm.Repository
    Privileges := ApplyService.permissionPrivileges lib perm fmt
    Roles := [] }

/-- The format the server reports for the repository `name`; empty when there is
no such repository or it has no string format. -/
def Store.formatOf (st : Store) (name : String) : String :=
  match st.repositories name with
  | some fields => ApplyService.repositoryFormat fields
  | none => ""

/-- A grant can be processed: its repository has a non-empty format and its
user exists. -/
def permissionOk (perm : config.UserRepositoryPermission) (st : Store) : Prop :=
  st.formatOf perm.Repository ≠ "" ∧ (st.users perm.UserID).isSome = true

/-- The store after `applyUserRepositoryPermissions` has processed `perm`
without error. -/
def permissionEffect (perm : config.UserRepositoryPermission) (st : Store) : Store :=
  { st with
    roles := Function.update st.roles (ApplyService.permissionRoleName perm)
      (some (roleRecord (derivedRoleRequest perm (st.formatOf perm.Repository))
        (st.roles (ApplyService.permissionRoleName perm))))
    users := Function.update st.users perm.UserID
      ((st.users perm.UserID).map (assignRole (ApplyService.permissionRoleName perm))) }

/-- The apply service against the model server at `base`. -/
def applyService (base : String) (cfg : config.Config) : ApplyService Store Payload :=
  { client := client base, config := cfg }

/-- The apply service whose URLs reach the server at `base` as written. -/
def routeService (base : String) (cfg : config.Config) : ApplyService Store Payload :=
  { client := routeClient base, config := cfg }

end model

namespace model

/-- `st2` holds at least what `st` holds: every key present in `st` is present in
`st2`, and the repositories of `st` are unchanged in `st2`. -/
def Store.Grows (st st2 : Store) : Prop :=
  (∀ k, (st.privileges k).isSome = true → (st2.privileges k).isSome = true) ∧
  (∀ k, (st.roles k).isSome = true → (st2.roles k).isSome = true) ∧
  (∀ k fields, st.repositories k = some fields → st2.repositories k = some fields) ∧
  (∀ k, (st.users k).isSome = true → (st2.users k).isSome = true)

/-- Everything the manifest describes is on the server: its privileges, roles,
repositories and users, the derived role of every grant, and every grant can be
processed. -/
def Settled (cfg : config.Config) (st : Store) : Prop :=
  (∀ p ∈ cfg.Privileges, (st.privileges p.Name).isSome = true) ∧
  (∀ r ∈ cfg.Roles, (st.roles r.ID).isSome = true) ∧
  (∀ r ∈ cfg.Repositories, (st.repositories r.Name).isSome = true) ∧
  (∀ u ∈ cfg.Users, (st.users u.ID).isSome = true) ∧
  (∀ g ∈ cfg.UserRepositoryPermissions,
    (st.roles (service.ApplyService.permissionRoleName g)).isSome = true ∧ permissionOk g st)

end model

namespace model

open nexus service

/-- The role table after a sequence of role writes (creates or updates), each
given by its key and request. -/
def writeRoles : List (String × RoleRequest) → (String → Option RoleResponse) →
    String → Option RoleResponse
  | [], R => R
  | w :: ws, R => writeRoles ws (Function.update R w.1 (some (roleRecord w.2 (R w.1))))

/-- What a sequence of role writes does to the entry under `k`. -/
def roleChain (k : String) : List (String × RoleRequest) → Option RoleResponse →
    Option RoleResponse
  | [], x => x
  | w :: ws, x => roleChain k ws (if k = w.1 then some (roleRecord w.2 x) else x)

/-- The user table after `applyUsers` has processed the manifest users. -/
def upsertUsers : List config.User → (String → Option UserRecord) →
    String → Option UserRecord
  | [], U => U
  | u :: us, U => upsertUsers us (Function.update U u.ID (some (userRecord u (U u.ID))))

/-- What processing the manifest users does to the entry under `k`. -/
def userChain (k : String) : List config.User → Option UserRecord → Option UserRecord
  | [], x => x
  | u :: us, x => userChain k us (if k = u.ID then some (userRecord u x) else x)

/-- The user table after a sequence of role assignments `(user key, role name)`. -/
def assignUsers : List (String × String) → (String → Option UserRecord) →
    String → Option UserRecord
  | [], U => U
  | a :: as, U => assignUsers as (Function.update U a.1 ((U a.1).map (assignRole a.2)))

/-- What a sequence of role assignments does to the entry under `k`. -/
def assignChain (k : String) : List (String × String) → Option UserRecord →
    Option UserRecord
  | [], x => x
  | a :: as, x => assignChain k as (if k = a.1 then x.map (assignRole a.2) else x)

/-- The source and read-only flag a role write keeps. -/
def roleFlags : Option RoleResponse → String × Bool
  | some o => (o.Source, o.ReadOnly)
  | none => ("default", false)

/-- The source and password of a stored user. -/
def userAuth (x : Option UserRecord) : Option (String × String) :=
  x.map fun o => (o.user.Source, o.password)

/-- The entry, if any, lists the role. -/
def HasRole (roleName : String) (x : Option UserRecord) : Prop :=
  ∀ o, x = some o → roleName ∈ o.user.Roles

/-- The role writes of the manifest roles. -/
def manifestRoleWrites (cfg : config.Config) : List (String × RoleRequest) :=
  cfg.Roles.map fun role => (role.ID, roleRequestOf role)

/-- The role writes of the grants, with the formats read from `st`. -/
def derivedRoleWrites (cfg : config.Config) (st : Store) : List (String × RoleRequest) :=
  cfg.UserRepositoryPermissions.map fun perm =>
    (ApplyService.permissionRoleName perm,
      derivedRoleRequest perm (st.formatOf perm.Repository))

/-- The role assignments of the grants. -/
def grantAssignments (cfg : config.Config) : List (String × String) :=
  cfg.UserRepositoryPermissions.map fun perm =>
    (perm.UserID, ApplyService.permissionRoleName perm)

end model

namespace example_

/-- The manifest entry for the hosted `maven2` repository `maven-releases`. -/
def releasesEntry : config.Repository :=
  { Name := "maven-releases", Format := "maven2", Type_ := "hosted", Online := true
    Storage := { BlobStoreName := "default", StrictContentTypeValidation := true,
                 WritePolicy := "ALLOW_ONCE" }
    Proxy := none
    Maven := some { VersionPolicy := "RELEASE", LayoutPolicy := "STRICT" }
    Docker := none, Apt := none, Cleanup := none }

/-- The manifest entry for the user `alice`. -/
def aliceEntry : config.User :=
  { ID := "alice", FirstName := "Alice", LastName := "Liddell",
    EmailAddress := "alice@example.com", Password := "secret", Status := "active",
    Roles := ["developers"] }

/-- A manifest with one entry of every category: a privilege, a role, a
repository, a user, and a grant to that user on that repository. -/
def teamManifest : config.Config :=
  { Privileges := [privilege "p1"]
    Roles := [developersEntry]
    Repositories := [releasesEntry]
    Users := [aliceEntry]
    UserRepositoryPermissions := [aliceGrant] }

end example_

/-! ## The repository dispatch table, as the specification states it -/

namespace service

/-- The fourteen (format, type) pairs the specification lists for
`createRepository`: `maven2`, `docker`, `npm` and `pypi` with each of `hosted`,
`proxy` and `group`, and `go` with `proxy` and `group`. -/
def supportedRepositoryKinds : List (String × String) :=
  [("maven2", "hosted"), ("maven2", "proxy"), ("maven2", "group"),
   ("docker", "hosted"), ("docker", "proxy"), ("docker", "group"),
   ("npm", "hosted"), ("npm", "proxy"), ("npm", "group"),
   ("pypi", "hosted"), ("pypi", "proxy"), ("pypi", "group"),
   ("go", "proxy"), ("go", "group")]

/-- The path segment the specification gives a format: `maven` for `maven2`, the
format name otherwise. -/
def endpointSegment (format : String) : String :=
  if format = "maven2" then "maven" else format

/-- The create endpoint the specification gives a (format, type) pair. -/
def createEndpoint (format type : String) : String :=
  "/service/rest/v1/repositories/" ++ endpointSegment format ++ "/" ++ type

end service

namespace example_

/-- A repository entry of the given name, format and type, with default storage
and no optional block. -/
def repository (name format type : String) : config.Repository :=
  { Name := name, Format := format, Type_ := type, Online := true
    Storage := { BlobStoreName := "default", StrictContentTypeValidation := true,
                 WritePolicy := "" }
    Proxy := none, Maven := none, Docker := none, Apt := none, Cleanup := none }

/-- A service with an empty manifest against the model server. -/
def plainService : service.ApplyService model.Store model.Payload :=
  { client := model.client "http://nexus:8081"
    config := { Users := [], Repositories := [], Privileges := [], Roles := [],
                UserRepositoryPermissions := [] } }

end example_

namespace example_

/-- The proxy block of `dockerHubEntry`: Docker Hub, with credentials. -/
def dockerHubProxy : config.ProxyConfig :=
  { RemoteURL := "https://registry-1.docker.io", ContentMaxAge := 1440,
    MetadataMaxAge := 720
    Authentication := some
      { Type_ := "username", Username := "mirror", Password := "s3cret", NtlmHost := "",
        NtlmDomain := "" } }

/-- The docker block of `dockerHubEntry`: the HTTP port 8082 and no HTTPS port. -/
def dockerHubPorts : config.DockerConfig :=
  { HTTPPort := 8082, HTTPSPort := 0, ForceBasicAuth := true, V1Enabled := false,
    SubdomainAddr := "" }

/-- A proxy repository for Docker Hub. -/
def dockerHubEntry : config.Repository :=
  { Name := "docker-hub", Format := "docker", Type_ := "proxy", Online := true
    Storage := { BlobStoreName := "default", StrictContentTypeValidation := true,
                 WritePolicy := "ALLOW" }
    Proxy := some dockerHubProxy
    Maven := none
    Docker := some dockerHubPorts
    Apt := none, Cleanup := none }

/-- A hosted repository of format `apt` with an apt block. -/
def debsEntry : config.Repository :=
  { Name := "debs", Format := "apt", Type_ := "hosted", Online := true
    Storage := { BlobStoreName := "default", StrictContentTypeValidation := true,
                 WritePolicy := "ALLOW" }
    Proxy := none, Maven := none, Docker := none
    Apt := some { Distribution := "bionic", Flat := true }
    Cleanup := none }

end example_

namespace example_

/-- The manifest entry for the user `bob`. -/
def bobEntry : config.User :=
  { ID := "bob", FirstName := "Bob", LastName := "Builder",
    EmailAddress := "bob@example.com", Password := "hunter2", Status := "active",
    Roles := ["developers"] }

/-- The apply service for the users `alice` and `bob` against a server that fails
the fourth request of the run: the password change of `alice`. -/
def passwordChangeFails : service.ApplyService (Nat × model.Store) model.Payload :=
  { client := model.failingClient "http://nexus:8081" 3
    config := { Users := [aliceEntry, bobEntry], Repositories := [], Privileges := [],
                Roles := [], UserRepositoryPermissions := [] } }

end example_

namespace example_

/-- A server holding `alice` and a repository `maven-releases` whose stored
description has a numeric `format`. -/
def numericFormatStore : model.Store :=
  { aliceStore with
    repositories := fun name =>
      if name = "maven-releases" then
        some [("name", .str "maven-releases"), ("format", .number "2")]
      else none }

end example_

/-! ## Counting the deletes that succeeded -/

/-- The reply is a response with a 2xx status: what `doRequest` returns without
error. -/
def Reply.accepted {β : Type} : Reply β → Bool
  | .response status _ => decide (200 ≤ status ∧ status < 300)
  | _ => false

/-- The event is a DELETE call that the server answered with a 2xx status. -/
def Event.acceptedDelete {β : Type} : Event β → Bool
  | .http req reply => req.method == "DELETE" && reply.accepted
  | _ => false

namespace example_

/-- Grants to `alice` on three repositories. -/
def threeGrants : List config.UserRepositoryPermission :=
  [{ UserID := "alice", Repository := "r1", Privileges := ["READ"] },
   { UserID := "alice", Repository := "r2", Privileges := ["READ"] },
   { UserID := "alice", Repository := "r3", Privileges := ["READ"] }]

/-- A server holding the derived roles of the three grants. -/
def threeRolesStore : model.Store :=
  { model.Store.empty with
    roles := fun id =>
      if id = "alice-r1-role" ∨ id = "alice-r2-role" ∨ id = "alice-r3-role" then
        some { ID := id, Name := id, Description := "", Privileges := [], Roles := [],
               Source := "default", ReadOnly := false }
      else none }

/-- The delete service for the three grants against a server that fails the request
number `k` of the run. -/
def flakyDelete (k : Nat) : service.DeleteService (Nat × model.Store) model.Payload :=
  { client := model.failingClient "http://nexus:8081" k
    config := { Users := [], Repositories := [], Privileges := [], Roles := [],
                UserRepositoryPermissions := threeGrants } }

end example_

namespace example_

/-- A role entry with the given identifier and nothing else. -/
def role (id : String) : config.Role :=
  { ID := id, Name := id, Description := "", Privileges := [], Roles := [] }

/-- A server holding the ordinary roles `readers`, `writers` and
`unassigned-readers`. -/
def rolesStore : model.Store :=
  { model.Store.empty with
    roles := fun id =>
      if id = "readers" ∨ id = "writers" ∨ id = "unassigned-readers" then
        some { ID := id, Name := id, Description := "", Privileges := [], Roles := [],
               Source := "default", ReadOnly := false }
      else none }

/-- The delete service for the roles `ids` and the privilege `p1` against a server
that fails the request number `k` of the run. -/
def flakyRoleDelete (ids : List String) (k : Nat) :
    service.DeleteService (Nat × model.Store) model.Payload :=
  { client := model.failingClient "http://nexus:8081" k
    config := { Users := [], Repositories := [], Privileges := [privilege "p1"],
                Roles := ids.map role, UserRepositoryPermissions := [] } }

end example_

namespace model

/-- The model server, except that it refuses every DELETE with status 400 and the
text `role is in use`. -/
def refusingDeletes (base : String) : HttpClient Store Payload := fun st req =>
  if req.method = "DELETE" then (.response 400 (.text "role is in use"), st)
  else server base st req

end model

namespace example_

/-- The delete service for the roles `readers` and `writers` against the server that
refuses deletes. -/
def busyDelete : service.DeleteService model.Store model.Payload :=
  { client := { baseURL := "http://nexus:8081", username := "admin", password := "admin123",
                httpClient := model.refusingDeletes "http://nexus:8081" }
    config := { Users := [], Repositories := [], Privileges := [],
                Roles := [role "readers", role "writers"], UserRepositoryPermissions := [] } }

end example_

namespace example_

/-- The delete service for `teamManifest` against the model server. -/
def teamDelete : service.DeleteService model.Store model.Payload :=
  { client := model.client "http://nexus:8081", config := teamManifest }

end example_

/-- Whatever the world, `x` returns a value satisfying `P`. -/
def Gw.ReturnsOnly {σ β α : Type} (P : α → Prop) (x : Gw σ β α) : Prop :=
  ∀ w, P (x.result w)

/-- The request is a POST. -/
def Request.isPost (r : Request) : Bool := r.method == "POST"

/-! ## Package config: loader.go -/

namespace config

/-- GetNexusCredentials, as a function of the environment: `getenv` is
`os.Getenv`, which yields the empty string for a variable that is not set. -/
def GetNexusCredentials (getenv : String → String) :
    (String × String × String) × Option String :=
  let url := getenv "NEXUS_URL"
  let username := getenv "NEXUS_USERNAME"
  let password := getenv "NEXUS_PASSWORD"
  if url = "" then (("", "", ""), some "NEXUS_URL environment variable is not set")
  else if username = "" then
    (("", "", ""), some "NEXUS_USERNAME environment variable is not set")
  else if password = "" then
    (("", "", ""), some "NEXUS_PASSWORD environment variable is not set")
  else ((url, username, password), none)

end config

/-! ## Package nexus: NewClient -/

/-- Go `strings.TrimRight s cutset`: `s` without its trailing characters that
occur in `cutset`. -/
def stringsTrimRight (s cutset : String) : String :=
  ⟨s.data.rdropWhile fun c => cutset.data.contains c⟩

/-- NewClient: the base URL is stored without trailing slashes.  The
`http.Client` it creates, with its 30 s timeout, is the world `httpClient`. -/
def nexus.NewClient {σ β : Type} (baseURL username password : String)
    (httpClient : nexus.HttpClient σ β) : nexus.Client σ β :=
  { baseURL := stringsTrimRight baseURL "/", username := username, password := password,
    httpClient := httpClient }

namespace example_

/-- An environment with the three variables of the tests, any of which may be left
out by passing the empty string. -/
def environment (url username password : String) : String → String := fun name =>
  if name = "NEXUS_URL" then url
  else if name = "NEXUS_USERNAME" then username
  else if name = "NEXUS_PASSWORD" then password
  else ""

end example_

namespace example_

/-- Two grants with different users and repositories whose derived role has the
same identifier. -/
def grantAB : config.UserRepositoryPermission :=
  { UserID := "a-b", Repository := "c", Privileges := ["READ"] }

def grantBC : config.UserRepositoryPermission :=
  { UserID := "a", Repository := "b-c", Privileges := ["WRITE"] }

/-- A server holding the users `a-b` and `a` and the repositories `c` (maven2) and
`b-c` (npm). -/
def collidingStore : model.Store :=
  { model.Store.empty with
    users := fun id =>
      if id = "a-b" ∨ id = "a" then
        some { user := { UserID := id, FirstName := "", LastName := "", EmailAddress := "",
                         Status := "active", Roles := [], Source := "default" },
               password := "" }
      else none
    repositories := fun name =>
      if name = "c" then some [("name", .str "c"), ("format", .str "maven2")]
      else if name = "b-c" then some [("name", .str "b-c"), ("format", .str "npm")]
      else none }

/-- The manifest of the two colliding grants. -/
def collidingManifest : config.Config :=
  { Users := [], Repositories := [], Privileges := [], Roles := [],
    UserRepositoryPermissions := [grantAB, grantBC] }

end example_

namespace example_

/-- A read-only role on the server that bears the derived name of the grant to
`alice` on `maven-releases`. -/
def lockedRole : RoleResponse :=
  { ID := "alice-maven-releases-role", Name := "locked", Description := "", Privileges := [],
    Roles := [], Source := "default", ReadOnly := true }

/-- A server holding `alice`, the repository `maven-releases` and `lockedRole`. -/
def lockedStore : model.Store :=
  { aliceStore with
    roles := fun id => if id = "alice-maven-releases-role" then some lockedRole else none }

/-- The delete service whose manifest is just the grant to `alice`. -/
def aliceDelete : service.DeleteService model.Store model.Payload :=
  { client := model.client "http://nexus:8081", config := aliceService.config }

end example_

/-- The iteration `x`, run in `w`, aborts with `err` on the remote call `req`: its
remote calls are `before` followed by `req`, and `req` is its last event. -/
def AbortsOnCall {σ β : Type} (x : Gw σ β Step) (w : σ) (before : List Request)
    (req : Request) (err : String) : Prop :=
  x.result w = .abort err ∧ x.calls w = before ++ [req] ∧
  ∃ reply, (x.events w).getLast? = some (.http req reply)

/-- The run `x` from `w` ends on the remote call `req` with the error `err`: it
returns `err`, its remote calls are `before` followed by `req`, and `req` is the
last event of the run, so that nothing, not even a log line, follows that call. -/
def EndsOnCall {σ β ρ : Type} (x : Gw σ β (ρ × Option String)) (w : σ)
    (before : List Request) (req : Request) (err : String) : Prop :=
  (x.result w).2 = some err ∧ x.calls w = before ++ [req] ∧
  ∃ reply, (x.events w).getLast? = some (.http req reply)

namespace example_

/-- A manifest of one role whose identifier contains a `#`. -/
def fragmentManifest : config.Config :=
  { Users := [], Repositories := [], Privileges := [], UserRepositoryPermissions := [],
    Roles := [role "dev#1"] }

end example_

/-! # Theorems -/

set_option maxRecDepth 100000

/-! ## Strings -/

/-- A string that is `pre ++ sub ++ post` contains `sub`. -/
theorem stringsContains_of_data (s sub : String) (pre post : List Char)
    (h : s.data = pre ++ sub.data ++ post) : stringsContains s sub = true := by
  simp only [stringsContains, decide_eq_true_eq]
  exact ⟨pre, post, h.symm⟩

theorem stringsContains_iff (s sub : String) :
    stringsContains s sub = true ↔ ∃ pre post : List Char, s.data = pre ++ sub.data ++ post := by
  simp only [stringsContains, decide_eq_true_eq]
  constructor
  · rintro ⟨pre, post, h⟩; exact ⟨pre, post, h.symm⟩
  · rintro ⟨pre, post, h⟩; exact ⟨pre, post, h.symm⟩

/-- The error text of a fetch answered with status 404 contains `404`. -/
theorem status_404_text_contains_404 (what body : String) :
    stringsContains (what ++ ("request failed with status " ++ toString (404 : Int) ++ ": " ++ body))
      "404" = true := by
  refine stringsContains_of_data _ _ (what.data ++ "request failed with status ".data)
    (": ".data ++ body.data) ?_
  have h404 : toString (404 : Int) = "404" := by decide
  simp [h404, String.data_append]

/-! ## Running computations -/

namespace Gw

variable {σ β α γ : Type}

theorem pure_apply (a : α) (s : σ) : (pure a : Gw σ β α) s = (a, s, []) := rfl

theorem bind_apply (x : Gw σ β α) (f : α → Gw σ β γ) (s : σ) :
    (x >>= f) s =
      (((f (x s).1) (x s).2.1).1, ((f (x s).1) (x s).2.1).2.1,
        (x s).2.2 ++ ((f (x s).1) (x s).2.1).2.2) := rfl

@[simp] theorem result_pure (a : α) (s : σ) : result (pure a : Gw σ β α) s = a := rfl

@[simp] theorem final_pure (a : α) (s : σ) : final (pure a : Gw σ β α) s = s := rfl

@[simp] theorem events_pure (a : α) (s : σ) : events (pure a : Gw σ β α) s = [] := rfl

@[simp] theorem calls_pure (a : α) (s : σ) : calls (pure a : Gw σ β α) s = [] := rfl

@[simp] theorem result_bind (x : Gw σ β α) (f : α → Gw σ β γ) (s : σ) :
    result (x >>= f) s = result (f (result x s)) (final x s) := rfl

@[simp] theorem final_bind (x : Gw σ β α) (f : α → Gw σ β γ) (s : σ) :
    final (x >>= f) s = final (f (result x s)) (final x s) := rfl

@[simp] theorem events_bind (x : Gw σ β α) (f : α → Gw σ β γ) (s : σ) :
    events (x >>= f) s = events x s ++ events (f (result x s)) (final x s) := rfl

@[simp] theorem calls_bind (x : Gw σ β α) (f : α → Gw σ β γ) (s : σ) :
    calls (x >>= f) s = calls x s ++ calls (f (result x s)) (final x s) := by
  simp [calls]

@[simp] theorem result_emit (e : Event β) (s : σ) : result (emit e : Gw σ β Unit) s = () := rfl

@[simp] theorem final_emit (e : Event β) (s : σ) : final (emit e : Gw σ β Unit) s = s := rfl

@[simp] theorem events_emit (e : Event β) (s : σ) : events (emit e : Gw σ β Unit) s = [e] := rfl

end Gw

namespace formatter

variable {σ β : Type}

@[simp] theorem final_Info (m : String) (s : σ) : (Info m : Gw σ β Unit).final s = s := rfl
@[simp] theorem final_Success (m : String) (s : σ) : (Success m : Gw σ β Unit).final s = s := rfl
@[simp] theorem final_Warning (m : String) (s : σ) : (Warning m : Gw σ β Unit).final s = s := rfl
@[simp] theorem events_Info (m : String) (s : σ) :
    (Info m : Gw σ β Unit).events s = [.info m] := rfl
@[simp] theorem events_Success (m : String) (s : σ) :
    (Success m : Gw σ β Unit).events s = [.success m] := rfl
@[simp] theorem events_Warning (m : String) (s : σ) :
    (Warning m : Gw σ β Unit).events s = [.warning m] := rfl
@[simp] theorem calls_Info (m : String) (s : σ) : (Info m : Gw σ β Unit).calls s = [] := rfl
@[simp] theorem calls_Success (m : String) (s : σ) : (Success m : Gw σ β Unit).calls s = [] := rfl
@[simp] theorem calls_Warning (m : String) (s : σ) : (Warning m : Gw σ β Unit).calls s = [] := rfl

end formatter

/-! ## Counting loops -/

section Loops

variable {σ β α : Type}

theorem forRange_nil (body : α → Gw σ β Step) (count : Nat) :
    forRange body [] count = pure (count, none) := rfl

theorem forRange_cons (body : α → Gw σ β Step) (x : α) (xs : List α) (count : Nat) :
    forRange body (x :: xs) count =
      (body x >>= fun st =>
        match st with
        | .abort err => pure (count, some err)
        | .next counted => forRange body xs (if counted then count + 1 else count)) := rfl

/-- An iteration that aborts ends the loop: its error is returned with the count
so far, and nothing more happens. -/
theorem forRange_cons_abort (body : α → Gw σ β Step) (x : α) (xs : List α) (count : Nat)
    (w : σ) (err : String) (h : (body x).result w = .abort err) :
    (forRange body (x :: xs) count).result w = (count, some err) ∧
    (forRange body (x :: xs) count).final w = (body x).final w ∧
    (forRange body (x :: xs) count).events w = (body x).events w := by
  simp [forRange_cons, h]

/-- An iteration that does not abort is followed by the loop over the remaining
entries, with the count incremented when the iteration counted. -/
theorem forRange_cons_next (body : α → Gw σ β Step) (x : α) (xs : List α) (count : Nat)
    (w : σ) (counted : Bool) (h : (body x).result w = .next counted) :
    (forRange body (x :: xs) count).result w =
      (forRange body xs (if counted then count + 1 else count)).result ((body x).final w) ∧
    (forRange body (x :: xs) count).final w =
      (forRange body xs (if counted then count + 1 else count)).final ((body x).final w) ∧
    (forRange body (x :: xs) count).events w =
      (body x).events w ++
        (forRange body xs (if counted then count + 1 else count)).events ((body x).final w) := by
  simp [forRange_cons, h]

/-- The events of a loop do not depend on the starting count, nor does the world
it leaves or the error it returns. -/
theorem forRange_count_irrelevant (body : α → Gw σ β Step) (xs : List α) :
    ∀ (c c2 : Nat) (w : σ),
      (forRange body xs c).events w = (forRange body xs c2).events w ∧
      (forRange body xs c).final w = (forRange body xs c2).final w ∧
      ((forRange body xs c).result w).2 = ((forRange body xs c2).result w).2 := by
  induction xs with
  | nil => intro c c2 w; exact ⟨rfl, rfl, rfl⟩
  | cons x xs ih =>
    intro c c2 w
    cases h : (body x).result w with
    | abort err =>
      have h1 := forRange_cons_abort body x xs c w err h
      have h2 := forRange_cons_abort body x xs c2 w err h
      simp [h1.1, h1.2.1, h1.2.2, h2.1, h2.2.1, h2.2.2]
    | next counted =>
      have h1 := forRange_cons_next body x xs c w counted h
      have h2 := forRange_cons_next body x xs c2 w counted h
      have := ih (if counted then c + 1 else c) (if counted then c2 + 1 else c2)
        ((body x).final w)
      simp [h1.1, h1.2.1, h1.2.2, h2.1, h2.2.1, h2.2.2, this.1, this.2.1, this.2.2]

/-- A loop that returns an error stopped at one entry: the entries before it were
processed without error, the body aborted on it, and the events of the loop are
those of the entries before it followed by those of the failing iteration. -/
theorem forRange_abort_split (body : α → Gw σ β Step) (xs : List α) :
    ∀ (c : Nat) (w : σ) (err : String), ((forRange body xs c).result w).2 = some err →
      ∃ pre x post, xs = pre ++ x :: post ∧
        ((forRange body pre c).result w).2 = none ∧
        (body x).result ((forRange body pre c).final w) = .abort err ∧
        (forRange body xs c).final w = (body x).final ((forRange body pre c).final w) ∧
        (forRange body xs c).events w =
          (forRange body pre c).events w ++ (body x).events ((forRange body pre c).final w) := by
  induction xs with
  | nil => intro c w err h; simp [forRange_nil] at h
  | cons x xs ih =>
    intro c w err h
    cases hx : (body x).result w with
    | abort e =>
      have h1 := forRange_cons_abort body x xs c w e hx
      rw [h1.1] at h
      simp only [Option.some.injEq] at h
      subst h
      exact ⟨[], x, xs, rfl, rfl, hx, h1.2.1, by simp [h1.2.2, forRange_nil]⟩
    | next counted =>
      have h1 := forRange_cons_next body x xs c w counted hx
      rw [h1.1] at h
      obtain ⟨pre, y, post, hxs, hpre, hy, hfin, hev⟩ := ih _ _ err h
      have h2 := forRange_cons_next body x pre c w counted hx
      refine ⟨x :: pre, y, post, by simp [hxs], ?_, ?_, ?_, ?_⟩
      · rw [h2.1]; exact hpre
      · rw [h2.2.1]; exact hy
      · rw [h1.2.1, h2.2.1]; exact hfin
      · rw [h1.2.2, h2.2.2, hev, List.append_assoc, h2.2.1]

/-- Every remote call of a loop is a call of one iteration, started in the world
left by the entries before it, which were processed without error. -/
theorem forRange_calls_at_iteration (body : α → Gw σ β Step) (xs : List α) :
    ∀ (c : Nat) (w : σ) (r : Request), r ∈ (forRange body xs c).calls w →
      ∃ pre x post, xs = pre ++ x :: post ∧
        ((forRange body pre c).result w).2 = none ∧
        r ∈ (body x).calls ((forRange body pre c).final w) := by
  induction xs with
  | nil => intro c w r h; simp [forRange_nil] at h
  | cons x xs ih =>
    intro c w r h
    rw [forRange_cons, Gw.calls_bind, List.mem_append] at h
    rcases h with h | h
    · exact ⟨[], x, xs, rfl, rfl, h⟩
    · cases hx : (body x).result w with
      | abort e => simp [hx] at h
      | next counted =>
        simp only [hx] at h
        obtain ⟨pre, y, post, hxs, hpre, hr⟩ := ih _ _ r h
        have h2 := forRange_cons_next body x pre c w counted hx
        refine ⟨x :: pre, y, post, by simp [hxs], ?_, ?_⟩
        · rw [h2.1]; exact hpre
        · rw [h2.2.1]; exact hr

end Loops

/-! ## What each client method does -/

namespace nexus.Client

variable {σ β : Type}

/-- The reply the world gives to a request in state `w`. -/
theorem doRequest_apply (L : Lib β) (c : Client σ β) (m p : String) (b : Body) (w : σ) :
    c.doRequest L m p b w =
      (readReply L (c.httpClient w (c.newRequest m p b)).1,
        (c.httpClient w (c.newRequest m p b)).2,
        [Event.http (c.newRequest m p b) (c.httpClient w (c.newRequest m p b)).1]) := rfl

@[simp] theorem result_doRequest (L : Lib β) (c : Client σ β) (m p : String) (b : Body) (w : σ) :
    (c.doRequest L m p b).result w = readReply L (c.httpClient w (c.newRequest m p b)).1 := rfl

@[simp] theorem final_doRequest (L : Lib β) (c : Client σ β) (m p : String) (b : Body) (w : σ) :
    (c.doRequest L m p b).final w = (c.httpClient w (c.newRequest m p b)).2 := rfl

@[simp] theorem events_doRequest (L : Lib β) (c : Client σ β) (m p : String) (b : Body) (w : σ) :
    (c.doRequest L m p b).events w =
      [Event.http (c.newRequest m p b) (c.httpClient w (c.newRequest m p b)).1] := rfl

@[simp] theorem calls_doRequest (L : Lib β) (c : Client σ β) (m p : String) (b : Body) (w : σ) :
    (c.doRequest L m p b).calls w = [c.newRequest m p b] := rfl

@[simp] theorem final_CreateUser (L : Lib β) (c : Client σ β) (req : UserRequest) (w : σ) :
    (c.CreateUser L req).final w = (c.httpClient w (c.newRequest "POST" "/service/rest/v1/security/users" (.user req))).2 := by
  unfold CreateUser
  simp only [get, post, put, delete, Gw.final_bind, final_doRequest, events_doRequest]
  repeat' split
  all_goals rfl

@[simp] theorem events_CreateUser (L : Lib β) (c : Client σ β) (req : UserRequest) (w : σ) :
    (c.CreateUser L req).events w =
      [Event.http (c.newRequest "POST" "/service/rest/v1/security/users" (.user req)) (c.httpClient w (c.newRequest "POST" "/service/rest/v1/security/users" (.user req))).1] := by
  unfold CreateUser
  simp only [get, post, put, delete, Gw.events_bind, final_doRequest, events_doRequest]
  repeat' split
  all_goals simp

@[simp] theorem calls_CreateUser (L : Lib β) (c : Client σ β) (req : UserRequest) (w : σ) :
    (c.CreateUser L req).calls w = [(c.newRequest "POST" "/service/rest/v1/security/users" (.user req))] := by
  simp [Gw.calls, Event.request?]

@[simp] theorem final_GetUser (L : Lib β) (c : Client σ β) (userID : String) (w : σ) :
    (c.GetUser L userID).final w = (c.httpClient w (c.newRequest "GET" ("/service/rest/v1/security/users?userId=" ++ userID) .none)).2 := by
  unfold GetUser
  simp only [get, post, put, delete, Gw.final_bind, final_doRequest, events_doRequest]
  repeat' split
  all_goals rfl

@[simp] theorem events_GetUser (L : Lib β) (c : Client σ β) (userID : String) (w : σ) :
    (c.GetUser L userID).events w =
      [Event.http (c.newRequest "GET" ("/service/rest/v1/security/users?userId=" ++ userID) .none) (c.httpClient w (c.newRequest "GET" ("/service/rest/v1/security/users?userId=" ++ userID) .none)).1] := by
  unfold GetUser
  simp only [get, post, put, delete, Gw.events_bind, final_doRequest, events_doRequest]
  repeat' split
  all_goals simp

@[simp] theorem calls_GetUser (L : Lib β) (c : Client σ β) (userID : String) (w : σ) :
    (c.GetUser L userID).calls w = [(c.newRequest "GET" ("/service/rest/v1/security/users?userId=" ++ userID) .none)] := by
  simp [Gw.calls, Event.request?]

@[simp] theorem final_UpdateUser (L : Lib β) (c : Client σ β) (userID : String) (req : UserRequest) (w : σ) :
    (c.UpdateUser L userID req).final w = (c.httpClient w (c.newRequest "PUT" ("/service/rest/v1/security/users/" ++ userID) (.user req))).2 := by
  unfold UpdateUser
  simp only [get, post, put, delete, Gw.final_bind, final_doRequest, events_doRequest]
  repeat' split
  all_goals rfl

@[simp] theorem events_UpdateUser (L : Lib β) (c : Client σ β) (userID : String) (req : UserRequest) (w : σ) :
    (c.UpdateUser L userID req).events w =
      [Event.http (c.newRequest "PUT" ("/service/rest/v1/security/users/" ++ userID) (.user req)) (c.httpClient w (c.newRequest "PUT" ("/service/rest/v1/security/users/" ++ userID) (.user req))).1] := by
  unfold UpdateUser
  simp only [get, post, put, delete, Gw.events_bind, final_doRequest, events_doRequest]
  repeat' split
  all_goals simp

@[simp] theorem calls_UpdateUser (L : Lib β) (c : Client σ β) (userID : String) (req : UserRequest) (w : σ) :
    (c.UpdateUser L userID req).calls w = [(c.newRequest "PUT" ("/service/rest/v1/security/users/" ++ userID) (.user req))] := by
  simp [Gw.calls, Event.request?]

@[simp] theorem final_DeleteUser (L : Lib β) (c : Client σ β) (userID : String) (w : σ) :
    (c.DeleteUser L userID).final w = (c.httpClient w (c.newRequest "DELETE" ("/service/rest/v1/security/users/" ++ userID) .none)).2 := by
  unfold DeleteUser
  simp only [get, post, put, delete, Gw.final_bind, final_doRequest, events_doRequest]
  repeat' split
  all_goals rfl

@[simp] theorem events_DeleteUser (L : Lib β) (c : Client σ β) (userID : String) (w : σ) :
    (c.DeleteUser L userID).events w =
      [Event.http (c.newRequest "DELETE" ("/service/rest/v1/security/users/" ++ userID) .none) (c.httpClient w (c.newRequest "DELETE" ("/service/rest/v1/security/users/" ++ userID) .none)).1] := by
  unfold DeleteUser
  simp only [get, post, put, delete, Gw.events_bind, final_doRequest, events_doRequest]
  repeat' split
  all_goals simp

@[simp] theorem calls_DeleteUser (L : Lib β) (c : Client σ β) (userID : String) (w : σ) :
    (c.DeleteUser L userID).calls w = [(c.newRequest "DELETE" ("/service/rest/v1/security/users/" ++ userID) .none)] := by
  simp [Gw.calls, Event.request?]

@[simp] theorem final_UserExists (L : Lib β) (c : Client σ β) (userID : String) (w : σ) :
    (c.UserExists L userID).final w = (c.httpClient w (c.newRequest "GET" ("/service/rest/v1/security/users?userId=" ++ userID) .none)).2 := by
  unfold UserExists
  simp only [get, post, put, delete, Gw.final_bind, final_GetUser, events_GetUser]
  repeat' split
  all_goals rfl

@[simp] theorem events_UserExists (L : Lib β) (c : Client σ β) (userID : String) (w : σ) :
    (c.UserExists L userID).events w =
      [Event.http (c.newRequest "GET" ("/service/rest/v1/security/users?userId=" ++ userID) .none) (c.httpClient w (c.newRequest "GET" ("/service/rest/v1/security/users?userId=" ++ userID) .none)).1] := by
  unfold UserExists
  simp only [get, post, put, delete, Gw.events_bind, final_GetUser, events_GetUser]
  repeat' split
  all_goals simp

@[simp] theorem calls_UserExists (L : Lib β) (c : Client σ β) (userID : String) (w : σ) :
    (c.UserExists L userID).calls w = [(c.newRequest "GET" ("/service/rest/v1/security/users?userId=" ++ userID) .none)] := by
  simp [Gw.calls, Event.request?]

@[simp] theorem final_ChangePassword (L : Lib β) (c : Client σ β) (userID newPassword : String) (w : σ) :
    (c.ChangePassword L userID newPassword).final w = (c.httpClient w (c.newRequest "PUT" ("/service/rest/v1/security/users/" ++ userID ++ "/change-password") (.password newPassword))).2 := by
  unfold ChangePassword
  simp only [get, post, put, delete, Gw.final_bind, final_doRequest, events_doRequest]
  repeat' split
  all_goals rfl

@[simp] theorem events_ChangePassword (L : Lib β) (c : Client σ β) (userID newPassword : String) (w : σ) :
    (c.ChangePassword L userID newPassword).events w =
      [Event.http (c.newRequest "PUT" ("/service/rest/v1/security/users/" ++ userID ++ "/change-password") (.password newPassword)) (c.httpClient w (c.newRequest "PUT" ("/service/rest/v1/security/users/" ++ userID ++ "/change-password") (.password newPassword))).1] := by
  unfold ChangePassword
  simp only [get, post, put, delete, Gw.events_bind, final_doRequest, events_doRequest]
  repeat' split
  all_goals simp

@[simp] theorem calls_ChangePassword (L : Lib β) (c : Client σ β) (userID newPassword : String) (w : σ) :
    (c.ChangePassword L userID newPassword).calls w = [(c.newRequest "PUT" ("/service/rest/v1/security/users/" ++ userID ++ "/change-password") (.password newPassword))] := by
  simp [Gw.calls, Event.request?]

@[simp] theorem final_CreateRole (L : Lib β) (c : Client σ β) (req : RoleRequest) (w : σ) :
    (c.CreateRole L req).final w = (c.httpClient w (c.newRequest "POST" "/service/rest/v1/security/roles" (.role req))).2 := by
  unfold CreateRole
  simp only [get, post, put, delete, Gw.final_bind, final_doRequest, events_doRequest]
  repeat' split
  all_goals rfl

@[simp] theorem events_CreateRole (L : Lib β) (c : Client σ β) (req : RoleRequest) (w : σ) :
    (c.CreateRole L req).events w =
      [Event.http (c.newRequest "POST" "/service/rest/v1/security/roles" (.role req)) (c.httpClient w (c.newRequest "POST" "/service/rest/v1/security/roles" (.role req))).1] := by
  unfold CreateRole
  simp only [get, post, put, delete, Gw.events_bind, final_doRequest, events_doRequest]
  repeat' split
  all_goals simp

@[simp] theorem calls_CreateRole (L : Lib β) (c : Client σ β) (req : RoleRequest) (w : σ) :
    (c.CreateRole L req).calls w = [(c.newRequest "POST" "/service/rest/v1/security/roles" (.role req))] := by
  simp [Gw.calls, Event.request?]

@[simp] theorem final_GetRole (L : Lib β) (c : Client σ β) (roleID : String) (w : σ) :
    (c.GetRole L roleID).final w = (c.httpClient w (c.newRequest "GET" ("/service/rest/v1/security/roles/" ++ roleID) .none)).2 := by
  unfold GetRole
  simp only [get, post, put, delete, Gw.final_bind, final_doRequest, events_doRequest]
  repeat' split
  all_goals rfl

@[simp] theorem events_GetRole (L : Lib β) (c : Client σ β) (roleID : String) (w : σ) :
    (c.GetRole L roleID).events w =
      [Event.http (c.newRequest "GET" ("/service/rest/v1/security/roles/" ++ roleID) .none) (c.httpClient w (c.newRequest "GET" ("/service/rest/v1/security/roles/" ++ roleID) .none)).1] := by
  unfold GetRole
  simp only [get, post, put, delete, Gw.events_bind, final_doRequest, events_doRequest]
  repeat' split
  all_goals simp

@[simp] theorem calls_GetRole (L : Lib β) (c : Client σ β) (roleID : String) (w : σ) :
    (c.GetRole L roleID).calls w = [(c.newRequest "GET" ("/service/rest/v1/security/roles/" ++ roleID) .none)] := by
  simp [Gw.calls, Event.request?]

@[simp] theorem final_UpdateRole (L : Lib β) (c : Client σ β) (roleID : String) (req : RoleRequest) (w : σ) :
    (c.UpdateRole L roleID req).final w = (c.httpClient w (c.newRequest "PUT" ("/service/rest/v1/security/roles/" ++ roleID) (.role req))).2 := by
  unfold UpdateRole
  simp only [get, post, put, delete, Gw.final_bind, final_doRequest, events_doRequest]
  repeat' split
  all_goals rfl

@[simp] theorem events_UpdateRole (L : Lib β) (c : Client σ β) (roleID : String) (req : RoleRequest) (w : σ) :
    (c.UpdateRole L roleID req).events w =
      [Event.http (c.newRequest "PUT" ("/service/rest/v1/security/roles/" ++ roleID) (.role req)) (c.httpClient w (c.newRequest "PUT" ("/service/rest/v1/security/roles/" ++ roleID) (.role req))).1] := by
  unfold UpdateRole
  simp only [get, post, put, delete, Gw.events_bind, final_doRequest, events_doRequest]
  repeat' split
  all_goals simp

@[simp] theorem calls_UpdateRole (L : Lib β) (c : Client σ β) (roleID : String) (req : RoleRequest) (w : σ) :
    (c.UpdateRole L roleID req).calls w = [(c.newRequest "PUT" ("/service/rest/v1/security/roles/" ++ roleID) (.role req))] := by
  simp [Gw.calls, Event.request?]

@[simp] theorem final_DeleteRole (L : Lib β) (c : Client σ β) (roleID : String) (w : σ) :
    (c.DeleteRole L roleID).final w = (c.httpClient w (c.newRequest "DELETE" ("/service/rest/v1/security/roles/" ++ roleID) .none)).2 := by
  unfold DeleteRole
  simp only [get, post, put, delete, Gw.final_bind, final_doRequest, events_doRequest]
  repeat' split
  all_goals rfl

@[simp] theorem events_DeleteRole (L : Lib β) (c : Client σ β) (roleID : String) (w : σ) :
    (c.DeleteRole L roleID).events w =
      [Event.http (c.newRequest "DELETE" ("/service/rest/v1/security/roles/" ++ roleID) .none) (c.httpClient w (c.newRequest "DELETE" ("/service/rest/v1/security/roles/" ++ roleID) .none)).1] := by
  unfold DeleteRole
  simp only [get, post, put, delete, Gw.events_bind, final_doRequest, events_doRequest]
  repeat' split
  all_goals simp

@[simp] theorem calls_DeleteRole (L : Lib β) (c : Client σ β) (roleID : String) (w : σ) :
    (c.DeleteRole L roleID).calls w = [(c.newRequest "DELETE" ("/service/rest/v1/security/roles/" ++ roleID) .none)] := by
  simp [Gw.calls, Event.request?]

@[simp] theorem final_RoleExists (L : Lib β) (c : Client σ β) (roleID : String) (w : σ) :
    (c.RoleExists L roleID).final w = (c.httpClient w (c.newRequest "GET" ("/service/rest/v1/security/roles/" ++ roleID) .none)).2 := by
  unfold RoleExists
  simp only [get, post, put, delete, Gw.final_bind, final_GetRole, events_GetRole]
  repeat' split
  all_goals rfl

@[simp] theorem events_RoleExists (L : Lib β) (c : Client σ β) (roleID : String) (w : σ) :
    (c.RoleExists L roleID).events w =
      [Event.http (c.newRequest "GET" ("/service/rest/v1/security/roles/" ++ roleID) .none) (c.httpClient w (c.newRequest "GET" ("/service/rest/v1/security/roles/" ++ roleID) .none)).1] := by
  unfold RoleExists
  simp only [get, post, put, delete, Gw.events_bind, final_GetRole, events_GetRole]
  repeat' split
  all_goals simp

@[simp] theorem calls_RoleExists (L : Lib β) (c : Client σ β) (roleID : String) (w : σ) :
    (c.RoleExists L roleID).calls w = [(c.newRequest "GET" ("/service/rest/v1/security/roles/" ++ roleID) .none)] := by
  simp [Gw.calls, Event.request?]

@[simp] theorem final_GetPrivilege (L : Lib β) (c : Client σ β) (name : String) (w : σ) :
    (c.GetPrivilege L name).final w = (c.httpClient w (c.newRequest "GET" ("/service/rest/v1/security/privileges/" ++ name) .none)).2 := by
  unfold GetPrivilege
  simp only [get, post, put, delete, Gw.final_bind, final_doRequest, events_doRequest]
  repeat' split
  all_goals rfl

@[simp] theorem events_GetPrivilege (L : Lib β) (c : Client σ β) (name : String) (w : σ) :
    (c.GetPrivilege L name).events w =
      [Event.http (c.newRequest "GET" ("/service/rest/v1/security/privileges/" ++ name) .none) (c.httpClient w (c.newRequest "GET" ("/service/rest/v1/security/privileges/" ++ name) .none)).1] := by
  unfold GetPrivilege
  simp only [get, post, put, delete, Gw.events_bind, final_doRequest, events_doRequest]
  repeat' split
  all_goals simp

@[simp] theorem calls_GetPrivilege (L : Lib β) (c : Client σ β) (name : String) (w : σ) :
    (c.GetPrivilege L name).calls w = [(c.newRequest "GET" ("/service/rest/v1/security/privileges/" ++ name) .none)] := by
  simp [Gw.calls, Event.request?]

@[simp] theorem final_DeletePrivilege (L : Lib β) (c : Client σ β) (name : String) (w : σ) :
    (c.DeletePrivilege L name).final w = (c.httpClient w (c.newRequest "DELETE" ("/service/rest/v1/security/privileges/" ++ name) .none)).2 := by
  unfold DeletePrivilege
  simp only [get, post, put, delete, Gw.final_bind, final_doRequest, events_doRequest]
  repeat' split
  all_goals rfl

@[simp] theorem events_DeletePrivilege (L : Lib β) (c : Client σ β) (name : String) (w : σ) :
    (c.DeletePrivilege L name).events w =
      [Event.http (c.newRequest "DELETE" ("/service/rest/v1/security/privileges/" ++ name) .none) (c.httpClient w (c.newRequest "DELETE" ("/service/rest/v1/security/privileges/" ++ name) .none)).1] := by
  unfold DeletePrivilege
  simp only [get, post, put, delete, Gw.events_bind, final_doRequest, events_doRequest]
  repeat' split
  all_goals simp

@[simp] theorem calls_DeletePrivilege (L : Lib β) (c : Client σ β) (name : String) (w : σ) :
    (c.DeletePrivilege L name).calls w = [(c.newRequest "DELETE" ("/service/rest/v1/security/privileges/" ++ name) .none)] := by
  simp [Gw.calls, Event.request?]

@[simp] theorem final_PrivilegeExists (L : Lib β) (c : Client σ β) (name : String) (w : σ) :
    (c.PrivilegeExists L name).final w = (c.httpClient w (c.newRequest "GET" ("/service/rest/v1/security/privileges/" ++ name) .none)).2 := by
  unfold PrivilegeExists
  simp only [get, post, put, delete, Gw.final_bind, final_GetPrivilege, events_GetPrivilege]
  repeat' split
  all_goals rfl

@[simp] theorem events_PrivilegeExists (L : Lib β) (c : Client σ β) (name : String) (w : σ) :
    (c.PrivilegeExists L name).events w =
      [Event.http (c.newRequest "GET" ("/service/rest/v1/security/privileges/" ++ name) .none) (c.httpClient w (c.newRequest "GET" ("/service/rest/v1/security/privileges/" ++ name) .none)).1] := by
  unfold PrivilegeExists
  simp only [get, post, put, delete, Gw.events_bind, final_GetPrivilege, events_GetPrivilege]
  repeat' split
  all_goals simp

@[simp] theorem calls_PrivilegeExists (L : Lib β) (c : Client σ β) (name : String) (w : σ) :
    (c.PrivilegeExists L name).calls w = [(c.newRequest "GET" ("/service/rest/v1/security/privileges/" ++ name) .none)] := by
  simp [Gw.calls, Event.request?]

@[simp] theorem final_createRepositoryAt (L : Lib β) (c : Client σ β) (path label : String) (req : RepositoryRequest) (w : σ) :
    (c.createRepositoryAt L path label req).final w = (c.httpClient w (c.newRequest "POST" path (.repository req))).2 := by
  unfold createRepositoryAt
  simp only [get, post, put, delete, Gw.final_bind, final_doRequest, events_doRequest]
  repeat' split
  all_goals rfl

@[simp] theorem events_createRepositoryAt (L : Lib β) (c : Client σ β) (path label : String) (req : RepositoryRequest) (w : σ) :
    (c.createRepositoryAt L path label req).events w =
      [Event.http (c.newRequest "POST" path (.repository req)) (c.httpClient w (c.newRequest "POST" path (.repository req))).1] := by
  unfold createRepositoryAt
  simp only [get, post, put, delete, Gw.events_bind, final_doRequest, events_doRequest]
  repeat' split
  all_goals simp

@[simp] theorem calls_createRepositoryAt (L : Lib β) (c : Client σ β) (path label : String) (req : RepositoryRequest) (w : σ) :
    (c.createRepositoryAt L path label req).calls w = [(c.newRequest "POST" path (.repository req))] := by
  simp [Gw.calls, Event.request?]

@[simp] theorem final_GetRepository (L : Lib β) (c : Client σ β) (name : String) (w : σ) :
    (c.GetRepository L name).final w = (c.httpClient w (c.newRequest "GET" ("/service/rest/v1/repositories/" ++ name) .none)).2 := by
  unfold GetRepository
  simp only [get, post, put, delete, Gw.final_bind, final_doRequest, events_doRequest]
  repeat' split
  all_goals rfl

@[simp] theorem events_GetRepository (L : Lib β) (c : Client σ β) (name : String) (w : σ) :
    (c.GetRepository L name).events w =
      [Event.http (c.newRequest "GET" ("/service/rest/v1/repositories/" ++ name) .none) (c.httpClient w (c.newRequest "GET" ("/service/rest/v1/repositories/" ++ name) .none)).1] := by
  unfold GetRepository
  simp only [get, post, put, delete, Gw.events_bind, final_doRequest, events_doRequest]
  repeat' split
  all_goals simp

@[simp] theorem calls_GetRepository (L : Lib β) (c : Client σ β) (name : String) (w : σ) :
    (c.GetRepository L name).calls w = [(c.newRequest "GET" ("/service/rest/v1/repositories/" ++ name) .none)] := by
  simp [Gw.calls, Event.request?]

@[simp] theorem final_DeleteRepository (L : Lib β) (c : Client σ β) (name : String) (w : σ) :
    (c.DeleteRepository L name).final w = (c.httpClient w (c.newRequest "DELETE" ("/service/rest/v1/repositories/" ++ name) .none)).2 := by
  unfold DeleteRepository
  simp only [get, post, put, delete, Gw.final_bind, final_doRequest, events_doRequest]
  repeat' split
  all_goals rfl

@[simp] theorem events_DeleteRepository (L : Lib β) (c : Client σ β) (name : String) (w : σ) :
    (c.DeleteRepository L name).events w =
      [Event.http (c.newRequest "DELETE" ("/service/rest/v1/repositories/" ++ name) .none) (c.httpClient w (c.newRequest "DELETE" ("/service/rest/v1/repositories/" ++ name) .none)).1] := by
  unfold DeleteRepository
  simp only [get, post, put, delete, Gw.events_bind, final_doRequest, events_doRequest]
  repeat' split
  all_goals simp

@[simp] theorem calls_DeleteRepository (L : Lib β) (c : Client σ β) (name : String) (w : σ) :
    (c.DeleteRepository L name).calls w = [(c.newRequest "DELETE" ("/service/rest/v1/repositories/" ++ name) .none)] := by
  simp [Gw.calls, Event.request?]

@[simp] theorem final_RepositoryExists (L : Lib β) (c : Client σ β) (name : String) (w : σ) :
    (c.RepositoryExists L name).final w = (c.httpClient w (c.newRequest "GET" ("/service/rest/v1/repositories/" ++ name) .none)).2 := by
  unfold RepositoryExists
  simp only [get, post, put, delete, Gw.final_bind, final_GetRepository, events_GetRepository]
  repeat' split
  all_goals rfl

@[simp] theorem events_RepositoryExists (L : Lib β) (c : Client σ β) (name : String) (w : σ) :
    (c.RepositoryExists L name).events w =
      [Event.http (c.newRequest "GET" ("/service/rest/v1/repositories/" ++ name) .none) (c.httpClient w (c.newRequest "GET" ("/service/rest/v1/repositories/" ++ name) .none)).1] := by
  unfold RepositoryExists
  simp only [get, post, put, delete, Gw.events_bind, final_GetRepository, events_GetRepository]
  repeat' split
  all_goals simp

@[simp] theorem calls_RepositoryExists (L : Lib β) (c : Client σ β) (name : String) (w : σ) :
    (c.RepositoryExists L name).calls w = [(c.newRequest "GET" ("/service/rest/v1/repositories/" ++ name) .none)] := by
  simp [Gw.calls, Event.request?]

end nexus.Client

/-! ## Predicates on the calls of a computation -/

namespace Gw

variable {σ β α γ : Type}

theorem CallsSatisfy.of_pure (P : Request → Prop) (a : α) :
    CallsSatisfy P (pure a : Gw σ β α) := by
  intro w r h; simp at h

theorem CallsSatisfy.of_bind {P : Request → Prop} {x : Gw σ β α} {f : α → Gw σ β γ}
    (hx : CallsSatisfy P x) (hf : ∀ a, CallsSatisfy P (f a)) : CallsSatisfy P (x >>= f) := by
  intro w r h
  simp only [calls_bind, List.mem_append] at h
  rcases h with h | h
  · exact hx w r h
  · exact hf _ _ r h

theorem CallsSatisfy.of_emit (P : Request → Prop) (e : Event β) (he : e.request? = none) :
    CallsSatisfy P (emit e : Gw σ β Unit) := by
  intro w r h
  simp [calls, he] at h

end Gw

theorem formatter.callsSatisfy_Info {σ β : Type} (P : Request → Prop) (m : String) :
    Gw.CallsSatisfy P (formatter.Info m : Gw σ β Unit) :=
  Gw.CallsSatisfy.of_emit _ _ rfl

theorem formatter.callsSatisfy_Success {σ β : Type} (P : Request → Prop) (m : String) :
    Gw.CallsSatisfy P (formatter.Success m : Gw σ β Unit) :=
  Gw.CallsSatisfy.of_emit _ _ rfl

theorem formatter.callsSatisfy_Warning {σ β : Type} (P : Request → Prop) (m : String) :
    Gw.CallsSatisfy P (formatter.Warning m : Gw σ β Unit) :=
  Gw.CallsSatisfy.of_emit _ _ rfl

theorem forRange_callsSatisfy {σ β α : Type} {P : Request → Prop} {body : α → Gw σ β Step}
    (hb : ∀ x, Gw.CallsSatisfy P (body x)) (xs : List α) :
    ∀ c, Gw.CallsSatisfy P (forRange body xs c) := by
  induction xs with
  | nil => intro c; exact Gw.CallsSatisfy.of_pure P _
  | cons x xs ih =>
    intro c
    rw [forRange_cons]
    refine Gw.CallsSatisfy.of_bind (hb x) ?_
    intro st
    cases st with
    | abort e => exact Gw.CallsSatisfy.of_pure P _
    | next b => exact ih _

theorem nexus.Client.doRequest_callsSatisfy {σ β : Type} {P : Request → Prop} (L : Lib β)
    (c : Client σ β) (m p : String) (b : Body) (h : P (c.newRequest m p b)) :
    Gw.CallsSatisfy P (c.doRequest L m p b) := by
  intro w r hr
  simp at hr
  exact hr ▸ h

/-! ## Which calls a method can issue -/

namespace nexus.Client

variable {σ β : Type}

theorem callsSatisfy_CreateUser {P : Request → Prop} (L : Lib β) (c : Client σ β) (req : UserRequest)
    (h : P (c.newRequest "POST" "/service/rest/v1/security/users" (.user req))) :
    Gw.CallsSatisfy P (c.CreateUser L req) := by
  intro w r hr
  simp only [calls_CreateUser, List.mem_singleton] at hr
  exact hr ▸ h

theorem callsSatisfy_GetUser {P : Request → Prop} (L : Lib β) (c : Client σ β) (userID : String)
    (h : P (c.newRequest "GET" ("/service/rest/v1/security/users?userId=" ++ userID) .none)) :
    Gw.CallsSatisfy P (c.GetUser L userID) := by
  intro w r hr
  simp only [calls_GetUser, List.mem_singleton] at hr
  exact hr ▸ h

theorem callsSatisfy_UpdateUser {P : Request → Prop} (L : Lib β) (c : Client σ β) (userID : String) (req : UserRequest)
    (h : P (c.newRequest "PUT" ("/service/rest/v1/security/users/" ++ userID) (.user req))) :
    Gw.CallsSatisfy P (c.UpdateUser L userID req) := by
  intro w r hr
  simp only [calls_UpdateUser, List.mem_singleton] at hr
  exact hr ▸ h

theorem callsSatisfy_DeleteUser {P : Request → Prop} (L : Lib β) (c : Client σ β) (userID : String)
    (h : P (c.newRequest "DELETE" ("/service/rest/v1/security/users/" ++ userID) .none)) :
    Gw.CallsSatisfy P (c.DeleteUser L userID) := by
  intro w r hr
  simp only [calls_DeleteUser, List.mem_singleton] at hr
  exact hr ▸ h

theorem callsSatisfy_UserExists {P : Request → Prop} (L : Lib β) (c : Client σ β) (userID : String)
    (h : P (c.newRequest "GET" ("/service/rest/v1/security/users?userId=" ++ userID) .none)) :
    Gw.CallsSatisfy P (c.UserExists L userID) := by
  intro w r hr
  simp only [calls_UserExists, List.mem_singleton] at hr
  exact hr ▸ h

theorem callsSatisfy_ChangePassword {P : Request → Prop} (L : Lib β) (c : Client σ β) (userID newPassword : String)
    (h : P (c.newRequest "PUT" ("/service/rest/v1/security/users/" ++ userID ++ "/change-password") (.password newPassword))) :
    Gw.CallsSatisfy P (c.ChangePassword L userID newPassword) := by
  intro w r hr
  simp only [calls_ChangePassword, List.mem_singleton] at hr
  exact hr ▸ h

theorem callsSatisfy_CreateRole {P : Request → Prop} (L : Lib β) (c : Client σ β) (req : RoleRequest)
    (h : P (c.newRequest "POST" "/service/rest/v1/security/roles" (.role req))) :
    Gw.CallsSatisfy P (c.CreateRole L req) := by
  intro w r hr
  simp only [calls_CreateRole, List.mem_singleton] at hr
  exact hr ▸ h

theorem callsSatisfy_GetRole {P : Request → Prop} (L : Lib β) (c : Client σ β) (roleID : String)
    (h : P (c.newRequest "GET" ("/service/rest/v1/security/roles/" ++ roleID) .none)) :
    Gw.CallsSatisfy P (c.GetRole L roleID) := by
  intro w r hr
  simp only [calls_GetRole, List.mem_singleton] at hr
  exact hr ▸ h

theorem callsSatisfy_UpdateRole {P : Request → Prop} (L : Lib β) (c : Client σ β) (roleID : String) (req : RoleRequest)
    (h : P (c.newRequest "PUT" ("/service/rest/v1/security/roles/" ++ roleID) (.role req))) :
    Gw.CallsSatisfy P (c.UpdateRole L roleID req) := by
  intro w r hr
  simp only [calls_UpdateRole, List.mem_singleton] at hr
  exact hr ▸ h

theorem callsSatisfy_DeleteRole {P : Request → Prop} (L : Lib β) (c : Client σ β) (roleID : String)
    (h : P (c.newRequest "DELETE" ("/service/rest/v1/security/roles/" ++ roleID) .none)) :
    Gw.CallsSatisfy P (c.DeleteRole L roleID) := by
  intro w r hr
  simp only [calls_DeleteRole, List.mem_singleton] at hr
  exact hr ▸ h

theorem callsSatisfy_RoleExists {P : Request → Prop} (L : Lib β) (c : Client σ β) (roleID : String)
    (h : P (c.newRequest "GET" ("/service/rest/v1/security/roles/" ++ roleID) .none)) :
    Gw.CallsSatisfy P (c.RoleExists L roleID) := by
  intro w r hr
  simp only [calls_RoleExists, List.mem_singleton] at hr
  exact hr ▸ h

theorem callsSatisfy_GetPrivilege {P : Request → Prop} (L : Lib β) (c : Client σ β) (name : String)
    (h : P (c.newRequest "GET" ("/service/rest/v1/security/privileges/" ++ name) .none)) :
    Gw.CallsSatisfy P (c.GetPrivilege L name) := by
  intro w r hr
  simp only [calls_GetPrivilege, List.mem_singleton] at hr
  exact hr ▸ h

theorem callsSatisfy_DeletePrivilege {P : Request → Prop} (L : Lib β) (c : Client σ β) (name : String)
    (h : P (c.newRequest "DELETE" ("/service/rest/v1/security/privileges/" ++ name) .none)) :
    Gw.CallsSatisfy P (c.DeletePrivilege L name) := by
  intro w r hr
  simp only [calls_DeletePrivilege, List.mem_singleton] at hr
  exact hr ▸ h

theorem callsSatisfy_PrivilegeExists {P : Request → Prop} (L : Lib β) (c : Client σ β) (name : String)
    (h : P (c.newRequest "GET" ("/service/rest/v1/security/privileges/" ++ name) .none)) :
    Gw.CallsSatisfy P (c.PrivilegeExists L name) := by
  intro w r hr
  simp only [calls_PrivilegeExists, List.mem_singleton] at hr
  exact hr ▸ h

theorem callsSatisfy_GetRepository {P : Request → Prop} (L : Lib β) (c : Client σ β) (name : String)
    (h : P (c.newRequest "GET" ("/service/rest/v1/repositories/" ++ name) .none)) :
    Gw.CallsSatisfy P (c.GetRepository L name) := by
  intro w r hr
  simp only [calls_GetRepository, List.mem_singleton] at hr
  exact hr ▸ h

theorem callsSatisfy_DeleteRepository {P : Request → Prop} (L : Lib β) (c : Client σ β) (name : String)
    (h : P (c.newRequest "DELETE" ("/service/rest/v1/repositories/" ++ name) .none)) :
    Gw.CallsSatisfy P (c.DeleteRepository L name) := by
  intro w r hr
  simp only [calls_DeleteRepository, List.mem_singleton] at hr
  exact hr ▸ h

theorem callsSatisfy_RepositoryExists {P : Request → Prop} (L : Lib β) (c : Client σ β) (name : String)
    (h : P (c.newRequest "GET" ("/service/rest/v1/repositories/" ++ name) .none)) :
    Gw.CallsSatisfy P (c.RepositoryExists L name) := by
  intro w r hr
  simp only [calls_RepositoryExists, List.mem_singleton] at hr
  exact hr ▸ h

theorem callsSatisfy_CreatePrivilege {P : Request → Prop} (L : Lib β) (c : Client σ β)
    (req : PrivilegeRequest) (h : ∀ path, P (c.newRequest "POST" path (.privilege req))) :
    Gw.CallsSatisfy P (c.CreatePrivilege L req) := by
  unfold CreatePrivilege post
  split
  · exact Gw.CallsSatisfy.of_pure _ _
  · refine Gw.CallsSatisfy.of_bind (doRequest_callsSatisfy _ _ _ _ _ (h _)) (fun _ => ?_)
    split <;> exact Gw.CallsSatisfy.of_pure _ _

theorem callsSatisfy_createRepositoryAt {P : Request → Prop} (L : Lib β) (c : Client σ β)
    (path label : String) (req : RepositoryRequest)
    (h : P (c.newRequest "POST" path (.repository req))) :
    Gw.CallsSatisfy P (c.createRepositoryAt L path label req) := by
  intro w r hr
  simp only [calls_createRepositoryAt, List.mem_singleton] at hr
  exact hr ▸ h

end nexus.Client

namespace service

open nexus

variable {σ β : Type}

theorem ApplyService.callsSatisfy_createRepository {P : Request → Prop} (L : Lib β)
    (s : ApplyService σ β) (repo : config.Repository)
    (h : ∀ path, P (s.client.newRequest "POST" path (.repository (repositoryRequest repo)))) :
    Gw.CallsSatisfy P (s.createRepository L repo) := by
  unfold ApplyService.createRepository
  simp only [Client.CreateMavenHostedRepository, Client.CreateMavenProxyRepository,
    Client.CreateMavenGroupRepository, Client.CreateDockerHostedRepository,
    Client.CreateDockerProxyRepository, Client.CreateDockerGroupRepository,
    Client.CreateNpmHostedRepository, Client.CreateNpmProxyRepository,
    Client.CreateNpmGroupRepository, Client.CreatePypiHostedRepository,
    Client.CreatePypiProxyRepository, Client.CreatePypiGroupRepository,
    Client.CreateGoProxyRepository, Client.CreateGoGroupRepository]
  split_ifs <;>
    first
      | exact Gw.CallsSatisfy.of_pure _ _
      | exact Client.callsSatisfy_createRepositoryAt _ _ _ _ _ (h _)

end service

/-! ## Apply never deletes -/

namespace service

open nexus

variable {σ β : Type}

theorem ApplyService.applyPrivilege_never_deletes (L : Lib β) (s : ApplyService σ β)
    (p : config.Privilege) :
    Gw.CallsSatisfy (fun r => r.method ≠ "DELETE") (s.applyPrivilege L p) := by
  unfold ApplyService.applyPrivilege
  repeat' first
    | with_reducible exact Gw.CallsSatisfy.of_pure _ _
    | with_reducible exact formatter.callsSatisfy_Info _ _
    | with_reducible exact formatter.callsSatisfy_Success _ _
    | with_reducible exact formatter.callsSatisfy_Warning _ _
    | with_reducible exact Client.callsSatisfy_CreateUser _ _ _ (by simp [Client.newRequest])
    | with_reducible exact Client.callsSatisfy_GetUser _ _ _ (by simp [Client.newRequest])
    | with_reducible exact Client.callsSatisfy_UpdateUser _ _ _ _ (by simp [Client.newRequest])
    | with_reducible exact Client.callsSatisfy_DeleteUser _ _ _ (by simp [Client.newRequest])
    | with_reducible exact Client.callsSatisfy_UserExists _ _ _ (by simp [Client.newRequest])
    | with_reducible exact Client.callsSatisfy_ChangePassword _ _ _ _ (by simp [Client.newRequest])
    | with_reducible exact Client.callsSatisfy_CreateRole _ _ _ (by simp [Client.newRequest])
    | with_reducible exact Client.callsSatisfy_GetRole _ _ _ (by simp [Client.newRequest])
    | with_reducible exact Client.callsSatisfy_UpdateRole _ _ _ _ (by simp [Client.newRequest])
    | with_reducible exact Client.callsSatisfy_DeleteRole _ _ _ (by simp [Client.newRequest])
    | with_reducible exact Client.callsSatisfy_RoleExists _ _ _ (by simp [Client.newRequest])
    | with_reducible exact Client.callsSatisfy_GetPrivilege _ _ _ (by simp [Client.newRequest])
    | with_reducible exact Client.callsSatisfy_DeletePrivilege _ _ _ (by simp [Client.newRequest])
    | with_reducible exact Client.callsSatisfy_PrivilegeExists _ _ _ (by simp [Client.newRequest])
    | with_reducible exact Client.callsSatisfy_GetRepository _ _ _ (by simp [Client.newRequest])
    | with_reducible exact Client.callsSatisfy_DeleteRepository _ _ _ (by simp [Client.newRequest])
    | with_reducible exact Client.callsSatisfy_RepositoryExists _ _ _ (by simp [Client.newRequest])
    | with_reducible exact Client.callsSatisfy_CreatePrivilege _ _ _ (fun _ => by simp [Client.newRequest])
    | with_reducible exact ApplyService.callsSatisfy_createRepository _ _ _ (fun _ => by simp [Client.newRequest])
    | with_reducible refine Gw.CallsSatisfy.of_bind ?_ (fun _ => ?_)
    | split

theorem ApplyService.applyRole_never_deletes (L : Lib β) (s : ApplyService σ β)
    (p : config.Role) :
    Gw.CallsSatisfy (fun r => r.method ≠ "DELETE") (s.applyRole L p) := by
  unfold ApplyService.applyRole
  repeat' first
    | with_reducible exact Gw.CallsSatisfy.of_pure _ _
    | with_reducible exact formatter.callsSatisfy_Info _ _
    | with_reducible exact formatter.callsSatisfy_Success _ _
    | with_reducible exact formatter.callsSatisfy_Warning _ _
    | with_reducible exact Client.callsSatisfy_CreateUser _ _ _ (by simp [Client.newRequest])
    | with_reducible exact Client.callsSatisfy_GetUser _ _ _ (by simp [Client.newRequest])
    | with_reducible exact Client.callsSatisfy_UpdateUser _ _ _ _ (by simp [Client.newRequest])
    | with_reducible exact Client.callsSatisfy_DeleteUser _ _ _ (by simp [Client.newRequest])
    | with_reducible exact Client.callsSatisfy_UserExists _ _ _ (by simp [Client.newRequest])
    | with_reducible exact Client.callsSatisfy_ChangePassword _ _ _ _ (by simp [Client.newRequest])
    | with_reducible exact Client.callsSatisfy_CreateRole _ _ _ (by simp [Client.newRequest])
    | with_reducible exact Client.callsSatisfy_GetRole _ _ _ (by simp [Client.newRequest])
    | with_reducible exact Client.callsSatisfy_UpdateRole _ _ _ _ (by simp [Client.newRequest])
    | with_reducible exact Client.callsSatisfy_DeleteRole _ _ _ (by simp [Client.newRequest])
    | with_reducible exact Client.callsSatisfy_RoleExists _ _ _ (by simp [Client.newRequest])
    | with_reducible exact Client.callsSatisfy_GetPrivilege _ _ _ (by simp [Client.newRequest])
    | with_reducible exact Client.callsSatisfy_DeletePrivilege _ _ _ (by simp [Client.newRequest])
    | with_reducible exact Client.callsSatisfy_PrivilegeExists _ _ _ (by simp [Client.newRequest])
    | with_reducible exact Client.callsSatisfy_GetRepository _ _ _ (by simp [Client.newRequest])
    | with_reducible exact Client.callsSatisfy_DeleteRepository _ _ _ (by simp [Client.newRequest])
    | with_reducible exact Client.callsSatisfy_RepositoryExists _ _ _ (by simp [Client.newRequest])
    | with_reducible exact Client.callsSatisfy_CreatePrivilege _ _ _ (fun _ => by simp [Client.newRequest])
    | with_reducible exact ApplyService.callsSatisfy_createRepository _ _ _ (fun _ => by simp [Client.newRequest])
    | with_reducible refine Gw.CallsSatisfy.of_bind ?_ (fun _ => ?_)
    | split

theorem ApplyService.applyRepository_never_deletes (L : Lib β) (s : ApplyService σ β)
    (p : config.Repository) :
    Gw.CallsSatisfy (fun r => r.method ≠ "DELETE") (s.applyRepository L p) := by
  unfold ApplyService.applyRepository
  repeat' first
    | with_reducible exact Gw.CallsSatisfy.of_pure _ _
    | with_reducible exact formatter.callsSatisfy_Info _ _
    | with_reducible exact formatter.callsSatisfy_Success _ _
    | with_reducible exact formatter.callsSatisfy_Warning _ _
    | with_reducible exact Client.callsSatisfy_CreateUser _ _ _ (by simp [Client.newRequest])
    | with_reducible exact Client.callsSatisfy_GetUser _ _ _ (by simp [Client.newRequest])
    | with_reducible exact Client.callsSatisfy_UpdateUser _ _ _ _ (by simp [Client.newRequest])
    | with_reducible exact Client.callsSatisfy_DeleteUser _ _ _ (by simp [Client.newRequest])
    | with_reducible exact Client.callsSatisfy_UserExists _ _ _ (by simp [Client.newRequest])
    | with_reducible exact Client.callsSatisfy_ChangePassword _ _ _ _ (by simp [Client.newRequest])
    | with_reducible exact Client.callsSatisfy_CreateRole _ _ _ (by simp [Client.newRequest])
    | with_reducible exact Client.callsSatisfy_GetRole _ _ _ (by simp [Client.newRequest])
    | with_reducible exact Client.callsSatisfy_UpdateRole _ _ _ _ (by simp [Client.newRequest])
    | with_reducible exact Client.callsSatisfy_DeleteRole _ _ _ (by simp [Client.newRequest])
    | with_reducible exact Client.callsSatisfy_RoleExists _ _ _ (by simp [Client.newRequest])
    | with_reducible exact Client.callsSatisfy_GetPrivilege _ _ _ (by simp [Client.newRequest])
    | with_reducible exact Client.callsSatisfy_DeletePrivilege _ _ _ (by simp [Client.newRequest])
    | with_reducible exact Client.callsSatisfy_PrivilegeExists _ _ _ (by simp [Client.newRequest])
    | with_reducible exact Client.callsSatisfy_GetRepository _ _ _ (by simp [Client.newRequest])
    | with_reducible exact Client.callsSatisfy_DeleteRepository _ _ _ (by simp [Client.newRequest])
    | with_reducible exact Client.callsSatisfy_RepositoryExists _ _ _ (by simp [Client.newRequest])
    | with_reducible exact Client.callsSatisfy_CreatePrivilege _ _ _ (fun _ => by simp [Client.newRequest])
    | with_reducible exact ApplyService.callsSatisfy_createRepository _ _ _ (fun _ => by simp [Client.newRequest])
    | with_reducible refine Gw.CallsSatisfy.of_bind ?_ (fun _ => ?_)
    | split

theorem ApplyService.applyUser_never_deletes (L : Lib β) (s : ApplyService σ β)
    (p : config.User) :
    Gw.CallsSatisfy (fun r => r.method ≠ "DELETE") (s.applyUser L p) := by
  unfold ApplyService.applyUser
  repeat' first
    | with_reducible exact Gw.CallsSatisfy.of_pure _ _
    | with_reducible exact formatter.callsSatisfy_Info _ _
    | with_reducible exact formatter.callsSatisfy_Success _ _
    | with_reducible exact formatter.callsSatisfy_Warning _ _
    | with_reducible exact Client.callsSatisfy_CreateUser _ _ _ (by simp [Client.newRequest])
    | with_reducible exact Client.callsSatisfy_GetUser _ _ _ (by simp [Client.newRequest])
    | with_reducible exact Client.callsSatisfy_UpdateUser _ _ _ _ (by simp [Client.newRequest])
    | with_reducible exact Client.callsSatisfy_DeleteUser _ _ _ (by simp [Client.newRequest])
    | with_reducible exact Client.callsSatisfy_UserExists _ _ _ (by simp [Client.newRequest])
    | with_reducible exact Client.callsSatisfy_ChangePassword _ _ _ _ (by simp [Client.newRequest])
    | with_reducible exact Client.callsSatisfy_CreateRole _ _ _ (by simp [Client.newRequest])
    | with_reducible exact Client.callsSatisfy_GetRole _ _ _ (by simp [Client.newRequest])
    | with_reducible exact Client.callsSatisfy_UpdateRole _ _ _ _ (by simp [Client.newRequest])
    | with_reducible exact Client.callsSatisfy_DeleteRole _ _ _ (by simp [Client.newRequest])
    | with_reducible exact Client.callsSatisfy_RoleExists _ _ _ (by simp [Client.newRequest])
    | with_reducible exact Client.callsSatisfy_GetPrivilege _ _ _ (by simp [Client.newRequest])
    | with_reducible exact Client.callsSatisfy_DeletePrivilege _ _ _ (by simp [Client.newRequest])
    | with_reducible exact Client.callsSatisfy_PrivilegeExists _ _ _ (by simp [Client.newRequest])
    | with_reducible exact Client.callsSatisfy_GetRepository _ _ _ (by simp [Client.newRequest])
    | with_reducible exact Client.callsSatisfy_DeleteRepository _ _ _ (by simp [Client.newRequest])
    | with_reducible exact Client.callsSatisfy_RepositoryExists _ _ _ (by simp [Client.newRequest])
    | with_reducible exact Client.callsSatisfy_CreatePrivilege _ _ _ (fun _ => by simp [Client.newRequest])
    | with_reducible exact ApplyService.callsSatisfy_createRepository _ _ _ (fun _ => by simp [Client.newRequest])
    | with_reducible refine Gw.CallsSatisfy.of_bind ?_ (fun _ => ?_)
    | split

theorem ApplyService.assignPermissionRole_never_deletes (L : Lib β) (s : ApplyService σ β)
    (p : config.UserRepositoryPermission) (roleName : String) :
    Gw.CallsSatisfy (fun r => r.method ≠ "DELETE") (s.assignPermissionRole L p roleName) := by
  unfold ApplyService.assignPermissionRole
  repeat' first
    | with_reducible exact Gw.CallsSatisfy.of_pure _ _
    | with_reducible exact formatter.callsSatisfy_Info _ _
    | with_reducible exact formatter.callsSatisfy_Success _ _
    | with_reducible exact formatter.callsSatisfy_Warning _ _
    | with_reducible exact Client.callsSatisfy_CreateUser _ _ _ (by simp [Client.newRequest])
    | with_reducible exact Client.callsSatisfy_GetUser _ _ _ (by simp [Client.newRequest])
    | with_reducible exact Client.callsSatisfy_UpdateUser _ _ _ _ (by simp [Client.newRequest])
    | with_reducible exact Client.callsSatisfy_DeleteUser _ _ _ (by simp [Client.newRequest])
    | with_reducible exact Client.callsSatisfy_UserExists _ _ _ (by simp [Client.newRequest])
    | with_reducible exact Client.callsSatisfy_ChangePassword _ _ _ _ (by simp [Client.newRequest])
    | with_reducible exact Client.callsSatisfy_CreateRole _ _ _ (by simp [Client.newRequest])
    | with_reducible exact Client.callsSatisfy_GetRole _ _ _ (by simp [Client.newRequest])
    | with_reducible exact Client.callsSatisfy_UpdateRole _ _ _ _ (by simp [Client.newRequest])
    | with_reducible exact Client.callsSatisfy_DeleteRole _ _ _ (by simp [Client.newRequest])
    | with_reducible exact Client.callsSatisfy_RoleExists _ _ _ (by simp [Client.newRequest])
    | with_reducible exact Client.callsSatisfy_GetPrivilege _ _ _ (by simp [Client.newRequest])
    | with_reducible exact Client.callsSatisfy_DeletePrivilege _ _ _ (by simp [Client.newRequest])
    | with_reducible exact Client.callsSatisfy_PrivilegeExists _ _ _ (by simp [Client.newRequest])
    | with_reducible exact Client.callsSatisfy_GetRepository _ _ _ (by simp [Client.newRequest])
    | with_reducible exact Client.callsSatisfy_DeleteRepository _ _ _ (by simp [Client.newRequest])
    | with_reducible exact Client.callsSatisfy_RepositoryExists _ _ _ (by simp [Client.newRequest])
    | with_reducible exact Client.callsSatisfy_CreatePrivilege _ _ _ (fun _ => by simp [Client.newRequest])
    | with_reducible exact ApplyService.callsSatisfy_createRepository _ _ _ (fun _ => by simp [Client.newRequest])
    | with_reducible refine Gw.CallsSatisfy.of_bind ?_ (fun _ => ?_)
    | split
    | dsimp only

theorem ApplyService.applyUserRepositoryPermission_never_deletes (L : Lib β) (s : ApplyService σ β)
    (p : config.UserRepositoryPermission) :
    Gw.CallsSatisfy (fun r => r.method ≠ "DELETE") (s.applyUserRepositoryPermission L p) := by
  unfold ApplyService.applyUserRepositoryPermission
  repeat' first
    | with_reducible exact Gw.CallsSatisfy.of_pure _ _
    | with_reducible exact formatter.callsSatisfy_Info _ _
    | with_reducible exact formatter.callsSatisfy_Success _ _
    | with_reducible exact formatter.callsSatisfy_Warning _ _
    | with_reducible exact Client.callsSatisfy_CreateUser _ _ _ (by simp [Client.newRequest])
    | with_reducible exact Client.callsSatisfy_GetUser _ _ _ (by simp [Client.newRequest])
    | with_reducible exact Client.callsSatisfy_UpdateUser _ _ _ _ (by simp [Client.newRequest])
    | with_reducible exact Client.callsSatisfy_DeleteUser _ _ _ (by simp [Client.newRequest])
    | with_reducible exact Client.callsSatisfy_UserExists _ _ _ (by simp [Client.newRequest])
    | with_reducible exact Client.callsSatisfy_ChangePassword _ _ _ _ (by simp [Client.newRequest])
    | with_reducible exact Client.callsSatisfy_CreateRole _ _ _ (by simp [Client.newRequest])
    | with_reducible exact Client.callsSatisfy_GetRole _ _ _ (by simp [Client.newRequest])
    | with_reducible exact Client.callsSatisfy_UpdateRole _ _ _ _ (by simp [Client.newRequest])
    | with_reducible exact Client.callsSatisfy_DeleteRole _ _ _ (by simp [Client.newRequest])
    | with_reducible exact Client.callsSatisfy_RoleExists _ _ _ (by simp [Client.newRequest])
    | with_reducible exact Client.callsSatisfy_GetPrivilege _ _ _ (by simp [Client.newRequest])
    | with_reducible exact Client.callsSatisfy_DeletePrivilege _ _ _ (by simp [Client.newRequest])
    | with_reducible exact Client.callsSatisfy_PrivilegeExists _ _ _ (by simp [Client.newRequest])
    | with_reducible exact Client.callsSatisfy_GetRepository _ _ _ (by simp [Client.newRequest])
    | with_reducible exact Client.callsSatisfy_DeleteRepository _ _ _ (by simp [Client.newRequest])
    | with_reducible exact Client.callsSatisfy_RepositoryExists _ _ _ (by simp [Client.newRequest])
    | with_reducible exact Client.callsSatisfy_CreatePrivilege _ _ _ (fun _ => by simp [Client.newRequest])
    | with_reducible exact ApplyService.callsSatisfy_createRepository _ _ _ (fun _ => by simp [Client.newRequest])
    | with_reducible exact ApplyService.assignPermissionRole_never_deletes _ _ _ _
    | with_reducible refine Gw.CallsSatisfy.of_bind ?_ (fun _ => ?_)
    | split
    | dsimp only

theorem ApplyService.Apply_never_deletes (L : Lib β) (s : ApplyService σ β) :
    Gw.CallsSatisfy (fun r => r.method ≠ "DELETE") (s.Apply L) := by
  unfold ApplyService.Apply ApplyService.applyPrivileges ApplyService.applyRoles
    ApplyService.applyRepositories ApplyService.applyUsers
    ApplyService.applyUserRepositoryPermissions
  repeat' first
    | with_reducible exact Gw.CallsSatisfy.of_pure _ _
    | with_reducible exact formatter.callsSatisfy_Info _ _
    | with_reducible exact formatter.callsSatisfy_Success _ _
    | with_reducible exact formatter.callsSatisfy_Warning _ _
    | with_reducible exact forRange_callsSatisfy (ApplyService.applyPrivilege_never_deletes L s) _ _
    | with_reducible exact forRange_callsSatisfy (ApplyService.applyRole_never_deletes L s) _ _
    | with_reducible exact forRange_callsSatisfy (ApplyService.applyRepository_never_deletes L s) _ _
    | with_reducible exact forRange_callsSatisfy (ApplyService.applyUser_never_deletes L s) _ _
    | with_reducible exact forRange_callsSatisfy (ApplyService.applyUserRepositoryPermission_never_deletes L s) _ _
    | with_reducible refine Gw.CallsSatisfy.of_bind ?_ (fun _ => ?_)
    | split

end service

/-! ## The order of the categories -/

namespace service

open nexus

variable {σ β : Type}

/-- C1. The remote calls of `Apply` are those of `applyPrivileges`, then those of
`applyRoles`, then `applyRepositories`, then `applyUsers`, then
`applyUserRepositoryPermissions`, each step started in the world the previous one
left and contributing nothing once an earlier step has returned an error. -/
theorem ApplyService.Apply_calls_in_category_order (L : Lib β) (s : ApplyService σ β) (w : σ) :
    let w1 := (s.applyPrivileges L).final w
    let w2 := (s.applyRoles L).final w1
    let w3 := (s.applyRepositories L).final w2
    let w4 := (s.applyUsers L).final w3
    let ok1 := ((s.applyPrivileges L).result w).2 = none
    let ok2 := ok1 ∧ ((s.applyRoles L).result w1).2 = none
    let ok3 := ok2 ∧ ((s.applyRepositories L).result w2).2 = none
    let ok4 := ok3 ∧ ((s.applyUsers L).result w3).2 = none
    ∃ l1 l2 l3 l4 l5 : List Request,
      (s.Apply L).calls w = l1 ++ l2 ++ l3 ++ l4 ++ l5 ∧
      l1 = (s.applyPrivileges L).calls w ∧
      l2 = (if ok1 then (s.applyRoles L).calls w1 else []) ∧
      l3 = (if ok2 then (s.applyRepositories L).calls w2 else []) ∧
      l4 = (if ok3 then (s.applyUsers L).calls w3 else []) ∧
      l5 = (if ok4 then (s.applyUserRepositoryPermissions L).calls w4 else []) := by
  dsimp only
  refine ⟨_, _, _, _, _, ?_, rfl, rfl, rfl, rfl, rfl⟩
  simp only [ApplyService.Apply, Gw.calls_bind, formatter.calls_Info, List.nil_append,
    formatter.final_Info, Gw.result_bind]
  obtain h1 | ⟨e1, h1⟩ := Option.eq_none_or_eq_some ((s.applyPrivileges L).result w).2
  swap
  · simp [h1]
  obtain h2 | ⟨e2, h2⟩ := Option.eq_none_or_eq_some
    ((s.applyRoles L).result ((s.applyPrivileges L).final w)).2
  swap
  · simp [h1, h2]
  obtain h3 | ⟨e3, h3⟩ := Option.eq_none_or_eq_some
    ((s.applyRepositories L).result ((s.applyRoles L).final ((s.applyPrivileges L).final w))).2
  swap
  · simp [h1, h2, h3]
  obtain h4 | ⟨e4, h4⟩ := Option.eq_none_or_eq_some
    ((s.applyUsers L).result ((s.applyRepositories L).final
      ((s.applyRoles L).final ((s.applyPrivileges L).final w)))).2
  swap
  · simp [h1, h2, h3, h4]
  obtain h5 | ⟨e5, h5⟩ := Option.eq_none_or_eq_some
    ((s.applyUserRepositoryPermissions L).result ((s.applyUsers L).final
      ((s.applyRepositories L).final
        ((s.applyRoles L).final ((s.applyPrivileges L).final w))))).2 <;>
    simp [h1, h2, h3, h4, h5]

/-- C2. The remote calls of `Delete` are those of
`deleteUserRepositoryPermissionRoles`, then those of `deleteUsers`, then
`deleteRepositories`, then `deleteRoles`, then `deletePrivileges`: the reverse of
the apply order.  The users step always follows the permission-role step; each
later step starts in the world the previous one left and contributes nothing once
an earlier one of them has returned an error. -/
theorem DeleteService.Delete_calls_in_reverse_category_order (L : Lib β)
    (s : DeleteService σ β) (w : σ) :
    let w1 := (s.deleteUserRepositoryPermissionRoles L).final w
    let w2 := (s.deleteUsers L).final w1
    let w3 := (s.deleteRepositories L).final w2
    let w4 := (s.deleteRoles L).final w3
    let ok2 := ((s.deleteUsers L).result w1).2 = none
    let ok3 := ok2 ∧ ((s.deleteRepositories L).result w2).2 = none
    let ok4 := ok3 ∧ ((s.deleteRoles L).result w3).2 = none
    ∃ l1 l2 l3 l4 l5 : List Request,
      (s.Delete L).calls w = l1 ++ l2 ++ l3 ++ l4 ++ l5 ∧
      l1 = (s.deleteUserRepositoryPermissionRoles L).calls w ∧
      l2 = (s.deleteUsers L).calls w1 ∧
      l3 = (if ok2 then (s.deleteRepositories L).calls w2 else []) ∧
      l4 = (if ok3 then (s.deleteRoles L).calls w3 else []) ∧
      l5 = (if ok4 then (s.deletePrivileges L).calls w4 else []) := by
  dsimp only
  refine ⟨_, _, _, _, _, ?_, rfl, rfl, rfl, rfl, rfl⟩
  simp only [DeleteService.Delete, Gw.calls_bind, formatter.calls_Info, List.nil_append,
    formatter.final_Info, Gw.result_bind, Gw.final_bind]
  have hstep : ∀ (o : Option String) (r : DeleteResult) (v : σ),
      (match o with
        | some err => do
          formatter.Warning ("Failed to delete some permission roles: " ++ err)
          pure { r with Errors := r.Errors ++ [err] }
        | none => pure r : Gw σ β DeleteResult).calls v = [] ∧
      (match o with
        | some err => do
          formatter.Warning ("Failed to delete some permission roles: " ++ err)
          pure { r with Errors := r.Errors ++ [err] }
        | none => pure r : Gw σ β DeleteResult).final v = v := by
    intro o r v
    cases o <;> exact ⟨rfl, rfl⟩
  simp only [(hstep _ _ _).1, (hstep _ _ _).2, List.nil_append]
  obtain h2 | ⟨e2, h2⟩ := Option.eq_none_or_eq_some
    ((s.deleteUsers L).result ((s.deleteUserRepositoryPermissionRoles L).final w)).2
  swap
  · simp [h2]
  obtain h3 | ⟨e3, h3⟩ := Option.eq_none_or_eq_some
    ((s.deleteRepositories L).result ((s.deleteUsers L).final
      ((s.deleteUserRepositoryPermissionRoles L).final w))).2
  swap
  · simp [h2, h3]
  obtain h4 | ⟨e4, h4⟩ := Option.eq_none_or_eq_some
    ((s.deleteRoles L).result ((s.deleteRepositories L).final ((s.deleteUsers L).final
      ((s.deleteUserRepositoryPermissionRoles L).final w)))).2
  swap
  · simp [h2, h3, h4]
  obtain h5 | ⟨e5, h5⟩ := Option.eq_none_or_eq_some
    ((s.deletePrivileges L).result ((s.deleteRoles L).final ((s.deleteRepositories L).final
      ((s.deleteUsers L).final ((s.deleteUserRepositoryPermissionRoles L).final w))))).2 <;>
    simp [h2, h3, h4, h5]

/-! ## Derived roles -/

theorem RoleExists_of_fetched (L : Lib β) (c : Client σ β) (id : String) (w : σ)
    (r : RoleResponse) (h : (c.GetRole L id).result w = .ok r) :
    (c.RoleExists L id).result w = (true, none) := by
  simp [Client.RoleExists, h]

theorem get_is_not_delete (c : Client σ β) (path : String) (req : Request)
    (h : req = c.newRequest "GET" path .none) (hm : req.method = "DELETE") : False := by
  subst h; simp [Client.newRequest] at hm

/-- A DELETE issued by one iteration of `deleteRoles` is the delete of the entry,
the last of the three calls of an iteration in which the role was found present and
then fetched with `ReadOnly = false`. -/
theorem DeleteService.deleteRole_delete_after_guard (L : Lib β) (s : DeleteService σ β)
    (role : config.Role) (w : σ) (req : Request)
    (hreq : req ∈ (s.deleteRole L role).calls w) (hm : req.method = "DELETE") :
    (s.client.RoleExists L role.ID).result w = (true, none) ∧
    ∃ r, (s.client.GetRole L role.ID).result ((s.client.RoleExists L role.ID).final w) = .ok r ∧
      r.ReadOnly = false ∧
      req = s.client.newRequest "DELETE" ("/service/rest/v1/security/roles/" ++ role.ID) .none ∧
      (s.deleteRole L role).calls w =
        [s.client.newRequest "GET" ("/service/rest/v1/security/roles/" ++ role.ID) .none,
         s.client.newRequest "GET" ("/service/rest/v1/security/roles/" ++ role.ID) .none,
         s.client.newRequest "DELETE" ("/service/rest/v1/security/roles/" ++ role.ID) .none] := by
  obtain ⟨b, o, hex⟩ : ∃ b o, (s.client.RoleExists L role.ID).result w = (b, o) := ⟨_, _, rfl⟩
  cases o with
  | some e =>
    simp [DeleteService.deleteRole, hex] at hreq
    exact (get_is_not_delete _ _ _ hreq hm).elim
  | none =>
    cases b with
    | false =>
      simp [DeleteService.deleteRole, hex] at hreq
      exact (get_is_not_delete _ _ _ hreq hm).elim
    | true =>
      refine ⟨hex, ?_⟩
      cases hg : (s.client.GetRole L role.ID).result ((s.client.RoleExists L role.ID).final w) with
      | error e =>
        simp only [Client.final_RoleExists] at hg
        simp [DeleteService.deleteRole, hex, hg] at hreq
        exact (get_is_not_delete _ _ _ hreq hm).elim
      | ok r =>
        have hg2 := hg
        simp only [Client.final_RoleExists] at hg2
        cases hro : r.ReadOnly with
        | true =>
          simp [DeleteService.deleteRole, hex, hg2, hro] at hreq
          exact (get_is_not_delete _ _ _ hreq hm).elim
        | false =>
          have hcalls : (s.deleteRole L role).calls w =
              [s.client.newRequest "GET" ("/service/rest/v1/security/roles/" ++ role.ID) .none,
               s.client.newRequest "GET" ("/service/rest/v1/security/roles/" ++ role.ID) .none,
               s.client.newRequest "DELETE" ("/service/rest/v1/security/roles/" ++ role.ID)
                .none] := by
            simp [DeleteService.deleteRole, hex, hg2, hro]
            split
            · split <;> rfl
            · rfl
          refine ⟨r, rfl, hro, ?_, hcalls⟩
          rw [hcalls] at hreq
          simp at hreq
          rcases hreq with h | h
          · exact (get_is_not_delete _ _ _ h hm).elim
          · exact h

/-- A DELETE issued by one iteration of `deletePrivileges` is the delete of the
entry, the last of the three calls of an iteration in which the privilege was found
present and then fetched with `ReadOnly = false`. -/
theorem DeleteService.deletePrivilege_delete_after_guard (L : Lib β) (s : DeleteService σ β)
    (priv : config.Privilege) (w : σ) (req : Request)
    (hreq : req ∈ (s.deletePrivilege L priv).calls w) (hm : req.method = "DELETE") :
    (s.client.PrivilegeExists L priv.Name).result w = (true, none) ∧
    ∃ p, (s.client.GetPrivilege L priv.Name).result
        ((s.client.PrivilegeExists L priv.Name).final w) = .ok p ∧
      p.ReadOnly = false ∧
      req = s.client.newRequest "DELETE"
        ("/service/rest/v1/security/privileges/" ++ priv.Name) .none ∧
      (s.deletePrivilege L priv).calls w =
        [s.client.newRequest "GET" ("/service/rest/v1/security/privileges/" ++ priv.Name) .none,
         s.client.newRequest "GET" ("/service/rest/v1/security/privileges/" ++ priv.Name) .none,
         s.client.newRequest "DELETE" ("/service/rest/v1/security/privileges/" ++ priv.Name)
          .none] := by
  obtain ⟨b, o, hex⟩ : ∃ b o, (s.client.PrivilegeExists L priv.Name).result w = (b, o) :=
    ⟨_, _, rfl⟩
  cases o with
  | some e =>
    simp [DeleteService.deletePrivilege, hex] at hreq
    exact (get_is_not_delete _ _ _ hreq hm).elim
  | none =>
    cases b with
    | false =>
      simp [DeleteService.deletePrivilege, hex] at hreq
      exact (get_is_not_delete _ _ _ hreq hm).elim
    | true =>
      refine ⟨hex, ?_⟩
      cases hg : (s.client.GetPrivilege L priv.Name).result
          ((s.client.PrivilegeExists L priv.Name).final w) with
      | error e =>
        simp only [Client.final_PrivilegeExists] at hg
        simp [DeleteService.deletePrivilege, hex, hg] at hreq
        exact (get_is_not_delete _ _ _ hreq hm).elim
      | ok p =>
        have hg2 := hg
        simp only [Client.final_PrivilegeExists] at hg2
        cases hro : p.ReadOnly with
        | true =>
          simp [DeleteService.deletePrivilege, hex, hg2, hro] at hreq
          exact (get_is_not_delete _ _ _ hreq hm).elim
        | false =>
          have hcalls : (s.deletePrivilege L priv).calls w =
              [s.client.newRequest "GET"
                ("/service/rest/v1/security/privileges/" ++ priv.Name) .none,
               s.client.newRequest "GET"
                ("/service/rest/v1/security/privileges/" ++ priv.Name) .none,
               s.client.newRequest "DELETE"
                ("/service/rest/v1/security/privileges/" ++ priv.Name) .none] := by
            simp [DeleteService.deletePrivilege, hex, hg2, hro]
            split <;> rfl
          refine ⟨p, rfl, hro, ?_, hcalls⟩
          rw [hcalls] at hreq
          simp at hreq
          rcases hreq with h | h
          · exact (get_is_not_delete _ _ _ h hm).elim
          · exact h

/-- The iteration of `deleteUserRepositoryPermissionRoles` for a grant whose
derived role can be fetched deletes that role: no field of the fetched role is
looked at. -/
theorem DeleteService.derived_role_is_deleted_unguarded (L : Lib β) (s : DeleteService σ β)
    (perm : config.UserRepositoryPermission) (w : σ) (r : RoleResponse)
    (hget : (s.client.GetRole L (perm.UserID ++ "-" ++ perm.Repository ++ "-role")).result w
      = .ok r) :
    (s.deleteUserRepositoryPermissionRole L perm).calls w =
      [s.client.newRequest "GET" ("/service/rest/v1/security/roles/" ++
          (perm.UserID ++ "-" ++ perm.Repository ++ "-role")) .none,
       s.client.newRequest "DELETE" ("/service/rest/v1/security/roles/" ++
          (perm.UserID ++ "-" ++ perm.Repository ++ "-role")) .none] := by
  have hex := RoleExists_of_fetched L s.client _ w r hget
  simp [DeleteService.deleteUserRepositoryPermissionRole, hex]
  split <;> rfl

/-- The iteration of `applyUserRepositoryPermissions` for a grant whose repository
has a format and whose derived role can be fetched updates that role: no field of
the fetched role is looked at. -/
theorem ApplyService.derived_role_is_updated_unguarded (L : Lib β) (s : ApplyService σ β)
    (perm : config.UserRepositoryPermission) (w : σ) (repo : List (String × JsonValue))
    (r : RoleResponse)
    (hrepo : (s.client.GetRepository L perm.Repository).result w = .ok repo)
    (hfmt : repositoryFormat repo ≠ "")
    (hget : (s.client.GetRole L (permissionRoleName perm)).result
      ((s.client.GetRepository L perm.Repository).final w) = .ok r) :
    [s.client.newRequest "GET" ("/service/rest/v1/repositories/" ++ perm.Repository) .none,
     s.client.newRequest "GET" ("/service/rest/v1/security/roles/" ++ permissionRoleName perm)
      .none,
     s.client.newRequest "PUT" ("/service/rest/v1/security/roles/" ++ permissionRoleName perm)
      (.role { ID := permissionRoleName perm
               Name := perm.UserID ++ " access to " ++ perm.Repository
               Description := "Auto-generated role for " ++ perm.UserID ++ " to access "
                 ++ perm.Repository
               Privileges := permissionPrivileges L perm (repositoryFormat repo)
               Roles := [] })] <+: (s.applyUserRepositoryPermission L perm).calls w := by
  have hex := RoleExists_of_fetched L s.client _ _ r hget
  simp only [Client.final_GetRepository] at hex
  simp [ApplyService.applyUserRepositoryPermission, hrepo, hfmt, hex]

/-- C6, the claim as stated fails: the manifest names the built-in role `nx-admin`,
whose `readOnly` flag on the server is true, and `Apply` issues an UpdateRole (PUT)
against it; the flag is still true afterwards. -/
theorem ApplyService.Apply_updates_read_only_role :
    (example_.builtinStore.roles "nx-admin").map (fun r => r.ReadOnly) = some true ∧
    ("PUT", "http://nexus:8081/service/rest/v1/security/roles/nx-admin") ∈
      ((example_.builtinApply.Apply model.lib).calls example_.builtinStore).map
        (fun r => (r.method, r.url)) ∧
    ((example_.builtinApply.Apply model.lib).result example_.builtinStore).2 = none ∧
    ((((example_.builtinApply.Apply model.lib).final example_.builtinStore).roles
      "nx-admin").map (fun r => (r.ReadOnly, r.Description))) = some (true, "changed") := by
  decide

/-- C6, amended.  The read-only guard is in `deleteRoles` and `deletePrivileges`
only.  Every DELETE issued by `deleteRoles` (resp. `deletePrivileges`) is the last
call of the iteration for one manifest entry, reached after the entries before it
were processed without error, and in that same iteration the entry was found
present and then fetched with `ReadOnly = false`.  The other three paths that
mutate a role look at no field of it: for a manifest role whose fetch succeeds
`applyRoles` issues UpdateRole; for a grant whose derived role can be fetched
`applyUserRepositoryPermissions` issues UpdateRole (once the repository of the grant
is fetched with a non-empty format) and `deleteUserRepositoryPermissionRoles` issues
DeleteRole, whatever the fetched `ReadOnly` flag. -/
theorem read_only_guard_is_in_delete_only (L : Lib β) (sd : DeleteService σ β)
    (sa : ApplyService σ β) (w : σ) :
    (∀ req ∈ (sd.deleteRoles L).calls w, req.method = "DELETE" →
      ∃ pre role post r, sd.config.Roles = pre ++ role :: post ∧
        ((forRange (sd.deleteRole L) pre 0).result w).2 = none ∧
        (sd.client.RoleExists L role.ID).result
          ((forRange (sd.deleteRole L) pre 0).final w) = (true, none) ∧
        (sd.client.GetRole L role.ID).result ((sd.client.RoleExists L role.ID).final
          ((forRange (sd.deleteRole L) pre 0).final w)) = .ok r ∧
        r.ReadOnly = false ∧
        req = sd.client.newRequest "DELETE"
          ("/service/rest/v1/security/roles/" ++ role.ID) .none ∧
        (sd.deleteRole L role).calls ((forRange (sd.deleteRole L) pre 0).final w) =
          [sd.client.newRequest "GET" ("/service/rest/v1/security/roles/" ++ role.ID) .none,
           sd.client.newRequest "GET" ("/service/rest/v1/security/roles/" ++ role.ID) .none,
           req]) ∧
    (∀ req ∈ (sd.deletePrivileges L).calls w, req.method = "DELETE" →
      ∃ pre priv post p, sd.config.Privileges = pre ++ priv :: post ∧
        ((forRange (sd.deletePrivilege L) pre 0).result w).2 = none ∧
        (sd.client.PrivilegeExists L priv.Name).result
          ((forRange (sd.deletePrivilege L) pre 0).final w) = (true, none) ∧
        (sd.client.GetPrivilege L priv.Name).result ((sd.client.PrivilegeExists L priv.Name).final
          ((forRange (sd.deletePrivilege L) pre 0).final w)) = .ok p ∧
        p.ReadOnly = false ∧
        req = sd.client.newRequest "DELETE"
          ("/service/rest/v1/security/privileges/" ++ priv.Name) .none ∧
        (sd.deletePrivilege L priv).calls ((forRange (sd.deletePrivilege L) pre 0).final w) =
          [sd.client.newRequest "GET"
            ("/service/rest/v1/security/privileges/" ++ priv.Name) .none,
           sd.client.newRequest "GET"
            ("/service/rest/v1/security/privileges/" ++ priv.Name) .none,
           req]) ∧
    (∀ (role : config.Role) (r : RoleResponse),
      (sa.client.GetRole L role.ID).result w = .ok r →
      (sa.applyRole L role).calls w =
        [sa.client.newRequest "GET" ("/service/rest/v1/security/roles/" ++ role.ID) .none,
         sa.client.newRequest "PUT" ("/service/rest/v1/security/roles/" ++ role.ID)
          (.role { ID := role.ID, Name := role.Name, Description := role.Description,
                   Privileges := role.Privileges, Roles := role.Roles })]) ∧
    (∀ (perm : config.UserRepositoryPermission) (repo : List (String × JsonValue))
      (r : RoleResponse),
      (sa.client.GetRepository L perm.Repository).result w = .ok repo →
      ApplyService.repositoryFormat repo ≠ "" →
      (sa.client.GetRole L (ApplyService.permissionRoleName perm)).result
        ((sa.client.GetRepository L perm.Repository).final w) = .ok r →
      [sa.client.newRequest "GET" ("/service/rest/v1/repositories/" ++ perm.Repository) .none,
       sa.client.newRequest "GET"
        ("/service/rest/v1/security/roles/" ++ ApplyService.permissionRoleName perm) .none,
       sa.client.newRequest "PUT"
        ("/service/rest/v1/security/roles/" ++ ApplyService.permissionRoleName perm)
        (.role { ID := ApplyService.permissionRoleName perm
                 Name := perm.UserID ++ " access to " ++ perm.Repository
                 Description := "Auto-generated role for " ++ perm.UserID ++ " to access "
                   ++ perm.Repository
                 Privileges := ApplyService.permissionPrivileges L perm
                   (ApplyService.repositoryFormat repo)
                 Roles := [] })] <+: (sa.applyUserRepositoryPermission L perm).calls w) ∧
    (∀ (perm : config.UserRepositoryPermission) (r : RoleResponse),
      (sd.client.GetRole L (perm.UserID ++ "-" ++ perm.Repository ++ "-role")).result w
        = .ok r →
      (sd.deleteUserRepositoryPermissionRole L perm).calls w =
        [sd.client.newRequest "GET" ("/service/rest/v1/security/roles/" ++
            (perm.UserID ++ "-" ++ perm.Repository ++ "-role")) .none,
         sd.client.newRequest "DELETE" ("/service/rest/v1/security/roles/" ++
            (perm.UserID ++ "-" ++ perm.Repository ++ "-role")) .none]) := by
  refine ⟨?_, ?_, ?_, ?_, ?_⟩
  · intro req hreq hm
    simp only [DeleteService.deleteRoles, Gw.calls_bind, formatter.calls_Info,
      List.nil_append, formatter.final_Info] at hreq
    obtain ⟨pre, role, post, hxs, hpre, hr⟩ := forRange_calls_at_iteration _ _ _ _ _ hreq
    obtain ⟨hex, r, hget, hro, heq, hcalls⟩ :=
      DeleteService.deleteRole_delete_after_guard L sd role _ req hr hm
    exact ⟨pre, role, post, r, hxs, hpre, hex, hget, hro, heq, by rw [hcalls, heq]⟩
  · intro req hreq hm
    simp only [DeleteService.deletePrivileges, Gw.calls_bind, formatter.calls_Info,
      List.nil_append, formatter.final_Info] at hreq
    obtain ⟨pre, priv, post, hxs, hpre, hr⟩ := forRange_calls_at_iteration _ _ _ _ _ hreq
    obtain ⟨hex, p, hget, hro, heq, hcalls⟩ :=
      DeleteService.deletePrivilege_delete_after_guard L sd priv _ req hr hm
    exact ⟨pre, priv, post, p, hxs, hpre, hex, hget, hro, heq, by rw [hcalls, heq]⟩
  · intro role r hget
    have hex := RoleExists_of_fetched L sa.client role.ID w r hget
    simp only [ApplyService.applyRole, Gw.calls_bind, Gw.result_bind, hex,
      Client.calls_RoleExists, if_true, Client.calls_UpdateRole]
    split <;> simp
  · intro perm repo r hrepo hfmt hget
    exact ApplyService.derived_role_is_updated_unguarded L sa perm w repo r hrepo hfmt hget
  · intro perm r hget
    exact DeleteService.derived_role_is_deleted_unguarded L sd perm w r hget

/-- Witness of C6, amended, on the model server.  With the built-in role
`nx-admin`, the built-in privilege `nx-all` and the ordinary role `developers`, all
named in the manifest: `deleteRoles` deletes `developers` only, `deletePrivileges`
deletes nothing, while `applyRoles` updates `nx-admin`.  With a read-only role that
bears the derived name of the grant to `alice`: the grants step of `Apply` updates
it and the permission-roles step of `Delete` deletes it. -/
theorem read_only_guard_on_builtins :
    ((example_.builtinDelete.deleteRoles model.lib).calls example_.builtinStore).map
        (fun r => (r.method, r.url)) =
      [("GET", "http://nexus:8081/service/rest/v1/security/roles/nx-admin"),
       ("GET", "http://nexus:8081/service/rest/v1/security/roles/nx-admin"),
       ("GET", "http://nexus:8081/service/rest/v1/security/roles/developers"),
       ("GET", "http://nexus:8081/service/rest/v1/security/roles/developers"),
       ("DELETE", "http://nexus:8081/service/rest/v1/security/roles/developers")] ∧
    ((example_.builtinDelete.deletePrivileges model.lib).calls example_.builtinStore).map
        (fun r => (r.method, r.url)) =
      [("GET", "http://nexus:8081/service/rest/v1/security/privileges/nx-all"),
       ("GET", "http://nexus:8081/service/rest/v1/security/privileges/nx-all")] ∧
    (example_.builtinApply.applyRole model.lib example_.adminEntry).calls
        example_.builtinStore =
      [example_.builtinApply.client.newRequest "GET"
        ("/service/rest/v1/security/roles/" ++ example_.adminEntry.ID) .none,
       example_.builtinApply.client.newRequest "PUT"
        ("/service/rest/v1/security/roles/" ++ example_.adminEntry.ID)
        (.role { ID := example_.adminEntry.ID, Name := example_.adminEntry.Name,
                 Description := example_.adminEntry.Description,
                 Privileges := example_.adminEntry.Privileges,
                 Roles := example_.adminEntry.Roles })] ∧
    (example_.aliceDelete.deleteUserRepositoryPermissionRole model.lib
        example_.aliceGrant).calls example_.lockedStore =
      [example_.aliceDelete.client.newRequest "GET" ("/service/rest/v1/security/roles/" ++
          (example_.aliceGrant.UserID ++ "-" ++ example_.aliceGrant.Repository ++ "-role"))
          .none,
       example_.aliceDelete.client.newRequest "DELETE" ("/service/rest/v1/security/roles/" ++
          (example_.aliceGrant.UserID ++ "-" ++ example_.aliceGrant.Repository ++ "-role"))
          .none] ∧
    (example_.lockedStore.roles "alice-maven-releases-role").map (fun r => r.ReadOnly)
      = some true ∧
    ((example_.aliceDelete.Delete model.lib).calls example_.lockedStore).map
        (fun r => (r.method, r.url)) =
      [("GET", "http://nexus:8081/service/rest/v1/security/roles/alice-maven-releases-role"),
       ("DELETE",
        "http://nexus:8081/service/rest/v1/security/roles/alice-maven-releases-role")] ∧
    (((example_.aliceDelete.Delete model.lib).final example_.lockedStore).roles
      "alice-maven-releases-role") = none ∧
    ((example_.aliceService.Apply model.lib).calls example_.lockedStore).map
        (fun r => (r.method, r.url)) =
      [("GET", "http://nexus:8081/service/rest/v1/repositories/maven-releases"),
       ("GET", "http://nexus:8081/service/rest/v1/security/roles/alice-maven-releases-role"),
       ("PUT", "http://nexus:8081/service/rest/v1/security/roles/alice-maven-releases-role"),
       ("GET", "http://nexus:8081/service/rest/v1/security/users?userId=alice"),
       ("PUT", "http://nexus:8081/service/rest/v1/security/users/alice")] :=
  ⟨by decide, by decide,
   (read_only_guard_is_in_delete_only model.lib example_.builtinDelete example_.builtinApply
      example_.builtinStore).2.2.1 _ example_.nxAdmin (by decide),
   (read_only_guard_is_in_delete_only model.lib example_.aliceDelete example_.aliceService
      example_.lockedStore).2.2.2.2 example_.aliceGrant example_.lockedRole (by decide),
   by decide, by decide, by decide, by decide⟩

/-- C7. In `deleteRoles` and `deletePrivileges`, an entry that exists and is fetched
with `ReadOnly = true` is skipped: the iteration makes the two fetches and no DELETE,
ends with `continue` (no error, count not incremented), and the loop goes on with the
remaining entries and the same count, in the world the second fetch left. -/
theorem DeleteService.read_only_entries_are_skipped (L : Lib β) (s : DeleteService σ β)
    (w : σ) (count : Nat) :
    (∀ (role : config.Role) (rest : List config.Role) (r : RoleResponse),
      (s.client.RoleExists L role.ID).result w = (true, none) →
      (s.client.GetRole L role.ID).result ((s.client.RoleExists L role.ID).final w) = .ok r →
      r.ReadOnly = true →
      (s.deleteRole L role).result w = .next false ∧
      (s.deleteRole L role).calls w =
        [s.client.newRequest "GET" ("/service/rest/v1/security/roles/" ++ role.ID) .none,
         s.client.newRequest "GET" ("/service/rest/v1/security/roles/" ++ role.ID) .none] ∧
      (forRange (s.deleteRole L) (role :: rest) count).result w =
        (forRange (s.deleteRole L) rest count).result
          ((s.client.GetRole L role.ID).final ((s.client.RoleExists L role.ID).final w)) ∧
      (forRange (s.deleteRole L) (role :: rest) count).calls w =
        (s.deleteRole L role).calls w ++
          (forRange (s.deleteRole L) rest count).calls
            ((s.client.GetRole L role.ID).final ((s.client.RoleExists L role.ID).final w))) ∧
    (∀ (priv : config.Privilege) (rest : List config.Privilege) (p : PrivilegeResponse),
      (s.client.PrivilegeExists L priv.Name).result w = (true, none) →
      (s.client.GetPrivilege L priv.Name).result
        ((s.client.PrivilegeExists L priv.Name).final w) = .ok p →
      p.ReadOnly = true →
      (s.deletePrivilege L priv).result w = .next false ∧
      (s.deletePrivilege L priv).calls w =
        [s.client.newRequest "GET"
          ("/service/rest/v1/security/privileges/" ++ priv.Name) .none,
         s.client.newRequest "GET"
          ("/service/rest/v1/security/privileges/" ++ priv.Name) .none] ∧
      (forRange (s.deletePrivilege L) (priv :: rest) count).result w =
        (forRange (s.deletePrivilege L) rest count).result
          ((s.client.GetPrivilege L priv.Name).final
            ((s.client.PrivilegeExists L priv.Name).final w)) ∧
      (forRange (s.deletePrivilege L) (priv :: rest) count).calls w =
        (s.deletePrivilege L priv).calls w ++
          (forRange (s.deletePrivilege L) rest count).calls
            ((s.client.GetPrivilege L priv.Name).final
              ((s.client.PrivilegeExists L priv.Name).final w))) := by
  constructor
  · intro role rest r hex hget hro
    have hget2 := hget
    simp only [Client.final_RoleExists] at hget2
    have hres : (s.deleteRole L role).result w = .next false := by
      simp [DeleteService.deleteRole, hex, hget2, hro]
    have hfin : (s.deleteRole L role).final w =
        (s.client.GetRole L role.ID).final ((s.client.RoleExists L role.ID).final w) := by
      simp [DeleteService.deleteRole, hex, hget2, hro]
    have hcalls : (s.deleteRole L role).calls w =
        [s.client.newRequest "GET" ("/service/rest/v1/security/roles/" ++ role.ID) .none,
         s.client.newRequest "GET" ("/service/rest/v1/security/roles/" ++ role.ID) .none] := by
      simp [DeleteService.deleteRole, hex, hget2, hro]
    have hloop := forRange_cons_next (s.deleteRole L) role rest count w false hres
    refine ⟨hres, hcalls, ?_, ?_⟩
    · rw [hloop.1, hfin]; rfl
    · simp only [Gw.calls, hloop.2.2, List.filterMap_append, hfin]; rfl
  · intro priv rest q hex hget hro
    have hget2 := hget
    simp only [Client.final_PrivilegeExists] at hget2
    have hres : (s.deletePrivilege L priv).result w = .next false := by
      simp [DeleteService.deletePrivilege, hex, hget2, hro]
    have hfin : (s.deletePrivilege L priv).final w =
        (s.client.GetPrivilege L priv.Name).final
          ((s.client.PrivilegeExists L priv.Name).final w) := by
      simp [DeleteService.deletePrivilege, hex, hget2, hro]
    have hcalls : (s.deletePrivilege L priv).calls w =
        [s.client.newRequest "GET"
          ("/service/rest/v1/security/privileges/" ++ priv.Name) .none,
         s.client.newRequest "GET"
          ("/service/rest/v1/security/privileges/" ++ priv.Name) .none] := by
      simp [DeleteService.deletePrivilege, hex, hget2, hro]
    have hloop := forRange_cons_next (s.deletePrivilege L) priv rest count w false hres
    refine ⟨hres, hcalls, ?_, ?_⟩
    · rw [hloop.1, hfin]; rfl
    · simp only [Gw.calls, hloop.2.2, List.filterMap_append, hfin]; rfl

/-- Witness of C7, on the model server holding the built-in role `nx-admin`, the
built-in privilege `nx-all` and the ordinary role `developers`: the iterations for
`nx-admin` and `nx-all` end with `continue`, and `deleteRoles` goes on to delete
`developers`, returning the count 1. -/
theorem DeleteService.builtins_are_skipped :
    ((example_.builtinDelete.deleteRole model.lib example_.adminEntry).result
      example_.builtinStore = .next false) ∧
    ((example_.builtinDelete.deletePrivilege model.lib example_.allEntry).result
      example_.builtinStore = .next false) ∧
    (example_.builtinDelete.deleteRoles model.lib).result example_.builtinStore = (1, none) ∧
    (example_.builtinDelete.deletePrivileges model.lib).result example_.builtinStore = (0, none) ∧
    ((example_.builtinDelete.deleteRoles model.lib).calls example_.builtinStore).map
        (fun r => (r.method, r.url)) =
      [("GET", "http://nexus:8081/service/rest/v1/security/roles/nx-admin"),
       ("GET", "http://nexus:8081/service/rest/v1/security/roles/nx-admin"),
       ("GET", "http://nexus:8081/service/rest/v1/security/roles/developers"),
       ("GET", "http://nexus:8081/service/rest/v1/security/roles/developers"),
       ("DELETE", "http://nexus:8081/service/rest/v1/security/roles/developers")] :=
  ⟨((DeleteService.read_only_entries_are_skipped model.lib example_.builtinDelete
      example_.builtinStore 0).1 example_.adminEntry [example_.developersEntry]
      example_.nxAdmin (by decide) (by decide) (by decide)).1,
   ((DeleteService.read_only_entries_are_skipped model.lib example_.builtinDelete
      example_.builtinStore 0).2 example_.allEntry [] example_.nxAll (by decide) (by decide)
      (by decide)).1,
   by decide, by decide, by decide⟩

theorem CreatePrivilege_calls_of_path (L : Lib β) (c : Client σ β) (req : PrivilegeRequest)
    (path : String) (h : Client.privilegePath req.Type_ = some path) (w : σ) :
    (c.CreatePrivilege L req).calls w = [c.newRequest "POST" path (.privilege req)] := by
  simp only [Client.CreatePrivilege, h, Client.post, Gw.calls_bind, Client.calls_doRequest]
  split <;> simp

theorem CreatePrivilege_unsupported (L : Lib β) (c : Client σ β) (req : PrivilegeRequest)
    (h : Client.privilegePath req.Type_ = none) (w : σ) :
    (c.CreatePrivilege L req).result w = some ("unsupported privilege type: " ++ req.Type_) ∧
    (c.CreatePrivilege L req).calls w = [] := by
  simp [Client.CreatePrivilege, h]

/-- `createRepository` is either one of the fourteen create methods applied to the
request it built, or an error returned without any call. -/
theorem ApplyService.createRepository_shape (L : Lib β) (s : ApplyService σ β)
    (repo : config.Repository) :
    (∃ path label, s.createRepository L repo =
      s.client.createRepositoryAt L path label (repositoryRequest repo)) ∨
    (∃ err, s.createRepository L repo = pure (some err)) := by
  unfold ApplyService.createRepository
  simp only [Client.CreateMavenHostedRepository, Client.CreateMavenProxyRepository,
    Client.CreateMavenGroupRepository, Client.CreateDockerHostedRepository,
    Client.CreateDockerProxyRepository, Client.CreateDockerGroupRepository,
    Client.CreateNpmHostedRepository, Client.CreateNpmProxyRepository,
    Client.CreateNpmGroupRepository, Client.CreatePypiHostedRepository,
    Client.CreatePypiProxyRepository, Client.CreatePypiGroupRepository,
    Client.CreateGoProxyRepository, Client.CreateGoGroupRepository]
  split_ifs <;>
    first
      | with_reducible exact Or.inl ⟨_, _, rfl⟩
      | with_reducible exact Or.inr ⟨_, rfl⟩

/-- `createRepository` either issues nothing and returns an error, or issues
exactly one POST carrying the request it built. -/
theorem ApplyService.createRepository_calls (L : Lib β) (s : ApplyService σ β)
    (repo : config.Repository) (w : σ) :
    ((s.createRepository L repo).calls w = [] ∧
      ∃ err, (s.createRepository L repo).result w = some err) ∨
    ∃ path, (s.createRepository L repo).calls w =
      [s.client.newRequest "POST" path (.repository (repositoryRequest repo))] := by
  rcases ApplyService.createRepository_shape L s repo with ⟨path, label, h⟩ | ⟨err, h⟩
  · exact Or.inr ⟨path, by rw [h]; exact Client.calls_createRepositoryAt _ _ _ _ _ _⟩
  · exact Or.inl ⟨by rw [h]; rfl, err, by rw [h]; rfl⟩

/-! ## Create, update or skip -/

/-- C10. The four existence checks.  Each returns `(true, nil)` when the fetch
succeeds, and `(false, nil)` when the fetch is answered with status 404 or fails
with an error whose text contains `not found`.  For users, a 2xx list response
that decodes to the empty list yields `(false, nil)`, and `GetUser` returns the
first element of a non-empty list. -/
theorem existence_checks (L : Lib β) (c : Client σ β) (key : String) (w : σ) :
    ((∀ x, (c.GetPrivilege L key).result w = .ok x →
        (c.PrivilegeExists L key).result w = (true, none)) ∧
      (∀ body, (c.httpClient w (c.newRequest "GET"
          ("/service/rest/v1/security/privileges/" ++ key) .none)).1 = .response 404 body →
        (c.PrivilegeExists L key).result w = (false, none)) ∧
      (∀ err, (c.GetPrivilege L key).result w = .error err →
        stringsContains err "not found" = true →
        (c.PrivilegeExists L key).result w = (false, none))) ∧
    ((∀ x, (c.GetRole L key).result w = .ok x →
        (c.RoleExists L key).result w = (true, none)) ∧
      (∀ body, (c.httpClient w (c.newRequest "GET"
          ("/service/rest/v1/security/roles/" ++ key) .none)).1 = .response 404 body →
        (c.RoleExists L key).result w = (false, none)) ∧
      (∀ err, (c.GetRole L key).result w = .error err →
        stringsContains err "not found" = true →
        (c.RoleExists L key).result w = (false, none))) ∧
    ((∀ x, (c.GetRepository L key).result w = .ok x →
        (c.RepositoryExists L key).result w = (true, none)) ∧
      (∀ body, (c.httpClient w (c.newRequest "GET"
          ("/service/rest/v1/repositories/" ++ key) .none)).1 = .response 404 body →
        (c.RepositoryExists L key).result w = (false, none)) ∧
      (∀ err, (c.GetRepository L key).result w = .error err →
        stringsContains err "not found" = true →
        (c.RepositoryExists L key).result w = (false, none))) ∧
    ((∀ x, (c.GetUser L key).result w = .ok x →
        (c.UserExists L key).result w = (true, none)) ∧
      (∀ body, (c.httpClient w (c.newRequest "GET"
          ("/service/rest/v1/security/users?userId=" ++ key) .none)).1 = .response 404 body →
        (c.UserExists L key).result w = (false, none)) ∧
      (∀ err, (c.GetUser L key).result w = .error err →
        stringsContains err "not found" = true →
        (c.UserExists L key).result w = (false, none)) ∧
      (∀ status body, (c.httpClient w (c.newRequest "GET"
          ("/service/rest/v1/security/users?userId=" ++ key) .none)).1 = .response status body →
        200 ≤ status → status < 300 → L.unmarshalUsers body = .ok [] →
        (c.GetUser L key).result w = .error ("user " ++ key ++ " not found") ∧
        (c.UserExists L key).result w = (false, none)) ∧
      (∀ status body u rest, (c.httpClient w (c.newRequest "GET"
          ("/service/rest/v1/security/users?userId=" ++ key) .none)).1 = .response status body →
        200 ≤ status → status < 300 → L.unmarshalUsers body = .ok (u :: rest) →
        (c.GetUser L key).result w = .ok u ∧
        (c.UserExists L key).result w = (true, none))) := by
  have h404 : ∀ body, Client.readReply L (.response 404 body) =
      .error ("request failed with status " ++ toString (404 : Int) ++ ": " ++ L.bodyText body) := by
    intro body
    simp [Client.readReply]
  have hok : ∀ status body, (200 : Int) ≤ status → status < 300 →
      Client.readReply L (.response status body) = .ok body := by
    intro status body h1 h2
    have : ¬ (status < 200 ∨ status ≥ 300) := by omega
    simp [Client.readReply, this]
  refine ⟨⟨?_, ?_, ?_⟩, ⟨?_, ?_, ?_⟩, ⟨?_, ?_, ?_⟩, ⟨?_, ?_, ?_, ?_, ?_⟩⟩
  · intro x h; simp [Client.PrivilegeExists, h]
  · intro body h
    simp [Client.PrivilegeExists, Client.GetPrivilege, Client.get, h, h404,
      status_404_text_contains_404]
  · intro err h hc; simp [Client.PrivilegeExists, h, hc]
  · intro x h; simp [Client.RoleExists, h]
  · intro body h
    simp [Client.RoleExists, Client.GetRole, Client.get, h, h404,
      status_404_text_contains_404]
  · intro err h hc; simp [Client.RoleExists, h, hc]
  · intro x h; simp [Client.RepositoryExists, h]
  · intro body h
    simp [Client.RepositoryExists, Client.GetRepository, Client.get, h, h404,
      status_404_text_contains_404]
  · intro err h hc; simp [Client.RepositoryExists, h, hc]
  · intro x h; simp [Client.UserExists, h]
  · intro body h
    simp [Client.UserExists, Client.GetUser, Client.get, h, h404,
      status_404_text_contains_404]
  · intro err h hc; simp [Client.UserExists, h, hc]
  · intro status body h h1 h2 hdec
    have hget : (c.GetUser L key).result w = .error ("user " ++ key ++ " not found") := by
      simp [Client.GetUser, Client.get, h, hok status body h1 h2, hdec]
    refine ⟨hget, ?_⟩
    have hc : stringsContains ("user " ++ key ++ " not found") "not found" = true :=
      stringsContains_of_data _ _ ("user ".data ++ key.data ++ " ".data) [] (by
        simp [String.data_append])
    simp [Client.UserExists, hget, hc]
  · intro status body u rest h h1 h2 hdec
    have hget : (c.GetUser L key).result w = .ok u := by
      simp [Client.GetUser, Client.get, h, hok status body h1 h2, hdec]
    exact ⟨hget, by simp [Client.UserExists, hget]⟩

/-- Witness of C10, on the model server: the role `nx-admin` is fetched, so it
exists; the role `ghost` is answered 404, so it does not; the user list for `bob`
is empty, so `bob` does not exist; the list for `alice` has her as first element. -/
theorem existence_checks_on_model :
    (example_.builtinApply.client.RoleExists model.lib "nx-admin").result
      example_.builtinStore = (true, none) ∧
    (example_.builtinApply.client.RoleExists model.lib "ghost").result
      example_.builtinStore = (false, none) ∧
    ((example_.aliceService.client.GetUser model.lib "bob").result example_.aliceStore =
        .error ("user " ++ "bob" ++ " not found") ∧
      (example_.aliceService.client.UserExists model.lib "bob").result example_.aliceStore =
        (false, none)) ∧
    ((example_.aliceService.client.GetUser model.lib "alice").result example_.aliceStore =
        .ok example_.alice ∧
      (example_.aliceService.client.UserExists model.lib "alice").result example_.aliceStore =
        (true, none)) :=
  ⟨(existence_checks model.lib example_.builtinApply.client "nx-admin"
      example_.builtinStore).2.1.1 example_.nxAdmin (by decide),
   (existence_checks model.lib example_.builtinApply.client "ghost"
      example_.builtinStore).2.1.2.1 (.text "not found") (by decide),
   (existence_checks model.lib example_.aliceService.client "bob"
      example_.aliceStore).2.2.2.2.2.2.1 200 (.users []) (by decide) (by decide) (by decide)
      (by decide),
   (existence_checks model.lib example_.aliceService.client "alice"
      example_.aliceStore).2.2.2.2.2.2.2 200 (.users [example_.alice]) example_.alice []
      (by decide) (by decide) (by decide) (by decide)⟩

end service

/-! ## The model server: routing -/

namespace model

open nexus

theorem stripLeading_append (pre s : String) : stripLeading pre (pre ++ s) = some s := by
  simp [stripLeading, String.data_append]

theorem stripTrailing_append (s suf : String) : stripTrailing suf (s ++ suf) = some s := by
  simp [stripTrailing, String.data_append]

/-- A GET leaves the store of the model server as it is. -/
theorem server_get_unchanged (base : String) (st : Store) (req : Request)
    (h : req.method = "GET") : (server base st req).2 = st := by
  simp only [server, route]
  split <;> simp [h]

theorem privilegePath_eq (t p : String) (h : Client.privilegePath t = some p) :
    p = "/service/rest/v1/security/privileges/" ++ t := by
  unfold Client.privilegePath at h
  split_ifs at h <;> simp_all

theorem server_get (base path : String) (st : Store) :
    (routeClient base).httpClient st ((routeClient base).newRequest "GET" path .none) =
      (handleGet st path, st) := by
  simp [route, Client.newRequest, routeClient, stripLeading_append]

theorem server_post (base path : String) (body : Body) (st : Store) :
    (routeClient base).httpClient st ((routeClient base).newRequest "POST" path body) =
      handlePost st path body := by
  simp [route, Client.newRequest, routeClient, stripLeading_append]

theorem server_put (base path : String) (body : Body) (st : Store) :
    (routeClient base).httpClient st ((routeClient base).newRequest "PUT" path body) =
      handlePut st path body := by
  simp [route, Client.newRequest, routeClient, stripLeading_append]

theorem handleGet_privilege (st : Store) (k : String) :
    handleGet st ("/service/rest/v1/security/privileges/" ++ k) =
      match st.privileges k with
      | some p => .response 200 (.privilege p)
      | none => notFound := by
  simp [handleGet, stripLeading_append]

theorem handleGet_role (st : Store) (k : String) :
    handleGet st ("/service/rest/v1/security/roles/" ++ k) =
      match st.roles k with
      | some r => .response 200 (.role r)
      | none => notFound := by
  have h1 : stripLeading "/service/rest/v1/security/privileges/"
      ("/service/rest/v1/security/roles/" ++ k) = none := by
    simp [stripLeading, String.data_append, List.isPrefixOf]
  simp [handleGet, stripLeading_append, h1]

theorem handleGet_repository (st : Store) (k : String) :
    handleGet st ("/service/rest/v1/repositories/" ++ k) =
      match st.repositories k with
      | some fields => .response 200 (.repository fields)
      | none => notFound := by
  have h1 : stripLeading "/service/rest/v1/security/privileges/"
      ("/service/rest/v1/repositories/" ++ k) = none := by
    simp [stripLeading, String.data_append, List.isPrefixOf]
  have h2 : stripLeading "/service/rest/v1/security/roles/"
      ("/service/rest/v1/repositories/" ++ k) = none := by
    simp [stripLeading, String.data_append, List.isPrefixOf]
  simp [handleGet, stripLeading_append, h1, h2]

theorem handleGet_user (st : Store) (k : String) :
    handleGet st ("/service/rest/v1/security/users?userId=" ++ k) =
      match st.users k with
      | some u => .response 200 (.users [u.user])
      | none => .response 200 (.users []) := by
  have h1 : stripLeading "/service/rest/v1/security/privileges/"
      ("/service/rest/v1/security/users?userId=" ++ k) = none := by
    simp [stripLeading, String.data_append, List.isPrefixOf]
  have h2 : stripLeading "/service/rest/v1/security/roles/"
      ("/service/rest/v1/security/users?userId=" ++ k) = none := by
    simp [stripLeading, String.data_append, List.isPrefixOf]
  have h3 : stripLeading "/service/rest/v1/repositories/"
      ("/service/rest/v1/security/users?userId=" ++ k) = none := by
    simp [stripLeading, String.data_append, List.isPrefixOf]
  simp [handleGet, stripLeading_append, h1, h2, h3]

/-! ## The model server: what each client method does -/

theorem readReply_notFound :
    Client.readReply lib notFound =
      .error ("request failed with status " ++ toString (404 : Int) ++ ": " ++ "not found") := by
  simp [Client.readReply, notFound, lib]

theorem PrivilegeExists_model (base k : String) (st : Store) :
    ((routeClient base).PrivilegeExists lib k).result st = ((st.privileges k).isSome, none) ∧
    ((routeClient base).PrivilegeExists lib k).final st = st := by
  refine ⟨?_, by simp [server_get]⟩
  cases h : st.privileges k with
  | none =>
    simp [Client.PrivilegeExists, Client.GetPrivilege, Client.get, server_get,
      handleGet_privilege, h, readReply_notFound, status_404_text_contains_404]
  | some p =>
    simp [Client.PrivilegeExists, Client.GetPrivilege, Client.get, server_get,
      handleGet_privilege, h, Client.readReply, lib]

theorem GetRole_model (base k : String) (st : Store) (r : RoleResponse)
    (h : st.roles k = some r) :
    ((routeClient base).GetRole lib k).result st = .ok r := by
  simp [Client.GetRole, Client.get, server_get, handleGet_role, h, Client.readReply, lib]

theorem RoleExists_model (base k : String) (st : Store) :
    ((routeClient base).RoleExists lib k).result st = ((st.roles k).isSome, none) ∧
    ((routeClient base).RoleExists lib k).final st = st := by
  refine ⟨?_, by simp [server_get]⟩
  cases h : st.roles k with
  | none =>
    simp [Client.RoleExists, Client.GetRole, Client.get, server_get,
      handleGet_role, h, readReply_notFound, status_404_text_contains_404]
  | some p =>
    simp [Client.RoleExists, Client.GetRole, Client.get, server_get,
      handleGet_role, h, Client.readReply, lib]

theorem GetRepository_model (base k : String) (st : Store) :
    ((routeClient base).GetRepository lib k).result st =
      (match st.repositories k with
       | some fields => .ok fields
       | none => .error ("failed to get repository " ++ k ++ ": " ++
          ("request failed with status " ++ toString (404 : Int) ++ ": " ++ "not found"))) ∧
    ((routeClient base).GetRepository lib k).final st = st := by
  refine ⟨?_, by simp [server_get]⟩
  cases h : st.repositories k with
  | none =>
    simp [Client.GetRepository, Client.get, server_get, handleGet_repository, h,
      readReply_notFound]
  | some p =>
    simp [Client.GetRepository, Client.get, server_get, handleGet_repository, h,
      Client.readReply, lib]

theorem RepositoryExists_model (base k : String) (st : Store) :
    ((routeClient base).RepositoryExists lib k).result st = ((st.repositories k).isSome, none) ∧
    ((routeClient base).RepositoryExists lib k).final st = st := by
  refine ⟨?_, by simp [server_get]⟩
  cases h : st.repositories k with
  | none =>
    simp [Client.RepositoryExists, (GetRepository_model base k st).1, h,
      status_404_text_contains_404]
  | some p =>
    simp [Client.RepositoryExists, (GetRepository_model base k st).1, h]

theorem GetUser_model (base k : String) (st : Store) :
    ((routeClient base).GetUser lib k).result st =
      (match st.users k with
       | some u => .ok u.user
       | none => .error ("user " ++ k ++ " not found")) ∧
    ((routeClient base).GetUser lib k).final st = st := by
  refine ⟨?_, by simp [server_get]⟩
  cases h : st.users k with
  | none =>
    simp [Client.GetUser, Client.get, server_get, handleGet_user, h, Client.readReply, lib]
  | some p =>
    simp [Client.GetUser, Client.get, server_get, handleGet_user, h, Client.readReply, lib]

theorem UserExists_model (base k : String) (st : Store) :
    ((routeClient base).UserExists lib k).result st = ((st.users k).isSome, none) ∧
    ((routeClient base).UserExists lib k).final st = st := by
  refine ⟨?_, by simp [server_get]⟩
  cases h : st.users k with
  | none =>
    have hc : stringsContains ("user " ++ k ++ " not found") "not found" = true :=
      stringsContains_of_data _ _ ("user ".data ++ k.data ++ " ".data) [] (by
        simp [String.data_append])
    simp [Client.UserExists, (GetUser_model base k st).1, h, hc]
  | some p =>
    simp [Client.UserExists, (GetUser_model base k st).1, h]

end model

namespace model

open nexus service

theorem Store.ext_fields {a b : Store} (h1 : a.privileges = b.privileges)
    (h2 : a.roles = b.roles) (h3 : a.repositories = b.repositories) (h4 : a.users = b.users) :
    a = b := by
  cases a; cases b; simp_all

theorem CreatePrivilege_model (base : String) (req : PrivilegeRequest) (st : Store) :
    (∀ path, Client.privilegePath req.Type_ = some path →
      ((routeClient base).CreatePrivilege lib req).result st = none ∧
      ((routeClient base).CreatePrivilege lib req).final st =
        { st with privileges := Function.update st.privileges req.Name (some
          { Name := req.Name, Description := req.Description, Type_ := req.Type_,
            Format := req.Format, Repository := req.Repository, Actions := req.Actions,
            ReadOnly := false }) }) ∧
    (Client.privilegePath req.Type_ = none →
      (∃ err, ((routeClient base).CreatePrivilege lib req).result st = some err) ∧
      ((routeClient base).CreatePrivilege lib req).final st = st) := by
  constructor
  · intro path hp
    have hpath := privilegePath_eq _ _ hp
    subst hpath
    simp [Client.CreatePrivilege, hp, Client.post, server_post, handlePost,
      stripLeading_append, noContent, Client.readReply, lib]
  · intro hp
    simp [Client.CreatePrivilege, hp]

theorem CreateRole_model (base : String) (req : RoleRequest) (st : Store) :
    ((routeClient base).CreateRole lib req).result st = none ∧
    ((routeClient base).CreateRole lib req).final st =
      { st with roles := Function.update st.roles req.ID (some (roleRecord req none)) } := by
  simp [Client.CreateRole, Client.post, server_post, handlePost, Client.readReply, lib,
    roleRecord]

theorem UpdateRole_model (base k : String) (req : RoleRequest) (st : Store)
    (old : RoleResponse) (h : st.roles k = some old) :
    ((routeClient base).UpdateRole lib k req).result st = none ∧
    ((routeClient base).UpdateRole lib k req).final st =
      { st with roles := Function.update st.roles k (some (roleRecord req (some old))) } := by
  simp [Client.UpdateRole, Client.put, server_put, handlePut, stripLeading_append, h,
    noContent, Client.readReply, lib, roleRecord]

theorem CreateUser_model (base : String) (req : UserRequest) (st : Store) :
    ((routeClient base).CreateUser lib req).result st = none ∧
    ((routeClient base).CreateUser lib req).final st =
      { st with users := Function.update st.users req.UserID (some
        { user :=
            { UserID := req.UserID, FirstName := req.FirstName, LastName := req.LastName,
              EmailAddress := req.EmailAddress, Status := req.Status, Roles := req.Roles,
              Source := "default" }
          password := req.Password }) } := by
  simp [Client.CreateUser, Client.post, server_post, handlePost, Client.readReply, lib]

theorem UpdateUser_model (base k : String) (req : UserRequest) (st : Store)
    (old : UserRecord) (h : st.users k = some old) :
    ((routeClient base).UpdateUser lib k req).result st = none ∧
    ((routeClient base).UpdateUser lib k req).final st =
      { st with users := Function.update st.users k (some
        { user :=
            { UserID := req.UserID, FirstName := req.FirstName, LastName := req.LastName,
              EmailAddress := req.EmailAddress, Status := req.Status, Roles := req.Roles,
              Source := req.Source }
          password := old.password }) } := by
  simp [Client.UpdateUser, Client.put, server_put, handlePut, stripLeading_append, h,
    noContent, Client.readReply, lib]

theorem ChangePassword_model (base k newPassword : String) (st : Store)
    (old : UserRecord) (h : st.users k = some old) :
    ((routeClient base).ChangePassword lib k newPassword).result st = none ∧
    ((routeClient base).ChangePassword lib k newPassword).final st =
      { st with
        users := Function.update st.users k (some { old with password := newPassword }) } := by
  have hpath : "/service/rest/v1/security/users/" ++ k ++ "/change-password" =
      "/service/rest/v1/security/users/" ++ (k ++ "/change-password") := by
    simp [String.append_assoc]
  simp [Client.ChangePassword, Client.put, server_put, handlePut, hpath, stripLeading_append,
    stripTrailing_append, h, noContent, Client.readReply, lib]

end model

namespace model

open nexus service

/-! ## The model server: what each apply iteration does -/

theorem applyPrivilege_model (base : String) (cfg : config.Config) (priv : config.Privilege)
    (st : Store) :
    ((st.privileges priv.Name).isSome = true →
      ((routeService base cfg).applyPrivilege lib priv).result st = .next false ∧
      ((routeService base cfg).applyPrivilege lib priv).calls st =
        [(routeClient base).newRequest "GET"
          ("/service/rest/v1/security/privileges/" ++ priv.Name) .none]) ∧
    (∀ b, ((routeService base cfg).applyPrivilege lib priv).result st = .next b →
      ((routeService base cfg).applyPrivilege lib priv).final st = privilegeEffect priv st) ∧
    ((∃ err, ((routeService base cfg).applyPrivilege lib priv).result st = .abort err) →
      ((routeService base cfg).applyPrivilege lib priv).final st = st) := by
  have hex := PrivilegeExists_model base priv.Name st
  cases hp : st.privileges priv.Name with
  | some p =>
    simp [ApplyService.applyPrivilege, routeService, hex.1, hp, privilegeEffect, server_get]
  | none =>
    cases hpath : Client.privilegePath priv.Type_ with
    | none =>
      have hc := (CreatePrivilege_model base
        { Name := priv.Name, Description := priv.Description, Type_ := priv.Type_,
          Format := priv.Format, Repository := priv.Repository, Actions := priv.Actions,
          Pattern := "", Domain := "" } st).2 hpath
      obtain ⟨⟨err, herr⟩, hfin⟩ := hc
      simp [ApplyService.applyPrivilege, routeService, hex.1, hp, privilegeEffect, server_get,
        herr, Client.CreatePrivilege, hpath]
    | some path =>
      have hc := (CreatePrivilege_model base
        { Name := priv.Name, Description := priv.Description, Type_ := priv.Type_,
          Format := priv.Format, Repository := priv.Repository, Actions := priv.Actions,
          Pattern := "", Domain := "" } st).1 path hpath
      have hfin := hc.2
      dsimp only at hfin
      simp [ApplyService.applyPrivilege, routeService, hex.1, hp, privilegeEffect, server_get,
        hc.1, privilegeRecord, hfin]

end model

namespace model

open nexus service

theorem applyRole_model (base : String) (cfg : config.Config) (role : config.Role)
    (st : Store) :
    ((routeService base cfg).applyRole lib role).result st = .next true ∧
    ((routeService base cfg).applyRole lib role).final st = roleEffect role st ∧
    ((st.roles role.ID).isSome = true →
      ((routeService base cfg).applyRole lib role).calls st =
        [(routeClient base).newRequest "GET" ("/service/rest/v1/security/roles/" ++ role.ID) .none,
         (routeClient base).newRequest "PUT" ("/service/rest/v1/security/roles/" ++ role.ID)
          (.role (roleRequestOf role))]) := by
  have hex := RoleExists_model base role.ID st
  cases hp : st.roles role.ID with
  | some old =>
    have hu := UpdateRole_model base role.ID (roleRequestOf role) st old hp
    simp only [roleRequestOf] at hu
    simp only [ApplyService.applyRole, routeService, Gw.result_bind, Gw.final_bind,
      Gw.calls_bind, hex.1, hex.2, hp, Option.isSome_some, if_true, hu.1, hu.2,
      Client.calls_RoleExists, Client.calls_UpdateRole]
    simp [roleEffect, Store.putRole, hp, roleRequestOf]
  | none =>
    have hu := CreateRole_model base (roleRequestOf role) st
    simp only [roleRequestOf] at hu
    simp only [ApplyService.applyRole, routeService, Gw.result_bind, Gw.final_bind,
      Gw.calls_bind, hex.1, hex.2, hp, Option.isSome_none, Bool.false_eq_true, if_false,
      hu.1, hu.2]
    simp [roleEffect, Store.putRole, hp, roleRequestOf]

theorem applyUser_model (base : String) (cfg : config.Config) (user : config.User)
    (st : Store) :
    ((routeService base cfg).applyUser lib user).result st = .next true ∧
    ((routeService base cfg).applyUser lib user).final st = userEffect user st ∧
    ((st.users user.ID).isSome = true →
      (∀ r ∈ ((routeService base cfg).applyUser lib user).calls st, r.method ≠ "POST") ∧
      ∃ req, (routeClient base).newRequest "PUT" ("/service/rest/v1/security/users/" ++ user.ID)
        (.user req) ∈ ((routeService base cfg).applyUser lib user).calls st) := by
  have hex := UserExists_model base user.ID st
  have hget := GetUser_model base user.ID st
  cases hp : st.users user.ID with
  | some old =>
    have hu := UpdateUser_model base user.ID
      { UserID := user.ID, FirstName := user.FirstName, LastName := user.LastName,
        EmailAddress := user.EmailAddress, Status := user.Status, Roles := user.Roles,
        Password := "", Source := old.user.Source } st old hp
    dsimp only at hu
    by_cases hpw : user.Password = ""
    · simp only [ApplyService.applyUser, routeService, Gw.result_bind, Gw.final_bind,
        Gw.calls_bind, hex.1, hex.2, hget.1, hget.2, hp, Option.isSome_some, if_true,
        hu.1, hu.2, hpw, ne_eq, not_true_eq_false, if_false, formatter.final_Success,
        Client.calls_UserExists, Client.calls_GetUser, Client.calls_UpdateUser]
      simp [userEffect, userRecord, hp, hpw, Client.newRequest]
    · have hcp := ChangePassword_model base user.ID user.Password
        { st with users := Function.update st.users user.ID (some
          { user :=
              { UserID := user.ID, FirstName := user.FirstName, LastName := user.LastName,
                EmailAddress := user.EmailAddress, Status := user.Status, Roles := user.Roles,
                Source := old.user.Source }
            password := old.password }) }
        { user :=
            { UserID := user.ID, FirstName := user.FirstName, LastName := user.LastName,
              EmailAddress := user.EmailAddress, Status := user.Status, Roles := user.Roles,
              Source := old.user.Source }
          password := old.password } (by simp)
      dsimp only at hcp
      simp only [ApplyService.applyUser, routeService, Gw.result_bind, Gw.final_bind,
        Gw.calls_bind, hex.1, hex.2, hget.1, hget.2, hp, Option.isSome_some, if_true,
        hu.1, hu.2, hpw, ne_eq, not_false_eq_true, formatter.final_Success,
        Client.calls_UserExists, Client.calls_GetUser, Client.calls_UpdateUser, hcp.1, hcp.2,
        Client.calls_ChangePassword]
      simp [userEffect, userRecord, hp, hpw, Client.newRequest]
  | none =>
    have hu := CreateUser_model base
      { UserID := user.ID, FirstName := user.FirstName, LastName := user.LastName,
        EmailAddress := user.EmailAddress, Status := user.Status, Roles := user.Roles,
        Password := user.Password, Source := "" } st
    dsimp only at hu
    simp only [ApplyService.applyUser, routeService, Gw.result_bind, Gw.final_bind,
      Gw.calls_bind, hex.1, hex.2, hp, Option.isSome_none, Bool.false_eq_true, if_false,
      hu.1, hu.2]
    simp [userEffect, userRecord, hp]

end model

/-! ## Loops under an invariant -/

section LoopInvariants

variable {σ β α : Type}

/-- A loop whose iterations never abort under an invariant they preserve returns
no error and leaves the invariant in force. -/
theorem forRange_ok_of_invariant (body : α → Gw σ β Step) (I : σ → Prop) (xs : List α)
    (hstep : ∀ x ∈ xs, ∀ s, I s → (∃ b, (body x).result s = .next b) ∧ I ((body x).final s)) :
    ∀ (c : Nat) (st : σ), I st →
      ((forRange body xs c).result st).2 = none ∧ I ((forRange body xs c).final st) := by
  induction xs with
  | nil => intro c st h; exact ⟨rfl, h⟩
  | cons x xs ih =>
    intro c st h
    obtain ⟨⟨b, hb⟩, hI⟩ := hstep x (List.mem_cons_self _ _) st h
    have hn := forRange_cons_next body x xs c st b hb
    rw [hn.1, hn.2.1]
    exact ih (fun y hy => hstep y (List.mem_cons_of_mem _ hy)) _ _ hI

/-- A property preserved by every iteration holds after the loop. -/
theorem forRange_preserves (body : α → Gw σ β Step) (P : σ → Prop) (xs : List α)
    (hstep : ∀ x ∈ xs, ∀ s, P s → P ((body x).final s)) :
    ∀ (c : Nat) (st : σ), P st → P ((forRange body xs c).final st) := by
  induction xs with
  | nil => intro c st h; exact h
  | cons x xs ih =>
    intro c st h
    have hP := hstep x (List.mem_cons_self _ _) st h
    cases hb : (body x).result st with
    | abort e =>
      rw [(forRange_cons_abort body x xs c st e hb).2.1]; exact hP
    | next b =>
      rw [(forRange_cons_next body x xs c st b hb).2.1]
      exact ih (fun y hy => hstep y (List.mem_cons_of_mem _ hy)) _ _ hP

/-- The calls of a loop satisfy what the calls of every iteration satisfy under an
invariant the iterations preserve. -/
theorem forRange_calls_of_invariant (body : α → Gw σ β Step) (I : σ → Prop)
    (P : Request → Prop) (xs : List α)
    (hstep : ∀ x ∈ xs, ∀ s, I s → I ((body x).final s) ∧ ∀ r ∈ (body x).calls s, P r) :
    ∀ (c : Nat) (st : σ), I st → ∀ r ∈ (forRange body xs c).calls st, P r := by
  induction xs with
  | nil => intro c st _ r hr; simp [forRange_nil] at hr
  | cons x xs ih =>
    intro c st h r hr
    obtain ⟨hI, hP⟩ := hstep x (List.mem_cons_self _ _) st h
    rw [forRange_cons, Gw.calls_bind, List.mem_append] at hr
    rcases hr with hr | hr
    · exact hP r hr
    · cases hb : (body x).result st with
      | abort e => simp [hb] at hr
      | next b =>
        simp only [hb] at hr
        exact ih (fun y hy => hstep y (List.mem_cons_of_mem _ hy)) _ _ hI r hr

/-- Under an invariant that keeps the iterations from aborting, the calls of each
entry, made in some world satisfying the invariant, are among the calls of the
loop. -/
theorem forRange_calls_of_member (body : α → Gw σ β Step) (I : σ → Prop) (xs : List α)
    (hstep : ∀ x ∈ xs, ∀ s, I s → (∃ b, (body x).result s = .next b) ∧ I ((body x).final s)) :
    ∀ (c : Nat) (st : σ), I st → ∀ x ∈ xs, ∃ s, I s ∧
      ∀ r ∈ (body x).calls s, r ∈ (forRange body xs c).calls st := by
  induction xs with
  | nil => intro c st _ x hx; simp at hx
  | cons y ys ih =>
    intro c st h x hx
    obtain ⟨⟨b, hb⟩, hI⟩ := hstep y (List.mem_cons_self _ _) st h
    have hcalls : (forRange body (y :: ys) c).calls st =
        (body y).calls st ++ (forRange body ys (if b then c + 1 else c)).calls ((body y).final st) := by
      simp [forRange_cons, hb]
    rcases List.mem_cons.mp hx with rfl | hx
    · exact ⟨st, h, fun r hr => by rw [hcalls]; exact List.mem_append_left _ hr⟩
    · obtain ⟨s, hs, hsub⟩ := ih (fun z hz => hstep z (List.mem_cons_of_mem _ hz)) _ _ hI x hx
      exact ⟨s, hs, fun r hr => by rw [hcalls]; exact List.mem_append_right _ (hsub r hr)⟩

/-- The world a loop leaves when it returns no error is the fold of the effects
of its iterations. -/
theorem forRange_final_foldl (body : α → Gw σ β Step) (eff : α → σ → σ)
    (heff : ∀ x s b, (body x).result s = .next b → (body x).final s = eff x s) (xs : List α) :
    ∀ (c : Nat) (st : σ), ((forRange body xs c).result st).2 = none →
      (forRange body xs c).final st = xs.foldl (fun s x => eff x s) st := by
  induction xs with
  | nil => intro c st _; rfl
  | cons x xs ih =>
    intro c st h
    cases hb : (body x).result st with
    | abort e =>
      rw [(forRange_cons_abort body x xs c st e hb).1] at h
      simp at h
    | next b =>
      have hn := forRange_cons_next body x xs c st b hb
      rw [hn.1] at h
      rw [hn.2.1, heff x st b hb, List.foldl_cons]
      rw [heff x st b hb] at h
      exact ih _ _ h

/-- After a loop that returned no error, what each iteration establishes holds for
every entry, provided later iterations preserve it. -/
theorem forRange_establishes (body : α → Gw σ β Step) (Q : α → σ → Prop)
    (hest : ∀ x s b, (body x).result s = .next b → Q x ((body x).final s))
    (hpres : ∀ x y s b, (body y).result s = .next b → Q x s → Q x ((body y).final s))
    (xs : List α) :
    ∀ (c : Nat) (st : σ), ((forRange body xs c).result st).2 = none →
      (∀ x, Q x st → Q x ((forRange body xs c).final st)) ∧
      ∀ x ∈ xs, Q x ((forRange body xs c).final st) := by
  induction xs with
  | nil => intro c st _; exact ⟨fun x h => h, fun x hx => by simp at hx⟩
  | cons y ys ih =>
    intro c st h
    cases hb : (body y).result st with
    | abort e =>
      rw [(forRange_cons_abort body y ys c st e hb).1] at h
      simp at h
    | next b =>
      have hn := forRange_cons_next body y ys c st b hb
      rw [hn.1] at h
      obtain ⟨ih1, ih2⟩ := ih _ _ h
      rw [hn.2.1]
      refine ⟨fun x hx => ih1 x (hpres x y st b hb hx), ?_⟩
      intro x hx
      rcases List.mem_cons.mp hx with rfl | hx
      · exact ih1 _ (hest _ st b hb)
      · exact ih2 x hx

end LoopInvariants

namespace model

open nexus service

theorem Store.Grows.refl (st : Store) : st.Grows st :=
  ⟨fun _ h => h, fun _ h => h, fun _ _ h => h, fun _ h => h⟩

theorem Store.Grows.trans {a b c : Store} (h1 : a.Grows b) (h2 : b.Grows c) : a.Grows c :=
  ⟨fun k h => h2.1 k (h1.1 k h), fun k h => h2.2.1 k (h1.2.1 k h),
   fun k f h => h2.2.2.1 k f (h1.2.2.1 k f h), fun k h => h2.2.2.2 k (h1.2.2.2 k h)⟩

theorem isSome_update_of_isSome {V : Type} (f : String → Option V) (k k2 : String) (v : V)
    (h : (f k2).isSome = true) : (Function.update f k (some v) k2).isSome = true := by
  by_cases hk : k2 = k
  · subst hk; simp
  · simp [Function.update_noteq hk, h]

theorem privilegeEffect_grows (priv : config.Privilege) (st : Store) :
    st.Grows (privilegeEffect priv st) := by
  unfold privilegeEffect
  split
  · exact Store.Grows.refl st
  · exact ⟨fun _ h => isSome_update_of_isSome _ _ _ _ h, fun _ h => h, fun _ _ h => h,
      fun _ h => h⟩

theorem roleEffect_grows (role : config.Role) (st : Store) :
    st.Grows (roleEffect role st) :=
  ⟨fun _ h => h, fun _ h => isSome_update_of_isSome _ _ _ _ h, fun _ _ h => h, fun _ h => h⟩

theorem userEffect_grows (user : config.User) (st : Store) :
    st.Grows (userEffect user st) :=
  ⟨fun _ h => h, fun _ h => h, fun _ _ h => h, fun _ h => isSome_update_of_isSome _ _ _ _ h⟩

theorem permissionEffect_grows (perm : config.UserRepositoryPermission) (st : Store) :
    st.Grows (permissionEffect perm st) := by
  refine ⟨fun _ h => h, fun _ h => isSome_update_of_isSome _ _ _ _ h, fun _ _ h => h, ?_⟩
  intro k h
  simp only [permissionEffect]
  by_cases hk : k = perm.UserID
  · subst hk
    simpa using h
  · simpa [Function.update_noteq hk] using h

theorem createRepositoryAt_model (base path label : String) (req : RepositoryRequest)
    (st : Store) :
    (((routeClient base).createRepositoryAt lib path label req).final st = st ∧
      ∃ err, ((routeClient base).createRepositoryAt lib path label req).result st = some err) ∨
    (∃ fields, ((routeClient base).createRepositoryAt lib path label req).final st =
      { st with repositories := Function.update st.repositories req.Name (some fields) }) := by
  cases hl : repositoryEndpoints.lookup path with
  | none =>
    left
    simp [Client.createRepositoryAt, Client.post, server_post, handlePost, hl,
      readReply_notFound]
  | some ft =>
    right
    exact ⟨[("name", .str req.Name), ("format", .str ft.1), ("type", .str ft.2),
      ("online", .bool req.Online)], by simp [server_post, handlePost, hl]⟩

theorem applyRepository_model (base : String) (cfg : config.Config) (repo : config.Repository)
    (st : Store) :
    ((st.repositories repo.Name).isSome = true →
      ((routeService base cfg).applyRepository lib repo).result st = .next false ∧
      ((routeService base cfg).applyRepository lib repo).final st = st ∧
      ((routeService base cfg).applyRepository lib repo).calls st =
        [(routeClient base).newRequest "GET" ("/service/rest/v1/repositories/" ++ repo.Name) .none]) ∧
    st.Grows (((routeService base cfg).applyRepository lib repo).final st) ∧
    (((routeService base cfg).applyRepository lib repo).final st).privileges = st.privileges ∧
    (((routeService base cfg).applyRepository lib repo).final st).roles = st.roles ∧
    (((routeService base cfg).applyRepository lib repo).final st).users = st.users ∧
    (∀ b, ((routeService base cfg).applyRepository lib repo).result st = .next b →
      ((((routeService base cfg).applyRepository lib repo).final st).repositories
        repo.Name).isSome = true) := by
  have hex := RepositoryExists_model base repo.Name st
  cases hp : st.repositories repo.Name with
  | some fields =>
    simp only [ApplyService.applyRepository, routeService, Gw.result_bind, Gw.final_bind,
      Gw.calls_bind, hex.1, hex.2, hp, Option.isSome_some, if_true, formatter.final_Info,
      Client.calls_RepositoryExists]
    simp [Store.Grows.refl, hp]
  | none =>
    have hfinal : ((routeService base cfg).applyRepository lib repo).final st =
        ((routeService base cfg).createRepository lib repo).final st := by
      simp only [ApplyService.applyRepository, routeService, Gw.result_bind, Gw.final_bind,
        hex.1, hex.2, hp, Option.isSome_none, Bool.false_eq_true, if_false]
      split <;> simp
    have hresult : ∀ b, ((routeService base cfg).applyRepository lib repo).result st = .next b →
        ((routeService base cfg).createRepository lib repo).result st = none := by
      intro b
      simp only [ApplyService.applyRepository, routeService, Gw.result_bind, Gw.final_bind,
        hex.1, hex.2, hp, Option.isSome_none, Bool.false_eq_true, if_false]
      split <;> simp_all
    rw [hfinal]
    refine ⟨by simp, ?_⟩
    rcases ApplyService.createRepository_shape lib (routeService base cfg) repo with
      ⟨path, label, hs⟩ | ⟨err, hs⟩
    · rw [hs] at hresult ⊢
      rcases createRepositoryAt_model base path label (ApplyService.repositoryRequest repo) st with
        ⟨hfin, err, herr⟩ | ⟨fields, hfin⟩
      · simp only [routeService] at hresult ⊢
        rw [hfin]
        refine ⟨Store.Grows.refl st, rfl, rfl, rfl, ?_⟩
        intro b hb
        have := hresult b hb
        simp [herr] at this
      · simp only [routeService] at hresult ⊢
        rw [hfin]
        have hname : (ApplyService.repositoryRequest repo).Name = repo.Name := rfl
        refine ⟨⟨fun _ h => h, fun _ h => h, ?_, fun _ h => h⟩, rfl, rfl, rfl, ?_⟩
        · intro k f hk
          have hne : k ≠ repo.Name := by
            rintro rfl
            simp [hp] at hk
          rw [hname]
          show Function.update st.repositories repo.Name (some fields) k = some f
          rw [Function.update_noteq hne, hk]
        · intro b _
          rw [hname]
          show (Function.update st.repositories repo.Name (some fields) repo.Name).isSome = true
          rw [Function.update_same]; rfl
    · rw [hs] at hresult ⊢
      refine ⟨Store.Grows.refl st, rfl, rfl, rfl, ?_⟩
      intro b hb
      have := hresult b hb
      simp at this

end model

namespace model

open nexus service

theorem assignPermissionRole_model (base : String) (cfg : config.Config)
    (perm : config.UserRepositoryPermission) (roleName : String) (st : Store) :
    (∀ o, st.users perm.UserID = some o →
      ((routeService base cfg).assignPermissionRole lib perm roleName).result st = .next true ∧
      ((routeService base cfg).assignPermissionRole lib perm roleName).final st =
        { st with users := Function.update st.users perm.UserID (some (assignRole roleName o)) } ∧
      ∀ r ∈ ((routeService base cfg).assignPermissionRole lib perm roleName).calls st,
        r.method ≠ "POST") ∧
    (st.users perm.UserID = none →
      ∃ err, ((routeService base cfg).assignPermissionRole lib perm roleName).result st
        = .abort err) := by
  have hget := GetUser_model base perm.UserID st
  constructor
  · intro o ho
    by_cases hmem : roleName ∈ o.user.Roles
    · have hany : (o.user.Roles.any fun r => r == roleName) = true := by
        simpa using hmem
      have hself : Function.update st.users perm.UserID (some o) = st.users := by
        rw [← ho]; exact Function.update_eq_self _ _
      simp only [ApplyService.assignPermissionRole, routeService, Gw.result_bind,
        Gw.final_bind, Gw.calls_bind, hget.1, hget.2, ho, hany, Bool.not_true,
        Bool.false_eq_true, if_false, Client.calls_GetUser]
      simp [assignRole, hmem, hself, Client.newRequest]
    · have hany : (o.user.Roles.any fun r => r == roleName) = false := by
        cases h : (o.user.Roles.any fun r => r == roleName) with
        | false => rfl
        | true =>
          rw [List.any_eq_true] at h
          obtain ⟨x, hx, hxe⟩ := h
          have : x = roleName := by simpa using hxe
          exact absurd (this ▸ hx) hmem
      have hu := UpdateUser_model base perm.UserID
        { UserID := o.user.UserID, FirstName := o.user.FirstName, LastName := o.user.LastName,
          EmailAddress := o.user.EmailAddress, Status := o.user.Status,
          Source := o.user.Source, Roles := o.user.Roles ++ [roleName], Password := "" }
        st o ho
      dsimp only at hu
      simp only [ApplyService.assignPermissionRole, routeService, Gw.result_bind,
        Gw.final_bind, Gw.calls_bind, hget.1, hget.2, ho, hany, Bool.not_false, if_true,
        hu.1, hu.2, Client.calls_GetUser, Client.calls_UpdateUser]
      simp [assignRole, hmem, Client.newRequest]
  · intro hnone
    simp [ApplyService.assignPermissionRole, routeService, hget.1, hnone]

theorem applyPermission_model (base : String) (cfg : config.Config)
    (perm : config.UserRepositoryPermission) (st : Store) :
    (permissionOk perm st →
      ((routeService base cfg).applyUserRepositoryPermission lib perm).result st
        = .next true ∧
      ((routeService base cfg).applyUserRepositoryPermission lib perm).final st =
        permissionEffect perm st ∧
      ((st.roles (ApplyService.permissionRoleName perm)).isSome = true →
        ∀ r ∈ ((routeService base cfg).applyUserRepositoryPermission lib perm).calls st,
          r.method ≠ "POST")) ∧
    (∀ b, ((routeService base cfg).applyUserRepositoryPermission lib perm).result st
        = .next b → permissionOk perm st) := by
  have hrepo := GetRepository_model base perm.Repository st
  have hex := RoleExists_model base (ApplyService.permissionRoleName perm) st
  cases hr : st.repositories perm.Repository with
  | none =>
    have hnot : ¬ permissionOk perm st := by
      simp [permissionOk, Store.formatOf, hr]
    refine ⟨fun h => absurd h hnot, ?_⟩
    intro b hb
    simp [ApplyService.applyUserRepositoryPermission, routeService, hrepo.1, hr] at hb
  | some fields =>
    by_cases hfmt : ApplyService.repositoryFormat fields = ""
    · have hnot : ¬ permissionOk perm st := by
        simp [permissionOk, Store.formatOf, hr, hfmt]
      refine ⟨fun h => absurd h hnot, ?_⟩
      intro b hb
      simp [ApplyService.applyUserRepositoryPermission, routeService, hrepo.1, hr, hfmt] at hb
    · have hformatOf : st.formatOf perm.Repository = ApplyService.repositoryFormat fields := by
        simp [Store.formatOf, hr]
      have hput : ∀ (st2 : Store), st2.users = st.users →
          st2.roles = Function.update st.roles (ApplyService.permissionRoleName perm)
            (some (roleRecord (derivedRoleRequest perm (ApplyService.repositoryFormat fields))
              (st.roles (ApplyService.permissionRoleName perm)))) →
          st2.privileges = st.privileges → st2.repositories = st.repositories →
          (permissionOk perm st →
            ((routeService base cfg).assignPermissionRole lib perm
              (ApplyService.permissionRoleName perm)).result st2 = .next true ∧
            ((routeService base cfg).assignPermissionRole lib perm
              (ApplyService.permissionRoleName perm)).final st2 = permissionEffect perm st ∧
            ∀ r ∈ ((routeService base cfg).assignPermissionRole lib perm
              (ApplyService.permissionRoleName perm)).calls st2, r.method ≠ "POST") ∧
          (∀ b, ((routeService base cfg).assignPermissionRole lib perm
              (ApplyService.permissionRoleName perm)).result st2 = .next b →
            permissionOk perm st) := by
        intro st2 hu2 hr2 hp2 hrepo2
        have ha := assignPermissionRole_model base cfg perm
          (ApplyService.permissionRoleName perm) st2
        cases huser : st.users perm.UserID with
        | none =>
          have hnot : ¬ permissionOk perm st := by
            simp [permissionOk, huser]
          refine ⟨fun h => absurd h hnot, ?_⟩
          intro b hb
          obtain ⟨err, herr⟩ := ha.2 (by rw [hu2, huser])
          rw [herr] at hb
          simp at hb
        | some o =>
          obtain ⟨h1, h2, h3⟩ := ha.1 o (by rw [hu2, huser])
          have hok : permissionOk perm st := by
            simp [permissionOk, hformatOf, hfmt, huser]
          refine ⟨fun _ => ⟨h1, ?_, h3⟩, fun _ _ => hok⟩
          rw [h2]
          apply Store.ext_fields
          · exact hp2
          · simp [permissionEffect, hr2, hformatOf]
          · exact hrepo2
          · simp [permissionEffect, hu2, huser]
      cases hrole : st.roles (ApplyService.permissionRoleName perm) with
      | some old =>
        have hu := UpdateRole_model base (ApplyService.permissionRoleName perm)
          (derivedRoleRequest perm (ApplyService.repositoryFormat fields)) st old hrole
        simp only [derivedRoleRequest] at hu
        have hfin := hu.2
        have hput2 :
            ({ st with
                roles := Function.update st.roles (ApplyService.permissionRoleName perm)
                  (some (roleRecord
                    (derivedRoleRequest perm (ApplyService.repositoryFormat fields)) (some old))) }
              : Store) =
            st.putRole (ApplyService.permissionRoleName perm)
              (derivedRoleRequest perm (ApplyService.repositoryFormat fields)) := by
          simp [Store.putRole, hrole]
        simp only [derivedRoleRequest] at hput2
        rw [hput2] at hfin
        have hp := hput (st.putRole (ApplyService.permissionRoleName perm)
          (derivedRoleRequest perm (ApplyService.repositoryFormat fields))) rfl rfl rfl rfl
        simp only [derivedRoleRequest] at hp
        simp only [ApplyService.applyUserRepositoryPermission, routeService, Gw.result_bind,
          Gw.final_bind, Gw.calls_bind, hrepo.1, hrepo.2, hr, hfmt, if_false, hex.1, hex.2,
          hrole, Option.isSome_some, if_true, hu.1, hfin, formatter.final_Success,
          Client.calls_GetRepository, Client.calls_RoleExists, Client.calls_UpdateRole,
          formatter.calls_Success]
        simp only [routeService] at hp
        refine ⟨fun hok => ⟨(hp.1 hok).1, (hp.1 hok).2.1, fun _ r hrm => ?_⟩, hp.2⟩
        simp only [List.mem_append, List.mem_singleton, List.not_mem_nil, or_false,
          false_or] at hrm
        rcases hrm with rfl | rfl | rfl | hrm
        · simp [Client.newRequest]
        · simp [Client.newRequest]
        · simp [Client.newRequest]
        · exact (hp.1 hok).2.2 r hrm
      | none =>
        have hu := CreateRole_model base
          (derivedRoleRequest perm (ApplyService.repositoryFormat fields)) st
        simp only [derivedRoleRequest] at hu
        have hfin := hu.2
        have hput2 :
            ({ st with
                roles := Function.update st.roles (ApplyService.permissionRoleName perm)
                  (some (roleRecord
                    (derivedRoleRequest perm (ApplyService.repositoryFormat fields)) none)) }
              : Store) =
            st.putRole (ApplyService.permissionRoleName perm)
              (derivedRoleRequest perm (ApplyService.repositoryFormat fields)) := by
          simp [Store.putRole, hrole]
        simp only [derivedRoleRequest] at hput2
        rw [hput2] at hfin
        have hp := hput (st.putRole (ApplyService.permissionRoleName perm)
          (derivedRoleRequest perm (ApplyService.repositoryFormat fields))) rfl rfl rfl rfl
        simp only [derivedRoleRequest] at hp
        simp only [ApplyService.applyUserRepositoryPermission, routeService, Gw.result_bind,
          Gw.final_bind, Gw.calls_bind, hrepo.1, hrepo.2, hr, hfmt, if_false, hex.1, hex.2,
          hrole, Option.isSome_none, Bool.false_eq_true, hu.1, hfin, formatter.final_Success]
        simp only [routeService] at hp
        exact ⟨fun hok => ⟨(hp.1 hok).1, (hp.1 hok).2.1, fun h => by simp at h⟩, hp.2⟩

end model

/-! ## Writes to a keyed table, entry by entry -/

namespace model

open nexus service

theorem writeRoles_apply (ws : List (String × RoleRequest)) :
    ∀ (R : String → Option RoleResponse) (k : String),
      writeRoles ws R k = roleChain k ws (R k) := by
  induction ws with
  | nil => intro R k; rfl
  | cons w ws ih =>
    intro R k
    rw [writeRoles, roleChain, ih, Function.update_apply]
    by_cases hk : k = w.1
    · simp only [hk, if_true]
    · simp only [hk, if_false]

theorem writeRoles_append (ws vs : List (String × RoleRequest)) :
    ∀ R : String → Option RoleResponse,
      writeRoles (ws ++ vs) R = writeRoles vs (writeRoles ws R) := by
  induction ws with
  | nil => intro R; rfl
  | cons w ws ih => intro R; exact ih _

theorem roleRecord_congr (req : RoleRequest) (x y : Option RoleResponse)
    (h : roleFlags x = roleFlags y) : roleRecord req x = roleRecord req y := by
  cases x <;> cases y <;> simp_all [roleFlags, roleRecord]

theorem roleFlags_roleRecord (req : RoleRequest) (x : Option RoleResponse) :
    roleFlags (some (roleRecord req x)) = roleFlags x := by
  cases x <;> simp [roleFlags, roleRecord]

theorem roleFlags_roleChain (k : String) (ws : List (String × RoleRequest)) :
    ∀ x, roleFlags (roleChain k ws x) = roleFlags x := by
  induction ws with
  | nil => intro x; rfl
  | cons w ws ih =>
    intro x
    rw [roleChain, ih]
    split
    · exact roleFlags_roleRecord _ _
    · rfl

theorem roleChain_congr (k : String) (ws : List (String × RoleRequest)) :
    ∀ x y, roleFlags x = roleFlags y → (∃ w ∈ ws, k = w.1) →
      roleChain k ws x = roleChain k ws y := by
  induction ws with
  | nil => intro x y _ h; simp at h
  | cons w ws ih =>
    intro x y hf hw
    rw [roleChain, roleChain]
    by_cases hk : k = w.1
    · simp only [hk, if_true, roleRecord_congr w.2 x y hf]
    · simp only [hk, if_false]
      apply ih x y hf
      obtain ⟨v, hv, hkv⟩ := hw
      rcases List.mem_cons.mp hv with rfl | hv
      · exact absurd hkv hk
      · exact ⟨v, hv, hkv⟩

theorem roleChain_untouched (k : String) (ws : List (String × RoleRequest)) :
    ∀ x, (∀ w ∈ ws, k ≠ w.1) → roleChain k ws x = x := by
  induction ws with
  | nil => intro x _; rfl
  | cons w ws ih =>
    intro x h
    rw [roleChain, if_neg (h w (List.mem_cons_self _ _))]
    exact ih x (fun v hv => h v (List.mem_cons_of_mem _ hv))

theorem roleChain_idempotent (k : String) (ws : List (String × RoleRequest))
    (x : Option RoleResponse) :
    roleChain k ws (roleChain k ws x) = roleChain k ws x := by
  by_cases h : ∃ w ∈ ws, k = w.1
  · exact roleChain_congr k ws _ _ (roleFlags_roleChain k ws x) h
  · push_neg at h
    rw [roleChain_untouched k ws x h, roleChain_untouched k ws x h]

/-- Writing the same roles a second time changes nothing. -/
theorem writeRoles_idempotent (ws : List (String × RoleRequest))
    (R : String → Option RoleResponse) :
    writeRoles ws (writeRoles ws R) = writeRoles ws R := by
  funext k
  rw [writeRoles_apply, writeRoles_apply, roleChain_idempotent]

theorem upsertUsers_apply (us : List config.User) :
    ∀ (U : String → Option UserRecord) (k : String),
      upsertUsers us U k = userChain k us (U k) := by
  induction us with
  | nil => intro U k; rfl
  | cons u us ih =>
    intro U k
    rw [upsertUsers, userChain, ih, Function.update_apply]
    by_cases hk : k = u.ID
    · simp only [hk, if_true]
    · simp only [hk, if_false]

theorem assignUsers_apply (as : List (String × String)) :
    ∀ (U : String → Option UserRecord) (k : String),
      assignUsers as U k = assignChain k as (U k) := by
  induction as with
  | nil => intro U k; rfl
  | cons a as ih =>
    intro U k
    rw [assignUsers, assignChain, ih, Function.update_apply]
    by_cases hk : k = a.1
    · simp only [hk, if_true]
    · simp only [hk, if_false]

theorem userAuth_assignRole (roleName : String) (x : Option UserRecord) :
    userAuth (x.map (assignRole roleName)) = userAuth x := by
  cases x with
  | none => rfl
  | some o =>
    simp only [userAuth, Option.map_some', assignRole]
    split <;> rfl

theorem userAuth_assignChain (k : String) (as : List (String × String)) :
    ∀ x, userAuth (assignChain k as x) = userAuth x := by
  induction as with
  | nil => intro x; rfl
  | cons a as ih =>
    intro x
    rw [assignChain, ih]
    split
    · exact userAuth_assignRole _ _
    · rfl

theorem hasRole_assignRole (roleName : String) (x : Option UserRecord) :
    HasRole roleName (x.map (assignRole roleName)) := by
  intro o ho
  cases x with
  | none => simp at ho
  | some a =>
    simp only [Option.map_some', Option.some.injEq] at ho
    subst ho
    unfold assignRole
    split
    · assumption
    · simp

theorem hasRole_assignRole_other (roleName other : String) (x : Option UserRecord)
    (h : HasRole roleName x) : HasRole roleName (x.map (assignRole other)) := by
  intro o ho
  cases x with
  | none => simp at ho
  | some a =>
    simp only [Option.map_some', Option.some.injEq] at ho
    subst ho
    have := h a rfl
    unfold assignRole
    split
    · assumption
    · simp [this]

theorem hasRole_assignChain (roleName k : String) (as : List (String × String)) :
    ∀ x, HasRole roleName x → HasRole roleName (assignChain k as x) := by
  induction as with
  | nil => intro x h; exact h
  | cons a as ih =>
    intro x h
    rw [assignChain]
    apply ih
    split
    · exact hasRole_assignRole_other _ _ _ h
    · exact h

theorem assignRole_of_hasRole (roleName : String) (x : Option UserRecord)
    (h : HasRole roleName x) : x.map (assignRole roleName) = x := by
  cases x with
  | none => rfl
  | some a => simp [assignRole, h a rfl]

theorem assignChain_idempotent (k : String) (as : List (String × String)) :
    ∀ x, assignChain k as (assignChain k as x) = assignChain k as x := by
  induction as with
  | nil => intro x; rfl
  | cons a as ih =>
    intro x
    by_cases hk : k = a.1
    · simp only [assignChain, hk, if_true]
      have h1 : HasRole a.2 (assignChain a.1 as (x.map (assignRole a.2))) :=
        hasRole_assignChain _ _ _ _ (hasRole_assignRole _ _)
      rw [assignRole_of_hasRole _ _ h1]
      exact hk ▸ ih _
    · simp only [assignChain, hk, if_false]
      exact ih x

end model

namespace model

open nexus service

theorem userChain_append_singleton (k : String) (us : List config.User) (u : config.User) :
    ∀ x, userChain k (us ++ [u]) x =
      if k = u.ID then some (userRecord u (userChain k us x)) else userChain k us x := by
  induction us with
  | nil => intro x; rfl
  | cons v us ih => intro x; exact ih _

theorem userChain_untouched (k : String) (us : List config.User) :
    ∀ x, (∀ u ∈ us, k ≠ u.ID) → userChain k us x = x := by
  induction us with
  | nil => intro x _; rfl
  | cons u us ih =>
    intro x h
    rw [userChain, if_neg (h u (List.mem_cons_self _ _))]
    exact ih x (fun v hv => h v (List.mem_cons_of_mem _ hv))

theorem userChain_some (k : String) (us : List config.User) :
    ∀ y : UserRecord, ∃ a, userChain k us (some y) = some a ∧
      a.user.Source = y.user.Source := by
  induction us with
  | nil => intro y; exact ⟨y, rfl, rfl⟩
  | cons u us ih =>
    intro y
    rw [userChain]
    split
    · obtain ⟨a, ha, hs⟩ := ih (userRecord u (some y))
      exact ⟨a, ha, by rw [hs]; rfl⟩
    · exact ih y

theorem userChain_isSome_of_write (k : String) (us : List config.User) :
    (∃ u ∈ us, k = u.ID) → ∀ x : Option UserRecord, ∃ o, userChain k us x = some o := by
  induction us using List.reverseRecOn with
  | nil => intro h; simp at h
  | append_singleton us v ih =>
    intro h x
    rw [userChain_append_singleton]
    by_cases hkv : k = v.ID
    · simp only [hkv, if_true]
      exact ⟨_, rfl⟩
    · simp only [hkv, if_false]
      apply ih
      obtain ⟨t, ht, hkt⟩ := h
      rcases List.mem_append.mp ht with ht | ht
      · exact ⟨t, ht, hkt⟩
      · simp only [List.mem_singleton] at ht
        subst ht
        exact absurd hkt hkv

/-- Processing the manifest users again, starting from an entry that has the
source and password the first pass produced, reproduces what the first pass
produced. -/
theorem userChain_absorb (k : String) (us : List config.User) :
    (∃ u ∈ us, k = u.ID) → ∀ (x : Option UserRecord) (y : UserRecord),
      userAuth (some y) = userAuth (userChain k us x) →
      userChain k us (some y) = userChain k us x := by
  induction us using List.reverseRecOn with
  | nil => intro h; simp at h
  | append_singleton us u ih =>
    intro hw x y hauth
    rw [userChain_append_singleton] at hauth ⊢
    rw [userChain_append_singleton]
    by_cases hk : k = u.ID
    · simp only [hk, if_true] at hauth ⊢
      obtain ⟨a, ha, hsrc⟩ := userChain_some u.ID us y
      rw [ha]
      by_cases hw2 : ∃ v ∈ us, k = v.ID
      · -- an earlier entry wrote the key
        obtain ⟨b, hx⟩ := userChain_isSome_of_write k us hw2 x
        rw [hk] at hx
        rw [hx] at hauth ⊢
        simp only [userAuth, Option.map_some', Option.some.injEq, Prod.mk.injEq] at hauth
        by_cases hpw : u.Password = ""
        · have hb : userAuth (some y) = userAuth (userChain k us x) := by
            rw [hk, hx]
            simp only [userAuth, Option.map_some', Option.some.injEq, Prod.mk.injEq]
            simpa [userRecord, hpw] using hauth
          have := ih hw2 x y hb
          rw [hk, ha, hx] at this
          rw [this]
        · congr 1
          simp [userRecord, hsrc, hauth.1, hpw]
      · -- no earlier entry wrote the key
        push_neg at hw2
        rw [hk] at hw2
        have hy : userChain u.ID us (some y) = some y := userChain_untouched _ _ _ hw2
        have hx : userChain u.ID us x = x := userChain_untouched _ _ _ hw2
        rw [hy] at ha
        simp only [Option.some.injEq] at ha
        subst ha
        rw [hx] at hauth ⊢
        cases x with
        | none =>
          simp only [userAuth, Option.map_some', Option.some.injEq, Prod.mk.injEq] at hauth
          congr 1
          simp only [userRecord, hauth.1, hauth.2]
          by_cases hpw : u.Password = "" <;> simp [hpw]
        | some b =>
          simp only [userAuth, Option.map_some', Option.some.injEq, Prod.mk.injEq] at hauth
          congr 1
          simp only [userRecord, hauth.1, hauth.2]
          by_cases hpw : u.Password = "" <;> simp [hpw]
    · simp only [hk, if_false] at hauth ⊢
      apply ih _ x y hauth
      obtain ⟨v, hv, hkv⟩ := hw
      rcases List.mem_append.mp hv with hv | hv
      · exact ⟨v, hv, hkv⟩
      · simp only [List.mem_singleton] at hv
        subst hv
        exact absurd hkv hk

/-- Entry by entry, an apply run (users, then role assignments) repeated on its
own result changes nothing. -/
theorem users_chain_idempotent (k : String) (us : List config.User)
    (as : List (String × String)) (x : Option UserRecord) :
    assignChain k as (userChain k us (assignChain k as (userChain k us x))) =
      assignChain k as (userChain k us x) := by
  by_cases hw : ∃ u ∈ us, k = u.ID
  · cases hy : assignChain k as (userChain k us x) with
    | none =>
      -- impossible: the key was written, and assignments keep an entry
      have h1 := userAuth_assignChain k as (userChain k us x)
      rw [hy] at h1
      exfalso
      obtain ⟨o, ho⟩ := userChain_isSome_of_write k us hw x
      rw [ho] at h1
      simp [userAuth] at h1
    | some y =>
      have h1 := userAuth_assignChain k as (userChain k us x)
      rw [hy] at h1
      rw [userChain_absorb k us hw x y h1, hy]
  · push_neg at hw
    rw [userChain_untouched k us _ hw, userChain_untouched k us _ hw]
    exact assignChain_idempotent k as x

/-- Table-wide: an apply run repeated on its own result leaves the users as they
are. -/
theorem users_idempotent (us : List config.User) (as : List (String × String))
    (U : String → Option UserRecord) :
    assignUsers as (upsertUsers us (assignUsers as (upsertUsers us U))) =
      assignUsers as (upsertUsers us U) := by
  funext k
  simp only [assignUsers_apply, upsertUsers_apply]
  exact users_chain_idempotent k us as (U k)

end model

/-! ## A successful apply run, step by step -/

namespace service

open nexus

variable {σ β : Type}

/-- `Apply` returns no error exactly when its five steps, run in sequence, return
none; the world it leaves and the calls it makes are then those of the five
steps. -/
theorem ApplyService.Apply_success_iff (L : Lib β) (s : ApplyService σ β) (w : σ) :
    ((s.Apply L).result w).2 = none ↔
      ((forRange (s.applyPrivilege L) s.config.Privileges 0).result w).2 = none ∧
      ((forRange (s.applyRole L) s.config.Roles 0).result
        ((forRange (s.applyPrivilege L) s.config.Privileges 0).final w)).2 = none ∧
      ((forRange (s.applyRepository L) s.config.Repositories 0).result
        ((forRange (s.applyRole L) s.config.Roles 0).final
          ((forRange (s.applyPrivilege L) s.config.Privileges 0).final w))).2 = none ∧
      ((forRange (s.applyUser L) s.config.Users 0).result
        ((forRange (s.applyRepository L) s.config.Repositories 0).final
          ((forRange (s.applyRole L) s.config.Roles 0).final
            ((forRange (s.applyPrivilege L) s.config.Privileges 0).final w)))).2 = none ∧
      ((forRange (s.applyUserRepositoryPermission L) s.config.UserRepositoryPermissions 0).result
        ((forRange (s.applyUser L) s.config.Users 0).final
          ((forRange (s.applyRepository L) s.config.Repositories 0).final
            ((forRange (s.applyRole L) s.config.Roles 0).final
              ((forRange (s.applyPrivilege L) s.config.Privileges 0).final w))))).2 = none := by
  simp only [ApplyService.Apply, ApplyService.applyPrivileges, ApplyService.applyRoles,
    ApplyService.applyRepositories, ApplyService.applyUsers,
    ApplyService.applyUserRepositoryPermissions, Gw.result_bind, Gw.final_bind,
    formatter.final_Info]
  obtain h1 | ⟨e1, h1⟩ := Option.eq_none_or_eq_some
    ((forRange (s.applyPrivilege L) s.config.Privileges 0).result w).2
  swap
  · simp [h1]
  obtain h2 | ⟨e2, h2⟩ := Option.eq_none_or_eq_some
    ((forRange (s.applyRole L) s.config.Roles 0).result
      ((forRange (s.applyPrivilege L) s.config.Privileges 0).final w)).2
  swap
  · simp [h1, h2]
  obtain h3 | ⟨e3, h3⟩ := Option.eq_none_or_eq_some
    ((forRange (s.applyRepository L) s.config.Repositories 0).result
      ((forRange (s.applyRole L) s.config.Roles 0).final
        ((forRange (s.applyPrivilege L) s.config.Privileges 0).final w))).2
  swap
  · simp [h1, h2, h3]
  obtain h4 | ⟨e4, h4⟩ := Option.eq_none_or_eq_some
    ((forRange (s.applyUser L) s.config.Users 0).result
      ((forRange (s.applyRepository L) s.config.Repositories 0).final
        ((forRange (s.applyRole L) s.config.Roles 0).final
          ((forRange (s.applyPrivilege L) s.config.Privileges 0).final w)))).2
  swap
  · simp [h1, h2, h3, h4]
  obtain h5 | ⟨e5, h5⟩ := Option.eq_none_or_eq_some
    ((forRange (s.applyUserRepositoryPermission L) s.config.UserRepositoryPermissions 0).result
      ((forRange (s.applyUser L) s.config.Users 0).final
        ((forRange (s.applyRepository L) s.config.Repositories 0).final
          ((forRange (s.applyRole L) s.config.Roles 0).final
            ((forRange (s.applyPrivilege L) s.config.Privileges 0).final w))))).2 <;>
    simp [h1, h2, h3, h4, h5]

/-- The world and the calls of an `Apply` that returns no error. -/
theorem ApplyService.Apply_success_run (L : Lib β) (s : ApplyService σ β) (w : σ)
    (h : ((s.Apply L).result w).2 = none) :
    (s.Apply L).final w =
      (forRange (s.applyUserRepositoryPermission L) s.config.UserRepositoryPermissions 0).final
        ((forRange (s.applyUser L) s.config.Users 0).final
          ((forRange (s.applyRepository L) s.config.Repositories 0).final
            ((forRange (s.applyRole L) s.config.Roles 0).final
              ((forRange (s.applyPrivilege L) s.config.Privileges 0).final w)))) ∧
    (s.Apply L).calls w =
      (forRange (s.applyPrivilege L) s.config.Privileges 0).calls w ++
      ((forRange (s.applyRole L) s.config.Roles 0).calls
        ((forRange (s.applyPrivilege L) s.config.Privileges 0).final w) ++
      ((forRange (s.applyRepository L) s.config.Repositories 0).calls
        ((forRange (s.applyRole L) s.config.Roles 0).final
          ((forRange (s.applyPrivilege L) s.config.Privileges 0).final w)) ++
      ((forRange (s.applyUser L) s.config.Users 0).calls
        ((forRange (s.applyRepository L) s.config.Repositories 0).final
          ((forRange (s.applyRole L) s.config.Roles 0).final
            ((forRange (s.applyPrivilege L) s.config.Privileges 0).final w))) ++
      (forRange (s.applyUserRepositoryPermission L) s.config.UserRepositoryPermissions 0).calls
        ((forRange (s.applyUser L) s.config.Users 0).final
          ((forRange (s.applyRepository L) s.config.Repositories 0).final
            ((forRange (s.applyRole L) s.config.Roles 0).final
              ((forRange (s.applyPrivilege L) s.config.Privileges 0).final w))))))) := by
  obtain ⟨h1, h2, h3, h4, h5⟩ := (ApplyService.Apply_success_iff L s w).mp h
  constructor
  · simp [ApplyService.Apply, ApplyService.applyPrivileges, ApplyService.applyRoles,
      ApplyService.applyRepositories, ApplyService.applyUsers,
      ApplyService.applyUserRepositoryPermissions, h1, h2, h3, h4, h5]
  · simp [ApplyService.Apply, ApplyService.applyPrivileges, ApplyService.applyRoles,
      ApplyService.applyRepositories, ApplyService.applyUsers,
      ApplyService.applyUserRepositoryPermissions, h1, h2, h3, h4, h5]

end service

/-! ## The model server: what each apply loop does -/

namespace model

open nexus service

theorem applyPrivilege_final_cases (base : String) (cfg : config.Config)
    (priv : config.Privilege) (st : Store) :
    ((routeService base cfg).applyPrivilege lib priv).final st = privilegeEffect priv st ∨
    ((routeService base cfg).applyPrivilege lib priv).final st = st := by
  have h := applyPrivilege_model base cfg priv st
  cases hr : ((routeService base cfg).applyPrivilege lib priv).result st with
  | next b => exact Or.inl (h.2.1 b hr)
  | abort e => exact Or.inr (h.2.2 ⟨e, hr⟩)

theorem privilegeEffect_frame (priv : config.Privilege) (st : Store) :
    (privilegeEffect priv st).roles = st.roles ∧
    (privilegeEffect priv st).repositories = st.repositories ∧
    (privilegeEffect priv st).users = st.users := by
  unfold privilegeEffect
  split <;> exact ⟨rfl, rfl, rfl⟩

theorem privilegeEffect_isSome (priv : config.Privilege) (st : Store) :
    ((privilegeEffect priv st).privileges priv.Name).isSome = true := by
  unfold privilegeEffect
  split
  · assumption
  · simp

/-- The privileges loop on the model server. -/
theorem privileges_loop (base : String) (cfg : config.Config) (xs : List config.Privilege)
    (c : Nat) (st : Store) :
    ((forRange ((routeService base cfg).applyPrivilege lib) xs c).final st).roles = st.roles ∧
    ((forRange ((routeService base cfg).applyPrivilege lib) xs c).final st).repositories
      = st.repositories ∧
    ((forRange ((routeService base cfg).applyPrivilege lib) xs c).final st).users = st.users ∧
    (((forRange ((routeService base cfg).applyPrivilege lib) xs c).result st).2 = none →
      ∀ p ∈ xs, (((forRange ((routeService base cfg).applyPrivilege lib) xs c).final
        st).privileges p.Name).isSome = true) ∧
    ((∀ p ∈ xs, (st.privileges p.Name).isSome = true) →
      ((forRange ((routeService base cfg).applyPrivilege lib) xs c).result st).2 = none ∧
      (forRange ((routeService base cfg).applyPrivilege lib) xs c).final st = st ∧
      ∀ r ∈ (forRange ((routeService base cfg).applyPrivilege lib) xs c).calls st,
        r.method ≠ "POST") := by
  have hframe := forRange_preserves ((routeService base cfg).applyPrivilege lib)
    (fun s => s.roles = st.roles ∧ s.repositories = st.repositories ∧ s.users = st.users) xs
    (by
      intro x _ s hs
      rcases applyPrivilege_final_cases base cfg x s with h | h
      · rw [h]
        have := privilegeEffect_frame x s
        exact ⟨this.1.trans hs.1, this.2.1.trans hs.2.1, this.2.2.trans hs.2.2⟩
      · rw [h]; exact hs) c st ⟨rfl, rfl, rfl⟩
  refine ⟨hframe.1, hframe.2.1, hframe.2.2, ?_, ?_⟩
  · intro hok
    exact (forRange_establishes ((routeService base cfg).applyPrivilege lib)
      (fun p s => (s.privileges p.Name).isSome = true)
      (by
        intro x s b hb
        rw [(applyPrivilege_model base cfg x s).2.1 b hb]
        exact privilegeEffect_isSome x s)
      (by
        intro x y s b hb hx
        rw [(applyPrivilege_model base cfg y s).2.1 b hb]
        exact (privilegeEffect_grows y s).1 _ hx) xs c st hok).2
  · intro hall
    have hstep : ∀ x ∈ xs, ∀ s, s = st →
        (∃ b, ((routeService base cfg).applyPrivilege lib x).result s = .next b) ∧
        ((routeService base cfg).applyPrivilege lib x).final s = st := by
      intro x hx s hs
      subst hs
      have h := applyPrivilege_model base cfg x s
      have hres := (h.1 (hall x hx)).1
      refine ⟨⟨false, hres⟩, ?_⟩
      rw [h.2.1 false hres]
      simp [privilegeEffect, hall x hx]
    have h1 := forRange_ok_of_invariant ((routeService base cfg).applyPrivilege lib)
      (fun s => s = st) xs hstep c st rfl
    refine ⟨h1.1, h1.2, ?_⟩
    exact forRange_calls_of_invariant ((routeService base cfg).applyPrivilege lib)
      (fun s => s = st) (fun r => r.method ≠ "POST") xs
      (by
        intro x hx s hs
        refine ⟨(hstep x hx s hs).2, ?_⟩
        subst hs
        intro r hr
        rw [((applyPrivilege_model base cfg x s).1 (hall x hx)).2] at hr
        simp only [List.mem_singleton] at hr
        subst hr
        simp [Client.newRequest]) c st rfl

/-- The repositories loop on the model server. -/
theorem repositories_loop (base : String) (cfg : config.Config) (xs : List config.Repository)
    (c : Nat) (st : Store) :
    ((forRange ((routeService base cfg).applyRepository lib) xs c).final st).roles = st.roles ∧
    ((forRange ((routeService base cfg).applyRepository lib) xs c).final st).privileges
      = st.privileges ∧
    ((forRange ((routeService base cfg).applyRepository lib) xs c).final st).users = st.users ∧
    st.Grows ((forRange ((routeService base cfg).applyRepository lib) xs c).final st) ∧
    (((forRange ((routeService base cfg).applyRepository lib) xs c).result st).2 = none →
      ∀ p ∈ xs, (((forRange ((routeService base cfg).applyRepository lib) xs c).final
        st).repositories p.Name).isSome = true) ∧
    ((∀ p ∈ xs, (st.repositories p.Name).isSome = true) →
      ((forRange ((routeService base cfg).applyRepository lib) xs c).result st).2 = none ∧
      (forRange ((routeService base cfg).applyRepository lib) xs c).final st = st ∧
      ∀ r ∈ (forRange ((routeService base cfg).applyRepository lib) xs c).calls st,
        r.method ≠ "POST") := by
  have hframe := forRange_preserves ((routeService base cfg).applyRepository lib)
    (fun s => s.roles = st.roles ∧ s.privileges = st.privileges ∧ s.users = st.users ∧
      st.Grows s) xs
    (by
      intro x _ s hs
      have h := applyRepository_model base cfg x s
      exact ⟨h.2.2.2.1.trans hs.1, h.2.2.1.trans hs.2.1, h.2.2.2.2.1.trans hs.2.2.1,
        hs.2.2.2.trans h.2.1⟩) c st ⟨rfl, rfl, rfl, Store.Grows.refl st⟩
  refine ⟨hframe.1, hframe.2.1, hframe.2.2.1, hframe.2.2.2, ?_, ?_⟩
  · intro hok
    exact (forRange_establishes ((routeService base cfg).applyRepository lib)
      (fun p s => (s.repositories p.Name).isSome = true)
      (by
        intro x s b hb
        exact (applyRepository_model base cfg x s).2.2.2.2.2 b hb)
      (by
        intro x y s b _ hx
        obtain ⟨f, hf⟩ := Option.isSome_iff_exists.mp hx
        rw [(applyRepository_model base cfg y s).2.1.2.2.1 _ f hf]
        rfl) xs c st hok).2
  · intro hall
    have hstep : ∀ x ∈ xs, ∀ s, s = st →
        (∃ b, ((routeService base cfg).applyRepository lib x).result s = .next b) ∧
        ((routeService base cfg).applyRepository lib x).final s = st := by
      intro x hx s hs
      subst hs
      have h := (applyRepository_model base cfg x s).1 (hall x hx)
      exact ⟨⟨false, h.1⟩, h.2.1⟩
    have h1 := forRange_ok_of_invariant ((routeService base cfg).applyRepository lib)
      (fun s => s = st) xs hstep c st rfl
    refine ⟨h1.1, h1.2, ?_⟩
    exact forRange_calls_of_invariant ((routeService base cfg).applyRepository lib)
      (fun s => s = st) (fun r => r.method ≠ "POST") xs
      (by
        intro x hx s hs
        refine ⟨(hstep x hx s hs).2, ?_⟩
        subst hs
        intro r hr
        rw [((applyRepository_model base cfg x s).1 (hall x hx)).2.2] at hr
        simp only [List.mem_singleton] at hr
        subst hr
        simp [Client.newRequest]) c st rfl

end model

namespace model

open nexus service

/-! ### What the folds of the effects store -/

theorem foldl_roleEffect (xs : List config.Role) :
    ∀ st : Store,
      (xs.foldl (fun s x => roleEffect x s) st).roles =
        writeRoles (xs.map fun role => (role.ID, roleRequestOf role)) st.roles ∧
      (xs.foldl (fun s x => roleEffect x s) st).privileges = st.privileges ∧
      (xs.foldl (fun s x => roleEffect x s) st).repositories = st.repositories ∧
      (xs.foldl (fun s x => roleEffect x s) st).users = st.users := by
  induction xs with
  | nil => intro st; exact ⟨rfl, rfl, rfl, rfl⟩
  | cons x xs ih =>
    intro st
    have h := ih (roleEffect x st)
    exact ⟨h.1, h.2.1, h.2.2.1, h.2.2.2⟩

theorem foldl_userEffect (xs : List config.User) :
    ∀ st : Store,
      (xs.foldl (fun s x => userEffect x s) st).users = upsertUsers xs st.users ∧
      (xs.foldl (fun s x => userEffect x s) st).privileges = st.privileges ∧
      (xs.foldl (fun s x => userEffect x s) st).repositories = st.repositories ∧
      (xs.foldl (fun s x => userEffect x s) st).roles = st.roles := by
  induction xs with
  | nil => intro st; exact ⟨rfl, rfl, rfl, rfl⟩
  | cons x xs ih =>
    intro st
    have h := ih (userEffect x st)
    exact ⟨h.1, h.2.1, h.2.2.1, h.2.2.2⟩

theorem Store.formatOf_congr {st st2 : Store} (h : st.repositories = st2.repositories)
    (k : String) : st.formatOf k = st2.formatOf k := by
  simp only [Store.formatOf, h]

theorem foldl_permissionEffect (st0 : Store) (xs : List config.UserRepositoryPermission) :
    ∀ st : Store, st.repositories = st0.repositories →
      (xs.foldl (fun s x => permissionEffect x s) st).roles =
        writeRoles (xs.map fun perm => (ApplyService.permissionRoleName perm,
          derivedRoleRequest perm (st0.formatOf perm.Repository))) st.roles ∧
      (xs.foldl (fun s x => permissionEffect x s) st).users =
        assignUsers (xs.map fun perm => (perm.UserID, ApplyService.permissionRoleName perm))
          st.users ∧
      (xs.foldl (fun s x => permissionEffect x s) st).privileges = st.privileges ∧
      (xs.foldl (fun s x => permissionEffect x s) st).repositories = st.repositories := by
  induction xs with
  | nil => intro st _; exact ⟨rfl, rfl, rfl, rfl⟩
  | cons x xs ih =>
    intro st hst
    have h := ih (permissionEffect x st) hst
    refine ⟨?_, h.2.1, h.2.2.1, h.2.2.2⟩
    rw [List.foldl_cons, h.1, List.map_cons, writeRoles, ← Store.formatOf_congr hst]
    rfl

theorem permissionOk_of_grows {st st2 : Store} (h : st.Grows st2)
    (perm : config.UserRepositoryPermission) (hok : permissionOk perm st) :
    permissionOk perm st2 := by
  refine ⟨?_, h.2.2.2 _ hok.2⟩
  have h1 := hok.1
  cases hr : st.repositories perm.Repository with
  | none => simp [Store.formatOf, hr] at h1
  | some fields =>
    have h2 := h.2.2.1 _ _ hr
    simp only [Store.formatOf, hr] at h1
    simpa [Store.formatOf, h2] using h1

/-! ### The roles, users and grants loops -/

/-- The roles loop on the model server. -/
theorem roles_loop (base : String) (cfg : config.Config) (xs : List config.Role)
    (c : Nat) (st : Store) :
    ((forRange ((routeService base cfg).applyRole lib) xs c).result st).2 = none ∧
    (forRange ((routeService base cfg).applyRole lib) xs c).final st
      = xs.foldl (fun s x => roleEffect x s) st ∧
    ((∀ r ∈ xs, (st.roles r.ID).isSome = true) →
      (∀ r ∈ (forRange ((routeService base cfg).applyRole lib) xs c).calls st,
        r.method ≠ "POST") ∧
      ∀ role ∈ xs, (routeClient base).newRequest "PUT"
          ("/service/rest/v1/security/roles/" ++ role.ID) (.role (roleRequestOf role))
        ∈ (forRange ((routeService base cfg).applyRole lib) xs c).calls st) := by
  have hok := (forRange_ok_of_invariant ((routeService base cfg).applyRole lib)
    (fun _ => True) xs
    (fun x _ s _ => ⟨⟨true, (applyRole_model base cfg x s).1⟩, trivial⟩) c st trivial).1
  refine ⟨hok, ?_, ?_⟩
  · exact forRange_final_foldl ((routeService base cfg).applyRole lib) _
      (fun x s b _ => (applyRole_model base cfg x s).2.1) xs c st hok
  · intro hall
    have hinv : ∀ x ∈ xs, ∀ s, (∀ r ∈ xs, (s.roles r.ID).isSome = true) →
        (∀ r ∈ xs, ((((routeService base cfg).applyRole lib x).final s).roles r.ID).isSome
          = true) := by
      intro x _ s hs r hr
      rw [(applyRole_model base cfg x s).2.1]
      exact (roleEffect_grows x s).2.1 _ (hs r hr)
    constructor
    · exact forRange_calls_of_invariant ((routeService base cfg).applyRole lib)
        (fun s => ∀ r ∈ xs, (s.roles r.ID).isSome = true) (fun r => r.method ≠ "POST") xs
        (by
          intro x hx s hs
          refine ⟨hinv x hx s hs, ?_⟩
          intro r hr
          rw [(applyRole_model base cfg x s).2.2 (hs x hx)] at hr
          simp only [List.mem_cons, List.mem_singleton, List.not_mem_nil, or_false] at hr
          rcases hr with rfl | rfl <;> simp [Client.newRequest]) c st hall
    · intro role hrole
      obtain ⟨s, hs, hsub⟩ := forRange_calls_of_member ((routeService base cfg).applyRole lib)
        (fun s => ∀ r ∈ xs, (s.roles r.ID).isSome = true) xs
        (fun x hx s hs => ⟨⟨true, (applyRole_model base cfg x s).1⟩, hinv x hx s hs⟩)
        c st hall role hrole
      apply hsub
      rw [(applyRole_model base cfg role s).2.2 (hs role hrole)]
      simp

/-- The users loop on the model server. -/
theorem users_loop (base : String) (cfg : config.Config) (xs : List config.User)
    (c : Nat) (st : Store) :
    ((forRange ((routeService base cfg).applyUser lib) xs c).result st).2 = none ∧
    (forRange ((routeService base cfg).applyUser lib) xs c).final st
      = xs.foldl (fun s x => userEffect x s) st ∧
    ((∀ u ∈ xs, (st.users u.ID).isSome = true) →
      (∀ r ∈ (forRange ((routeService base cfg).applyUser lib) xs c).calls st,
        r.method ≠ "POST") ∧
      ∀ user ∈ xs, ∃ req, (routeClient base).newRequest "PUT"
          ("/service/rest/v1/security/users/" ++ user.ID) (.user req)
        ∈ (forRange ((routeService base cfg).applyUser lib) xs c).calls st) := by
  have hok := (forRange_ok_of_invariant ((routeService base cfg).applyUser lib)
    (fun _ => True) xs
    (fun x _ s _ => ⟨⟨true, (applyUser_model base cfg x s).1⟩, trivial⟩) c st trivial).1
  refine ⟨hok, ?_, ?_⟩
  · exact forRange_final_foldl ((routeService base cfg).applyUser lib) _
      (fun x s b _ => (applyUser_model base cfg x s).2.1) xs c st hok
  · intro hall
    have hinv : ∀ x ∈ xs, ∀ s, (∀ r ∈ xs, (s.users r.ID).isSome = true) →
        (∀ r ∈ xs, ((((routeService base cfg).applyUser lib x).final s).users r.ID).isSome
          = true) := by
      intro x _ s hs r hr
      rw [(applyUser_model base cfg x s).2.1]
      exact (userEffect_grows x s).2.2.2 _ (hs r hr)
    constructor
    · exact forRange_calls_of_invariant ((routeService base cfg).applyUser lib)
        (fun s => ∀ r ∈ xs, (s.users r.ID).isSome = true) (fun r => r.method ≠ "POST") xs
        (fun x hx s hs =>
          ⟨hinv x hx s hs, ((applyUser_model base cfg x s).2.2 (hs x hx)).1⟩) c st hall
    · intro user huser
      obtain ⟨s, hs, hsub⟩ := forRange_calls_of_member ((routeService base cfg).applyUser lib)
        (fun s => ∀ r ∈ xs, (s.users r.ID).isSome = true) xs
        (fun x hx s hs => ⟨⟨true, (applyUser_model base cfg x s).1⟩, hinv x hx s hs⟩)
        c st hall user huser
      obtain ⟨req, hreq⟩ := ((applyUser_model base cfg user s).2.2 (hs user huser)).2
      exact ⟨req, hsub _ hreq⟩

theorem permissionEffect_role_isSome (perm : config.UserRepositoryPermission) (st : Store) :
    ((permissionEffect perm st).roles (ApplyService.permissionRoleName perm)).isSome = true := by
  simp [permissionEffect]

/-- The grants loop on the model server. -/
theorem permissions_loop (base : String) (cfg : config.Config)
    (xs : List config.UserRepositoryPermission) (c : Nat) (st : Store) :
    (((forRange ((routeService base cfg).applyUserRepositoryPermission lib) xs c).result st).2
        = none →
      (forRange ((routeService base cfg).applyUserRepositoryPermission lib) xs c).final st
        = xs.foldl (fun s x => permissionEffect x s) st ∧
      ∀ g ∈ xs,
        (((forRange ((routeService base cfg).applyUserRepositoryPermission lib) xs c).final
          st).roles (ApplyService.permissionRoleName g)).isSome = true ∧
        permissionOk g
          ((forRange ((routeService base cfg).applyUserRepositoryPermission lib) xs c).final
            st)) ∧
    ((∀ g ∈ xs, (st.roles (ApplyService.permissionRoleName g)).isSome = true ∧
        permissionOk g st) →
      ((forRange ((routeService base cfg).applyUserRepositoryPermission lib) xs c).result st).2
        = none ∧
      ∀ r ∈ (forRange ((routeService base cfg).applyUserRepositoryPermission lib) xs c).calls st,
        r.method ≠ "POST") := by
  have heff : ∀ x s b,
      ((routeService base cfg).applyUserRepositoryPermission lib x).result s = .next b →
      ((routeService base cfg).applyUserRepositoryPermission lib x).final s
        = permissionEffect x s := by
    intro x s b hb
    have h := applyPermission_model base cfg x s
    exact (h.1 (h.2 b hb)).2.1
  constructor
  · intro hok
    refine ⟨forRange_final_foldl _ _ heff xs c st hok, ?_⟩
    exact (forRange_establishes ((routeService base cfg).applyUserRepositoryPermission lib)
      (fun g s => (s.roles (ApplyService.permissionRoleName g)).isSome = true ∧
        permissionOk g s)
      (by
        intro x s b hb
        rw [heff x s b hb]
        exact ⟨permissionEffect_role_isSome x s,
          permissionOk_of_grows (permissionEffect_grows x s) x
            ((applyPermission_model base cfg x s).2 b hb)⟩)
      (by
        intro x y s b hb hx
        rw [heff y s b hb]
        exact ⟨(permissionEffect_grows y s).2.1 _ hx.1,
          permissionOk_of_grows (permissionEffect_grows y s) x hx.2⟩) xs c st hok).2
  · intro hall
    have hstep : ∀ x ∈ xs, ∀ s,
        (∀ g ∈ xs, (s.roles (ApplyService.permissionRoleName g)).isSome = true ∧
          permissionOk g s) →
        (∃ b, ((routeService base cfg).applyUserRepositoryPermission lib x).result s
          = .next b) ∧
        (∀ g ∈ xs,
          ((((routeService base cfg).applyUserRepositoryPermission lib x).final s).roles
            (ApplyService.permissionRoleName g)).isSome = true ∧
          permissionOk g
            (((routeService base cfg).applyUserRepositoryPermission lib x).final s)) := by
      intro x hx s hs
      have h := (applyPermission_model base cfg x s).1 (hs x hx).2
      refine ⟨⟨true, h.1⟩, ?_⟩
      intro g hg
      rw [h.2.1]
      exact ⟨(permissionEffect_grows x s).2.1 _ (hs g hg).1,
        permissionOk_of_grows (permissionEffect_grows x s) g (hs g hg).2⟩
    refine ⟨(forRange_ok_of_invariant _ _ xs hstep c st hall).1, ?_⟩
    exact forRange_calls_of_invariant
      ((routeService base cfg).applyUserRepositoryPermission lib)
      (fun s => ∀ g ∈ xs, (s.roles (ApplyService.permissionRoleName g)).isSome = true ∧
        permissionOk g s) (fun r => r.method ≠ "POST") xs
      (fun x hx s hs => ⟨(hstep x hx s hs).2,
        ((applyPermission_model base cfg x s).1 (hs x hx).2).2.2 (hs x hx).1⟩) c st hall

end model

namespace model

open nexus service

theorem routeService_config (base : String) (cfg : config.Config) :
    (routeService base cfg).config = cfg := rfl

theorem foldl_grows {α : Type} (eff : α → Store → Store)
    (h : ∀ (x : α) (s : Store), s.Grows (eff x s)) (xs : List α) :
    ∀ st : Store, st.Grows (xs.foldl (fun s x => eff x s) st) := by
  induction xs with
  | nil => intro st; exact Store.Grows.refl st
  | cons x xs ih => intro st; exact (h x st).trans (ih _)

theorem foldl_roleEffect_isSome (xs : List config.Role) (st : Store) :
    ∀ r ∈ xs, (((xs.foldl (fun s x => roleEffect x s) st).roles) r.ID).isSome = true := by
  induction xs generalizing st with
  | nil => intro r hr; simp at hr
  | cons x xs ih =>
    intro r hr
    rcases List.mem_cons.mp hr with rfl | hr
    · exact (foldl_grows roleEffect roleEffect_grows xs _).2.1 _
        (by simp [roleEffect, Store.putRole])
    · exact ih _ r hr

theorem foldl_userEffect_isSome (xs : List config.User) (st : Store) :
    ∀ u ∈ xs, (((xs.foldl (fun s x => userEffect x s) st).users) u.ID).isSome = true := by
  induction xs generalizing st with
  | nil => intro r hr; simp at hr
  | cons x xs ih =>
    intro r hr
    rcases List.mem_cons.mp hr with rfl | hr
    · exact (foldl_grows userEffect userEffect_grows xs _).2.2.2 _
        (by simp [userEffect])
    · exact ih _ r hr

theorem derivedRoleWrites_congr (cfg : config.Config) {st st2 : Store}
    (h : st.repositories = st2.repositories) :
    derivedRoleWrites cfg st = derivedRoleWrites cfg st2 := by
  simp only [derivedRoleWrites, Store.formatOf, h]

/-- What a successful apply run leaves on the model server: the role table is
the initial one after the manifest role writes and the derived role writes, the
user table is the initial one after the manifest users and the grant
assignments, and everything the manifest describes is present. -/
theorem Apply_model_effect (base : String) (cfg : config.Config) (st : Store)
    (h : (((routeService base cfg).Apply lib).result st).2 = none) :
    (((routeService base cfg).Apply lib).final st).roles =
      writeRoles (manifestRoleWrites cfg ++
        derivedRoleWrites cfg (((routeService base cfg).Apply lib).final st)) st.roles ∧
    (((routeService base cfg).Apply lib).final st).users =
      assignUsers (grantAssignments cfg) (upsertUsers cfg.Users st.users) ∧
    Settled cfg (((routeService base cfg).Apply lib).final st) := by
  obtain ⟨h1, h2, h3, h4, h5⟩ := (ApplyService.Apply_success_iff lib _ st).mp h
  rw [(ApplyService.Apply_success_run lib _ st h).1]
  simp only [routeService_config] at h1 h2 h3 h4 h5 ⊢
  have P := privileges_loop base cfg cfg.Privileges 0 st
  generalize (forRange ((routeService base cfg).applyPrivilege lib) cfg.Privileges 0).final st
    = w1 at *
  have R := roles_loop base cfg cfg.Roles 0 w1
  have Rf := foldl_roleEffect cfg.Roles w1
  have Re := foldl_roleEffect_isSome cfg.Roles w1
  rw [← R.2.1] at Rf Re
  generalize (forRange ((routeService base cfg).applyRole lib) cfg.Roles 0).final w1
    = w2 at *
  have Rp := repositories_loop base cfg cfg.Repositories 0 w2
  generalize (forRange ((routeService base cfg).applyRepository lib) cfg.Repositories 0).final w2
    = w3 at *
  have U := users_loop base cfg cfg.Users 0 w3
  have Uf := foldl_userEffect cfg.Users w3
  have Ue := foldl_userEffect_isSome cfg.Users w3
  have Ug := foldl_grows userEffect userEffect_grows cfg.Users w3
  rw [← U.2.1] at Uf Ue Ug
  generalize (forRange ((routeService base cfg).applyUser lib) cfg.Users 0).final w3
    = w4 at *
  have G := (permissions_loop base cfg cfg.UserRepositoryPermissions 0 w4).1 h5
  have Gf := foldl_permissionEffect w4 cfg.UserRepositoryPermissions w4 rfl
  have Gg := foldl_grows permissionEffect permissionEffect_grows
    cfg.UserRepositoryPermissions w4
  rw [← G.1] at Gf Gg
  generalize (forRange ((routeService base cfg).applyUserRepositoryPermission lib)
    cfg.UserRepositoryPermissions 0).final w4 = w5 at *
  refine ⟨?_, ?_, ?_, ?_, ?_, ?_, ?_⟩
  · rw [writeRoles_append, Gf.1, derivedRoleWrites_congr cfg Gf.2.2.2, Uf.2.2.2, Rp.1, Rf.1,
      P.1]
    rfl
  · rw [Gf.2.1, Uf.1, Rp.2.2.1, Rf.2.2.2, P.2.2.1]
    rfl
  · intro p hp
    rw [Gf.2.2.1, Uf.2.1, Rp.2.1, Rf.2.1]
    exact P.2.2.2.1 h1 p hp
  · intro r hr
    exact Gg.2.1 _ (Ug.2.1 _ (Rp.2.2.2.1.2.1 _ (Re r hr)))
  · intro r hr
    rw [Gf.2.2.2, Uf.2.2.1]
    exact Rp.2.2.2.2.1 h3 r hr
  · intro u hu
    exact Gg.2.2.2 _ (Ue u hu)
  · exact G.2

/-- An apply run on a model server that already holds everything the manifest
describes: it succeeds, leaves the privileges and repositories as they are, and
issues no POST; every manifest role and user is written with a PUT. -/
theorem Apply_model_settled (base : String) (cfg : config.Config) (st : Store)
    (hS : Settled cfg st) :
    (((routeService base cfg).Apply lib).result st).2 = none ∧
    (((routeService base cfg).Apply lib).final st).privileges = st.privileges ∧
    (((routeService base cfg).Apply lib).final st).repositories = st.repositories ∧
    (∀ r ∈ ((routeService base cfg).Apply lib).calls st, r.method ≠ "POST") ∧
    (∀ role ∈ cfg.Roles, (routeClient base).newRequest "PUT"
        ("/service/rest/v1/security/roles/" ++ role.ID) (.role (roleRequestOf role))
      ∈ ((routeService base cfg).Apply lib).calls st) ∧
    (∀ user ∈ cfg.Users, ∃ req, (routeClient base).newRequest "PUT"
        ("/service/rest/v1/security/users/" ++ user.ID) (.user req)
      ∈ ((routeService base cfg).Apply lib).calls st) := by
  obtain ⟨hp, hr, hrepo, hu, hg⟩ := hS
  have P := (privileges_loop base cfg cfg.Privileges 0 st).2.2.2.2 hp
  have R := roles_loop base cfg cfg.Roles 0 st
  have Rc := R.2.2 hr
  have Rf := foldl_roleEffect cfg.Roles st
  have Rg := foldl_grows roleEffect roleEffect_grows cfg.Roles st
  rw [← R.2.1] at Rf Rg
  have Rp := (repositories_loop base cfg cfg.Repositories 0
    ((forRange ((routeService base cfg).applyRole lib) cfg.Roles 0).final st)).2.2.2.2.2
    (by intro r hr2; rw [Rf.2.2.1]; exact hrepo r hr2)
  have U := users_loop base cfg cfg.Users 0
    ((forRange ((routeService base cfg).applyRole lib) cfg.Roles 0).final st)
  have Uc := U.2.2 (by intro u hu2; rw [Rf.2.2.2]; exact hu u hu2)
  have Uf := foldl_userEffect cfg.Users
    ((forRange ((routeService base cfg).applyRole lib) cfg.Roles 0).final st)
  have Ug := foldl_grows userEffect userEffect_grows cfg.Users
    ((forRange ((routeService base cfg).applyRole lib) cfg.Roles 0).final st)
  rw [← U.2.1] at Uf Ug
  have G := permissions_loop base cfg cfg.UserRepositoryPermissions 0
    ((forRange ((routeService base cfg).applyUser lib) cfg.Users 0).final
      ((forRange ((routeService base cfg).applyRole lib) cfg.Roles 0).final st))
  have Gc := G.2 (fun g hg2 => ⟨(Rg.trans Ug).2.1 _ (hg g hg2).1,
    permissionOk_of_grows (Rg.trans Ug) g (hg g hg2).2⟩)
  have Gf := foldl_permissionEffect _ cfg.UserRepositoryPermissions
    ((forRange ((routeService base cfg).applyUser lib) cfg.Users 0).final
      ((forRange ((routeService base cfg).applyRole lib) cfg.Roles 0).final st)) rfl
  rw [← (G.1 Gc.1).1] at Gf
  have hok : (((routeService base cfg).Apply lib).result st).2 = none := by
    refine (ApplyService.Apply_success_iff lib _ st).mpr ⟨P.1, ?_, ?_, ?_, ?_⟩
    · simp only [routeService_config, P.2.1]; exact R.1
    · simp only [routeService_config, P.2.1]; exact Rp.1
    · simp only [routeService_config, P.2.1, Rp.2.1]; exact U.1
    · simp only [routeService_config, P.2.1, Rp.2.1]; exact Gc.1
  obtain ⟨hfin, hcalls⟩ := ApplyService.Apply_success_run lib _ st hok
  simp only [routeService_config, P.2.1, Rp.2.1] at hfin hcalls
  rw [hfin, hcalls]
  refine ⟨hok, ?_, ?_, ?_, ?_, ?_⟩
  · rw [Gf.2.2.1, Uf.2.1, Rf.2.1]
  · rw [Gf.2.2.2, Uf.2.2.1, Rf.2.2.1]
  · intro r hr2
    simp only [List.mem_append] at hr2
    rcases hr2 with h | h | h | h | h
    · exact P.2.2 r h
    · exact Rc.1 r h
    · exact Rp.2.2 r h
    · exact Uc.1 r h
    · exact Gc.2 r h
  · intro role hrole
    simp only [List.mem_append]
    exact Or.inr (Or.inl (Rc.2 role hrole))
  · intro user huser
    obtain ⟨req, hreq⟩ := Uc.2 user huser
    refine ⟨req, ?_⟩
    simp only [List.mem_append]
    exact Or.inr (Or.inr (Or.inr (Or.inl hreq)))

/-- A second apply run leaves the model server as the first left it. -/
theorem Apply_model_fixed (base : String) (cfg : config.Config) (st : Store)
    (h : (((routeService base cfg).Apply lib).result st).2 = none) :
    ((routeService base cfg).Apply lib).final (((routeService base cfg).Apply lib).final st)
      = ((routeService base cfg).Apply lib).final st := by
  have E1 := Apply_model_effect base cfg st h
  have A2 := Apply_model_settled base cfg _ E1.2.2
  have E2 := Apply_model_effect base cfg _ A2.1
  refine Store.ext_fields A2.2.1 ?_ A2.2.2.1 ?_
  · rw [E2.1, derivedRoleWrites_congr cfg A2.2.2.1]
    conv_lhs => rw [E1.1]
    rw [writeRoles_idempotent]
    exact E1.1.symm
  · rw [E2.2.1]
    conv_lhs => rw [E1.2.1]
    rw [users_idempotent]
    exact E1.2.1.symm

end model

/-! ## The model server: URLs without a fragment -/

namespace model

open nexus service

theorem withoutFragment_of_plain (s : String) (h : '#' ∉ s.data) : withoutFragment s = s := by
  have : s.data.takeWhile (fun c => decide (c ≠ '#')) = s.data := by
    rw [List.takeWhile_eq_self_iff]
    intro c hc
    have : c ≠ '#' := fun e => h (e ▸ hc)
    simpa using this
  simp only [withoutFragment, this]

theorem plain_append (a b : String) (ha : '#' ∉ a.data) (hb : '#' ∉ b.data) :
    '#' ∉ (a ++ b).data := by
  simp [String.data_append, ha, hb]

theorem plain_of_urlSafe (k : String) (h : urlSafe k = true) : '#' ∉ k.data := by
  intro hmem
  have := List.all_eq_true.mp h _ hmem
  revert this
  decide

theorem plain_of_urlSafeBase (base : String) (h : urlSafeBase base = true) :
    '#' ∉ base.data := by
  intro hmem
  have := List.all_eq_true.mp h _ hmem
  revert this
  decide

/-- A request whose URL has no fragment is answered by the model server as it is
routed. -/
theorem doRequest_routed (base m path : String) (b : Body)
    (hb : '#' ∉ base.data) (hp : '#' ∉ path.data) :
    (client base).doRequest lib m path b = (routeClient base).doRequest lib m path b := by
  funext st
  have hurl := withoutFragment_of_plain (base ++ path) (plain_append _ _ hb hp)
  simp only [Client.doRequest, Client.newRequest, client, routeClient, server, hurl]

theorem privilegePath_plain (t p : String) (h : Client.privilegePath t = some p) :
    '#' ∉ p.data := by
  unfold Client.privilegePath at h
  split_ifs at h <;> (injection h with h; subst h; decide)

theorem GetPrivilege_routed (base k : String) (hb : '#' ∉ base.data) (hk : '#' ∉ k.data) :
    (client base).GetPrivilege lib k = (routeClient base).GetPrivilege lib k := by
  simp only [Client.GetPrivilege, Client.get,
    doRequest_routed base "GET" ("/service/rest/v1/security/privileges/" ++ k) .none hb
      (plain_append "/service/rest/v1/security/privileges/" k (by decide) hk)]

theorem PrivilegeExists_routed (base k : String) (hb : '#' ∉ base.data) (hk : '#' ∉ k.data) :
    (client base).PrivilegeExists lib k = (routeClient base).PrivilegeExists lib k := by
  simp only [Client.PrivilegeExists, GetPrivilege_routed base k hb hk]

theorem CreatePrivilege_routed (base : String) (req : PrivilegeRequest)
    (hb : '#' ∉ base.data) :
    (client base).CreatePrivilege lib req = (routeClient base).CreatePrivilege lib req := by
  cases h : Client.privilegePath req.Type_ with
  | none => simp only [Client.CreatePrivilege, h]
  | some path =>
    simp only [Client.CreatePrivilege, h, Client.post,
      doRequest_routed base _ _ _ hb (privilegePath_plain _ _ h)]

theorem GetRole_routed (base k : String) (hb : '#' ∉ base.data) (hk : '#' ∉ k.data) :
    (client base).GetRole lib k = (routeClient base).GetRole lib k := by
  simp only [Client.GetRole, Client.get,
    doRequest_routed base "GET" ("/service/rest/v1/security/roles/" ++ k) .none hb
      (plain_append "/service/rest/v1/security/roles/" k (by decide) hk)]

theorem RoleExists_routed (base k : String) (hb : '#' ∉ base.data) (hk : '#' ∉ k.data) :
    (client base).RoleExists lib k = (routeClient base).RoleExists lib k := by
  simp only [Client.RoleExists, GetRole_routed base k hb hk]

theorem UpdateRole_routed (base k : String) (req : RoleRequest) (hb : '#' ∉ base.data)
    (hk : '#' ∉ k.data) :
    (client base).UpdateRole lib k req = (routeClient base).UpdateRole lib k req := by
  simp only [Client.UpdateRole, Client.put,
    doRequest_routed base "PUT" ("/service/rest/v1/security/roles/" ++ k) (.role req) hb
      (plain_append "/service/rest/v1/security/roles/" k (by decide) hk)]

theorem CreateRole_routed (base : String) (req : RoleRequest) (hb : '#' ∉ base.data) :
    (client base).CreateRole lib req = (routeClient base).CreateRole lib req := by
  simp only [Client.CreateRole, Client.post,
    doRequest_routed base "POST" "/service/rest/v1/security/roles" (.role req) hb (by decide)]

theorem GetRepository_routed (base k : String) (hb : '#' ∉ base.data) (hk : '#' ∉ k.data) :
    (client base).GetRepository lib k = (routeClient base).GetRepository lib k := by
  simp only [Client.GetRepository, Client.get,
    doRequest_routed base "GET" ("/service/rest/v1/repositories/" ++ k) .none hb
      (plain_append "/service/rest/v1/repositories/" k (by decide) hk)]

theorem RepositoryExists_routed (base k : String) (hb : '#' ∉ base.data)
    (hk : '#' ∉ k.data) :
    (client base).RepositoryExists lib k = (routeClient base).RepositoryExists lib k := by
  simp only [Client.RepositoryExists, GetRepository_routed base k hb hk]

theorem createRepositoryAt_routed (base : String) (hb : '#' ∉ base.data)
    (path label : String) (req : RepositoryRequest) (hp : '#' ∉ path.data) :
    (client base).createRepositoryAt lib path label req =
      (routeClient base).createRepositoryAt lib path label req := by
  simp only [Client.createRepositoryAt, Client.post,
    doRequest_routed base "POST" path (.repository req) hb hp]

theorem GetUser_routed (base k : String) (hb : '#' ∉ base.data) (hk : '#' ∉ k.data) :
    (client base).GetUser lib k = (routeClient base).GetUser lib k := by
  simp only [Client.GetUser, Client.get,
    doRequest_routed base "GET" ("/service/rest/v1/security/users?userId=" ++ k) .none hb
      (plain_append "/service/rest/v1/security/users?userId=" k (by decide) hk)]

theorem UserExists_routed (base k : String) (hb : '#' ∉ base.data) (hk : '#' ∉ k.data) :
    (client base).UserExists lib k = (routeClient base).UserExists lib k := by
  simp only [Client.UserExists, GetUser_routed base k hb hk]

theorem UpdateUser_routed (base k : String) (req : UserRequest) (hb : '#' ∉ base.data)
    (hk : '#' ∉ k.data) :
    (client base).UpdateUser lib k req = (routeClient base).UpdateUser lib k req := by
  simp only [Client.UpdateUser, Client.put,
    doRequest_routed base "PUT" ("/service/rest/v1/security/users/" ++ k) (.user req) hb
      (plain_append "/service/rest/v1/security/users/" k (by decide) hk)]

theorem ChangePassword_routed (base k pw : String) (hb : '#' ∉ base.data)
    (hk : '#' ∉ k.data) :
    (client base).ChangePassword lib k pw = (routeClient base).ChangePassword lib k pw := by
  simp only [Client.ChangePassword, Client.put,
    doRequest_routed base "PUT" ("/service/rest/v1/security/users/" ++ k ++ "/change-password")
      (.password pw) hb
      (plain_append ("/service/rest/v1/security/users/" ++ k) "/change-password"
        (plain_append "/service/rest/v1/security/users/" k (by decide) hk) (by decide))]

theorem CreateUser_routed (base : String) (req : UserRequest) (hb : '#' ∉ base.data) :
    (client base).CreateUser lib req = (routeClient base).CreateUser lib req := by
  simp only [Client.CreateUser, Client.post,
    doRequest_routed base "POST" "/service/rest/v1/security/users" (.user req) hb (by decide)]

theorem applyPrivilege_routed (base : String) (cfg : config.Config) (priv : config.Privilege)
    (hb : '#' ∉ base.data) (hk : '#' ∉ priv.Name.data) :
    (applyService base cfg).applyPrivilege lib priv =
      (routeService base cfg).applyPrivilege lib priv := by
  simp only [ApplyService.applyPrivilege, applyService, routeService,
    PrivilegeExists_routed base _ hb hk, CreatePrivilege_routed base _ hb]

theorem applyRole_routed (base : String) (cfg : config.Config) (role : config.Role)
    (hb : '#' ∉ base.data) (hk : '#' ∉ role.ID.data) :
    (applyService base cfg).applyRole lib role = (routeService base cfg).applyRole lib role := by
  simp only [ApplyService.applyRole, applyService, routeService,
    RoleExists_routed base _ hb hk, UpdateRole_routed base _ _ hb hk,
    CreateRole_routed base _ hb]

theorem createRepository_routed (base : String) (cfg : config.Config)
    (repo : config.Repository) (hb : '#' ∉ base.data) :
    (applyService base cfg).createRepository lib repo =
      (routeService base cfg).createRepository lib repo := by
  simp (disch := decide) only [ApplyService.createRepository, applyService, routeService,
    Client.CreateMavenHostedRepository, Client.CreateMavenProxyRepository,
    Client.CreateMavenGroupRepository, Client.CreateDockerHostedRepository,
    Client.CreateDockerProxyRepository, Client.CreateDockerGroupRepository,
    Client.CreateNpmHostedRepository, Client.CreateNpmProxyRepository,
    Client.CreateNpmGroupRepository, Client.CreatePypiHostedRepository,
    Client.CreatePypiProxyRepository, Client.CreatePypiGroupRepository,
    Client.CreateGoProxyRepository, Client.CreateGoGroupRepository,
    createRepositoryAt_routed base hb]

theorem applyRepository_routed (base : String) (cfg : config.Config)
    (repo : config.Repository) (hb : '#' ∉ base.data) (hk : '#' ∉ repo.Name.data) :
    (applyService base cfg).applyRepository lib repo =
      (routeService base cfg).applyRepository lib repo := by
  simp only [ApplyService.applyRepository, createRepository_routed base cfg repo hb]
  simp only [applyService, routeService, RepositoryExists_routed base _ hb hk]

theorem applyUser_routed (base : String) (cfg : config.Config) (user : config.User)
    (hb : '#' ∉ base.data) (hk : '#' ∉ user.ID.data) :
    (applyService base cfg).applyUser lib user = (routeService base cfg).applyUser lib user := by
  simp only [ApplyService.applyUser, applyService, routeService,
    UserExists_routed base _ hb hk, GetUser_routed base _ hb hk,
    UpdateUser_routed base _ _ hb hk, ChangePassword_routed base _ _ hb hk,
    CreateUser_routed base _ hb]

theorem derivedName_plain (perm : config.UserRepositoryPermission)
    (hu : '#' ∉ perm.UserID.data) (hr : '#' ∉ perm.Repository.data) :
    '#' ∉ (ApplyService.permissionRoleName perm).data :=
  plain_append _ _ (plain_append _ _ (plain_append _ _ hu (by decide)) hr) (by decide)

theorem assignPermissionRole_routed (base : String) (cfg : config.Config)
    (perm : config.UserRepositoryPermission) (roleName : String)
    (hb : '#' ∉ base.data) (hu : '#' ∉ perm.UserID.data) :
    (applyService base cfg).assignPermissionRole lib perm roleName =
      (routeService base cfg).assignPermissionRole lib perm roleName := by
  simp only [ApplyService.assignPermissionRole, applyService, routeService,
    GetUser_routed base _ hb hu, UpdateUser_routed base _ _ hb hu]

theorem applyPermission_routed (base : String) (cfg : config.Config)
    (perm : config.UserRepositoryPermission)
    (hb : '#' ∉ base.data) (hu : '#' ∉ perm.UserID.data) (hr : '#' ∉ perm.Repository.data) :
    (applyService base cfg).applyUserRepositoryPermission lib perm =
      (routeService base cfg).applyUserRepositoryPermission lib perm := by
  have hn := derivedName_plain perm hu hr
  simp only [ApplyService.applyUserRepositoryPermission,
    assignPermissionRole_routed base cfg perm _ hb hu]
  simp only [applyService, routeService, GetRepository_routed base _ hb hr,
    RoleExists_routed base _ hb hn, UpdateRole_routed base _ _ hb hn,
    CreateRole_routed base _ hb]

theorem forRange_congr {α : Type} (f g : α → Gw Store Payload Step) (xs : List α)
    (h : ∀ x ∈ xs, f x = g x) : ∀ c, forRange f xs c = forRange g xs c := by
  induction xs with
  | nil => intro c; rfl
  | cons x xs ih =>
    intro c
    have hx := h x (List.mem_cons_self _ _)
    have ih2 := ih (fun y hy => h y (List.mem_cons_of_mem _ hy))
    simp only [forRange_cons, hx, ih2]

/-- For a base URL and manifest keys without `#`, `Apply` against the model server
runs as it does when its URLs reach the server as written. -/
theorem Apply_routed (base : String) (cfg : config.Config)
    (hb : urlSafeBase base = true) (hk : ∀ k ∈ cfg.urlKeys, urlSafe k = true) :
    (applyService base cfg).Apply lib = (routeService base cfg).Apply lib := by
  have hb2 := plain_of_urlSafeBase base hb
  have key : ∀ k ∈ cfg.urlKeys, '#' ∉ k.data := fun k h => plain_of_urlSafe k (hk k h)
  have hP := forRange_congr _ _ cfg.Privileges (fun p hp =>
    applyPrivilege_routed base cfg p hb2 (key _ (by
      simp only [config.Config.urlKeys, List.mem_append, List.mem_map]
      exact Or.inl (Or.inl (Or.inl (Or.inl (Or.inl ⟨p, hp, rfl⟩))))))) 0
  have hR := forRange_congr _ _ cfg.Roles (fun p hp =>
    applyRole_routed base cfg p hb2 (key _ (by
      simp only [config.Config.urlKeys, List.mem_append, List.mem_map]
      exact Or.inl (Or.inl (Or.inl (Or.inl (Or.inr ⟨p, hp, rfl⟩))))))) 0
  have hQ := forRange_congr _ _ cfg.Repositories (fun p hp =>
    applyRepository_routed base cfg p hb2 (key _ (by
      simp only [config.Config.urlKeys, List.mem_append, List.mem_map]
      exact Or.inl (Or.inl (Or.inl (Or.inr ⟨p, hp, rfl⟩)))))) 0
  have hU := forRange_congr _ _ cfg.Users (fun p hp =>
    applyUser_routed base cfg p hb2 (key _ (by
      simp only [config.Config.urlKeys, List.mem_append, List.mem_map]
      exact Or.inl (Or.inl (Or.inr ⟨p, hp, rfl⟩))))) 0
  have hG := forRange_congr _ _ cfg.UserRepositoryPermissions (fun p hp =>
    applyPermission_routed base cfg p hb2
      (key _ (by
        simp only [config.Config.urlKeys, List.mem_append, List.mem_map]
        exact Or.inl (Or.inr ⟨p, hp, rfl⟩)))
      (key _ (by
        simp only [config.Config.urlKeys, List.mem_append, List.mem_map]
        exact Or.inr ⟨p, hp, rfl⟩))) 0
  have c1 : (applyService base cfg).config = cfg := rfl
  have c2 : (routeService base cfg).config = cfg := rfl
  simp only [ApplyService.Apply, ApplyService.applyPrivileges, ApplyService.applyRoles,
    ApplyService.applyRepositories, ApplyService.applyUsers,
    ApplyService.applyUserRepositoryPermissions, c1, c2, hP, hR, hQ, hU, hG]

end model

/-! ## Applying a manifest twice -/

namespace service

open nexus

/-- C9, the claim as stated fails for a manifest key that a URL does not carry.  The
manifest holds the one role `dev#1`; the server is empty.  The existence check asks
for `.../roles/dev#1`, of which `.../roles/dev` is sent, so the role is reported
absent and created, and the create stores it under `dev#1`.  The first `Apply`
succeeds.  The second `Apply` succeeds too, but its check again finds nothing under
`dev`: it issues the POST that creates the role a second time, and no PUT. -/
theorem ApplyService.second_apply_creates_again :
    (((model.applyService "http://nexus:8081" example_.fragmentManifest).Apply
      model.lib).result model.Store.empty).2 = none ∧
    (((model.applyService "http://nexus:8081" example_.fragmentManifest).Apply
      model.lib).result
      (((model.applyService "http://nexus:8081" example_.fragmentManifest).Apply
        model.lib).final model.Store.empty)).2 = none ∧
    ((((model.applyService "http://nexus:8081" example_.fragmentManifest).Apply
        model.lib).final model.Store.empty).roles "dev#1").isSome = true ∧
    ((((model.applyService "http://nexus:8081" example_.fragmentManifest).Apply
        model.lib).final model.Store.empty).roles "dev").isSome = false ∧
    (((model.applyService "http://nexus:8081" example_.fragmentManifest).Apply
      model.lib).calls
      (((model.applyService "http://nexus:8081" example_.fragmentManifest).Apply
        model.lib).final model.Store.empty)).map (fun r => (r.method, r.url)) =
      [("GET", "http://nexus:8081/service/rest/v1/security/roles/dev#1"),
       ("POST", "http://nexus:8081/service/rest/v1/security/roles")] ∧
    ¬ (∀ role ∈ example_.fragmentManifest.Roles,
      (model.client "http://nexus:8081").newRequest "PUT"
          ("/service/rest/v1/security/roles/" ++ role.ID)
          (.role { ID := role.ID, Name := role.Name, Description := role.Description,
                   Privileges := role.Privileges, Roles := role.Roles })
        ∈ ((model.applyService "http://nexus:8081" example_.fragmentManifest).Apply
            model.lib).calls
          (((model.applyService "http://nexus:8081" example_.fragmentManifest).Apply
            model.lib).final model.Store.empty)) ∧
    ¬ (∀ r ∈ ((model.applyService "http://nexus:8081" example_.fragmentManifest).Apply
          model.lib).calls
        (((model.applyService "http://nexus:8081" example_.fragmentManifest).Apply
          model.lib).final model.Store.empty), r.method ≠ "POST") := by
  decide

/-- C9, amended.  On the model server, for a base URL made of unreserved characters,
`:` and `/`, and a manifest whose keys are made of unreserved characters, from any
stored state: if `Apply` succeeds, then a second `Apply` of the same manifest, run
on the state the first left, succeeds as well and leaves that state unchanged; the
second run issues no POST, so no privilege, repository, role or user is created, and
for every manifest role and every manifest user it issues the PUT that updates it. -/
theorem ApplyService.Apply_twice_is_apply_once (base : String) (cfg : config.Config)
    (st : model.Store)
    (hbase : model.urlSafeBase base = true)
    (hkeys : ∀ k ∈ cfg.urlKeys, model.urlSafe k = true)
    (h : (((model.applyService base cfg).Apply model.lib).result st).2 = none) :
    (((model.applyService base cfg).Apply model.lib).result
      (((model.applyService base cfg).Apply model.lib).final st)).2 = none ∧
    ((model.applyService base cfg).Apply model.lib).final
      (((model.applyService base cfg).Apply model.lib).final st)
      = ((model.applyService base cfg).Apply model.lib).final st ∧
    (∀ r ∈ ((model.applyService base cfg).Apply model.lib).calls
        (((model.applyService base cfg).Apply model.lib).final st), r.method ≠ "POST") ∧
    (∀ role ∈ cfg.Roles,
      (model.client base).newRequest "PUT" ("/service/rest/v1/security/roles/" ++ role.ID)
          (.role { ID := role.ID, Name := role.Name, Description := role.Description,
                   Privileges := role.Privileges, Roles := role.Roles })
        ∈ ((model.applyService base cfg).Apply model.lib).calls
            (((model.applyService base cfg).Apply model.lib).final st)) ∧
    (∀ user ∈ cfg.Users, ∃ req,
      (model.client base).newRequest "PUT" ("/service/rest/v1/security/users/" ++ user.ID)
          (.user req)
        ∈ ((model.applyService base cfg).Apply model.lib).calls
            (((model.applyService base cfg).Apply model.lib).final st)) := by
  rw [model.Apply_routed base cfg hbase hkeys] at h ⊢
  have hS := (model.Apply_model_effect base cfg st h).2.2
  have A := model.Apply_model_settled base cfg _ hS
  exact ⟨A.1, model.Apply_model_fixed base cfg st h, A.2.2.2.1, A.2.2.2.2.1, A.2.2.2.2.2⟩

/-- Witness of C9, amended: the manifest with one entry of every category, applied
to an empty server and then applied again. -/
theorem ApplyService.team_manifest_applied_twice :
    model.urlSafeBase "http://nexus:8081" = true ∧
    (∀ k ∈ example_.teamManifest.urlKeys, model.urlSafe k = true) ∧
    (((model.applyService "http://nexus:8081" example_.teamManifest).Apply model.lib).result
      model.Store.empty).2 = none ∧
    (((model.applyService "http://nexus:8081" example_.teamManifest).Apply model.lib).result
      (((model.applyService "http://nexus:8081" example_.teamManifest).Apply model.lib).final
        model.Store.empty)).2 = none ∧
    ((model.applyService "http://nexus:8081" example_.teamManifest).Apply model.lib).final
      (((model.applyService "http://nexus:8081" example_.teamManifest).Apply model.lib).final
        model.Store.empty)
      = ((model.applyService "http://nexus:8081" example_.teamManifest).Apply model.lib).final
        model.Store.empty ∧
    (∀ r ∈ ((model.applyService "http://nexus:8081" example_.teamManifest).Apply model.lib).calls
      (((model.applyService "http://nexus:8081" example_.teamManifest).Apply model.lib).final
        model.Store.empty), r.method ≠ "POST") ∧
    (∀ role ∈ example_.teamManifest.Roles,
      (model.client "http://nexus:8081").newRequest "PUT"
          ("/service/rest/v1/security/roles/" ++ role.ID)
          (.role { ID := role.ID, Name := role.Name, Description := role.Description,
                   Privileges := role.Privileges, Roles := role.Roles })
        ∈ ((model.applyService "http://nexus:8081" example_.teamManifest).Apply model.lib).calls
      (((model.applyService "http://nexus:8081" example_.teamManifest).Apply model.lib).final
        model.Store.empty)) ∧
    (∀ user ∈ example_.teamManifest.Users, ∃ req,
      (model.client "http://nexus:8081").newRequest "PUT"
          ("/service/rest/v1/security/users/" ++ user.ID) (.user req)
        ∈ ((model.applyService "http://nexus:8081" example_.teamManifest).Apply model.lib).calls
      (((model.applyService "http://nexus:8081" example_.teamManifest).Apply model.lib).final
        model.Store.empty)) :=
  have hb : model.urlSafeBase "http://nexus:8081" = true := by decide
  have hk : ∀ k ∈ example_.teamManifest.urlKeys, model.urlSafe k = true := by decide
  have h : (((model.applyService "http://nexus:8081" example_.teamManifest).Apply model.lib).result
      model.Store.empty).2 = none := by decide
  ⟨hb, hk, h, ApplyService.Apply_twice_is_apply_once "http://nexus:8081" example_.teamManifest
    model.Store.empty hb hk h⟩

end service

/-! ## Failures of the existence checks -/

namespace service

open nexus

/-- C11. The code at a failing input.  A server that answers the fetch with
`500 Internal Server Error` has not said that the resource is absent, yet for a key
that contains `404` each of the four existence checks returns `(false, nil)`: the
error text quotes the key, and the check looks for `404` anywhere in that text.  For
a key without `404` the same failure is reported as `(false, err)`. -/
theorem existence_check_reads_404_in_the_key :
    ((model.failingClient "http://nexus:8081" 0).RoleExists model.lib "team-404").result
      example_.fresh = (false, none) ∧
    ((model.failingClient "http://nexus:8081" 0).PrivilegeExists model.lib "team-404").result
      example_.fresh = (false, none) ∧
    ((model.failingClient "http://nexus:8081" 0).RepositoryExists model.lib "team-404").result
      example_.fresh = (false, none) ∧
    ((model.failingClient "http://nexus:8081" 0).UserExists model.lib "team-404").result
      example_.fresh = (false, none) ∧
    ((model.failingClient "http://nexus:8081" 0).GetRole model.lib "team-404").result
      example_.fresh = .error ("failed to get role team-404: " ++
        "request failed with status 500: Internal Server Error") ∧
    ((model.failingClient "http://nexus:8081" 0).RoleExists model.lib "team").result
      example_.fresh = (false, some ("failed to get role team: " ++
        "request failed with status 500: Internal Server Error")) := by
  decide

end service

/-! ## The repository dispatch -/

namespace service

open nexus

variable {σ β : Type}

/-- For a listed pair, `createRepository` is the create method of the endpoint the
table gives the pair. -/
theorem ApplyService.createRepository_of_supported (L : Lib β) (s : ApplyService σ β)
    (repo : config.Repository)
    (h : (repo.Format, repo.Type_) ∈ supportedRepositoryKinds) :
    s.createRepository L repo =
      s.client.createRepositoryAt L (createEndpoint repo.Format repo.Type_)
        (endpointSegment repo.Format ++ " " ++ repo.Type_) (repositoryRequest repo) := by
  simp only [supportedRepositoryKinds, List.mem_cons, Prod.mk.injEq, List.mem_singleton,
    List.not_mem_nil, or_false] at h
  rcases h with ⟨hf, ht⟩ | ⟨hf, ht⟩ | ⟨hf, ht⟩ | ⟨hf, ht⟩ | ⟨hf, ht⟩ | ⟨hf, ht⟩ | ⟨hf, ht⟩ |
    ⟨hf, ht⟩ | ⟨hf, ht⟩ | ⟨hf, ht⟩ | ⟨hf, ht⟩ | ⟨hf, ht⟩ | ⟨hf, ht⟩ | ⟨hf, ht⟩ <;>
  · simp only [ApplyService.createRepository, hf, ht, createEndpoint, endpointSegment]
    simp only [Client.CreateMavenHostedRepository, Client.CreateMavenProxyRepository,
      Client.CreateMavenGroupRepository, Client.CreateDockerHostedRepository,
      Client.CreateDockerProxyRepository, Client.CreateDockerGroupRepository,
      Client.CreateNpmHostedRepository, Client.CreateNpmProxyRepository,
      Client.CreateNpmGroupRepository, Client.CreatePypiHostedRepository,
      Client.CreatePypiProxyRepository, Client.CreatePypiGroupRepository,
      Client.CreateGoProxyRepository, Client.CreateGoGroupRepository]
    rfl

/-- For a pair that is not listed, `createRepository` returns an error without
touching the client. -/
theorem ApplyService.createRepository_of_unsupported (L : Lib β) (s : ApplyService σ β)
    (repo : config.Repository)
    (h : (repo.Format, repo.Type_) ∉ supportedRepositoryKinds) :
    ∃ err, s.createRepository L repo = pure (some err) := by
  simp only [supportedRepositoryKinds, List.mem_cons, Prod.mk.injEq, List.mem_singleton,
    List.not_mem_nil, or_false, not_or, not_and] at h
  unfold ApplyService.createRepository
  split_ifs <;>
    first
      | with_reducible exact ⟨_, rfl⟩
      | (exfalso; simp_all)

/-- C12. `createRepository` issues a remote call exactly for the fourteen listed
(format, type) pairs.  For a listed pair it issues one call, a POST of the request
it built to `/service/rest/v1/repositories/<seg>/<type>`, where `<seg>` is `maven`
for `maven2` and the format name otherwise; the fourteen endpoints are pairwise
distinct.  For every other pair it returns an error, issues no call and leaves the
world as it is. -/
theorem ApplyService.createRepository_dispatches_on_fourteen_pairs (L : Lib β)
    (s : ApplyService σ β) (repo : config.Repository) (w : σ) :
    ((repo.Format, repo.Type_) ∈ supportedRepositoryKinds →
      (s.createRepository L repo).calls w =
        [s.client.newRequest "POST" (createEndpoint repo.Format repo.Type_)
          (.repository (repositoryRequest repo))]) ∧
    ((repo.Format, repo.Type_) ∉ supportedRepositoryKinds →
      (s.createRepository L repo).calls w = [] ∧
      (s.createRepository L repo).final w = w ∧
      ∃ err, (s.createRepository L repo).result w = some err) ∧
    ((s.createRepository L repo).calls w ≠ [] ↔
      (repo.Format, repo.Type_) ∈ supportedRepositoryKinds) ∧
    supportedRepositoryKinds.length = 14 ∧
    (supportedRepositoryKinds.map fun p => createEndpoint p.1 p.2).Nodup := by
  have hyes : (repo.Format, repo.Type_) ∈ supportedRepositoryKinds →
      (s.createRepository L repo).calls w =
        [s.client.newRequest "POST" (createEndpoint repo.Format repo.Type_)
          (.repository (repositoryRequest repo))] := by
    intro h
    rw [ApplyService.createRepository_of_supported L s repo h]
    exact Client.calls_createRepositoryAt _ _ _ _ _ _
  have hno : (repo.Format, repo.Type_) ∉ supportedRepositoryKinds →
      (s.createRepository L repo).calls w = [] ∧
      (s.createRepository L repo).final w = w ∧
      ∃ err, (s.createRepository L repo).result w = some err := by
    intro h
    obtain ⟨err, he⟩ := ApplyService.createRepository_of_unsupported L s repo h
    rw [he]
    exact ⟨rfl, rfl, err, rfl⟩
  refine ⟨hyes, hno, ?_, by decide, by decide⟩
  constructor
  · intro hne
    by_contra hmem
    exact hne (hno hmem).1
  · intro hmem
    rw [hyes hmem]
    exact List.cons_ne_nil _ _

/-- Witness of C12: a `maven2` hosted repository is posted to the `maven/hosted`
endpoint; an `apt` hosted repository and a `go` hosted repository are refused
without a call. -/
theorem ApplyService.createRepository_dispatch_examples :
    (example_.plainService.createRepository model.lib
        (example_.repository "releases" "maven2" "hosted")).calls model.Store.empty =
      [example_.plainService.client.newRequest "POST"
        "/service/rest/v1/repositories/maven/hosted"
        (.repository (repositoryRequest (example_.repository "releases" "maven2" "hosted")))] ∧
    (example_.plainService.createRepository model.lib
        (example_.repository "debs" "apt" "hosted")).calls model.Store.empty = [] ∧
    (example_.plainService.createRepository model.lib
        (example_.repository "modules" "go" "hosted")).calls model.Store.empty = [] :=
  ⟨(ApplyService.createRepository_dispatches_on_fourteen_pairs model.lib example_.plainService
      (example_.repository "releases" "maven2" "hosted") model.Store.empty).1 (by decide),
   ((ApplyService.createRepository_dispatches_on_fourteen_pairs model.lib example_.plainService
      (example_.repository "debs" "apt" "hosted") model.Store.empty).2.1 (by decide)).1,
   ((ApplyService.createRepository_dispatches_on_fourteen_pairs model.lib example_.plainService
      (example_.repository "modules" "go" "hosted") model.Store.empty).2.1 (by decide)).1⟩

end service

/-! ## The go format -/

namespace service

open nexus

variable {σ β : Type}

/-- A create method applied to a request succeeds when the server answers its
POST with a 2xx status. -/
theorem createRepositoryAt_accepted (L : Lib β) (c : Client σ β) (path label : String)
    (req : RepositoryRequest) (w : σ) (status : Int) (body : β)
    (h : (c.httpClient w (c.newRequest "POST" path (.repository req))).1
      = .response status body)
    (h1 : 200 ≤ status) (h2 : status < 300) :
    (c.createRepositoryAt L path label req).result w = none := by
  have hok : ¬ (status < 200 ∨ status ≥ 300) := by omega
  simp [Client.createRepositoryAt, Client.post, h, Client.readReply, hok]

/-- C13.  For format `go`: with type `proxy` or `group`, `createRepository` issues
its one create call, the POST to `/service/rest/v1/repositories/go/<type>`, and
returns no error when the server answers it with a 2xx status.  With type `hosted`
it returns the explicit error `go format only supports proxy and group types`, the
message by which the code says that the type is not supported under this format
(the analogue of `unsupported repository type: ...` under the other formats),
issues no call and leaves the world as it is; the same holds for every type other
than `proxy` and `group`. -/
theorem ApplyService.createRepository_go (L : Lib β) (s : ApplyService σ β)
    (repo : config.Repository) (w : σ) (hf : repo.Format = "go") :
    (repo.Type_ = "proxy" ∨ repo.Type_ = "group" →
      (s.createRepository L repo).calls w =
        [s.client.newRequest "POST" ("/service/rest/v1/repositories/go/" ++ repo.Type_)
          (.repository (repositoryRequest repo))] ∧
      ∀ status body,
        (s.client.httpClient w (s.client.newRequest "POST"
          ("/service/rest/v1/repositories/go/" ++ repo.Type_)
          (.repository (repositoryRequest repo)))).1 = .response status body →
        200 ≤ status → status < 300 → (s.createRepository L repo).result w = none) ∧
    (repo.Type_ = "hosted" →
      (s.createRepository L repo).result w
        = some "go format only supports proxy and group types" ∧
      (s.createRepository L repo).calls w = [] ∧
      (s.createRepository L repo).events w = [] ∧
      (s.createRepository L repo).final w = w) ∧
    (repo.Type_ ≠ "proxy" → repo.Type_ ≠ "group" →
      (s.createRepository L repo).result w
        = some "go format only supports proxy and group types" ∧
      (s.createRepository L repo).calls w = [] ∧
      (s.createRepository L repo).final w = w) := by
  have hother : repo.Type_ ≠ "proxy" → repo.Type_ ≠ "group" →
      s.createRepository L repo
        = pure (some "go format only supports proxy and group types") := by
    intro h1 h2
    simp [ApplyService.createRepository, hf, h1, h2]
  refine ⟨?_, ?_, ?_⟩
  · intro ht
    have hmem : (repo.Format, repo.Type_) ∈ supportedRepositoryKinds := by
      rcases ht with ht | ht <;> simp [supportedRepositoryKinds, hf, ht]
    have hpath : createEndpoint repo.Format repo.Type_
        = "/service/rest/v1/repositories/go/" ++ repo.Type_ := by
      rcases ht with ht | ht <;> rw [hf, ht] <;> decide
    rw [ApplyService.createRepository_of_supported L s repo hmem, hpath]
    exact ⟨Client.calls_createRepositoryAt _ _ _ _ _ _,
      fun status body h h1 h2 => createRepositoryAt_accepted L _ _ _ _ w status body h h1 h2⟩
  · intro ht
    rw [hother (by rw [ht]; decide) (by rw [ht]; decide)]
    exact ⟨rfl, rfl, rfl, rfl⟩
  · intro h1 h2
    rw [hother h1 h2]
    exact ⟨rfl, rfl, rfl⟩

/-- Witness of C13 on the model server: a `go` proxy repository is created with
one POST and no error; a `go` hosted repository is refused with the explicit error
and without any call. -/
theorem ApplyService.createRepository_go_examples :
    ((example_.plainService.createRepository model.lib
        (example_.repository "modules" "go" "proxy")).calls model.Store.empty =
      [example_.plainService.client.newRequest "POST"
        ("/service/rest/v1/repositories/go/" ++ "proxy")
        (.repository (repositoryRequest (example_.repository "modules" "go" "proxy")))] ∧
      (example_.plainService.createRepository model.lib
        (example_.repository "modules" "go" "proxy")).result model.Store.empty = none) ∧
    ((example_.plainService.createRepository model.lib
        (example_.repository "modules" "go" "hosted")).result model.Store.empty
        = some "go format only supports proxy and group types" ∧
      (example_.plainService.createRepository model.lib
        (example_.repository "modules" "go" "hosted")).calls model.Store.empty = [] ∧
      (example_.plainService.createRepository model.lib
        (example_.repository "modules" "go" "hosted")).events model.Store.empty = [] ∧
      (example_.plainService.createRepository model.lib
        (example_.repository "modules" "go" "hosted")).final model.Store.empty
        = model.Store.empty) :=
  ⟨⟨((ApplyService.createRepository_go model.lib example_.plainService
        (example_.repository "modules" "go" "proxy") model.Store.empty rfl).1
        (Or.inl rfl)).1,
    ((ApplyService.createRepository_go model.lib example_.plainService
        (example_.repository "modules" "go" "proxy") model.Store.empty rfl).1
        (Or.inl rfl)).2 201 .empty (by decide) (by decide) (by decide)⟩,
   (ApplyService.createRepository_go model.lib example_.plainService
      (example_.repository "modules" "go" "hosted") model.Store.empty rfl).2.1 rfl⟩

end service

/-! ## The request built for a repository -/

namespace service

open nexus

variable {σ β : Type}

/-- Every call `createRepository` issues carries the request built from the
manifest entry. -/
theorem ApplyService.createRepository_body (L : Lib β) (s : ApplyService σ β)
    (repo : config.Repository) (w : σ) :
    ∀ r ∈ (s.createRepository L repo).calls w,
      r.body = .repository (repositoryRequest repo) := by
  intro r hr
  rcases ApplyService.createRepository_calls L s repo w with ⟨h, -⟩ | ⟨path, h⟩
  · rw [h] at hr; simp at hr
  · rw [h, List.mem_singleton] at hr
    rw [hr]; rfl

/-- C14. The storage block of the request `createRepository` builds, which is the
body of every call it issues: `blobStoreName` and `strictContentTypeValidation` are
always present with the manifest values; `writePolicy` is present exactly when the
type is `hosted` and the manifest write policy is non-empty, and its value is then
the manifest write policy; no key occurs twice. -/
theorem ApplyService.repositoryRequest_storage (L : Lib β) (s : ApplyService σ β)
    (repo : config.Repository) (w : σ) :
    (∀ r ∈ (s.createRepository L repo).calls w,
      r.body = .repository (repositoryRequest repo)) ∧
    (repositoryRequest repo).Storage.lookup "blobStoreName"
      = some (.str repo.Storage.BlobStoreName) ∧
    (repositoryRequest repo).Storage.lookup "strictContentTypeValidation"
      = some (.bool repo.Storage.StrictContentTypeValidation) ∧
    ((∃ v, ("writePolicy", v) ∈ (repositoryRequest repo).Storage) ↔
      (repo.Type_ = "hosted" ∧ repo.Storage.WritePolicy ≠ "")) ∧
    (repo.Type_ = "hosted" ∧ repo.Storage.WritePolicy ≠ "" →
      (repositoryRequest repo).Storage.lookup "writePolicy"
        = some (.str repo.Storage.WritePolicy)) ∧
    (¬ (repo.Type_ = "hosted" ∧ repo.Storage.WritePolicy ≠ "") →
      (repositoryRequest repo).Storage.lookup "writePolicy" = none) ∧
    ((repositoryRequest repo).Storage.map Prod.fst).Nodup := by
  refine ⟨ApplyService.createRepository_body L s repo w, ?_, ?_, ?_, ?_, ?_, ?_⟩
  · simp [repositoryRequest, List.lookup]
  · simp [repositoryRequest, List.lookup]
  · by_cases h : repo.Type_ = "hosted" ∧ repo.Storage.WritePolicy ≠ ""
    · simp [repositoryRequest, h]
    · simp [repositoryRequest, h]
  · intro h
    simp [repositoryRequest, h, List.lookup]
  · intro h
    simp [repositoryRequest, h, List.lookup]
  · by_cases h : repo.Type_ = "hosted" ∧ repo.Storage.WritePolicy ≠ ""
    · simp [repositoryRequest, h]
    · simp [repositoryRequest, h]

/-- Witness of C14: the hosted `maven-releases` entry, whose write policy is
`ALLOW_ONCE`, gets a `writePolicy` entry; the proxy entry `docker-hub`, whose write
policy is `ALLOW`, gets none. -/
theorem ApplyService.storage_examples :
    (repositoryRequest example_.releasesEntry).Storage.lookup "writePolicy"
      = some (.str "ALLOW_ONCE") ∧
    (repositoryRequest example_.dockerHubEntry).Storage.lookup "writePolicy" = none ∧
    (repositoryRequest example_.releasesEntry).Storage =
      [("blobStoreName", .str "default"), ("strictContentTypeValidation", .bool true),
       ("writePolicy", .str "ALLOW_ONCE")] :=
  ⟨(ApplyService.repositoryRequest_storage model.lib example_.plainService
      example_.releasesEntry model.Store.empty).2.2.2.2.1 (by decide),
   (ApplyService.repositoryRequest_storage model.lib example_.plainService
      example_.dockerHubEntry model.Store.empty).2.2.2.2.2.1 (by decide),
   by decide⟩

/-- C15. The proxy side of the request `createRepository` builds, which is the body
of every call it issues.  The negative-cache block and the HTTP-client block are
present exactly when the manifest entry has a proxy block, whatever the repository
type; when present they are `(enabled = true, timeToLive = 1440)` and
`(blocked = false, autoBlock = true, retries = 3, timeout = 60)`.  The proxy block
is present exactly when the manifest has one and copies the remote URL and the two
max-ages; its authentication block is present exactly when the manifest has one,
with equal fields. -/
theorem ApplyService.repositoryRequest_proxy (L : Lib β) (s : ApplyService σ β)
    (repo : config.Repository) (w : σ) :
    (∀ r ∈ (s.createRepository L repo).calls w,
      r.body = .repository (repositoryRequest repo)) ∧
    (repositoryRequest repo).NegativeCache =
      (if repo.Proxy.isSome then some { Enabled := true, TimeToLive := 1440 } else none) ∧
    (repositoryRequest repo).HTTPClient =
      (if repo.Proxy.isSome then
        some { Blocked := false, AutoBlock := true,
               Connection := some { RetryAttempts := 3, Timeout := 60 } }
       else none) ∧
    (∀ t, (repositoryRequest { repo with Type_ := t }).NegativeCache
        = (repositoryRequest repo).NegativeCache ∧
      (repositoryRequest { repo with Type_ := t }).HTTPClient
        = (repositoryRequest repo).HTTPClient ∧
      (repositoryRequest { repo with Type_ := t }).Proxy = (repositoryRequest repo).Proxy) ∧
    (repo.Proxy = none → (repositoryRequest repo).Proxy = none) ∧
    (∀ p, repo.Proxy = some p →
      ∃ q, (repositoryRequest repo).Proxy = some q ∧
        q.RemoteURL = p.RemoteURL ∧ q.ContentMaxAge = p.ContentMaxAge ∧
        q.MetadataMaxAge = p.MetadataMaxAge ∧
        (p.Authentication = none → q.Authentication = none) ∧
        ∀ a, p.Authentication = some a →
          q.Authentication = some
            { Type_ := a.Type_, Username := a.Username, Password := a.Password,
              NtlmHost := a.NtlmHost, NtlmDomain := a.NtlmDomain }) := by
  refine ⟨ApplyService.createRepository_body L s repo w, ?_, ?_, ?_, ?_, ?_⟩
  · cases h : repo.Proxy <;> simp [repositoryRequest, h]
  · cases h : repo.Proxy <;> simp [repositoryRequest, h]
  · intro t; exact ⟨rfl, rfl, rfl⟩
  · intro h; simp [repositoryRequest, h]
  · intro p h
    refine ⟨_, by simp only [repositoryRequest, h, Option.map_some']; rfl, rfl, rfl, rfl, ?_, ?_⟩
    · intro ha; simp [ha]
    · intro a ha; simp [ha]

/-- Witness of C15: the proxy entry `docker-hub` gets the two fixed blocks and its
credentials; the hosted entry `maven-releases`, which has no proxy block, gets
none of the three blocks. -/
theorem ApplyService.proxy_examples :
    (∃ q, (repositoryRequest example_.dockerHubEntry).Proxy = some q ∧
      q.RemoteURL = example_.dockerHubProxy.RemoteURL ∧
      q.ContentMaxAge = example_.dockerHubProxy.ContentMaxAge ∧
      q.MetadataMaxAge = example_.dockerHubProxy.MetadataMaxAge ∧
      (example_.dockerHubProxy.Authentication = none → q.Authentication = none) ∧
      ∀ a, example_.dockerHubProxy.Authentication = some a →
        q.Authentication = some
          { Type_ := a.Type_, Username := a.Username, Password := a.Password,
            NtlmHost := a.NtlmHost, NtlmDomain := a.NtlmDomain }) ∧
    (repositoryRequest example_.releasesEntry).Proxy = none ∧
    (repositoryRequest example_.releasesEntry).NegativeCache = none ∧
    (repositoryRequest example_.dockerHubEntry).NegativeCache
      = some { Enabled := true, TimeToLive := 1440 } :=
  ⟨(ApplyService.repositoryRequest_proxy model.lib example_.plainService
      example_.dockerHubEntry model.Store.empty).2.2.2.2.2 example_.dockerHubProxy rfl,
   (ApplyService.repositoryRequest_proxy model.lib example_.plainService
      example_.releasesEntry model.Store.empty).2.2.2.2.1 rfl,
   by decide, by decide⟩

end service

namespace service

open nexus

variable {σ β : Type}

/-- C16. The maven and docker blocks of the request `createRepository` builds, which
is the body of every call it issues.  The maven block is present exactly when the
manifest entry has one, with the same version and layout policy.  The docker block
is present exactly when the manifest entry has one, with the same `forceBasicAuth`,
`v1Enabled` and subdomain; its HTTP port is present exactly when the manifest port
is greater than zero and is then that port, and likewise its HTTPS port. -/
theorem ApplyService.repositoryRequest_maven_docker (L : Lib β) (s : ApplyService σ β)
    (repo : config.Repository) (w : σ) :
    (∀ r ∈ (s.createRepository L repo).calls w,
      r.body = .repository (repositoryRequest repo)) ∧
    (repo.Maven = none → (repositoryRequest repo).Maven = none) ∧
    (∀ m, repo.Maven = some m →
      (repositoryRequest repo).Maven
        = some { VersionPolicy := m.VersionPolicy, LayoutPolicy := m.LayoutPolicy }) ∧
    (repo.Docker = none → (repositoryRequest repo).Docker = none) ∧
    (∀ d, repo.Docker = some d →
      ∃ q, (repositoryRequest repo).Docker = some q ∧
        q.ForceBasicAuth = d.ForceBasicAuth ∧ q.V1Enabled = d.V1Enabled ∧
        q.SubdomainAddr = d.SubdomainAddr ∧
        (0 < d.HTTPPort → q.HTTPPort = some d.HTTPPort) ∧
        (d.HTTPPort ≤ 0 → q.HTTPPort = none) ∧
        (0 < d.HTTPSPort → q.HTTPSPort = some d.HTTPSPort) ∧
        (d.HTTPSPort ≤ 0 → q.HTTPSPort = none)) := by
  refine ⟨ApplyService.createRepository_body L s repo w, ?_, ?_, ?_, ?_⟩
  · intro h; simp [repositoryRequest, h]
  · intro m h; simp [repositoryRequest, h]
  · intro h; simp [repositoryRequest, h]
  · intro d h
    refine ⟨_, by simp only [repositoryRequest, h, Option.map_some']; rfl, rfl, rfl, ?_, ?_, ?_,
      ?_, ?_⟩
    · by_cases hs : d.SubdomainAddr = "" <;> simp [hs]
    · intro hp; simp [hp]
    · intro hp; simp [not_lt.mpr hp]
    · intro hp; simp [hp]
    · intro hp; simp [not_lt.mpr hp]

/-- Witness of C16: the docker block of `docker-hub`, whose HTTP port is 8082 and
whose HTTPS port is 0, keeps the HTTP port and has no HTTPS port; the maven block
of `maven-releases` is copied. -/
theorem ApplyService.maven_docker_examples :
    (∃ q, (repositoryRequest example_.dockerHubEntry).Docker = some q ∧
      q.ForceBasicAuth = example_.dockerHubPorts.ForceBasicAuth ∧
      q.V1Enabled = example_.dockerHubPorts.V1Enabled ∧
      q.SubdomainAddr = example_.dockerHubPorts.SubdomainAddr ∧
      (0 < example_.dockerHubPorts.HTTPPort →
        q.HTTPPort = some example_.dockerHubPorts.HTTPPort) ∧
      (example_.dockerHubPorts.HTTPPort ≤ 0 → q.HTTPPort = none) ∧
      (0 < example_.dockerHubPorts.HTTPSPort →
        q.HTTPSPort = some example_.dockerHubPorts.HTTPSPort) ∧
      (example_.dockerHubPorts.HTTPSPort ≤ 0 → q.HTTPSPort = none)) ∧
    (repositoryRequest example_.releasesEntry).Maven
      = some { VersionPolicy := "RELEASE", LayoutPolicy := "STRICT" } ∧
    (repositoryRequest example_.dockerHubEntry).Docker
      = some { HTTPPort := some 8082, HTTPSPort := none, ForceBasicAuth := true,
               V1Enabled := false, SubdomainAddr := "" } :=
  ⟨(ApplyService.repositoryRequest_maven_docker model.lib example_.plainService
      example_.dockerHubEntry model.Store.empty).2.2.2.2 example_.dockerHubPorts rfl,
   (ApplyService.repositoryRequest_maven_docker model.lib example_.plainService
      example_.releasesEntry model.Store.empty).2.2.1 _ rfl,
   by decide⟩

/-- C17. The code at a failing input.  The entry `debs` has an apt block
(`bionic`, flat), and the request built for it has none; the request built for any
entry has none.  The entry itself is refused, `apt` not being a format of the
dispatch; the same apt block on an entry that is dispatched, `maven-releases`, is
absent from the body that is posted. -/
theorem ApplyService.repositoryRequest_has_no_apt_block :
    example_.debsEntry.Apt = some { Distribution := "bionic", Flat := true } ∧
    (repositoryRequest example_.debsEntry).Apt = none ∧
    (∀ repo : config.Repository, (repositoryRequest repo).Apt = none) ∧
    (example_.plainService.createRepository model.lib example_.debsEntry).result
      model.Store.empty = some "unsupported repository format: apt" ∧
    ((example_.plainService.createRepository model.lib
        { example_.releasesEntry with Apt := example_.debsEntry.Apt }).calls
      model.Store.empty).map (fun r =>
        match r.body with
        | .repository req => req.Apt
        | _ => none) = [none] :=
  ⟨rfl, rfl, fun _ => rfl, by decide, by decide⟩

end service

/-! ## Passwords of existing users -/

namespace service

open nexus

variable {σ β : Type}

/-- C18. One iteration of `applyUsers`.  For a user that exists, is fetched and is
updated without error: the iteration ends with `count++` whatever the password
change returns, so the loop goes on to the remaining users with the count raised
by one; a call with a password body is issued exactly when the manifest password is
non-empty, and it is then the last call, the PUT to `change-password` with the
manifest password.  For a user that does not exist: the calls are the check and the
create, whose payload carries the manifest password; no password change is
issued. -/
theorem ApplyService.applyUser_password_change (L : Lib β) (s : ApplyService σ β)
    (user : config.User) (w : σ) :
    (∀ existing : UserResponse,
      (s.client.UserExists L user.ID).result w = (true, none) →
      (s.client.GetUser L user.ID).result ((s.client.UserExists L user.ID).final w)
        = .ok existing →
      (s.client.UpdateUser L user.ID
          { UserID := user.ID, FirstName := user.FirstName, LastName := user.LastName,
            EmailAddress := user.EmailAddress, Status := user.Status, Roles := user.Roles,
            Password := "", Source := existing.Source }).result
        ((s.client.GetUser L user.ID).final ((s.client.UserExists L user.ID).final w))
        = none →
      (s.applyUser L user).result w = .next true ∧
      (∀ rest count,
        (forRange (s.applyUser L) (user :: rest) count).result w =
          (forRange (s.applyUser L) rest (count + 1)).result ((s.applyUser L user).final w)) ∧
      ((∃ r ∈ (s.applyUser L user).calls w, ∃ pw, r.body = .password pw) ↔
        user.Password ≠ "") ∧
      (s.applyUser L user).calls w =
        [s.client.newRequest "GET"
          ("/service/rest/v1/security/users?userId=" ++ user.ID) .none,
         s.client.newRequest "GET"
          ("/service/rest/v1/security/users?userId=" ++ user.ID) .none,
         s.client.newRequest "PUT" ("/service/rest/v1/security/users/" ++ user.ID)
          (.user { UserID := user.ID, FirstName := user.FirstName,
                   LastName := user.LastName, EmailAddress := user.EmailAddress,
                   Status := user.Status, Roles := user.Roles, Password := "",
                   Source := existing.Source })] ++
        (if user.Password ≠ "" then
          [s.client.newRequest "PUT"
            ("/service/rest/v1/security/users/" ++ user.ID ++ "/change-password")
            (.password user.Password)]
         else [])) ∧
    ((s.client.UserExists L user.ID).result w = (false, none) →
      (s.applyUser L user).calls w =
        [s.client.newRequest "GET"
          ("/service/rest/v1/security/users?userId=" ++ user.ID) .none,
         s.client.newRequest "POST" "/service/rest/v1/security/users"
          (.user { UserID := user.ID, FirstName := user.FirstName,
                   LastName := user.LastName, EmailAddress := user.EmailAddress,
                   Status := user.Status, Roles := user.Roles, Password := user.Password,
                   Source := "" })] ∧
      ¬ ∃ r ∈ (s.applyUser L user).calls w, ∃ pw, r.body = .password pw) := by
  constructor
  · intro existing hex hget hupd
    simp only [Client.final_UserExists, Client.final_GetUser] at hget hupd
    have hres : (s.applyUser L user).result w = .next true := by
      by_cases hpw : user.Password = ""
      · simp [ApplyService.applyUser, hex, hget, hupd, hpw]
      · simp only [ApplyService.applyUser, Gw.result_bind, Gw.final_bind, hex,
          hget, hupd, hpw, Client.final_UserExists, Client.final_GetUser,
          Client.final_UpdateUser, formatter.final_Success,
          if_true, ne_eq, not_false_eq_true]
        split <;> simp
    have hcalls : (s.applyUser L user).calls w =
        [s.client.newRequest "GET"
          ("/service/rest/v1/security/users?userId=" ++ user.ID) .none,
         s.client.newRequest "GET"
          ("/service/rest/v1/security/users?userId=" ++ user.ID) .none,
         s.client.newRequest "PUT" ("/service/rest/v1/security/users/" ++ user.ID)
          (.user { UserID := user.ID, FirstName := user.FirstName,
                   LastName := user.LastName, EmailAddress := user.EmailAddress,
                   Status := user.Status, Roles := user.Roles, Password := "",
                   Source := existing.Source })] ++
        (if user.Password ≠ "" then
          [s.client.newRequest "PUT"
            ("/service/rest/v1/security/users/" ++ user.ID ++ "/change-password")
            (.password user.Password)]
         else []) := by
      by_cases hpw : user.Password = ""
      · simp [ApplyService.applyUser, hex, hget, hupd, hpw]
      · simp only [ApplyService.applyUser, Gw.calls_bind, Gw.result_bind, Gw.final_bind, hex,
          hget, hupd, hpw, Client.calls_UserExists, Client.calls_GetUser,
          Client.calls_UpdateUser, Client.final_UserExists, Client.final_GetUser,
          Client.final_UpdateUser, formatter.calls_Success, formatter.final_Success,
          if_true, ne_eq, not_false_eq_true, Client.calls_ChangePassword]
        split <;> simp
    refine ⟨hres, ?_, ?_, hcalls⟩
    · intro rest count
      have hn := forRange_cons_next (s.applyUser L) user rest count w true hres
      rw [hn.1]; rfl
    · rw [hcalls]
      by_cases hpw : user.Password = ""
      · simp [hpw, Client.newRequest]
      · simp [hpw, Client.newRequest]
  · intro hex
    have hcalls : (s.applyUser L user).calls w =
        [s.client.newRequest "GET"
          ("/service/rest/v1/security/users?userId=" ++ user.ID) .none,
         s.client.newRequest "POST" "/service/rest/v1/security/users"
          (.user { UserID := user.ID, FirstName := user.FirstName,
                   LastName := user.LastName, EmailAddress := user.EmailAddress,
                   Status := user.Status, Roles := user.Roles, Password := user.Password,
                   Source := "" })] := by
      simp only [ApplyService.applyUser, Gw.calls_bind, Gw.result_bind, hex,
        Client.calls_UserExists, Client.calls_CreateUser]
      simp only [Bool.false_eq_true, if_false, Gw.calls_bind, Client.calls_CreateUser]
      split <;> simp
    refine ⟨hcalls, ?_⟩
    rw [hcalls]
    simp [Client.newRequest]

end service

namespace service

open nexus

/-- Witness of C18, on the model server holding `alice`, with the fourth request of
the run, her password change, failing: her iteration still counts, `bob` is then
created with his manifest password, `applyUsers` returns the count 2 and no error,
and the failure is a warning. -/
theorem ApplyService.password_change_failure_is_a_warning :
    ((example_.passwordChangeFails.applyUser model.lib example_.aliceEntry).result
        (0, example_.aliceStore) = .next true ∧
      ((∃ r ∈ (example_.passwordChangeFails.applyUser model.lib example_.aliceEntry).calls
          (0, example_.aliceStore), ∃ pw, r.body = .password pw) ↔
        example_.aliceEntry.Password ≠ "")) ∧
    (example_.passwordChangeFails.applyUsers model.lib).result (0, example_.aliceStore)
      = (2, none) ∧
    ((example_.passwordChangeFails.applyUsers model.lib).events
        (0, example_.aliceStore)).filterMap Event.warning? =
      ["Failed to change password for user alice: " ++
        "failed to change password for user alice: " ++
        "request failed with status 500: Internal Server Error"] ∧
    ((example_.passwordChangeFails.applyUsers model.lib).calls
        (0, example_.aliceStore)).map (fun r => (r.method, r.url)) =
      [("GET", "http://nexus:8081/service/rest/v1/security/users?userId=alice"),
       ("GET", "http://nexus:8081/service/rest/v1/security/users?userId=alice"),
       ("PUT", "http://nexus:8081/service/rest/v1/security/users/alice"),
       ("PUT", "http://nexus:8081/service/rest/v1/security/users/alice/change-password"),
       ("GET", "http://nexus:8081/service/rest/v1/security/users?userId=bob"),
       ("POST", "http://nexus:8081/service/rest/v1/security/users")] :=
  ⟨⟨((ApplyService.applyUser_password_change model.lib example_.passwordChangeFails
        example_.aliceEntry (0, example_.aliceStore)).1 example_.alice
        (by decide) (by decide) (by decide)).1,
    ((ApplyService.applyUser_password_change model.lib example_.passwordChangeFails
        example_.aliceEntry (0, example_.aliceStore)).1 example_.alice
        (by decide) (by decide) (by decide)).2.2.1⟩,
   by decide, by decide, by decide⟩

end service

/-! ## Grants on a repository without a format -/

section LoopAbort

variable {σ β α : Type}

/-- A loop whose entries before `x` are processed without error and whose body
aborts on `x` returns that error; its events are those of the entries before `x`
followed by those of the failing iteration. -/
theorem forRange_aborts_at (body : α → Gw σ β Step) (x : α) (post : List α) (err : String) :
    ∀ (pre : List α) (c : Nat) (w : σ),
      ((forRange body pre c).result w).2 = none →
      (body x).result ((forRange body pre c).final w) = .abort err →
      ((forRange body (pre ++ x :: post) c).result w).2 = some err ∧
      (forRange body (pre ++ x :: post) c).events w =
        (forRange body pre c).events w ++ (body x).events ((forRange body pre c).final w) := by
  intro pre
  induction pre with
  | nil =>
    intro c w _ hx
    have h := forRange_cons_abort body x post c w err hx
    simp [h.1, h.2.2, forRange_nil]
  | cons y pre ih =>
    intro c w hpre hx
    cases hy : (body y).result w with
    | abort e =>
      rw [(forRange_cons_abort body y pre c w e hy).1] at hpre
      simp at hpre
    | next counted =>
      have h1 := forRange_cons_next body y pre c w counted hy
      have h2 := forRange_cons_next body y (pre ++ x :: post) c w counted hy
      rw [h1.1] at hpre
      rw [h1.2.1] at hx
      obtain ⟨ha, hb⟩ := ih _ _ hpre hx
      rw [List.cons_append, h2.1, h2.2.2, h1.2.2, h1.2.1, ha, hb, List.append_assoc]
      exact ⟨rfl, rfl⟩

end LoopAbort

namespace service

open nexus

variable {σ β : Type}

/-- C19. One grant whose repository cannot be used.  If the fetch of the named
repository fails, or the fetched repository has no `format` entry, a `format` that
is not a string, or an empty `format`, the iteration returns an error and its only
call is that fetch: no role check, no role create or update, no user fetch or
update.  The step then returns that error, having issued the calls of the grants
before this one and the fetch, and `Apply`, once it has reached the step, returns
an error. -/
theorem ApplyService.grant_without_repository_format (L : Lib β) (s : ApplyService σ β)
    (perm : config.UserRepositoryPermission) (w : σ) :
    (∀ err, (s.client.GetRepository L perm.Repository).result w = .error err →
      (s.applyUserRepositoryPermission L perm).result w =
        .abort ("failed to get repository " ++ perm.Repository ++ ": " ++ err) ∧
      (s.applyUserRepositoryPermission L perm).calls w =
        [s.client.newRequest "GET" ("/service/rest/v1/repositories/" ++ perm.Repository)
          .none]) ∧
    (∀ repo, (s.client.GetRepository L perm.Repository).result w = .ok repo →
      (repo.lookup "format" = none ∨
        (∃ v, repo.lookup "format" = some v ∧ ∀ str, v ≠ .str str) ∨
        repo.lookup "format" = some (.str "")) →
      (s.applyUserRepositoryPermission L perm).result w =
        .abort ("failed to determine format for repository " ++ perm.Repository) ∧
      (s.applyUserRepositoryPermission L perm).calls w =
        [s.client.newRequest "GET" ("/service/rest/v1/repositories/" ++ perm.Repository)
          .none]) ∧
    (∀ pre post err w0, s.config.UserRepositoryPermissions = pre ++ perm :: post →
      ((forRange (s.applyUserRepositoryPermission L) pre 0).result w0).2 = none →
      (forRange (s.applyUserRepositoryPermission L) pre 0).final w0 = w →
      (s.applyUserRepositoryPermission L perm).result w = .abort err →
      ((s.applyUserRepositoryPermissions L).result w0).2 = some err ∧
      (s.applyUserRepositoryPermissions L).calls w0 =
        (forRange (s.applyUserRepositoryPermission L) pre 0).calls w0 ++
          (s.applyUserRepositoryPermission L perm).calls w) ∧
    (∀ err w0,
      ((s.applyPrivileges L).result w0).2 = none →
      ((s.applyRoles L).result ((s.applyPrivileges L).final w0)).2 = none →
      ((s.applyRepositories L).result
        ((s.applyRoles L).final ((s.applyPrivileges L).final w0))).2 = none →
      ((s.applyUsers L).result ((s.applyRepositories L).final
        ((s.applyRoles L).final ((s.applyPrivileges L).final w0)))).2 = none →
      ((s.applyUserRepositoryPermissions L).result ((s.applyUsers L).final
        ((s.applyRepositories L).final
          ((s.applyRoles L).final ((s.applyPrivileges L).final w0))))).2 = some err →
      ((s.Apply L).result w0).2 =
        some ("failed to apply user repository permissions: " ++ err)) := by
  refine ⟨?_, ?_, ?_, ?_⟩
  · intro err h
    simp [ApplyService.applyUserRepositoryPermission, h]
  · intro repo h hfmt
    have hempty : repositoryFormat repo = "" := by
      rcases hfmt with h0 | ⟨v, hv, hns⟩ | h0
      · simp [repositoryFormat, h0]
      · cases v with
        | str x => exact absurd rfl (hns x)
        | null => simp [repositoryFormat, hv]
        | bool b => simp [repositoryFormat, hv]
        | number n => simp [repositoryFormat, hv]
        | composite c => simp [repositoryFormat, hv]
      · simp [repositoryFormat, h0]
    simp [ApplyService.applyUserRepositoryPermission, h, hempty]
  · intro pre post err w0 hcfg hpre hfin hx
    rw [← hfin] at hx
    obtain ⟨ha, hb⟩ := forRange_aborts_at (s.applyUserRepositoryPermission L) perm post err
      pre 0 w0 hpre hx
    rw [← hfin]
    constructor
    · simp only [ApplyService.applyUserRepositoryPermissions, Gw.result_bind,
        formatter.final_Info, hcfg]
      exact ha
    · simp only [ApplyService.applyUserRepositoryPermissions, Gw.calls_bind,
        formatter.calls_Info, formatter.final_Info, List.nil_append, hcfg]
      simp only [Gw.calls, hb, List.filterMap_append]
  · intro err w0 h1 h2 h3 h4 h5
    simp [ApplyService.Apply, h1, h2, h3, h4, h5]

/-- Witness of C19, on the model server: on an empty server the repository of the
grant to `alice` cannot be fetched; on a server where its `format` is a number the
format cannot be determined.  In both cases the step returns an error after the
one fetch. -/
theorem ApplyService.grant_without_repository_format_examples :
    ((example_.aliceService.applyUserRepositoryPermission model.lib example_.aliceGrant).calls
        model.Store.empty =
      [example_.aliceService.client.newRequest "GET"
        ("/service/rest/v1/repositories/" ++ example_.aliceGrant.Repository) .none]) ∧
    ((example_.aliceService.applyUserRepositoryPermission model.lib example_.aliceGrant).result
        example_.numericFormatStore =
      .abort ("failed to determine format for repository " ++
        example_.aliceGrant.Repository)) ∧
    ((example_.aliceService.applyUserRepositoryPermissions model.lib).result
        example_.numericFormatStore).2 =
      some "failed to determine format for repository maven-releases" ∧
    ((example_.aliceService.Apply model.lib).result example_.numericFormatStore).2 =
      some ("failed to apply user repository permissions: " ++
        "failed to determine format for repository maven-releases") :=
  ⟨((ApplyService.grant_without_repository_format model.lib example_.aliceService
      example_.aliceGrant model.Store.empty).1
      ("failed to get repository maven-releases: request failed with status 404: not found")
      (by decide)).2,
   ((ApplyService.grant_without_repository_format model.lib example_.aliceService
      example_.aliceGrant example_.numericFormatStore).2.1
      [("name", .str "maven-releases"), ("format", .number "2")] (by decide)
      (Or.inr (Or.inl ⟨.number "2", by decide, fun _ => by simp⟩))).1,
   ((ApplyService.grant_without_repository_format model.lib example_.aliceService
      example_.aliceGrant example_.numericFormatStore).2.2.1 [] []
      "failed to determine format for repository maven-releases"
      example_.numericFormatStore rfl rfl rfl (by decide)).1,
   (ApplyService.grant_without_repository_format model.lib example_.aliceService
      example_.aliceGrant example_.numericFormatStore).2.2.2
      "failed to determine format for repository maven-releases"
      example_.numericFormatStore (by decide) (by decide) (by decide) (by decide)
      (by decide)⟩

end service

/-! ## Fatal errors -/

section EndsOn
variable {σ β α : Type}

theorem getLast?_append_of_some {γ : Type} (l1 l2 : List γ) (x : γ)
    (h : l2.getLast? = some x) : (l1 ++ l2).getLast? = some x := by
  simp [List.getLast?_append, h]

/-- A category step whose loop reaches an entry on which the body aborts on a
remote call ends on that call. -/
theorem step_ends_on_call (msg : String) (body : α → Gw σ β Step) (pre : List α) (x : α)
    (post : List α) (w : σ) (before : List Request) (req : Request) (err : String)
    (hpre : ((forRange body pre 0).result w).2 = none)
    (hx : AbortsOnCall (body x) ((forRange body pre 0).final w) before req err) :
    EndsOnCall ((formatter.Info msg : Gw σ β Unit) >>= fun _ =>
        forRange body (pre ++ x :: post) 0) w
      ((forRange body pre 0).calls w ++ before) req err := by
  obtain ⟨hres, hcalls, reply, hlast⟩ := hx
  obtain ⟨ha, hb⟩ := forRange_aborts_at body x post err pre 0 w hpre hres
  refine ⟨?_, ?_, reply, ?_⟩
  · simpa using ha
  · simp only [Gw.calls_bind, formatter.calls_Info, formatter.final_Info, List.nil_append]
    simp only [Gw.calls, hb, List.filterMap_append]
    simp only [Gw.calls] at hcalls
    rw [hcalls, List.append_assoc]
  · simp only [Gw.events_bind, formatter.final_Info, hb]
    exact getLast?_append_of_some _ _ _ (getLast?_append_of_some _ _ _ hlast)

end EndsOn

namespace service

open nexus

variable {σ β : Type}

theorem ApplyService.Apply_ends_in_privileges (L : Lib β) (s : ApplyService σ β) (w : σ)
    (before : List Request) (req : Request) (err : String)
    (h : EndsOnCall (s.applyPrivileges L) w before req err) :
    EndsOnCall (s.Apply L) w before req ("failed to apply privileges: " ++ err) := by
  obtain ⟨hres, hcalls, reply, hlast⟩ := h
  refine ⟨?_, ?_, reply, ?_⟩
  · simp [ApplyService.Apply, hres]
  · simp [ApplyService.Apply, hres, hcalls]
  · simp only [ApplyService.Apply, Gw.events_bind, Gw.result_bind, formatter.final_Info, hres,
      Gw.events_pure, List.append_nil]
    exact getLast?_append_of_some _ _ _ hlast

theorem ApplyService.Apply_ends_in_roles (L : Lib β) (s : ApplyService σ β) (w : σ)
    (before : List Request) (req : Request) (err : String)
    (h1 : ((s.applyPrivileges L).result w).2 = none)
    (h : EndsOnCall (s.applyRoles L) ((s.applyPrivileges L).final w) before req err) :
    EndsOnCall (s.Apply L) w ((s.applyPrivileges L).calls w ++ before) req
      ("failed to apply roles: " ++ err) := by
  obtain ⟨hres, hcalls, reply, hlast⟩ := h
  refine ⟨?_, ?_, reply, ?_⟩
  · simp [ApplyService.Apply, h1, hres]
  · simp [ApplyService.Apply, h1, hres, hcalls]
  · simp only [ApplyService.Apply, Gw.events_bind, Gw.result_bind, Gw.final_bind,
      formatter.final_Info, h1, hres, Gw.events_pure, List.append_nil]
    exact getLast?_append_of_some _ _ _ (getLast?_append_of_some _ _ _ hlast)

theorem ApplyService.Apply_ends_in_repositories (L : Lib β) (s : ApplyService σ β) (w : σ)
    (before : List Request) (req : Request) (err : String)
    (h1 : ((s.applyPrivileges L).result w).2 = none)
    (h2 : ((s.applyRoles L).result ((s.applyPrivileges L).final w)).2 = none)
    (h : EndsOnCall (s.applyRepositories L)
      ((s.applyRoles L).final ((s.applyPrivileges L).final w)) before req err) :
    EndsOnCall (s.Apply L) w
      ((s.applyPrivileges L).calls w ++ (s.applyRoles L).calls ((s.applyPrivileges L).final w)
        ++ before) req
      ("failed to apply repositories: " ++ err) := by
  obtain ⟨hres, hcalls, reply, hlast⟩ := h
  refine ⟨?_, ?_, reply, ?_⟩
  · simp [ApplyService.Apply, h1, h2, hres]
  · simp [ApplyService.Apply, h1, h2, hres, hcalls]
  · simp only [ApplyService.Apply, Gw.events_bind, Gw.result_bind, Gw.final_bind,
      formatter.final_Info, h1, h2, hres, Gw.events_pure, List.append_nil]
    exact getLast?_append_of_some _ _ _ (getLast?_append_of_some _ _ _
      (getLast?_append_of_some _ _ _ hlast))

theorem ApplyService.Apply_ends_in_users (L : Lib β) (s : ApplyService σ β) (w : σ)
    (before : List Request) (req : Request) (err : String)
    (h1 : ((s.applyPrivileges L).result w).2 = none)
    (h2 : ((s.applyRoles L).result ((s.applyPrivileges L).final w)).2 = none)
    (h3 : ((s.applyRepositories L).result
      ((s.applyRoles L).final ((s.applyPrivileges L).final w))).2 = none)
    (h : EndsOnCall (s.applyUsers L) ((s.applyRepositories L).final
      ((s.applyRoles L).final ((s.applyPrivileges L).final w))) before req err) :
    EndsOnCall (s.Apply L) w
      ((s.applyPrivileges L).calls w ++ (s.applyRoles L).calls ((s.applyPrivileges L).final w)
        ++ (s.applyRepositories L).calls
          ((s.applyRoles L).final ((s.applyPrivileges L).final w))
        ++ before) req
      ("failed to apply users: " ++ err) := by
  obtain ⟨hres, hcalls, reply, hlast⟩ := h
  refine ⟨?_, ?_, reply, ?_⟩
  · simp [ApplyService.Apply, h1, h2, h3, hres]
  · simp [ApplyService.Apply, h1, h2, h3, hres, hcalls]
  · simp only [ApplyService.Apply, Gw.events_bind, Gw.result_bind, Gw.final_bind,
      formatter.final_Info, h1, h2, h3, hres, Gw.events_pure, List.append_nil]
    exact getLast?_append_of_some _ _ _ (getLast?_append_of_some _ _ _
      (getLast?_append_of_some _ _ _ (getLast?_append_of_some _ _ _ hlast)))

theorem ApplyService.Apply_ends_in_permissions (L : Lib β) (s : ApplyService σ β) (w : σ)
    (before : List Request) (req : Request) (err : String)
    (h1 : ((s.applyPrivileges L).result w).2 = none)
    (h2 : ((s.applyRoles L).result ((s.applyPrivileges L).final w)).2 = none)
    (h3 : ((s.applyRepositories L).result
      ((s.applyRoles L).final ((s.applyPrivileges L).final w))).2 = none)
    (h4 : ((s.applyUsers L).result ((s.applyRepositories L).final
      ((s.applyRoles L).final ((s.applyPrivileges L).final w)))).2 = none)
    (h : EndsOnCall (s.applyUserRepositoryPermissions L) ((s.applyUsers L).final
      ((s.applyRepositories L).final
        ((s.applyRoles L).final ((s.applyPrivileges L).final w)))) before req err) :
    EndsOnCall (s.Apply L) w
      ((s.applyPrivileges L).calls w ++ (s.applyRoles L).calls ((s.applyPrivileges L).final w)
        ++ (s.applyRepositories L).calls
          ((s.applyRoles L).final ((s.applyPrivileges L).final w))
        ++ (s.applyUsers L).calls ((s.applyRepositories L).final
          ((s.applyRoles L).final ((s.applyPrivileges L).final w)))
        ++ before) req
      ("failed to apply user repository permissions: " ++ err) := by
  obtain ⟨hres, hcalls, reply, hlast⟩ := h
  refine ⟨?_, ?_, reply, ?_⟩
  · simp [ApplyService.Apply, h1, h2, h3, h4, hres]
  · simp [ApplyService.Apply, h1, h2, h3, h4, hres, hcalls]
  · simp only [ApplyService.Apply, Gw.events_bind, Gw.result_bind, Gw.final_bind,
      formatter.final_Info, h1, h2, h3, h4, hres, Gw.events_pure, List.append_nil]
    exact getLast?_append_of_some _ _ _ (getLast?_append_of_some _ _ _
      (getLast?_append_of_some _ _ _ (getLast?_append_of_some _ _ _
        (getLast?_append_of_some _ _ _ hlast))))

theorem ApplyService.applyPrivilege_check_fails (L : Lib β) (s : ApplyService σ β)
    (priv : config.Privilege) (v : σ) (e : String)
    (h : ((s.client.PrivilegeExists L priv.Name).result v).2 = some e) :
    AbortsOnCall (s.applyPrivilege L priv) v []
      (s.client.newRequest "GET" ("/service/rest/v1/security/privileges/" ++ priv.Name) .none)
      ("failed to check privilege " ++ priv.Name ++ ": " ++ e) := by
  refine ⟨?_, ?_, ?_⟩
  · simp [ApplyService.applyPrivilege, h]
  · simp [ApplyService.applyPrivilege, h]
  · simp [ApplyService.applyPrivilege, h]

theorem ApplyService.applyPrivilege_create_fails (L : Lib β) (s : ApplyService σ β)
    (priv : config.Privilege) (v : σ) (e path : String)
    (hex : (s.client.PrivilegeExists L priv.Name).result v = (false, none))
    (hpath : Client.privilegePath priv.Type_ = some path)
    (h : (s.client.CreatePrivilege L
      { Name := priv.Name, Description := priv.Description, Type_ := priv.Type_,
        Format := priv.Format, Repository := priv.Repository, Actions := priv.Actions,
        Pattern := "", Domain := "" }).result
        ((s.client.PrivilegeExists L priv.Name).final v) = some e) :
    AbortsOnCall (s.applyPrivilege L priv) v
      [s.client.newRequest "GET" ("/service/rest/v1/security/privileges/" ++ priv.Name) .none]
      (s.client.newRequest "POST" path (.privilege
        { Name := priv.Name, Description := priv.Description, Type_ := priv.Type_,
          Format := priv.Format, Repository := priv.Repository, Actions := priv.Actions,
          Pattern := "", Domain := "" }))
      ("failed to create privilege " ++ priv.Name ++ ": " ++ e) := by
  simp only [Client.final_PrivilegeExists] at h
  have hev : ∀ u, (s.client.CreatePrivilege L
      { Name := priv.Name, Description := priv.Description, Type_ := priv.Type_,
        Format := priv.Format, Repository := priv.Repository, Actions := priv.Actions,
        Pattern := "", Domain := "" }).events u =
      [.http (s.client.newRequest "POST" path (.privilege
        { Name := priv.Name, Description := priv.Description, Type_ := priv.Type_,
          Format := priv.Format, Repository := priv.Repository, Actions := priv.Actions,
          Pattern := "", Domain := "" })) (s.client.httpClient u (s.client.newRequest "POST" path
            (.privilege
        { Name := priv.Name, Description := priv.Description, Type_ := priv.Type_,
          Format := priv.Format, Repository := priv.Repository, Actions := priv.Actions,
          Pattern := "", Domain := "" }))).1] := by
    intro u
    simp only [Client.CreatePrivilege, hpath, Client.post, Gw.events_bind,
      Client.events_doRequest]
    split <;> simp
  refine ⟨?_, ?_, ?_⟩
  · simp [ApplyService.applyPrivilege, hex, h]
  · simp [ApplyService.applyPrivilege, hex, h, Gw.calls, hev, Event.request?]
  · simp [ApplyService.applyPrivilege, hex, h, hev]

theorem ApplyService.applyRole_check_fails (L : Lib β) (s : ApplyService σ β)
    (role : config.Role) (v : σ) (e : String)
    (h : ((s.client.RoleExists L role.ID).result v).2 = some e) :
    AbortsOnCall (s.applyRole L role) v []
      (s.client.newRequest "GET" ("/service/rest/v1/security/roles/" ++ role.ID) .none)
      ("failed to check role " ++ role.ID ++ ": " ++ e) := by
  refine ⟨?_, ?_, ?_⟩
  · simp [ApplyService.applyRole, h]
  · simp [ApplyService.applyRole, h]
  · simp [ApplyService.applyRole, h]

theorem ApplyService.applyRole_update_fails (L : Lib β) (s : ApplyService σ β)
    (role : config.Role) (v : σ) (e : String)
    (hex : (s.client.RoleExists L role.ID).result v = (true, none))
    (h : (s.client.UpdateRole L role.ID
      { ID := role.ID, Name := role.Name, Description := role.Description,
        Privileges := role.Privileges, Roles := role.Roles }).result
        ((s.client.RoleExists L role.ID).final v) = some e) :
    AbortsOnCall (s.applyRole L role) v
      [s.client.newRequest "GET" ("/service/rest/v1/security/roles/" ++ role.ID) .none]
      (s.client.newRequest "PUT" ("/service/rest/v1/security/roles/" ++ role.ID) (.role
        { ID := role.ID, Name := role.Name, Description := role.Description,
          Privileges := role.Privileges, Roles := role.Roles }))
      ("failed to update role " ++ role.ID ++ ": " ++ e) := by
  simp only [Client.final_RoleExists] at h
  refine ⟨?_, ?_, ?_⟩
  · simp [ApplyService.applyRole, hex, h]
  · simp [ApplyService.applyRole, hex, h]
  · simp [ApplyService.applyRole, hex, h]

theorem ApplyService.applyRole_create_fails (L : Lib β) (s : ApplyService σ β)
    (role : config.Role) (v : σ) (e : String)
    (hex : (s.client.RoleExists L role.ID).result v = (false, none))
    (h : (s.client.CreateRole L
      { ID := role.ID, Name := role.Name, Description := role.Description,
        Privileges := role.Privileges, Roles := role.Roles }).result
        ((s.client.RoleExists L role.ID).final v) = some e) :
    AbortsOnCall (s.applyRole L role) v
      [s.client.newRequest "GET" ("/service/rest/v1/security/roles/" ++ role.ID) .none]
      (s.client.newRequest "POST" "/service/rest/v1/security/roles" (.role
        { ID := role.ID, Name := role.Name, Description := role.Description,
          Privileges := role.Privileges, Roles := role.Roles }))
      ("failed to create role " ++ role.ID ++ ": " ++ e) := by
  simp only [Client.final_RoleExists] at h
  refine ⟨?_, ?_, ?_⟩
  · simp [ApplyService.applyRole, hex, h]
  · simp [ApplyService.applyRole, hex, h]
  · simp [ApplyService.applyRole, hex, h]

theorem ApplyService.applyRepository_check_fails (L : Lib β) (s : ApplyService σ β)
    (repo : config.Repository) (v : σ) (e : String)
    (h : ((s.client.RepositoryExists L repo.Name).result v).2 = some e) :
    AbortsOnCall (s.applyRepository L repo) v []
      (s.client.newRequest "GET" ("/service/rest/v1/repositories/" ++ repo.Name) .none)
      ("failed to check repository " ++ repo.Name ++ ": " ++ e) := by
  refine ⟨?_, ?_, ?_⟩
  · simp [ApplyService.applyRepository, h]
  · simp [ApplyService.applyRepository, h]
  · simp [ApplyService.applyRepository, h]

theorem ApplyService.applyRepository_create_fails (L : Lib β) (s : ApplyService σ β)
    (repo : config.Repository) (v : σ) (e : String)
    (hex : (s.client.RepositoryExists L repo.Name).result v = (false, none))
    (hkind : (repo.Format, repo.Type_) ∈ supportedRepositoryKinds)
    (h : (s.createRepository L repo).result
        ((s.client.RepositoryExists L repo.Name).final v) = some e) :
    AbortsOnCall (s.applyRepository L repo) v
      [s.client.newRequest "GET" ("/service/rest/v1/repositories/" ++ repo.Name) .none]
      (s.client.newRequest "POST" (createEndpoint repo.Format repo.Type_)
        (.repository (repositoryRequest repo)))
      ("failed to create repository " ++ repo.Name ++ ": " ++ e) := by
  simp only [Client.final_RepositoryExists] at h
  have hc := ApplyService.createRepository_of_supported L s repo hkind
  refine ⟨?_, ?_, ?_⟩
  · simp [ApplyService.applyRepository, hex, h]
  · simp [ApplyService.applyRepository, hex, h]
    rw [hc]
    simp
  · simp [ApplyService.applyRepository, hex, h]
    rw [hc]
    simp

theorem ApplyService.applyUser_check_fails (L : Lib β) (s : ApplyService σ β)
    (user : config.User) (v : σ) (e : String)
    (h : ((s.client.UserExists L user.ID).result v).2 = some e) :
    AbortsOnCall (s.applyUser L user) v []
      (s.client.newRequest "GET" ("/service/rest/v1/security/users?userId=" ++ user.ID) .none)
      ("failed to check user " ++ user.ID ++ ": " ++ e) := by
  refine ⟨?_, ?_, ?_⟩
  · simp [ApplyService.applyUser, h]
  · simp [ApplyService.applyUser, h]
  · simp [ApplyService.applyUser, h]

theorem ApplyService.applyUser_fetch_fails (L : Lib β) (s : ApplyService σ β)
    (user : config.User) (v : σ) (e : String)
    (hex : (s.client.UserExists L user.ID).result v = (true, none))
    (h : (s.client.GetUser L user.ID).result ((s.client.UserExists L user.ID).final v)
      = .error e) :
    AbortsOnCall (s.applyUser L user) v
      [s.client.newRequest "GET" ("/service/rest/v1/security/users?userId=" ++ user.ID) .none]
      (s.client.newRequest "GET" ("/service/rest/v1/security/users?userId=" ++ user.ID) .none)
      ("failed to get existing user " ++ user.ID ++ ": " ++ e) := by
  simp only [Client.final_UserExists] at h
  refine ⟨?_, ?_, ?_⟩
  · simp [ApplyService.applyUser, hex, h]
  · simp [ApplyService.applyUser, hex, h]
  · simp [ApplyService.applyUser, hex, h]

theorem ApplyService.applyUser_update_fails (L : Lib β) (s : ApplyService σ β)
    (user : config.User) (v : σ) (e : String) (existing : UserResponse)
    (hex : (s.client.UserExists L user.ID).result v = (true, none))
    (hget : (s.client.GetUser L user.ID).result ((s.client.UserExists L user.ID).final v)
      = .ok existing)
    (h : (s.client.UpdateUser L user.ID
      { UserID := user.ID, FirstName := user.FirstName, LastName := user.LastName,
        EmailAddress := user.EmailAddress, Status := user.Status, Roles := user.Roles,
        Password := "", Source := existing.Source }).result
        ((s.client.GetUser L user.ID).final ((s.client.UserExists L user.ID).final v))
      = some e) :
    AbortsOnCall (s.applyUser L user) v
      [s.client.newRequest "GET" ("/service/rest/v1/security/users?userId=" ++ user.ID) .none,
       s.client.newRequest "GET" ("/service/rest/v1/security/users?userId=" ++ user.ID) .none]
      (s.client.newRequest "PUT" ("/service/rest/v1/security/users/" ++ user.ID) (.user
        { UserID := user.ID, FirstName := user.FirstName, LastName := user.LastName,
          EmailAddress := user.EmailAddress, Status := user.Status, Roles := user.Roles,
          Password := "", Source := existing.Source }))
      ("failed to update user " ++ user.ID ++ ": " ++ e) := by
  simp only [Client.final_UserExists, Client.final_GetUser] at h hget
  refine ⟨?_, ?_, ?_⟩
  · simp [ApplyService.applyUser, hex, hget, h]
  · simp [ApplyService.applyUser, hex, hget, h]
  · simp [ApplyService.applyUser, hex, hget, h]

theorem ApplyService.applyUser_create_fails (L : Lib β) (s : ApplyService σ β)
    (user : config.User) (v : σ) (e : String)
    (hex : (s.client.UserExists L user.ID).result v = (false, none))
    (h : (s.client.CreateUser L
      { UserID := user.ID, FirstName := user.FirstName, LastName := user.LastName,
        EmailAddress := user.EmailAddress, Status := user.Status, Roles := user.Roles,
        Password := user.Password, Source := "" }).result
        ((s.client.UserExists L user.ID).final v) = some e) :
    AbortsOnCall (s.applyUser L user) v
      [s.client.newRequest "GET" ("/service/rest/v1/security/users?userId=" ++ user.ID) .none]
      (s.client.newRequest "POST" "/service/rest/v1/security/users" (.user
        { UserID := user.ID, FirstName := user.FirstName, LastName := user.LastName,
          EmailAddress := user.EmailAddress, Status := user.Status, Roles := user.Roles,
          Password := user.Password, Source := "" }))
      ("failed to create user " ++ user.ID ++ ": " ++ e) := by
  simp only [Client.final_UserExists] at h
  refine ⟨?_, ?_, ?_⟩
  · simp [ApplyService.applyUser, hex, h]
  · simp [ApplyService.applyUser, hex, h]
  · simp [ApplyService.applyUser, hex, h]

theorem ApplyService.grant_fetch_fails (L : Lib β) (s : ApplyService σ β)
    (perm : config.UserRepositoryPermission) (v : σ) (e : String)
    (h : (s.client.GetRepository L perm.Repository).result v = .error e) :
    AbortsOnCall (s.applyUserRepositoryPermission L perm) v []
      (s.client.newRequest "GET" ("/service/rest/v1/repositories/" ++ perm.Repository) .none)
      ("failed to get repository " ++ perm.Repository ++ ": " ++ e) := by
  refine ⟨?_, ?_, ?_⟩
  · simp [ApplyService.applyUserRepositoryPermission, h]
  · simp [ApplyService.applyUserRepositoryPermission, h]
  · simp [ApplyService.applyUserRepositoryPermission, h]

theorem ApplyService.grant_check_fails (L : Lib β) (s : ApplyService σ β)
    (perm : config.UserRepositoryPermission) (v : σ) (e : String)
    (repo : List (String × JsonValue))
    (hrepo : (s.client.GetRepository L perm.Repository).result v = .ok repo)
    (hfmt : repositoryFormat repo ≠ "")
    (h : ((s.client.RoleExists L (permissionRoleName perm)).result
      ((s.client.GetRepository L perm.Repository).final v)).2 = some e) :
    AbortsOnCall (s.applyUserRepositoryPermission L perm) v
      [s.client.newRequest "GET" ("/service/rest/v1/repositories/" ++ perm.Repository) .none]
      (s.client.newRequest "GET"
        ("/service/rest/v1/security/roles/" ++ permissionRoleName perm) .none)
      ("failed to check role " ++ permissionRoleName perm ++ ": " ++ e) := by
  simp only [Client.final_GetRepository] at h
  refine ⟨?_, ?_, ?_⟩
  · simp [ApplyService.applyUserRepositoryPermission, hrepo, hfmt, h]
  · simp [ApplyService.applyUserRepositoryPermission, hrepo, hfmt, h]
  · simp [ApplyService.applyUserRepositoryPermission, hrepo, hfmt, h]

theorem ApplyService.grant_role_update_fails (L : Lib β) (s : ApplyService σ β)
    (perm : config.UserRepositoryPermission) (v : σ) (e : String)
    (repo : List (String × JsonValue))
    (hrepo : (s.client.GetRepository L perm.Repository).result v = .ok repo)
    (hfmt : repositoryFormat repo ≠ "")
    (hex : (s.client.RoleExists L (permissionRoleName perm)).result
      ((s.client.GetRepository L perm.Repository).final v) = (true, none))
    (h : (s.client.UpdateRole L (permissionRoleName perm)
      { ID := permissionRoleName perm
        Name := perm.UserID ++ " access to " ++ perm.Repository
        Description := "Auto-generated role for " ++ perm.UserID ++ " to access "
          ++ perm.Repository
        Privileges := permissionPrivileges L perm (repositoryFormat repo)
        Roles := [] }).result
      ((s.client.RoleExists L (permissionRoleName perm)).final
        ((s.client.GetRepository L perm.Repository).final v)) = some e) :
    AbortsOnCall (s.applyUserRepositoryPermission L perm) v
      [s.client.newRequest "GET" ("/service/rest/v1/repositories/" ++ perm.Repository) .none,
       s.client.newRequest "GET"
        ("/service/rest/v1/security/roles/" ++ permissionRoleName perm) .none]
      (s.client.newRequest "PUT"
        ("/service/rest/v1/security/roles/" ++ permissionRoleName perm) (.role
        { ID := permissionRoleName perm
          Name := perm.UserID ++ " access to " ++ perm.Repository
          Description := "Auto-generated role for " ++ perm.UserID ++ " to access "
            ++ perm.Repository
          Privileges := permissionPrivileges L perm (repositoryFormat repo)
          Roles := [] }))
      ("failed to update role " ++ permissionRoleName perm ++ ": " ++ e) := by
  simp only [Client.final_GetRepository, Client.final_RoleExists] at h hex
  refine ⟨?_, ?_, ?_⟩
  · simp [ApplyService.applyUserRepositoryPermission, hrepo, hfmt, hex, h]
  · simp [ApplyService.applyUserRepositoryPermission, hrepo, hfmt, hex, h]
  · simp [ApplyService.applyUserRepositoryPermission, hrepo, hfmt, hex, h]

theorem ApplyService.grant_role_create_fails (L : Lib β) (s : ApplyService σ β)
    (perm : config.UserRepositoryPermission) (v : σ) (e : String)
    (repo : List (String × JsonValue))
    (hrepo : (s.client.GetRepository L perm.Repository).result v = .ok repo)
    (hfmt : repositoryFormat repo ≠ "")
    (hex : (s.client.RoleExists L (permissionRoleName perm)).result
      ((s.client.GetRepository L perm.Repository).final v) = (false, none))
    (h : (s.client.CreateRole L
      { ID := permissionRoleName perm
        Name := perm.UserID ++ " access to " ++ perm.Repository
        Description := "Auto-generated role for " ++ perm.UserID ++ " to access "
          ++ perm.Repository
        Privileges := permissionPrivileges L perm (repositoryFormat repo)
        Roles := [] }).result
      ((s.client.RoleExists L (permissionRoleName perm)).final
        ((s.client.GetRepository L perm.Repository).final v)) = some e) :
    AbortsOnCall (s.applyUserRepositoryPermission L perm) v
      [s.client.newRequest "GET" ("/service/rest/v1/repositories/" ++ perm.Repository) .none,
       s.client.newRequest "GET"
        ("/service/rest/v1/security/roles/" ++ permissionRoleName perm) .none]
      (s.client.newRequest "POST" "/service/rest/v1/security/roles" (.role
        { ID := permissionRoleName perm
          Name := perm.UserID ++ " access to " ++ perm.Repository
          Description := "Auto-generated role for " ++ perm.UserID ++ " to access "
            ++ perm.Repository
          Privileges := permissionPrivileges L perm (repositoryFormat repo)
          Roles := [] }))
      ("failed to create role " ++ permissionRoleName perm ++ ": " ++ e) := by
  simp only [Client.final_GetRepository, Client.final_RoleExists] at h hex
  refine ⟨?_, ?_, ?_⟩
  · simp [ApplyService.applyUserRepositoryPermission, hrepo, hfmt, hex, h]
  · simp [ApplyService.applyUserRepositoryPermission, hrepo, hfmt, hex, h]
  · simp [ApplyService.applyUserRepositoryPermission, hrepo, hfmt, hex, h]

theorem ApplyService.assign_fetch_fails (L : Lib β) (s : ApplyService σ β)
    (perm : config.UserRepositoryPermission) (roleName : String) (v : σ) (e : String)
    (h : (s.client.GetUser L perm.UserID).result v = .error e) :
    AbortsOnCall (s.assignPermissionRole L perm roleName) v []
      (s.client.newRequest "GET"
        ("/service/rest/v1/security/users?userId=" ++ perm.UserID) .none)
      ("failed to get user " ++ perm.UserID ++ ": " ++ e) := by
  refine ⟨?_, ?_, ?_⟩
  · simp [ApplyService.assignPermissionRole, h]
  · simp [ApplyService.assignPermissionRole, h]
  · simp [ApplyService.assignPermissionRole, h]

theorem ApplyService.assign_update_fails (L : Lib β) (s : ApplyService σ β)
    (perm : config.UserRepositoryPermission) (roleName : String) (v : σ) (e : String)
    (user : UserResponse)
    (hget : (s.client.GetUser L perm.UserID).result v = .ok user)
    (hnew : roleName ∉ user.Roles)
    (h : (s.client.UpdateUser L perm.UserID
      { UserID := user.UserID, FirstName := user.FirstName, LastName := user.LastName,
        EmailAddress := user.EmailAddress, Status := user.Status, Source := user.Source,
        Roles := user.Roles ++ [roleName], Password := "" }).result
      ((s.client.GetUser L perm.UserID).final v) = some e) :
    AbortsOnCall (s.assignPermissionRole L perm roleName) v
      [s.client.newRequest "GET"
        ("/service/rest/v1/security/users?userId=" ++ perm.UserID) .none]
      (s.client.newRequest "PUT" ("/service/rest/v1/security/users/" ++ perm.UserID) (.user
        { UserID := user.UserID, FirstName := user.FirstName, LastName := user.LastName,
          EmailAddress := user.EmailAddress, Status := user.Status, Source := user.Source,
          Roles := user.Roles ++ [roleName], Password := "" }))
      ("failed to update user " ++ perm.UserID ++ " with role " ++ roleName ++ ": " ++ e) := by
  simp only [Client.final_GetUser] at h
  have hany : ∀ x ∈ user.Roles, ¬ x = roleName := fun x hx e => hnew (e ▸ hx)
  refine ⟨?_, ?_, ?_⟩
  · simp [ApplyService.assignPermissionRole, hget]
    rw [if_pos hany]
    simp [h]
  · simp [ApplyService.assignPermissionRole, hget]
    rw [if_pos hany]
    simp [h]
  · simp [ApplyService.assignPermissionRole, hget]
    rw [if_pos hany]
    simp [h]

/-- Once the derived role of a grant is written, the iteration goes on with the
assignment of the role to the user, and aborts on the call on which that aborts. -/
theorem ApplyService.grant_assign_fails (L : Lib β) (s : ApplyService σ β)
    (perm : config.UserRepositoryPermission) (v : σ) (err : String)
    (repo : List (String × JsonValue)) (b : Bool) (before : List Request) (req : Request)
    (hrepo : (s.client.GetRepository L perm.Repository).result v = .ok repo)
    (hfmt : repositoryFormat repo ≠ "")
    (hex : (s.client.RoleExists L (permissionRoleName perm)).result
      ((s.client.GetRepository L perm.Repository).final v) = (b, none))
    (hwrite : ((if b then s.client.UpdateRole L (permissionRoleName perm)
        { ID := permissionRoleName perm
          Name := perm.UserID ++ " access to " ++ perm.Repository
          Description := "Auto-generated role for " ++ perm.UserID ++ " to access "
            ++ perm.Repository
          Privileges := permissionPrivileges L perm (repositoryFormat repo)
          Roles := [] }
      else s.client.CreateRole L
        { ID := permissionRoleName perm
          Name := perm.UserID ++ " access to " ++ perm.Repository
          Description := "Auto-generated role for " ++ perm.UserID ++ " to access "
            ++ perm.Repository
          Privileges := permissionPrivileges L perm (repositoryFormat repo)
          Roles := [] }).result
      ((s.client.RoleExists L (permissionRoleName perm)).final
        ((s.client.GetRepository L perm.Repository).final v))) = none)
    (h : AbortsOnCall (s.assignPermissionRole L perm (permissionRoleName perm))
      ((if b then s.client.UpdateRole L (permissionRoleName perm)
        { ID := permissionRoleName perm
          Name := perm.UserID ++ " access to " ++ perm.Repository
          Description := "Auto-generated role for " ++ perm.UserID ++ " to access "
            ++ perm.Repository
          Privileges := permissionPrivileges L perm (repositoryFormat repo)
          Roles := [] }
      else s.client.CreateRole L
        { ID := permissionRoleName perm
          Name := perm.UserID ++ " access to " ++ perm.Repository
          Description := "Auto-generated role for " ++ perm.UserID ++ " to access "
            ++ perm.Repository
          Privileges := permissionPrivileges L perm (repositoryFormat repo)
          Roles := [] }).final
      ((s.client.RoleExists L (permissionRoleName perm)).final
        ((s.client.GetRepository L perm.Repository).final v))) before req err) :
    AbortsOnCall (s.applyUserRepositoryPermission L perm) v
      ([s.client.newRequest "GET" ("/service/rest/v1/repositories/" ++ perm.Repository) .none,
        s.client.newRequest "GET"
          ("/service/rest/v1/security/roles/" ++ permissionRoleName perm) .none,
        if b then
          s.client.newRequest "PUT"
            ("/service/rest/v1/security/roles/" ++ permissionRoleName perm) (.role
            { ID := permissionRoleName perm
              Name := perm.UserID ++ " access to " ++ perm.Repository
              Description := "Auto-generated role for " ++ perm.UserID ++ " to access "
                ++ perm.Repository
              Privileges := permissionPrivileges L perm (repositoryFormat repo)
              Roles := [] })
        else
          s.client.newRequest "POST" "/service/rest/v1/security/roles" (.role
            { ID := permissionRoleName perm
              Name := perm.UserID ++ " access to " ++ perm.Repository
              Description := "Auto-generated role for " ++ perm.UserID ++ " to access "
                ++ perm.Repository
              Privileges := permissionPrivileges L perm (repositoryFormat repo)
              Roles := [] })] ++ before) req err := by
  obtain ⟨hres, hcalls, reply, hlast⟩ := h
  cases b with
  | true =>
    simp only [if_true, Client.final_GetRepository, Client.final_RoleExists,
      Client.final_UpdateRole] at hex hwrite hres hcalls hlast
    refine ⟨?_, ?_, reply, ?_⟩
    · simp [ApplyService.applyUserRepositoryPermission, hrepo, hfmt, hex, hwrite, hres]
    · simp [ApplyService.applyUserRepositoryPermission, hrepo, hfmt, hex, hwrite, hcalls]
    · simp only [ApplyService.applyUserRepositoryPermission, Gw.events_bind, Gw.result_bind,
        Gw.final_bind, hrepo, hfmt, hex, hwrite, if_false, if_true,
        Client.final_GetRepository, Client.final_RoleExists, Client.final_UpdateRole,
        formatter.final_Success]
      exact getLast?_append_of_some _ _ _ (getLast?_append_of_some _ _ _
        (getLast?_append_of_some _ _ _ (getLast?_append_of_some _ _ _ hlast)))
  | false =>
    simp only [Bool.false_eq_true, if_false, Client.final_GetRepository,
      Client.final_RoleExists, Client.final_CreateRole] at hex hwrite hres hcalls hlast
    refine ⟨?_, ?_, reply, ?_⟩
    · simp [ApplyService.applyUserRepositoryPermission, hrepo, hfmt, hex, hwrite, hres]
    · simp [ApplyService.applyUserRepositoryPermission, hrepo, hfmt, hex, hwrite, hcalls]
    · simp only [ApplyService.applyUserRepositoryPermission, Gw.events_bind, Gw.result_bind,
        Gw.final_bind, hrepo, hfmt, hex, hwrite, if_false, if_true, Bool.false_eq_true,
        Client.final_GetRepository, Client.final_RoleExists, Client.final_CreateRole,
        formatter.final_Success]
      exact getLast?_append_of_some _ _ _ (getLast?_append_of_some _ _ _
        (getLast?_append_of_some _ _ _ (getLast?_append_of_some _ _ _ hlast)))

theorem EndsOnCall_of_eq {ρ : Type} (x y : Gw σ β (ρ × Option String)) (w : σ)
    (b1 b2 : List Request) (req : Request) (err : String) (hxy : x = y) (hb : b1 = b2)
    (h : EndsOnCall y w b1 req err) : EndsOnCall x w b2 req err := by
  subst hxy; subst hb; exact h

/-- C3. A remote call that fails fatally inside a category step of `Apply` is the
last thing the run does.  For each category, take the entry `x` at which the loop
stands (`pre ++ x :: post` is the manifest list, the earlier categories and the
entries of `pre` were processed without error) and each call of its iteration whose
failure is fatal: the existence check; the create or update that follows it; for a
user also the fetch before the update; for a grant the fetch of the repository, the
check and the write of the derived role, the fetch of the user and the update of the
user.  When that call fails, `Apply` returns a non-nil error that names the category,
the entry and the failure; the remote calls of the run are those made before,
followed by the failing call; and the failing call is the last event of the run, so
that no later entry and no later category is processed.  Moreover `Apply` never issues
a DELETE, so nothing created is rolled back. -/
theorem ApplyService.Apply_stops_at_first_fatal_error (L : Lib β) (s : ApplyService σ β)
    (w : σ) :
    let w1 := (s.applyPrivileges L).final w
    let w2 := (s.applyRoles L).final w1
    let w3 := (s.applyRepositories L).final w2
    let w4 := (s.applyUsers L).final w3
    let ok1 := ((s.applyPrivileges L).result w).2 = none
    let ok2 := ok1 ∧ ((s.applyRoles L).result w1).2 = none
    let ok3 := ok2 ∧ ((s.applyRepositories L).result w2).2 = none
    let ok4 := ok3 ∧ ((s.applyUsers L).result w3).2 = none
    let c1 := (s.applyPrivileges L).calls w
    let c2 := c1 ++ (s.applyRoles L).calls w1
    let c3 := c2 ++ (s.applyRepositories L).calls w2
    let c4 := c3 ++ (s.applyUsers L).calls w3
    (∀ pre priv post, s.config.Privileges = pre ++ priv :: post →
      ((forRange (s.applyPrivilege L) pre 0).result w).2 = none →
      let v := (forRange (s.applyPrivilege L) pre 0).final w
      let done := (forRange (s.applyPrivilege L) pre 0).calls w
      let check := s.client.newRequest "GET"
        ("/service/rest/v1/security/privileges/" ++ priv.Name) .none
      let req : PrivilegeRequest :=
        { Name := priv.Name, Description := priv.Description, Type_ := priv.Type_,
          Format := priv.Format, Repository := priv.Repository, Actions := priv.Actions,
          Pattern := "", Domain := "" }
      (∀ e, ((s.client.PrivilegeExists L priv.Name).result v).2 = some e →
        EndsOnCall (s.Apply L) w done check
          ("failed to apply privileges: " ++
            ("failed to check privilege " ++ priv.Name ++ ": " ++ e))) ∧
      (∀ e path, (s.client.PrivilegeExists L priv.Name).result v = (false, none) →
        Client.privilegePath priv.Type_ = some path →
        (s.client.CreatePrivilege L req).result
          ((s.client.PrivilegeExists L priv.Name).final v) = some e →
        EndsOnCall (s.Apply L) w (done ++ [check])
          (s.client.newRequest "POST" path (.privilege req))
          ("failed to apply privileges: " ++
            ("failed to create privilege " ++ priv.Name ++ ": " ++ e)))) ∧
    (ok1 → ∀ pre role post, s.config.Roles = pre ++ role :: post →
      ((forRange (s.applyRole L) pre 0).result w1).2 = none →
      let v := (forRange (s.applyRole L) pre 0).final w1
      let done := c1 ++ (forRange (s.applyRole L) pre 0).calls w1
      let check := s.client.newRequest "GET"
        ("/service/rest/v1/security/roles/" ++ role.ID) .none
      let req : RoleRequest :=
        { ID := role.ID, Name := role.Name, Description := role.Description,
          Privileges := role.Privileges, Roles := role.Roles }
      (∀ e, ((s.client.RoleExists L role.ID).result v).2 = some e →
        EndsOnCall (s.Apply L) w done check
          ("failed to apply roles: " ++ ("failed to check role " ++ role.ID ++ ": " ++ e))) ∧
      (∀ e, (s.client.RoleExists L role.ID).result v = (true, none) →
        (s.client.UpdateRole L role.ID req).result
          ((s.client.RoleExists L role.ID).final v) = some e →
        EndsOnCall (s.Apply L) w (done ++ [check])
          (s.client.newRequest "PUT" ("/service/rest/v1/security/roles/" ++ role.ID)
            (.role req))
          ("failed to apply roles: " ++ ("failed to update role " ++ role.ID ++ ": " ++ e))) ∧
      (∀ e, (s.client.RoleExists L role.ID).result v = (false, none) →
        (s.client.CreateRole L req).result
          ((s.client.RoleExists L role.ID).final v) = some e →
        EndsOnCall (s.Apply L) w (done ++ [check])
          (s.client.newRequest "POST" "/service/rest/v1/security/roles" (.role req))
          ("failed to apply roles: " ++
            ("failed to create role " ++ role.ID ++ ": " ++ e)))) ∧
    (ok2 → ∀ pre repo post, s.config.Repositories = pre ++ repo :: post →
      ((forRange (s.applyRepository L) pre 0).result w2).2 = none →
      let v := (forRange (s.applyRepository L) pre 0).final w2
      let done := c2 ++ (forRange (s.applyRepository L) pre 0).calls w2
      let check := s.client.newRequest "GET"
        ("/service/rest/v1/repositories/" ++ repo.Name) .none
      (∀ e, ((s.client.RepositoryExists L repo.Name).result v).2 = some e →
        EndsOnCall (s.Apply L) w done check
          ("failed to apply repositories: " ++
            ("failed to check repository " ++ repo.Name ++ ": " ++ e))) ∧
      (∀ e, (s.client.RepositoryExists L repo.Name).result v = (false, none) →
        (repo.Format, repo.Type_) ∈ supportedRepositoryKinds →
        (s.createRepository L repo).result
          ((s.client.RepositoryExists L repo.Name).final v) = some e →
        EndsOnCall (s.Apply L) w (done ++ [check])
          (s.client.newRequest "POST" (createEndpoint repo.Format repo.Type_)
            (.repository (repositoryRequest repo)))
          ("failed to apply repositories: " ++
            ("failed to create repository " ++ repo.Name ++ ": " ++ e)))) ∧
    (ok3 → ∀ pre user post, s.config.Users = pre ++ user :: post →
      ((forRange (s.applyUser L) pre 0).result w3).2 = none →
      let v := (forRange (s.applyUser L) pre 0).final w3
      let done := c3 ++ (forRange (s.applyUser L) pre 0).calls w3
      let check := s.client.newRequest "GET"
        ("/service/rest/v1/security/users?userId=" ++ user.ID) .none
      let v1 := (s.client.UserExists L user.ID).final v
      (∀ e, ((s.client.UserExists L user.ID).result v).2 = some e →
        EndsOnCall (s.Apply L) w done check
          ("failed to apply users: " ++ ("failed to check user " ++ user.ID ++ ": " ++ e))) ∧
      (∀ e, (s.client.UserExists L user.ID).result v = (true, none) →
        (s.client.GetUser L user.ID).result v1 = .error e →
        EndsOnCall (s.Apply L) w (done ++ [check]) check
          ("failed to apply users: " ++
            ("failed to get existing user " ++ user.ID ++ ": " ++ e))) ∧
      (∀ e existing, (s.client.UserExists L user.ID).result v = (true, none) →
        (s.client.GetUser L user.ID).result v1 = .ok existing →
        (s.client.UpdateUser L user.ID
          { UserID := user.ID, FirstName := user.FirstName, LastName := user.LastName,
            EmailAddress := user.EmailAddress, Status := user.Status, Roles := user.Roles,
            Password := "", Source := existing.Source }).result
          ((s.client.GetUser L user.ID).final v1) = some e →
        EndsOnCall (s.Apply L) w (done ++ [check, check])
          (s.client.newRequest "PUT" ("/service/rest/v1/security/users/" ++ user.ID) (.user
            { UserID := user.ID, FirstName := user.FirstName, LastName := user.LastName,
              EmailAddress := user.EmailAddress, Status := user.Status, Roles := user.Roles,
              Password := "", Source := existing.Source }))
          ("failed to apply users: " ++ ("failed to update user " ++ user.ID ++ ": " ++ e))) ∧
      (∀ e, (s.client.UserExists L user.ID).result v = (false, none) →
        (s.client.CreateUser L
          { UserID := user.ID, FirstName := user.FirstName, LastName := user.LastName,
            EmailAddress := user.EmailAddress, Status := user.Status, Roles := user.Roles,
            Password := user.Password, Source := "" }).result v1 = some e →
        EndsOnCall (s.Apply L) w (done ++ [check])
          (s.client.newRequest "POST" "/service/rest/v1/security/users" (.user
            { UserID := user.ID, FirstName := user.FirstName, LastName := user.LastName,
              EmailAddress := user.EmailAddress, Status := user.Status, Roles := user.Roles,
              Password := user.Password, Source := "" }))
          ("failed to apply users: " ++
            ("failed to create user " ++ user.ID ++ ": " ++ e)))) ∧
    (ok4 → ∀ pre perm post, s.config.UserRepositoryPermissions = pre ++ perm :: post →
      ((forRange (s.applyUserRepositoryPermission L) pre 0).result w4).2 = none →
      let v := (forRange (s.applyUserRepositoryPermission L) pre 0).final w4
      let done := c4 ++ (forRange (s.applyUserRepositoryPermission L) pre 0).calls w4
      let roleName := permissionRoleName perm
      let fetch := s.client.newRequest "GET"
        ("/service/rest/v1/repositories/" ++ perm.Repository) .none
      let check := s.client.newRequest "GET"
        ("/service/rest/v1/security/roles/" ++ roleName) .none
      let fetchUser := s.client.newRequest "GET"
        ("/service/rest/v1/security/users?userId=" ++ perm.UserID) .none
      let v1 := (s.client.GetRepository L perm.Repository).final v
      let v2 := (s.client.RoleExists L roleName).final v1
      (∀ e, (s.client.GetRepository L perm.Repository).result v = .error e →
        EndsOnCall (s.Apply L) w done fetch
          ("failed to apply user repository permissions: " ++
            ("failed to get repository " ++ perm.Repository ++ ": " ++ e))) ∧
      (∀ repo, (s.client.GetRepository L perm.Repository).result v = .ok repo →
        repositoryFormat repo ≠ "" →
        let roleReq : RoleRequest :=
          { ID := roleName
            Name := perm.UserID ++ " access to " ++ perm.Repository
            Description := "Auto-generated role for " ++ perm.UserID ++ " to access "
              ++ perm.Repository
            Privileges := permissionPrivileges L perm (repositoryFormat repo)
            Roles := [] }
        (∀ e, ((s.client.RoleExists L roleName).result v1).2 = some e →
          EndsOnCall (s.Apply L) w (done ++ [fetch]) check
            ("failed to apply user repository permissions: " ++
              ("failed to check role " ++ roleName ++ ": " ++ e))) ∧
        (∀ e, (s.client.RoleExists L roleName).result v1 = (true, none) →
          (s.client.UpdateRole L roleName roleReq).result v2 = some e →
          EndsOnCall (s.Apply L) w (done ++ [fetch, check])
            (s.client.newRequest "PUT" ("/service/rest/v1/security/roles/" ++ roleName)
              (.role roleReq))
            ("failed to apply user repository permissions: " ++
              ("failed to update role " ++ roleName ++ ": " ++ e))) ∧
        (∀ e, (s.client.RoleExists L roleName).result v1 = (false, none) →
          (s.client.CreateRole L roleReq).result v2 = some e →
          EndsOnCall (s.Apply L) w (done ++ [fetch, check])
            (s.client.newRequest "POST" "/service/rest/v1/security/roles" (.role roleReq))
            ("failed to apply user repository permissions: " ++
              ("failed to create role " ++ roleName ++ ": " ++ e))) ∧
        (∀ b, (s.client.RoleExists L roleName).result v1 = (b, none) →
          let write : Gw σ β (Option String) :=
            if b then s.client.UpdateRole L roleName roleReq else s.client.CreateRole L roleReq
          let writeReq :=
            if b then
              s.client.newRequest "PUT" ("/service/rest/v1/security/roles/" ++ roleName)
                (.role roleReq)
            else s.client.newRequest "POST" "/service/rest/v1/security/roles" (.role roleReq)
          let v3 := write.final v2
          write.result v2 = none →
          (∀ e, (s.client.GetUser L perm.UserID).result v3 = .error e →
            EndsOnCall (s.Apply L) w (done ++ [fetch, check, writeReq]) fetchUser
              ("failed to apply user repository permissions: " ++
                ("failed to get user " ++ perm.UserID ++ ": " ++ e))) ∧
          (∀ e user, (s.client.GetUser L perm.UserID).result v3 = .ok user →
            roleName ∉ user.Roles →
            (s.client.UpdateUser L perm.UserID
              { UserID := user.UserID, FirstName := user.FirstName, LastName := user.LastName,
                EmailAddress := user.EmailAddress, Status := user.Status,
                Source := user.Source, Roles := user.Roles ++ [roleName],
                Password := "" }).result
              ((s.client.GetUser L perm.UserID).final v3) = some e →
            EndsOnCall (s.Apply L) w (done ++ [fetch, check, writeReq, fetchUser])
              (s.client.newRequest "PUT" ("/service/rest/v1/security/users/" ++ perm.UserID)
                (.user
                  { UserID := user.UserID, FirstName := user.FirstName,
                    LastName := user.LastName, EmailAddress := user.EmailAddress,
                    Status := user.Status, Source := user.Source,
                    Roles := user.Roles ++ [roleName], Password := "" }))
              ("failed to apply user repository permissions: " ++
                ("failed to update user " ++ perm.UserID ++ " with role " ++ roleName ++
                  ": " ++ e)))))) ∧
    (∀ r ∈ (s.Apply L).calls w, r.method ≠ "DELETE") := by
  intro w1 w2 w3 w4 ok1 ok2 ok3 ok4 c1 c2 c3 c4
  refine ⟨?_, ?_, ?_, ?_, ?_, ApplyService.Apply_never_deletes L s w⟩
  · intro pre priv post hxs hpre v done check req
    have hstep : s.applyPrivileges L = ((formatter.Info "Applying privileges..." : Gw σ β Unit)
        >>= fun _ => forRange (s.applyPrivilege L) (pre ++ priv :: post) 0) := by
      rw [← hxs]; rfl
    have lift : ∀ before rq err, AbortsOnCall (s.applyPrivilege L priv) v before rq err →
        EndsOnCall (s.Apply L) w (done ++ before) rq ("failed to apply privileges: " ++ err) :=
      fun before rq err hb =>
        ApplyService.Apply_ends_in_privileges L s w _ _ _
          (EndsOnCall_of_eq _ _ _ _ _ _ _ hstep rfl
            (step_ends_on_call _ _ pre priv post w before rq err hpre hb))
    refine ⟨?_, ?_⟩
    · intro e h
      exact EndsOnCall_of_eq _ _ _ _ _ _ _ rfl (List.append_nil _)
        (lift _ _ _ (ApplyService.applyPrivilege_check_fails L s priv v e h))
    · intro e path hex hpath h
      exact lift _ _ _ (ApplyService.applyPrivilege_create_fails L s priv v e path hex hpath h)
  · intro h1 pre role post hxs hpre v done check req
    have hstep : s.applyRoles L = ((formatter.Info "Applying roles..." : Gw σ β Unit)
        >>= fun _ => forRange (s.applyRole L) (pre ++ role :: post) 0) := by
      rw [← hxs]; rfl
    have lift : ∀ before rq err, AbortsOnCall (s.applyRole L role) v before rq err →
        EndsOnCall (s.Apply L) w (done ++ before) rq ("failed to apply roles: " ++ err) :=
      fun before rq err hb =>
        EndsOnCall_of_eq _ _ _ _ _ _ _ rfl (List.append_assoc _ _ _).symm
          (ApplyService.Apply_ends_in_roles L s w _ _ _ h1
            (EndsOnCall_of_eq _ _ _ _ _ _ _ hstep rfl
              (step_ends_on_call _ _ pre role post w1 before rq err hpre hb)))
    refine ⟨?_, ?_, ?_⟩
    · intro e h
      exact EndsOnCall_of_eq _ _ _ _ _ _ _ rfl (List.append_nil _)
        (lift _ _ _ (ApplyService.applyRole_check_fails L s role v e h))
    · intro e hex h
      exact lift _ _ _ (ApplyService.applyRole_update_fails L s role v e hex h)
    · intro e hex h
      exact lift _ _ _ (ApplyService.applyRole_create_fails L s role v e hex h)
  · intro h12 pre repo post hxs hpre v done check
    obtain ⟨h1, h2⟩ := h12
    have hstep : s.applyRepositories L =
        ((formatter.Info "Applying repositories..." : Gw σ β Unit)
        >>= fun _ => forRange (s.applyRepository L) (pre ++ repo :: post) 0) := by
      rw [← hxs]; rfl
    have lift : ∀ before rq err, AbortsOnCall (s.applyRepository L repo) v before rq err →
        EndsOnCall (s.Apply L) w (done ++ before) rq
          ("failed to apply repositories: " ++ err) :=
      fun before rq err hb =>
        EndsOnCall_of_eq _ _ _ _ _ _ _ rfl (List.append_assoc _ _ _).symm
          (ApplyService.Apply_ends_in_repositories L s w _ _ _ h1 h2
            (EndsOnCall_of_eq _ _ _ _ _ _ _ hstep rfl
              (step_ends_on_call _ _ pre repo post w2 before rq err hpre hb)))
    refine ⟨?_, ?_⟩
    · intro e h
      exact EndsOnCall_of_eq _ _ _ _ _ _ _ rfl (List.append_nil _)
        (lift _ _ _ (ApplyService.applyRepository_check_fails L s repo v e h))
    · intro e hex hkind h
      exact lift _ _ _ (ApplyService.applyRepository_create_fails L s repo v e hex hkind h)
  · intro h123 pre user post hxs hpre v done check v1
    obtain ⟨⟨h1, h2⟩, h3⟩ := h123
    have hstep : s.applyUsers L = ((formatter.Info "Applying users..." : Gw σ β Unit)
        >>= fun _ => forRange (s.applyUser L) (pre ++ user :: post) 0) := by
      rw [← hxs]; rfl
    have lift : ∀ before rq err, AbortsOnCall (s.applyUser L user) v before rq err →
        EndsOnCall (s.Apply L) w (done ++ before) rq ("failed to apply users: " ++ err) :=
      fun before rq err hb =>
        EndsOnCall_of_eq _ _ _ _ _ _ _ rfl (List.append_assoc _ _ _).symm
          (ApplyService.Apply_ends_in_users L s w _ _ _ h1 h2 h3
            (EndsOnCall_of_eq _ _ _ _ _ _ _ hstep rfl
              (step_ends_on_call _ _ pre user post w3 before rq err hpre hb)))
    refine ⟨?_, ?_, ?_, ?_⟩
    · intro e h
      exact EndsOnCall_of_eq _ _ _ _ _ _ _ rfl (List.append_nil _)
        (lift _ _ _ (ApplyService.applyUser_check_fails L s user v e h))
    · intro e hex h
      exact lift _ _ _ (ApplyService.applyUser_fetch_fails L s user v e hex h)
    · intro e existing hex hget h
      exact lift _ _ _ (ApplyService.applyUser_update_fails L s user v e existing hex hget h)
    · intro e hex h
      exact lift _ _ _ (ApplyService.applyUser_create_fails L s user v e hex h)
  · intro h1234 pre perm post hxs hpre v done roleName fetch check fetchUser v1 v2
    obtain ⟨⟨⟨h1, h2⟩, h3⟩, h4⟩ := h1234
    have hstep : s.applyUserRepositoryPermissions L =
        ((formatter.Info "Applying user repository permissions..." : Gw σ β Unit)
        >>= fun _ => forRange (s.applyUserRepositoryPermission L) (pre ++ perm :: post) 0) := by
      rw [← hxs]; rfl
    have lift : ∀ before rq err,
        AbortsOnCall (s.applyUserRepositoryPermission L perm) v before rq err →
        EndsOnCall (s.Apply L) w (done ++ before) rq
          ("failed to apply user repository permissions: " ++ err) :=
      fun before rq err hb =>
        EndsOnCall_of_eq _ _ _ _ _ _ _ rfl (List.append_assoc _ _ _).symm
          (ApplyService.Apply_ends_in_permissions L s w _ _ _ h1 h2 h3 h4
            (EndsOnCall_of_eq _ _ _ _ _ _ _ hstep rfl
              (step_ends_on_call _ _ pre perm post w4 before rq err hpre hb)))
    refine ⟨?_, ?_⟩
    · intro e h
      exact EndsOnCall_of_eq _ _ _ _ _ _ _ rfl (List.append_nil _)
        (lift _ _ _ (ApplyService.grant_fetch_fails L s perm v e h))
    · intro repo hrepo hfmt roleReq
      refine ⟨?_, ?_, ?_, ?_⟩
      · intro e h
        exact lift _ _ _ (ApplyService.grant_check_fails L s perm v e repo hrepo hfmt h)
      · intro e hex h
        exact lift _ _ _
          (ApplyService.grant_role_update_fails L s perm v e repo hrepo hfmt hex h)
      · intro e hex h
        exact lift _ _ _
          (ApplyService.grant_role_create_fails L s perm v e repo hrepo hfmt hex h)
      · intro b hex write writeReq v3 hwrite
        refine ⟨?_, ?_⟩
        · intro e h
          exact EndsOnCall_of_eq _ _ _ _ _ _ _ rfl (by simp)
            (lift _ _ _ (ApplyService.grant_assign_fails L s perm v _ repo b _ _ hrepo hfmt
              hex hwrite
              (ApplyService.assign_fetch_fails L s perm roleName v3 e h)))
        · intro e user hget hnew h
          exact EndsOnCall_of_eq _ _ _ _ _ _ _ rfl (by simp)
            (lift _ _ _ (ApplyService.grant_assign_fails L s perm v _ repo b _ _ hrepo hfmt
              hex hwrite
              (ApplyService.assign_update_fails L s perm roleName v3 e user hget hnew h)))

/-- Witness of C3.  Of five privileges to create on an empty server, the create of
the third fails: `Apply` ends on that POST, after the checks and creates of the first
two privileges and the check of the third; nothing is done for the fourth and fifth
privilege or for another category, no DELETE is issued, and the server holds exactly
the first two.  And on an empty server the grant to `alice` fails at the fetch of its
repository, the only call of the run. -/
theorem ApplyService.Apply_stops_at_third_privilege :
    EndsOnCall (example_.thirdCreateFails.Apply model.lib) example_.fresh
      ((forRange (example_.thirdCreateFails.applyPrivilege model.lib)
          [example_.privilege "p1", example_.privilege "p2"] 0).calls example_.fresh ++
        [example_.thirdCreateFails.client.newRequest "GET"
          ("/service/rest/v1/security/privileges/" ++ (example_.privilege "p3").Name) .none])
      (example_.thirdCreateFails.client.newRequest "POST"
        "/service/rest/v1/security/privileges/application"
        (.privilege
          { Name := (example_.privilege "p3").Name
            Description := (example_.privilege "p3").Description
            Type_ := (example_.privilege "p3").Type_
            Format := (example_.privilege "p3").Format
            Repository := (example_.privilege "p3").Repository
            Actions := (example_.privilege "p3").Actions
            Pattern := "", Domain := "" }))
      ("failed to apply privileges: " ++
        ("failed to create privilege " ++ (example_.privilege "p3").Name ++ ": " ++
          ("failed to create privilege p3: " ++
            "request failed with status 500: Internal Server Error"))) ∧
    ((example_.thirdCreateFails.Apply model.lib).calls example_.fresh).map
        (fun r => (r.method, r.url)) =
      [("GET", "http://nexus:8081/service/rest/v1/security/privileges/p1"),
       ("POST", "http://nexus:8081/service/rest/v1/security/privileges/application"),
       ("GET", "http://nexus:8081/service/rest/v1/security/privileges/p2"),
       ("POST", "http://nexus:8081/service/rest/v1/security/privileges/application"),
       ("GET", "http://nexus:8081/service/rest/v1/security/privileges/p3"),
       ("POST", "http://nexus:8081/service/rest/v1/security/privileges/application")] ∧
    (["p1", "p2", "p3", "p4", "p5"].map fun n =>
        ((((example_.thirdCreateFails.Apply model.lib).final example_.fresh).2.privileges
          n).isSome)) = [true, true, false, false, false] ∧
    EndsOnCall (example_.aliceService.Apply model.lib) model.Store.empty []
      (example_.aliceService.client.newRequest "GET"
        ("/service/rest/v1/repositories/" ++ example_.aliceGrant.Repository) .none)
      ("failed to apply user repository permissions: " ++
        ("failed to get repository " ++ example_.aliceGrant.Repository ++ ": " ++
          ("failed to get repository maven-releases: " ++
            "request failed with status 404: not found"))) :=
  ⟨((ApplyService.Apply_stops_at_first_fatal_error model.lib example_.thirdCreateFails
      example_.fresh).1 [example_.privilege "p1", example_.privilege "p2"]
      (example_.privilege "p3") [example_.privilege "p4", example_.privilege "p5"] rfl
      (by decide)).2
      ("failed to create privilege p3: " ++
        "request failed with status 500: Internal Server Error")
      "/service/rest/v1/security/privileges/application" (by decide) (by decide) (by decide),
   by decide, by decide,
   ((ApplyService.Apply_stops_at_first_fatal_error model.lib example_.aliceService
      model.Store.empty).2.2.2.2.1 ⟨⟨⟨by decide, by decide⟩, by decide⟩, by decide⟩
      [] example_.aliceGrant [] rfl (by decide)).1
      ("failed to get repository maven-releases: " ++
        "request failed with status 404: not found") (by decide)⟩

end service

/-! ## Best-effort deletion of the derived roles -/

section CountingLoops

variable {σ β α : Type}

/-- A loop whose body never aborts, and counts exactly the iterations with one
event satisfying `m`, returns no error and the number of such events. -/
theorem forRange_counts (body : α → Gw σ β Step) (m : Event β → Bool)
    (hstep : ∀ x w, ∃ b, (body x).result w = .next b ∧
      ((body x).events w).countP m = if b then 1 else 0) (xs : List α) :
    ∀ (c : Nat) (w : σ),
      (forRange body xs c).result w = (c + ((forRange body xs c).events w).countP m, none) := by
  induction xs with
  | nil => intro c w; simp [forRange_nil]
  | cons x xs ih =>
    intro c w
    obtain ⟨b, hb, hcount⟩ := hstep x w
    have hn := forRange_cons_next body x xs c w b hb
    rw [hn.1, hn.2.2, ih, List.countP_append, hcount]
    cases b
    · simp
    · simp; omega

end CountingLoops

namespace service

open nexus

variable {σ β : Type}

/-- `doRequest` returns no error exactly for an accepted reply. -/
theorem readReply_ok_iff (L : Lib β) (reply : Reply β) :
    (∃ body, Client.readReply L reply = .ok body) ↔ reply.accepted = true := by
  cases reply with
  | requestError e => simp [Client.readReply, Reply.accepted]
  | doError e => simp [Client.readReply, Reply.accepted]
  | readError e => simp [Client.readReply, Reply.accepted]
  | response status body =>
    by_cases h : status < 200 ∨ status ≥ 300
    · have h2 : ¬ (200 ≤ status ∧ status < 300) := by omega
      simp [Client.readReply, Reply.accepted, h, h2]
    · have h2 : 200 ≤ status ∧ status < 300 := by omega
      simp [Client.readReply, Reply.accepted, h, h2]

/-- `DeleteRole` returns no error exactly when its DELETE is accepted. -/
theorem DeleteRole_result (L : Lib β) (c : Client σ β) (roleID : String) (w : σ) :
    (c.DeleteRole L roleID).result w = none ↔
      (c.httpClient w (c.newRequest "DELETE"
        ("/service/rest/v1/security/roles/" ++ roleID) .none)).1.accepted = true := by
  rw [← readReply_ok_iff L]
  simp only [Client.DeleteRole, Client.delete, Gw.result_bind, Client.result_doRequest]
  cases Client.readReply L (c.httpClient w (c.newRequest "DELETE"
      ("/service/rest/v1/security/roles/" ++ roleID) .none)).1 <;> simp

theorem acceptedDelete_of_get (c : Client σ β) (path : String) (body : Body)
    (reply : Reply β) :
    Event.acceptedDelete (Event.http (c.newRequest "GET" path body) reply) = false := by
  simp [Event.acceptedDelete, Client.newRequest]

theorem acceptedDelete_of_delete (c : Client σ β) (path : String) (body : Body)
    (reply : Reply β) :
    Event.acceptedDelete (Event.http (c.newRequest "DELETE" path body) reply)
      = reply.accepted := by
  simp [Event.acceptedDelete, Client.newRequest]

theorem acceptedDelete_of_info (msg : String) :
    Event.acceptedDelete (Event.info msg : Event β) = false := rfl

theorem acceptedDelete_of_success (msg : String) :
    Event.acceptedDelete (Event.success msg : Event β) = false := rfl

theorem acceptedDelete_of_warning (msg : String) :
    Event.acceptedDelete (Event.warning msg : Event β) = false := rfl

/-- One iteration of `deleteUserRepositoryPermissionRoles` never aborts, starts with
the existence check of the derived role, and counts exactly when it issued a DELETE
that was accepted. -/
theorem DeleteService.deleteUserRepositoryPermissionRole_step (L : Lib β)
    (s : DeleteService σ β) (perm : config.UserRepositoryPermission) (w : σ) :
    (∃ b, (s.deleteUserRepositoryPermissionRole L perm).result w = .next b ∧
      ((s.deleteUserRepositoryPermissionRole L perm).events w).countP Event.acceptedDelete
        = if b then 1 else 0) ∧
    s.client.newRequest "GET" ("/service/rest/v1/security/roles/" ++
        (perm.UserID ++ "-" ++ perm.Repository ++ "-role")) .none
      ∈ (s.deleteUserRepositoryPermissionRole L perm).calls w := by
  constructor
  swap
  · simp only [DeleteService.deleteUserRepositoryPermissionRole, Gw.calls_bind,
      Client.calls_RoleExists]
    simp
  obtain hr | ⟨err, hr⟩ := Option.eq_none_or_eq_some
    ((s.client.RoleExists L (perm.UserID ++ "-" ++ perm.Repository ++ "-role")).result w).2
  swap
  · refine ⟨false, ?_, ?_⟩
    · simp [DeleteService.deleteUserRepositoryPermissionRole, hr]
    · simp [DeleteService.deleteUserRepositoryPermissionRole, hr, formatter.Warning,
        Gw.events_emit, acceptedDelete_of_get, acceptedDelete_of_delete,
        acceptedDelete_of_warning]
  by_cases hex :
      ((s.client.RoleExists L (perm.UserID ++ "-" ++ perm.Repository ++ "-role")).result w).1
        = true
  swap
  · refine ⟨false, ?_, ?_⟩
    · simp [DeleteService.deleteUserRepositoryPermissionRole, hr, hex]
    · simp [DeleteService.deleteUserRepositoryPermissionRole, hr, hex, formatter.Info,
        Gw.events_emit, acceptedDelete_of_get, acceptedDelete_of_info]
  have hdel := DeleteRole_result L s.client (perm.UserID ++ "-" ++ perm.Repository ++ "-role")
    ((s.client.RoleExists L (perm.UserID ++ "-" ++ perm.Repository ++ "-role")).final w)
  simp only [Client.final_RoleExists] at hdel
  obtain hd | ⟨err, hd⟩ := Option.eq_none_or_eq_some
    ((s.client.DeleteRole L (perm.UserID ++ "-" ++ perm.Repository ++ "-role")).result
      ((s.client.RoleExists L (perm.UserID ++ "-" ++ perm.Repository ++ "-role")).final w))
  · simp only [Client.final_RoleExists] at hd
    have hacc := hdel.mp hd
    refine ⟨true, ?_, ?_⟩
    · simp [DeleteService.deleteUserRepositoryPermissionRole, hr, hex, hd]
    · simp [DeleteService.deleteUserRepositoryPermissionRole, hr, hex, hd, formatter.Success,
        Gw.events_emit, acceptedDelete_of_get, acceptedDelete_of_delete,
        acceptedDelete_of_success, hacc]
  · simp only [Client.final_RoleExists] at hd
    have hacc : (s.client.httpClient
        (s.client.httpClient w (s.client.newRequest "GET" ("/service/rest/v1/security/roles/" ++
          (perm.UserID ++ "-" ++ perm.Repository ++ "-role")) .none)).2
        (s.client.newRequest "DELETE" ("/service/rest/v1/security/roles/" ++
          (perm.UserID ++ "-" ++ perm.Repository ++ "-role")) .none)).1.accepted = false := by
      cases hb : (s.client.httpClient
        (s.client.httpClient w (s.client.newRequest "GET" ("/service/rest/v1/security/roles/" ++
          (perm.UserID ++ "-" ++ perm.Repository ++ "-role")) .none)).2
        (s.client.newRequest "DELETE" ("/service/rest/v1/security/roles/" ++
          (perm.UserID ++ "-" ++ perm.Repository ++ "-role")) .none)).1.accepted with
      | false => rfl
      | true => rw [hdel.mpr hb] at hd; simp at hd
    refine ⟨false, ?_, ?_⟩
    · simp [DeleteService.deleteUserRepositoryPermissionRole, hr, hex, hd]
    · simp [DeleteService.deleteUserRepositoryPermissionRole, hr, hex, hd, formatter.Warning,
        Gw.events_emit, acceptedDelete_of_get, acceptedDelete_of_delete,
        acceptedDelete_of_warning, hacc]

/-- C20. `deleteUserRepositoryPermissionRoles` returns no error, for every manifest
and whatever the server answers.  The count it returns is the number of DELETE
calls of the step that were answered with a 2xx status.  The existence check of
every grant of the manifest is issued, so a failed check or a failed delete for one
grant does not keep the step from the others.  In `Delete` the users step always
runs next, in the world this step left, and `Delete` returns no error when its four
later steps return none. -/
theorem DeleteService.permission_roles_are_deleted_best_effort (L : Lib β)
    (s : DeleteService σ β) (w : σ) :
    ((s.deleteUserRepositoryPermissionRoles L).result w).2 = none ∧
    ((s.deleteUserRepositoryPermissionRoles L).result w).1 =
      ((s.deleteUserRepositoryPermissionRoles L).events w).countP Event.acceptedDelete ∧
    (∀ perm ∈ s.config.UserRepositoryPermissions,
      s.client.newRequest "GET" ("/service/rest/v1/security/roles/" ++
          (perm.UserID ++ "-" ++ perm.Repository ++ "-role")) .none
        ∈ (s.deleteUserRepositoryPermissionRoles L).calls w) ∧
    (∃ rest, (s.Delete L).calls w =
      (s.deleteUserRepositoryPermissionRoles L).calls w ++
        (s.deleteUsers L).calls ((s.deleteUserRepositoryPermissionRoles L).final w) ++ rest) ∧
    (((s.deleteUsers L).result ((s.deleteUserRepositoryPermissionRoles L).final w)).2 = none →
      ((s.deleteRepositories L).result ((s.deleteUsers L).final
        ((s.deleteUserRepositoryPermissionRoles L).final w))).2 = none →
      ((s.deleteRoles L).result ((s.deleteRepositories L).final ((s.deleteUsers L).final
        ((s.deleteUserRepositoryPermissionRoles L).final w)))).2 = none →
      ((s.deletePrivileges L).result ((s.deleteRoles L).final ((s.deleteRepositories L).final
        ((s.deleteUsers L).final ((s.deleteUserRepositoryPermissionRoles L).final w))))).2
          = none →
      ((s.Delete L).result w).2 = none) := by
  have hloop := forRange_counts (s.deleteUserRepositoryPermissionRole L) Event.acceptedDelete
    (fun x v => (DeleteService.deleteUserRepositoryPermissionRole_step L s x v).1)
    s.config.UserRepositoryPermissions 0 w
  have hres : (s.deleteUserRepositoryPermissionRoles L).result w =
      (((s.deleteUserRepositoryPermissionRoles L).events w).countP Event.acceptedDelete,
        none) := by
    simp only [DeleteService.deleteUserRepositoryPermissionRoles, Gw.result_bind,
      Gw.events_bind, formatter.final_Info, formatter.events_Info, hloop, Nat.zero_add]
    simp [List.countP_cons, acceptedDelete_of_info]
  have h0 : ((s.deleteUserRepositoryPermissionRoles L).result w).2 = none := by rw [hres]
  refine ⟨h0, by rw [hres], ?_, ?_, ?_⟩
  · intro perm hperm
    obtain ⟨v, -, hsub⟩ := forRange_calls_of_member
      (s.deleteUserRepositoryPermissionRole L) (fun _ => True)
      s.config.UserRepositoryPermissions
      (fun x _ v _ => ⟨by
        obtain ⟨b, hb, -⟩ := (DeleteService.deleteUserRepositoryPermissionRole_step L s x v).1
        exact ⟨b, hb⟩, trivial⟩) 0 w trivial perm hperm
    have hin := hsub _ (DeleteService.deleteUserRepositoryPermissionRole_step L s perm v).2
    simpa [DeleteService.deleteUserRepositoryPermissionRoles] using hin
  · simp only [DeleteService.Delete, Gw.calls_bind, Gw.result_bind, Gw.final_bind,
      formatter.calls_Info, formatter.final_Info, List.nil_append, h0, Gw.calls_pure,
      Gw.final_pure]
    exact ⟨_, (List.append_assoc _ _ _).symm⟩
  · intro h2 h3 h4 h5
    simp [DeleteService.Delete, h0, h2, h3, h4, h5]

end service

namespace service

open nexus

/-- Witness of C20, on the model server holding the three derived roles.  When the
DELETE of the first role fails, and when the existence check of the second fails,
the step still returns no error, checks all three grants and counts the two roles
it deleted; `Delete` returns no error. -/
theorem DeleteService.two_of_three_permission_roles_deleted :
    (((example_.flakyDelete 1).deleteUserRepositoryPermissionRoles model.lib).result
        (0, example_.threeRolesStore) = (2, none) ∧
      (example_.flakyDelete 1).client.newRequest "GET"
          ("/service/rest/v1/security/roles/" ++ ("alice" ++ "-" ++ "r3" ++ "-role")) .none
        ∈ ((example_.flakyDelete 1).deleteUserRepositoryPermissionRoles model.lib).calls
            (0, example_.threeRolesStore) ∧
      (((example_.flakyDelete 1).Delete model.lib).result (0, example_.threeRolesStore)).2
        = none) ∧
    (((example_.flakyDelete 2).deleteUserRepositoryPermissionRoles model.lib).result
        (0, example_.threeRolesStore) = (2, none) ∧
      (((example_.flakyDelete 2).deleteUserRepositoryPermissionRoles model.lib).calls
          (0, example_.threeRolesStore)).map (fun r => (r.method, r.url)) =
        [("GET", "http://nexus:8081/service/rest/v1/security/roles/alice-r1-role"),
         ("DELETE", "http://nexus:8081/service/rest/v1/security/roles/alice-r1-role"),
         ("GET", "http://nexus:8081/service/rest/v1/security/roles/alice-r2-role"),
         ("GET", "http://nexus:8081/service/rest/v1/security/roles/alice-r3-role"),
         ("DELETE", "http://nexus:8081/service/rest/v1/security/roles/alice-r3-role")]) :=
  ⟨⟨by decide,
    (DeleteService.permission_roles_are_deleted_best_effort model.lib (example_.flakyDelete 1)
      (0, example_.threeRolesStore)).2.2.1
      { UserID := "alice", Repository := "r3", Privileges := ["READ"] } (by decide),
    (DeleteService.permission_roles_are_deleted_best_effort model.lib (example_.flakyDelete 1)
      (0, example_.threeRolesStore)).2.2.2.2 (by decide) (by decide) (by decide) (by decide)⟩,
   by decide, by decide⟩

end service

/-! ## A failed delete of a role -/

namespace service

open nexus

variable {σ β : Type}

/-- The permission-role step of `Delete` never returns an error. -/
theorem DeleteService.deleteUserRepositoryPermissionRoles_ok (L : Lib β)
    (s : DeleteService σ β) (w : σ) :
    ((s.deleteUserRepositoryPermissionRoles L).result w).2 = none := by
  simp only [DeleteService.deleteUserRepositoryPermissionRoles, Gw.result_bind,
    formatter.final_Info]
  rw [forRange_counts (s.deleteUserRepositoryPermissionRole L) Event.acceptedDelete
    (fun x v => (DeleteService.deleteUserRepositoryPermissionRole_step L s x v).1)]

/-- C21. In `deleteRoles`, for a role that exists, is fetched with `ReadOnly = false`
and whose `DeleteRole` returns the error `err`.  If `err` contains `in use` or
`assigned`, the iteration ends with `continue`: no error, the count is not
incremented, and the loop goes on with the remaining roles.  Otherwise the iteration
returns `failed to delete role <id>: <err>`, and `deleteRoles` returns that error
with the count so far, the DELETE being its last call.  When `deleteRoles` returns
an error, `Delete` returns `failed to delete roles: ...` and its calls end with
those of the roles step: the privileges step is not executed. -/
theorem DeleteService.deleteRole_failure (L : Lib β) (s : DeleteService σ β)
    (role : config.Role) (w : σ) (r : RoleResponse) (err : String)
    (hex : (s.client.RoleExists L role.ID).result w = (true, none))
    (hget : (s.client.GetRole L role.ID).result ((s.client.RoleExists L role.ID).final w)
      = .ok r)
    (hro : r.ReadOnly = false)
    (hdel : (s.client.DeleteRole L role.ID).result
      ((s.client.GetRole L role.ID).final ((s.client.RoleExists L role.ID).final w))
      = some err) :
    (stringsContains err "in use" = true ∨ stringsContains err "assigned" = true →
      (s.deleteRole L role).result w = .next false ∧
      ∀ rest count,
        (forRange (s.deleteRole L) (role :: rest) count).result w =
          (forRange (s.deleteRole L) rest count).result ((s.deleteRole L role).final w)) ∧
    (stringsContains err "in use" = false → stringsContains err "assigned" = false →
      (s.deleteRole L role).result w =
        .abort ("failed to delete role " ++ role.ID ++ ": " ++ err) ∧
      ∀ rest count,
        (forRange (s.deleteRole L) (role :: rest) count).result w =
          (count, some ("failed to delete role " ++ role.ID ++ ": " ++ err)) ∧
        (forRange (s.deleteRole L) (role :: rest) count).calls w =
          [s.client.newRequest "GET" ("/service/rest/v1/security/roles/" ++ role.ID) .none,
           s.client.newRequest "GET" ("/service/rest/v1/security/roles/" ++ role.ID) .none,
           s.client.newRequest "DELETE" ("/service/rest/v1/security/roles/" ++ role.ID)
            .none]) ∧
    (∀ w0 e,
      ((s.deleteUsers L).result ((s.deleteUserRepositoryPermissionRoles L).final w0)).2
        = none →
      ((s.deleteRepositories L).result ((s.deleteUsers L).final
        ((s.deleteUserRepositoryPermissionRoles L).final w0))).2 = none →
      ((s.deleteRoles L).result ((s.deleteRepositories L).final ((s.deleteUsers L).final
        ((s.deleteUserRepositoryPermissionRoles L).final w0)))).2 = some e →
      ((s.Delete L).result w0).2 = some ("failed to delete roles: " ++ e) ∧
      (s.Delete L).calls w0 =
        (s.deleteUserRepositoryPermissionRoles L).calls w0 ++
        (s.deleteUsers L).calls ((s.deleteUserRepositoryPermissionRoles L).final w0) ++
        (s.deleteRepositories L).calls ((s.deleteUsers L).final
          ((s.deleteUserRepositoryPermissionRoles L).final w0)) ++
        (s.deleteRoles L).calls ((s.deleteRepositories L).final ((s.deleteUsers L).final
          ((s.deleteUserRepositoryPermissionRoles L).final w0)))) := by
  simp only [Client.final_RoleExists, Client.final_GetRole] at hget hdel
  refine ⟨?_, ?_, ?_⟩
  · intro hc
    have hres : (s.deleteRole L role).result w = .next false := by
      simp [DeleteService.deleteRole, hex, hget, hro, hdel, hc]
    refine ⟨hres, fun rest count => ?_⟩
    rw [(forRange_cons_next (s.deleteRole L) role rest count w false hres).1]
    rfl
  · intro h1 h2
    have hres : (s.deleteRole L role).result w =
        .abort ("failed to delete role " ++ role.ID ++ ": " ++ err) := by
      simp [DeleteService.deleteRole, hex, hget, hro, hdel, h1, h2]
    have hcalls : (s.deleteRole L role).calls w =
        [s.client.newRequest "GET" ("/service/rest/v1/security/roles/" ++ role.ID) .none,
         s.client.newRequest "GET" ("/service/rest/v1/security/roles/" ++ role.ID) .none,
         s.client.newRequest "DELETE" ("/service/rest/v1/security/roles/" ++ role.ID)
          .none] := by
      simp [DeleteService.deleteRole, hex, hget, hro, hdel, h1, h2]
    refine ⟨hres, fun rest count => ?_⟩
    have ha := forRange_cons_abort (s.deleteRole L) role rest count w _ hres
    refine ⟨ha.1, ?_⟩
    simp only [Gw.calls, ha.2.2]
    exact hcalls
  · intro w0 e h2 h3 h4
    have h0 : ((s.deleteUserRepositoryPermissionRoles L).result w0).2 = none :=
      (DeleteService.deleteUserRepositoryPermissionRoles_ok L s w0)
    constructor
    · simp [DeleteService.Delete, h0, h2, h3, h4]
    · simp [DeleteService.Delete, h0, h2, h3, h4]

end service

namespace service

open nexus

/-- Witness of C21.  On the server that refuses deletes with `role is in use`, the
iteration for `readers` ends with `continue` and `deleteRoles` goes on to `writers`,
returning the count 0 and no error.  On the server whose third request, the DELETE
of `readers`, fails with status 500, `deleteRoles` returns an error and the calls
of `Delete` end with that DELETE: the privilege `p1` is never looked up. -/
theorem DeleteService.deleteRole_failure_examples :
    (example_.busyDelete.deleteRole model.lib (example_.role "readers")).result
        example_.rolesStore = .next false ∧
    (example_.busyDelete.deleteRoles model.lib).result example_.rolesStore = (0, none) ∧
    ((example_.busyDelete.deleteRoles model.lib).calls example_.rolesStore).map
        (fun r => (r.method, r.url)) =
      [("GET", "http://nexus:8081/service/rest/v1/security/roles/readers"),
       ("GET", "http://nexus:8081/service/rest/v1/security/roles/readers"),
       ("DELETE", "http://nexus:8081/service/rest/v1/security/roles/readers"),
       ("GET", "http://nexus:8081/service/rest/v1/security/roles/writers"),
       ("GET", "http://nexus:8081/service/rest/v1/security/roles/writers"),
       ("DELETE", "http://nexus:8081/service/rest/v1/security/roles/writers")] ∧
    ((example_.flakyRoleDelete ["readers", "writers"] 2).deleteRole model.lib
        (example_.role "readers")).result (0, example_.rolesStore) =
      .abort ("failed to delete role " ++ (example_.role "readers").ID ++ ": " ++
        ("failed to delete role readers: " ++
          "request failed with status 500: Internal Server Error")) ∧
    (((example_.flakyRoleDelete ["readers", "writers"] 2).Delete model.lib).result
        (0, example_.rolesStore)).2 =
      some ("failed to delete roles: " ++ ("failed to delete role readers: " ++
        ("failed to delete role readers: " ++
          "request failed with status 500: Internal Server Error"))) ∧
    (((example_.flakyRoleDelete ["readers", "writers"] 2).Delete model.lib).calls
        (0, example_.rolesStore)).map (fun r => (r.method, r.url)) =
      [("GET", "http://nexus:8081/service/rest/v1/security/roles/readers"),
       ("GET", "http://nexus:8081/service/rest/v1/security/roles/readers"),
       ("DELETE", "http://nexus:8081/service/rest/v1/security/roles/readers")] :=
  ⟨((DeleteService.deleteRole_failure model.lib example_.busyDelete (example_.role "readers")
      example_.rolesStore
      { ID := "readers", Name := "readers", Description := "", Privileges := [], Roles := [],
        Source := "default", ReadOnly := false }
      ("failed to delete role readers: request failed with status 400: role is in use")
      (by decide) (by decide) rfl (by decide)).1 (Or.inl (by decide))).1,
   by decide, by decide,
   ((DeleteService.deleteRole_failure model.lib
      (example_.flakyRoleDelete ["readers", "writers"] 2) (example_.role "readers")
      (0, example_.rolesStore)
      { ID := "readers", Name := "readers", Description := "", Privileges := [], Roles := [],
        Source := "default", ReadOnly := false }
      ("failed to delete role readers: " ++
        "request failed with status 500: Internal Server Error")
      (by decide) (by decide) rfl (by decide)).2.1 (by decide) (by decide)).1,
   by decide, by decide⟩

end service

/-! ## A role identifier that contains the in-use marker -/

namespace service

open nexus

variable {σ β : Type}

/-- A text contains what one of its parts contains. -/
theorem stringsContains_middle (a s b c sub : String)
    (h : stringsContains s sub = true) :
    stringsContains (a ++ s ++ b ++ c) sub = true := by
  obtain ⟨pre, post, hs⟩ := (stringsContains_iff s sub).mp h
  exact stringsContains_of_data _ _ (a.data ++ pre) (post ++ b.data ++ c.data) (by
    simp [String.data_append, hs, List.append_assoc])

/-- The error of `DeleteRole` quotes the role identifier. -/
theorem DeleteRole_error (L : Lib β) (c : Client σ β) (roleID : String) (w : σ) (err : String)
    (h : (c.DeleteRole L roleID).result w = some err) :
    ∃ e, err = "failed to delete role " ++ roleID ++ ": " ++ e := by
  simp only [Client.DeleteRole, Client.delete, Gw.result_bind, Client.result_doRequest] at h
  cases hr : Client.readReply L (c.httpClient w (c.newRequest "DELETE"
      ("/service/rest/v1/security/roles/" ++ roleID) .none)).1 with
  | error e =>
    rw [hr] at h
    simp only [Gw.result_pure, Option.some.injEq] at h
    exact ⟨e, h.symm⟩
  | ok body =>
    rw [hr] at h
    simp at h

/-- C30. In `deleteRoles`, for a role whose identifier contains `assigned` or
`in use`, that exists and is fetched with `ReadOnly = false`: whatever error
`DeleteRole` returns, the iteration ends with `continue`, so no error is returned
for it and the loop goes on with the remaining roles and the same count.  The text
that is searched is the error of `DeleteRole`, which is
`failed to delete role <id>: ...` and so contains whatever the identifier
contains. -/
theorem DeleteService.deleteRole_marker_in_identifier (L : Lib β) (s : DeleteService σ β)
    (role : config.Role) (w : σ) (r : RoleResponse) (err : String)
    (hid : stringsContains role.ID "assigned" = true ∨
      stringsContains role.ID "in use" = true)
    (hex : (s.client.RoleExists L role.ID).result w = (true, none))
    (hget : (s.client.GetRole L role.ID).result ((s.client.RoleExists L role.ID).final w)
      = .ok r)
    (hro : r.ReadOnly = false)
    (hdel : (s.client.DeleteRole L role.ID).result
      ((s.client.GetRole L role.ID).final ((s.client.RoleExists L role.ID).final w))
      = some err) :
    (s.deleteRole L role).result w = .next false ∧
    (∀ rest count,
      (forRange (s.deleteRole L) (role :: rest) count).result w =
        (forRange (s.deleteRole L) rest count).result ((s.deleteRole L role).final w)) ∧
    (∃ e, err = "failed to delete role " ++ role.ID ++ ": " ++ e) ∧
    (stringsContains err "in use" = true ∨ stringsContains err "assigned" = true) ∧
    .warning ("Cannot delete role " ++ role.ID ++ ": still in use by users")
      ∈ (s.deleteRole L role).events w := by
  obtain ⟨e, he⟩ := DeleteRole_error L s.client role.ID _ err hdel
  have hc : stringsContains err "in use" = true ∨ stringsContains err "assigned" = true := by
    rw [he]
    rcases hid with h | h
    · exact Or.inr (stringsContains_middle _ _ _ _ _ h)
    · exact Or.inl (stringsContains_middle _ _ _ _ _ h)
  simp only [Client.final_RoleExists, Client.final_GetRole] at hget hdel
  have hres : (s.deleteRole L role).result w = .next false := by
    simp [DeleteService.deleteRole, hex, hget, hro, hdel, hc]
  refine ⟨hres, fun rest count => ?_, ⟨e, he⟩, hc, ?_⟩
  · rw [(forRange_cons_next (s.deleteRole L) role rest count w false hres).1]
    rfl
  · simp [DeleteService.deleteRole, hex, hget, hro, hdel, hc, formatter.Warning,
      Gw.events_emit]

/-- Witness of C30: the DELETE of `unassigned-readers` fails with status 500, and
the iteration ends with `continue`; `deleteRoles` returns the count 0 and no error,
and the role is still on the server. -/
theorem DeleteService.unassigned_readers_is_never_a_failure :
    ((example_.flakyRoleDelete ["unassigned-readers"] 2).deleteRole model.lib
        (example_.role "unassigned-readers")).result (0, example_.rolesStore)
      = .next false ∧
    ((example_.flakyRoleDelete ["unassigned-readers"] 2).deleteRoles model.lib).result
        (0, example_.rolesStore) = (0, none) ∧
    ((((example_.flakyRoleDelete ["unassigned-readers"] 2).deleteRoles model.lib).final
        (0, example_.rolesStore)).2.roles "unassigned-readers").isSome = true ∧
    (((example_.flakyRoleDelete ["unassigned-readers"] 2).Delete model.lib).result
        (0, example_.rolesStore)).2 = none :=
  ⟨(DeleteService.deleteRole_marker_in_identifier model.lib
      (example_.flakyRoleDelete ["unassigned-readers"] 2) (example_.role "unassigned-readers")
      (0, example_.rolesStore)
      { ID := "unassigned-readers", Name := "unassigned-readers", Description := "",
        Privileges := [], Roles := [], Source := "default", ReadOnly := false }
      ("failed to delete role unassigned-readers: " ++
        "request failed with status 500: Internal Server Error")
      (Or.inl (by decide)) (by decide) (by decide) rfl (by decide)).1,
   by decide, by decide, by decide⟩

end service

/-! ## Deleting what is not there -/

section SkippingLoops

variable {σ β α : Type}

/-- A loop whose every iteration, under an invariant it preserves, ends with
`continue` after the one call `f x`: it returns the starting count and no error,
and its calls are the `f x` in order. -/
theorem forRange_all_skipped (body : α → Gw σ β Step) (I : σ → Prop) (f : α → Request)
    (xs : List α)
    (hstep : ∀ x ∈ xs, ∀ v, I v → (body x).result v = .next false ∧
      (body x).calls v = [f x] ∧ I ((body x).final v)) :
    ∀ (c : Nat) (w : σ), I w →
      (forRange body xs c).result w = (c, none) ∧
      (forRange body xs c).calls w = xs.map f ∧
      I ((forRange body xs c).final w) := by
  induction xs with
  | nil => intro c w h; exact ⟨rfl, rfl, h⟩
  | cons x xs ih =>
    intro c w h
    obtain ⟨hres, hcalls, hI⟩ := hstep x (List.mem_cons_self _ _) w h
    have hn := forRange_cons_next body x xs c w false hres
    obtain ⟨h1, h2, h3⟩ := ih (fun y hy => hstep y (List.mem_cons_of_mem _ hy)) c _ hI
    refine ⟨?_, ?_, ?_⟩
    · rw [hn.1]; exact h1
    · have hc : (forRange body (x :: xs) c).calls w =
          (body x).calls w ++ (forRange body xs c).calls ((body x).final w) := by
        simp only [Gw.calls, hn.2.2, List.filterMap_append]; rfl
      rw [hc, hcalls, h2]; rfl
    · rw [hn.2.1]; exact h3

end SkippingLoops

namespace service

open nexus

variable {σ β : Type}

/-- C22. A `Delete` that finds nothing.  If, in every world the run passes through
(every world satisfying `I`, which the checks preserve), each existence check of a
manifest entry reports not-found, then `Delete` returns no error and the result it
started from: `Success`, `Total` and the four per-kind counters are 0 and `Errors`
is empty.  Its calls are exactly one existence check per manifest entry, in the
order permission roles, users, repositories, roles, privileges: no DELETE and no
second fetch for a read-only flag. -/
theorem DeleteService.Delete_of_nothing_found (L : Lib β) (s : DeleteService σ β)
    (I : σ → Prop) (w : σ) (hI : I w)
    (hperm : ∀ v, I v → ∀ perm ∈ s.config.UserRepositoryPermissions,
      (s.client.RoleExists L (perm.UserID ++ "-" ++ perm.Repository ++ "-role")).result v
        = (false, none) ∧
      I ((s.client.RoleExists L (perm.UserID ++ "-" ++ perm.Repository ++ "-role")).final v))
    (huser : ∀ v, I v → ∀ user ∈ s.config.Users,
      (s.client.UserExists L user.ID).result v = (false, none) ∧
      I ((s.client.UserExists L user.ID).final v))
    (hrepo : ∀ v, I v → ∀ repo ∈ s.config.Repositories,
      (s.client.RepositoryExists L repo.Name).result v = (false, none) ∧
      I ((s.client.RepositoryExists L repo.Name).final v))
    (hrole : ∀ v, I v → ∀ role ∈ s.config.Roles,
      (s.client.RoleExists L role.ID).result v = (false, none) ∧
      I ((s.client.RoleExists L role.ID).final v))
    (hpriv : ∀ v, I v → ∀ priv ∈ s.config.Privileges,
      (s.client.PrivilegeExists L priv.Name).result v = (false, none) ∧
      I ((s.client.PrivilegeExists L priv.Name).final v)) :
    ((s.Delete L).result w).2 = none ∧
    ((s.Delete L).result w).1.Success = 0 ∧
    ((s.Delete L).result w).1.Total = 0 ∧
    ((s.Delete L).result w).1.UsersDeleted = 0 ∧
    ((s.Delete L).result w).1.RepositoriesDeleted = 0 ∧
    ((s.Delete L).result w).1.RolesDeleted = 0 ∧
    ((s.Delete L).result w).1.PrivilegesDeleted = 0 ∧
    ((s.Delete L).result w).1.Errors = [] ∧
    (s.Delete L).calls w =
      s.config.UserRepositoryPermissions.map (fun perm =>
        s.client.newRequest "GET" ("/service/rest/v1/security/roles/" ++
          (perm.UserID ++ "-" ++ perm.Repository ++ "-role")) .none) ++
      s.config.Users.map (fun user =>
        s.client.newRequest "GET"
          ("/service/rest/v1/security/users?userId=" ++ user.ID) .none) ++
      s.config.Repositories.map (fun repo =>
        s.client.newRequest "GET" ("/service/rest/v1/repositories/" ++ repo.Name) .none) ++
      s.config.Roles.map (fun role =>
        s.client.newRequest "GET" ("/service/rest/v1/security/roles/" ++ role.ID) .none) ++
      s.config.Privileges.map (fun priv =>
        s.client.newRequest "GET"
          ("/service/rest/v1/security/privileges/" ++ priv.Name) .none) := by
  have l1 := forRange_all_skipped (s.deleteUserRepositoryPermissionRole L) I
    (fun perm => s.client.newRequest "GET" ("/service/rest/v1/security/roles/" ++
      (perm.UserID ++ "-" ++ perm.Repository ++ "-role")) .none)
    s.config.UserRepositoryPermissions
    (by
      intro x hx v hv
      obtain ⟨h1, h2⟩ := hperm v hv x hx
      simp only [Client.final_RoleExists] at h2
      refine ⟨?_, ?_, ?_⟩
      · simp [DeleteService.deleteUserRepositoryPermissionRole, h1]
      · simp [DeleteService.deleteUserRepositoryPermissionRole, h1]
      · simpa [DeleteService.deleteUserRepositoryPermissionRole, h1] using h2) 0 w hI
  have l2 := forRange_all_skipped (s.deleteUser L) I
    (fun user => s.client.newRequest "GET"
      ("/service/rest/v1/security/users?userId=" ++ user.ID) .none) s.config.Users
    (by
      intro x hx v hv
      obtain ⟨h1, h2⟩ := huser v hv x hx
      simp only [Client.final_UserExists] at h2
      refine ⟨?_, ?_, ?_⟩
      · simp [DeleteService.deleteUser, h1]
      · simp [DeleteService.deleteUser, h1]
      · simpa [DeleteService.deleteUser, h1] using h2) 0 _ l1.2.2
  have l3 := forRange_all_skipped (s.deleteRepository L) I
    (fun repo => s.client.newRequest "GET" ("/service/rest/v1/repositories/" ++ repo.Name)
      .none) s.config.Repositories
    (by
      intro x hx v hv
      obtain ⟨h1, h2⟩ := hrepo v hv x hx
      simp only [Client.final_RepositoryExists] at h2
      refine ⟨?_, ?_, ?_⟩
      · simp [DeleteService.deleteRepository, h1]
      · simp [DeleteService.deleteRepository, h1]
      · simpa [DeleteService.deleteRepository, h1] using h2) 0 _ l2.2.2
  have l4 := forRange_all_skipped (s.deleteRole L) I
    (fun role => s.client.newRequest "GET" ("/service/rest/v1/security/roles/" ++ role.ID)
      .none) s.config.Roles
    (by
      intro x hx v hv
      obtain ⟨h1, h2⟩ := hrole v hv x hx
      simp only [Client.final_RoleExists] at h2
      refine ⟨?_, ?_, ?_⟩
      · simp [DeleteService.deleteRole, h1]
      · simp [DeleteService.deleteRole, h1]
      · simpa [DeleteService.deleteRole, h1] using h2) 0 _ l3.2.2
  have l5 := forRange_all_skipped (s.deletePrivilege L) I
    (fun priv => s.client.newRequest "GET"
      ("/service/rest/v1/security/privileges/" ++ priv.Name) .none) s.config.Privileges
    (by
      intro x hx v hv
      obtain ⟨h1, h2⟩ := hpriv v hv x hx
      simp only [Client.final_PrivilegeExists] at h2
      refine ⟨?_, ?_, ?_⟩
      · simp [DeleteService.deletePrivilege, h1]
      · simp [DeleteService.deletePrivilege, h1]
      · simpa [DeleteService.deletePrivilege, h1] using h2) 0 _ l4.2.2
  have hres : (s.Delete L).result w = (DeleteService.emptyResult, none) := by
    simp [DeleteService.Delete, DeleteService.deleteUserRepositoryPermissionRoles,
      DeleteService.deleteUsers, DeleteService.deleteRepositories, DeleteService.deleteRoles,
      DeleteService.deletePrivileges, l1.1, l2.1, l3.1, l4.1, l5.1,
      DeleteService.emptyResult]
  refine ⟨by rw [hres], by rw [hres]; rfl, by rw [hres]; rfl, by rw [hres]; rfl,
    by rw [hres]; rfl, by rw [hres]; rfl, by rw [hres]; rfl, by rw [hres]; rfl, ?_⟩
  simp [DeleteService.Delete, DeleteService.deleteUserRepositoryPermissionRoles,
    DeleteService.deleteUsers, DeleteService.deleteRepositories, DeleteService.deleteRoles,
    DeleteService.deletePrivileges, l1.1, l2.1, l3.1, l4.1, l5.1, l1.2.1, l2.2.1, l3.2.1,
    l4.2.1, l5.2.1]

end service

namespace service

open nexus

/-- Witness of C22: `Delete` of the manifest with one entry of every category on an
empty server returns no error, counts nothing and issues five calls, all of them
GET. -/
theorem DeleteService.Delete_on_empty_server :
    ((example_.teamDelete.Delete model.lib).result model.Store.empty).2 = none ∧
    ((example_.teamDelete.Delete model.lib).result model.Store.empty).1.Success = 0 ∧
    ((example_.teamDelete.Delete model.lib).result model.Store.empty).1.Total = 0 ∧
    ((example_.teamDelete.Delete model.lib).result model.Store.empty).1.Errors = [] ∧
    ((example_.teamDelete.Delete model.lib).calls model.Store.empty).map
        (fun r => (r.method, r.url)) =
      [("GET", "http://nexus:8081/service/rest/v1/security/roles/alice-maven-releases-role"),
       ("GET", "http://nexus:8081/service/rest/v1/security/users?userId=alice"),
       ("GET", "http://nexus:8081/service/rest/v1/repositories/maven-releases"),
       ("GET", "http://nexus:8081/service/rest/v1/security/roles/developers"),
       ("GET", "http://nexus:8081/service/rest/v1/security/privileges/p1")] :=
  have h := DeleteService.Delete_of_nothing_found model.lib example_.teamDelete
    (fun v => v = model.Store.empty) model.Store.empty rfl
    (fun v hv perm hp => by
      subst hv
      simp only [example_.teamDelete, example_.teamManifest, List.mem_singleton] at hp
      subst hp
      exact ⟨by decide, by rw [Client.final_RoleExists]; exact model.server_get_unchanged _ _ _ rfl⟩)
    (fun v hv user hp => by
      subst hv
      simp only [example_.teamDelete, example_.teamManifest, List.mem_singleton] at hp
      subst hp
      exact ⟨by decide, by rw [Client.final_UserExists]; exact model.server_get_unchanged _ _ _ rfl⟩)
    (fun v hv repo hp => by
      subst hv
      simp only [example_.teamDelete, example_.teamManifest, List.mem_singleton] at hp
      subst hp
      exact ⟨by decide,
        by rw [Client.final_RepositoryExists]; exact model.server_get_unchanged _ _ _ rfl⟩)
    (fun v hv role hp => by
      subst hv
      simp only [example_.teamDelete, example_.teamManifest, List.mem_singleton] at hp
      subst hp
      exact ⟨by decide, by rw [Client.final_RoleExists]; exact model.server_get_unchanged _ _ _ rfl⟩)
    (fun v hv priv hp => by
      subst hv
      simp only [example_.teamDelete, example_.teamManifest, List.mem_singleton] at hp
      subst hp
      exact ⟨by decide,
        by rw [Client.final_PrivilegeExists]; exact model.server_get_unchanged _ _ _ rfl⟩)
  ⟨h.1, h.2.1, h.2.2.1, h.2.2.2.2.2.2.2.1, by rw [h.2.2.2.2.2.2.2.2]; decide⟩

end service

/-! ## The Warnings list of a result -/

namespace service

open nexus

variable {σ β : Type}

/-- The `Warnings` list of the result of `Apply` is empty, whatever happened. -/
theorem ApplyService.Apply_warnings (L : Lib β) (s : ApplyService σ β) (w : σ) :
    ((s.Apply L).result w).1.Warnings = [] := by
  simp only [ApplyService.Apply, Gw.result_bind, Gw.final_bind, formatter.final_Info]
  obtain h1 | ⟨e1, h1⟩ := Option.eq_none_or_eq_some ((s.applyPrivileges L).result w).2
  swap
  · simp [h1, ApplyService.emptyResult]
  obtain h2 | ⟨e2, h2⟩ := Option.eq_none_or_eq_some
    ((s.applyRoles L).result ((s.applyPrivileges L).final w)).2
  swap
  · simp [h1, h2, ApplyService.emptyResult]
  obtain h3 | ⟨e3, h3⟩ := Option.eq_none_or_eq_some
    ((s.applyRepositories L).result ((s.applyRoles L).final
      ((s.applyPrivileges L).final w))).2
  swap
  · simp [h1, h2, h3, ApplyService.emptyResult]
  obtain h4 | ⟨e4, h4⟩ := Option.eq_none_or_eq_some
    ((s.applyUsers L).result ((s.applyRepositories L).final ((s.applyRoles L).final
      ((s.applyPrivileges L).final w)))).2
  swap
  · simp [h1, h2, h3, h4, ApplyService.emptyResult]
  obtain h5 | ⟨e5, h5⟩ := Option.eq_none_or_eq_some
    ((s.applyUserRepositoryPermissions L).result ((s.applyUsers L).final
      ((s.applyRepositories L).final ((s.applyRoles L).final
        ((s.applyPrivileges L).final w))))).2 <;>
    simp [h1, h2, h3, h4, h5, ApplyService.emptyResult]

/-- The `Warnings` list of the result of `Delete` is empty, whatever happened. -/
theorem DeleteService.Delete_warnings (L : Lib β) (s : DeleteService σ β) (w : σ) :
    ((s.Delete L).result w).1.Warnings = [] := by
  have h0 := DeleteService.deleteUserRepositoryPermissionRoles_ok L s w
  simp only [DeleteService.Delete, Gw.result_bind, Gw.final_bind, formatter.final_Info, h0,
    Gw.final_pure, Gw.result_pure]
  obtain h2 | ⟨e2, h2⟩ := Option.eq_none_or_eq_some
    ((s.deleteUsers L).result ((s.deleteUserRepositoryPermissionRoles L).final w)).2
  swap
  · simp [h2, DeleteService.emptyResult]
  obtain h3 | ⟨e3, h3⟩ := Option.eq_none_or_eq_some
    ((s.deleteRepositories L).result ((s.deleteUsers L).final
      ((s.deleteUserRepositoryPermissionRoles L).final w))).2
  swap
  · simp [h2, h3, DeleteService.emptyResult]
  obtain h4 | ⟨e4, h4⟩ := Option.eq_none_or_eq_some
    ((s.deleteRoles L).result ((s.deleteRepositories L).final ((s.deleteUsers L).final
      ((s.deleteUserRepositoryPermissionRoles L).final w)))).2
  swap
  · simp [h2, h3, h4, DeleteService.emptyResult]
  obtain h5 | ⟨e5, h5⟩ := Option.eq_none_or_eq_some
    ((s.deletePrivileges L).result ((s.deleteRoles L).final ((s.deleteRepositories L).final
      ((s.deleteUsers L).final ((s.deleteUserRepositoryPermissionRoles L).final w))))).2 <;>
    simp [h2, h3, h4, h5, DeleteService.emptyResult]

/-- C23. The code at failing inputs.  In the apply run in which the password change
of `alice` fails, the formatter is given the warning and `Apply` returns no error,
but the `Warnings` list of its result is empty.  In the delete run that skips the
read-only role `nx-admin` and the read-only privilege `nx-all`, the formatter is
given two warnings and the `Warnings` list of the result is empty.  The list is
empty in the result of every run of `Apply` and of `Delete`. -/
theorem warnings_are_not_collected :
    (((example_.passwordChangeFails.Apply model.lib).events
        (0, example_.aliceStore)).filterMap Event.warning? =
      ["Failed to change password for user alice: " ++
        "failed to change password for user alice: " ++
        "request failed with status 500: Internal Server Error"] ∧
      (example_.passwordChangeFails.Apply model.lib).result (0, example_.aliceStore) =
        ({ Total := 2, Success := 2, Failed := 0, Skipped := 0, UsersCreated := 2,
           RepositoriesCreated := 0, RolesCreated := 0, PrivilegesCreated := 0,
           Errors := [], Warnings := [] }, none)) ∧
    (((example_.builtinDelete.Delete model.lib).events
        example_.builtinStore).filterMap Event.warning? =
      ["Role nx-admin is read-only (built-in), skipping...",
       "Privilege nx-all is read-only (built-in), skipping..."] ∧
      ((example_.builtinDelete.Delete model.lib).result example_.builtinStore).1.Warnings
        = []) ∧
    (∀ (σ β : Type) (L : Lib β) (s : ApplyService σ β) (w : σ),
      ((s.Apply L).result w).1.Warnings = []) ∧
    (∀ (σ β : Type) (L : Lib β) (s : DeleteService σ β) (w : σ),
      ((s.Delete L).result w).1.Warnings = []) :=
  ⟨⟨by decide, by decide⟩, ⟨by decide, by decide⟩,
   fun _ _ L s w => ApplyService.Apply_warnings L s w,
   fun _ _ L s w => DeleteService.Delete_warnings L s w⟩

end service

/-! ## The counters of a successful apply run -/

section CountingWhenOk

variable {σ β α : Type}

/-- A loop of a body that counts exactly the iterations with one call satisfying
`m` returns, when it returns no error, the starting count plus the number of such
calls. -/
theorem forRange_counts_calls (body : α → Gw σ β Step) (m : Request → Bool)
    (hstep : ∀ x w b, (body x).result w = .next b →
      ((body x).calls w).countP m = if b then 1 else 0) (xs : List α) :
    ∀ (c : Nat) (w : σ), ((forRange body xs c).result w).2 = none →
      ((forRange body xs c).result w).1 = c + ((forRange body xs c).calls w).countP m := by
  induction xs with
  | nil => intro c w _; simp [forRange_nil]
  | cons x xs ih =>
    intro c w h
    cases hb : (body x).result w with
    | abort e =>
      rw [(forRange_cons_abort body x xs c w e hb).1] at h
      simp at h
    | next b =>
      have hn := forRange_cons_next body x xs c w b hb
      rw [hn.1] at h
      have hc : (forRange body (x :: xs) c).calls w =
          (body x).calls w ++
            (forRange body xs (if b then c + 1 else c)).calls ((body x).final w) := by
        simp only [Gw.calls, hn.2.2, List.filterMap_append]
      rw [hn.1, ih _ _ h, hc, List.countP_append, hstep x w b hb]
      cases b
      · simp
      · simp; omega

/-- A loop of a body that counts every iteration it completes returns, when it
returns no error, the starting count plus the number of entries. -/
theorem forRange_counts_entries (body : α → Gw σ β Step)
    (hstep : ∀ x w b, (body x).result w = .next b → b = true) (xs : List α) :
    ∀ (c : Nat) (w : σ), ((forRange body xs c).result w).2 = none →
      ((forRange body xs c).result w).1 = c + xs.length := by
  induction xs with
  | nil => intro c w _; simp [forRange_nil]
  | cons x xs ih =>
    intro c w h
    cases hb : (body x).result w with
    | abort e =>
      rw [(forRange_cons_abort body x xs c w e hb).1] at h
      simp at h
    | next b =>
      have hn := forRange_cons_next body x xs c w b hb
      rw [hn.1] at h
      rw [hn.1, ih _ _ h, hstep x w b hb]
      simp; omega

end CountingWhenOk

namespace Gw

variable {σ β α γ : Type}

theorem ReturnsOnly.pure_returns (P : α → Prop) (a : α) (h : P a) :
    ReturnsOnly P (pure a : Gw σ β α) := fun _ => h

theorem ReturnsOnly.bind_returns {P : γ → Prop} (x : Gw σ β α) (f : α → Gw σ β γ)
    (h : ∀ a, ReturnsOnly P (f a)) : ReturnsOnly P (x >>= f) := fun w => by
  rw [Gw.result_bind]
  exact h _ _

end Gw

namespace service

open nexus

variable {σ β : Type}

theorem ApplyService.applyRole_counts (L : Lib β) (s : ApplyService σ β)
    (role : config.Role) :
    Gw.ReturnsOnly (fun st => st ≠ .next false) (s.applyRole L role) := by
  unfold ApplyService.applyRole
  repeat' first
    | with_reducible exact Gw.ReturnsOnly.pure_returns _ _ (by simp)
    | with_reducible refine Gw.ReturnsOnly.bind_returns _ _ (fun _ => ?_)
    | split

theorem ApplyService.applyUser_counts (L : Lib β) (s : ApplyService σ β)
    (user : config.User) :
    Gw.ReturnsOnly (fun st => st ≠ .next false) (s.applyUser L user) := by
  unfold ApplyService.applyUser
  repeat' first
    | with_reducible exact Gw.ReturnsOnly.pure_returns _ _ (by simp)
    | with_reducible refine Gw.ReturnsOnly.bind_returns _ _ (fun _ => ?_)
    | split

theorem ApplyService.assignPermissionRole_counts (L : Lib β) (s : ApplyService σ β)
    (perm : config.UserRepositoryPermission) (roleName : String) :
    Gw.ReturnsOnly (fun st => st ≠ .next false) (s.assignPermissionRole L perm roleName) := by
  unfold ApplyService.assignPermissionRole
  repeat' first
    | with_reducible exact Gw.ReturnsOnly.pure_returns _ _ (by simp)
    | with_reducible refine Gw.ReturnsOnly.bind_returns _ _ (fun _ => ?_)
    | split
    | dsimp only

theorem ApplyService.applyUserRepositoryPermission_counts (L : Lib β)
    (s : ApplyService σ β) (perm : config.UserRepositoryPermission) :
    Gw.ReturnsOnly (fun st => st ≠ .next false) (s.applyUserRepositoryPermission L perm) := by
  unfold ApplyService.applyUserRepositoryPermission
  repeat' first
    | with_reducible exact Gw.ReturnsOnly.pure_returns _ _ (by simp)
    | with_reducible exact ApplyService.assignPermissionRole_counts _ _ _ _
    | with_reducible refine Gw.ReturnsOnly.bind_returns _ _ (fun _ => ?_)
    | split
    | dsimp only

theorem counted_of_ne {st : Step} (h : st ≠ .next false) (b : Bool) (hb : st = .next b) :
    b = true := by
  subst hb
  cases b
  · exact absurd rfl h
  · rfl

theorem isPost_of_get (c : Client σ β) (path : String) (body : Body) :
    (c.newRequest "GET" path body).isPost = false := by
  simp [Request.isPost, Client.newRequest]

theorem isPost_of_post (c : Client σ β) (path : String) (body : Body) :
    (c.newRequest "POST" path body).isPost = true := by
  simp [Request.isPost, Client.newRequest]

/-- An iteration of `applyPrivileges` that does not abort counts exactly when it
issued a POST. -/
theorem ApplyService.applyPrivilege_counts (L : Lib β) (s : ApplyService σ β)
    (priv : config.Privilege) (w : σ) (b : Bool)
    (h : (s.applyPrivilege L priv).result w = .next b) :
    ((s.applyPrivilege L priv).calls w).countP Request.isPost = if b then 1 else 0 := by
  obtain hr | ⟨e, hr⟩ := Option.eq_none_or_eq_some
    ((s.client.PrivilegeExists L priv.Name).result w).2
  swap
  · simp [ApplyService.applyPrivilege, hr] at h
  by_cases hex : ((s.client.PrivilegeExists L priv.Name).result w).1 = true
  · have hb : b = false := by
      simp [ApplyService.applyPrivilege, hr, hex] at h
      exact h
    subst hb
    simp [ApplyService.applyPrivilege, hr, hex, List.countP_cons, isPost_of_get]
  · cases hp : Client.privilegePath priv.Type_ with
    | none =>
      have hu := (CreatePrivilege_unsupported L s.client
        { Name := priv.Name, Description := priv.Description, Type_ := priv.Type_,
          Format := priv.Format, Repository := priv.Repository, Actions := priv.Actions,
          Pattern := "", Domain := "" } hp
        ((s.client.PrivilegeExists L priv.Name).final w)).1
      simp only [Client.final_PrivilegeExists] at hu
      simp [ApplyService.applyPrivilege, hr, hex, hu] at h
    | some path =>
      have hc := CreatePrivilege_calls_of_path L s.client
        { Name := priv.Name, Description := priv.Description, Type_ := priv.Type_,
          Format := priv.Format, Repository := priv.Repository, Actions := priv.Actions,
          Pattern := "", Domain := "" } path hp
        ((s.client.PrivilegeExists L priv.Name).final w)
      simp only [Client.final_PrivilegeExists] at hc
      obtain hcr | ⟨e, hcr⟩ := Option.eq_none_or_eq_some
        ((s.client.CreatePrivilege L
          { Name := priv.Name, Description := priv.Description, Type_ := priv.Type_,
            Format := priv.Format, Repository := priv.Repository, Actions := priv.Actions,
            Pattern := "", Domain := "" }).result
          ((s.client.PrivilegeExists L priv.Name).final w))
      swap
      · simp only [Client.final_PrivilegeExists] at hcr
        simp [ApplyService.applyPrivilege, hr, hex, hcr] at h
      · simp only [Client.final_PrivilegeExists] at hcr
        have hb : b = true := by
          simp [ApplyService.applyPrivilege, hr, hex, hcr] at h
          exact h
        subst hb
        simp [ApplyService.applyPrivilege, hr, hex, hcr, hc, List.countP_cons, isPost_of_get,
          isPost_of_post]

/-- An iteration of `applyRepositories` that does not abort counts exactly when it
issued a POST. -/
theorem ApplyService.applyRepository_counts (L : Lib β) (s : ApplyService σ β)
    (repo : config.Repository) (w : σ) (b : Bool)
    (h : (s.applyRepository L repo).result w = .next b) :
    ((s.applyRepository L repo).calls w).countP Request.isPost = if b then 1 else 0 := by
  obtain hr | ⟨e, hr⟩ := Option.eq_none_or_eq_some
    ((s.client.RepositoryExists L repo.Name).result w).2
  swap
  · simp [ApplyService.applyRepository, hr] at h
  by_cases hex : ((s.client.RepositoryExists L repo.Name).result w).1 = true
  · have hb : b = false := by
      simp [ApplyService.applyRepository, hr, hex] at h
      exact h
    subst hb
    simp [ApplyService.applyRepository, hr, hex, List.countP_cons, isPost_of_get]
  · rcases ApplyService.createRepository_calls L s repo
      ((s.client.RepositoryExists L repo.Name).final w) with ⟨-, err, herr⟩ | ⟨path, hpath⟩
    · simp only [Client.final_RepositoryExists] at herr
      simp [ApplyService.applyRepository, hr, hex, herr] at h
    · simp only [Client.final_RepositoryExists] at hpath
      obtain hcr | ⟨e, hcr⟩ := Option.eq_none_or_eq_some
        ((s.createRepository L repo).result
          ((s.client.RepositoryExists L repo.Name).final w))
      swap
      · simp only [Client.final_RepositoryExists] at hcr
        simp [ApplyService.applyRepository, hr, hex, hcr] at h
      · simp only [Client.final_RepositoryExists] at hcr
        have hb : b = true := by
          simp [ApplyService.applyRepository, hr, hex, hcr] at h
          exact h
        subst hb
        simp [ApplyService.applyRepository, hr, hex, hcr, hpath, List.countP_cons,
          isPost_of_get, isPost_of_post]

/-- The result of an `Apply` whose five steps return no error, in terms of the
counts the steps return. -/
theorem ApplyService.Apply_success_result (L : Lib β) (s : ApplyService σ β) (w : σ)
    (h : ((s.Apply L).result w).2 = none) :
    ((s.Apply L).result w).1 =
      { Total :=
          ((s.applyPrivileges L).result w).1 +
          ((s.applyRoles L).result ((s.applyPrivileges L).final w)).1 +
          ((s.applyRepositories L).result ((s.applyRoles L).final
            ((s.applyPrivileges L).final w))).1 +
          ((s.applyUsers L).result ((s.applyRepositories L).final ((s.applyRoles L).final
            ((s.applyPrivileges L).final w)))).1 +
          ((s.applyUserRepositoryPermissions L).result ((s.applyUsers L).final
            ((s.applyRepositories L).final ((s.applyRoles L).final
              ((s.applyPrivileges L).final w))))).1
        Success :=
          ((s.applyPrivileges L).result w).1 +
          ((s.applyRoles L).result ((s.applyPrivileges L).final w)).1 +
          ((s.applyRepositories L).result ((s.applyRoles L).final
            ((s.applyPrivileges L).final w))).1 +
          ((s.applyUsers L).result ((s.applyRepositories L).final ((s.applyRoles L).final
            ((s.applyPrivileges L).final w)))).1 +
          ((s.applyUserRepositoryPermissions L).result ((s.applyUsers L).final
            ((s.applyRepositories L).final ((s.applyRoles L).final
              ((s.applyPrivileges L).final w))))).1
        Failed := 0
        Skipped := 0
        UsersCreated :=
          ((s.applyUsers L).result ((s.applyRepositories L).final ((s.applyRoles L).final
            ((s.applyPrivileges L).final w)))).1
        RepositoriesCreated :=
          ((s.applyRepositories L).result ((s.applyRoles L).final
            ((s.applyPrivileges L).final w))).1
        RolesCreated := ((s.applyRoles L).result ((s.applyPrivileges L).final w)).1
        PrivilegesCreated := ((s.applyPrivileges L).result w).1
        Errors := []
        Warnings := [] } := by
  have hs := (ApplyService.Apply_success_iff L s w).mp h
  have h1 : ((s.applyPrivileges L).result w).2 = none := by
    simpa [ApplyService.applyPrivileges] using hs.1
  have h2 : ((s.applyRoles L).result ((s.applyPrivileges L).final w)).2 = none := by
    simpa [ApplyService.applyPrivileges, ApplyService.applyRoles] using hs.2.1
  have h3 : ((s.applyRepositories L).result ((s.applyRoles L).final
      ((s.applyPrivileges L).final w))).2 = none := by
    simpa [ApplyService.applyPrivileges, ApplyService.applyRoles,
      ApplyService.applyRepositories] using hs.2.2.1
  have h4 : ((s.applyUsers L).result ((s.applyRepositories L).final ((s.applyRoles L).final
      ((s.applyPrivileges L).final w)))).2 = none := by
    simpa [ApplyService.applyPrivileges, ApplyService.applyRoles,
      ApplyService.applyRepositories, ApplyService.applyUsers] using hs.2.2.2.1
  have h5 : ((s.applyUserRepositoryPermissions L).result ((s.applyUsers L).final
      ((s.applyRepositories L).final ((s.applyRoles L).final
        ((s.applyPrivileges L).final w))))).2 = none := by
    simpa [ApplyService.applyPrivileges, ApplyService.applyRoles,
      ApplyService.applyRepositories, ApplyService.applyUsers,
      ApplyService.applyUserRepositoryPermissions] using hs.2.2.2.2
  simp [ApplyService.Apply, h1, h2, h3, h4, h5, ApplyService.emptyResult]

end service

namespace service

open nexus

variable {σ β : Type}

/-- C24. The counters of a successful `Apply`.  `Total` is
`Success + Failed + Skipped` with `Failed` and `Skipped` both 0; `Success` is the sum
of the four per-kind counters and the number of grants of the manifest;
`RolesCreated` is the number of manifest roles and `UsersCreated` the number of
manifest users, whether they were created or updated; `PrivilegesCreated` and
`RepositoriesCreated` are the numbers of POST calls of their steps, one per entry
that was created. -/
theorem ApplyService.Apply_counters (L : Lib β) (s : ApplyService σ β) (w : σ)
    (h : ((s.Apply L).result w).2 = none) :
    ((s.Apply L).result w).1.Total =
      ((s.Apply L).result w).1.Success + ((s.Apply L).result w).1.Failed +
        ((s.Apply L).result w).1.Skipped ∧
    ((s.Apply L).result w).1.Failed = 0 ∧
    ((s.Apply L).result w).1.Skipped = 0 ∧
    ((s.Apply L).result w).1.Success =
      ((s.Apply L).result w).1.PrivilegesCreated + ((s.Apply L).result w).1.RolesCreated +
        ((s.Apply L).result w).1.RepositoriesCreated +
        ((s.Apply L).result w).1.UsersCreated +
        s.config.UserRepositoryPermissions.length ∧
    ((s.Apply L).result w).1.RolesCreated = s.config.Roles.length ∧
    ((s.Apply L).result w).1.UsersCreated = s.config.Users.length ∧
    ((s.Apply L).result w).1.PrivilegesCreated =
      ((s.applyPrivileges L).calls w).countP Request.isPost ∧
    ((s.Apply L).result w).1.RepositoriesCreated =
      ((s.applyRepositories L).calls
        ((s.applyRoles L).final ((s.applyPrivileges L).final w))).countP Request.isPost := by
  obtain ⟨h1, h2, h3, h4, h5⟩ := (ApplyService.Apply_success_iff L s w).mp h
  have c1 := forRange_counts_calls (s.applyPrivilege L) Request.isPost
    (ApplyService.applyPrivilege_counts L s) s.config.Privileges 0 _ h1
  have c2 := forRange_counts_entries (s.applyRole L)
    (fun x v b hb => counted_of_ne (ApplyService.applyRole_counts L s x v) b hb)
    s.config.Roles 0 _ h2
  have c3 := forRange_counts_calls (s.applyRepository L) Request.isPost
    (ApplyService.applyRepository_counts L s) s.config.Repositories 0 _ h3
  have c4 := forRange_counts_entries (s.applyUser L)
    (fun x v b hb => counted_of_ne (ApplyService.applyUser_counts L s x v) b hb)
    s.config.Users 0 _ h4
  have c5 := forRange_counts_entries (s.applyUserRepositoryPermission L)
    (fun x v b hb =>
      counted_of_ne (ApplyService.applyUserRepositoryPermission_counts L s x v) b hb)
    s.config.UserRepositoryPermissions 0 _ h5
  rw [ApplyService.Apply_success_result L s w h]
  simp only [ApplyService.applyPrivileges, ApplyService.applyRoles,
    ApplyService.applyRepositories, ApplyService.applyUsers,
    ApplyService.applyUserRepositoryPermissions, Gw.result_bind, Gw.final_bind,
    Gw.calls_bind, formatter.final_Info, formatter.calls_Info, List.nil_append,
    c1, c2, c3, c4, c5]
  refine ⟨by omega, trivial, trivial, by omega, by omega, by omega, by omega, by omega⟩

/-- Witness of C24, on the model server holding `alice` and `maven-releases`:
applying the manifest with one entry of every category creates the privilege and
the role, skips the repository, updates the user and processes the grant.  The
repository counter is 0, the other three are 1, and `Success` is 4. -/
theorem ApplyService.team_manifest_counters :
    ((model.applyService "http://nexus:8081" example_.teamManifest).Apply model.lib).result
        example_.aliceStore =
      ({ Total := 4, Success := 4, Failed := 0, Skipped := 0, UsersCreated := 1,
         RepositoriesCreated := 0, RolesCreated := 1, PrivilegesCreated := 1,
         Errors := [], Warnings := [] }, none) ∧
    (((model.applyService "http://nexus:8081" example_.teamManifest).Apply model.lib).result
        example_.aliceStore).1.Success =
      (((model.applyService "http://nexus:8081" example_.teamManifest).Apply
          model.lib).result example_.aliceStore).1.PrivilegesCreated +
        (((model.applyService "http://nexus:8081" example_.teamManifest).Apply
          model.lib).result example_.aliceStore).1.RolesCreated +
        (((model.applyService "http://nexus:8081" example_.teamManifest).Apply
          model.lib).result example_.aliceStore).1.RepositoriesCreated +
        (((model.applyService "http://nexus:8081" example_.teamManifest).Apply
          model.lib).result example_.aliceStore).1.UsersCreated +
        (model.applyService "http://nexus:8081"
          example_.teamManifest).config.UserRepositoryPermissions.length :=
  ⟨by decide,
   (ApplyService.Apply_counters model.lib
      (model.applyService "http://nexus:8081" example_.teamManifest) example_.aliceStore
      (by decide)).2.2.2.1⟩

end service

/-! ## The result of an aborted apply run -/

namespace service

open nexus

variable {σ β : Type}

/-- C28. The result of an `Apply` that aborts.  Whichever step returns the error
`err`, the result has `Total = 0` and `Errors = [err]`; the count the failing step
returned with the error is not recorded, so `Success` and the per-kind counters are
those of the steps completed before it.  On every return of `Apply`, the error is
non-nil exactly when `Errors` has one entry and nil exactly when `Errors` is
empty. -/
theorem ApplyService.Apply_aborted_result (L : Lib β) (s : ApplyService σ β) (w : σ) :
    (∀ err, ((s.applyPrivileges L).result w).2 = some err →
      ((s.Apply L).result w).1 =
        { Total := 0, Success := 0, Failed := 0, Skipped := 0, UsersCreated := 0,
          RepositoriesCreated := 0, RolesCreated := 0, PrivilegesCreated := 0,
          Errors := [err], Warnings := [] }) ∧
    (∀ err, ((s.applyPrivileges L).result w).2 = none →
      ((s.applyRoles L).result ((s.applyPrivileges L).final w)).2 = some err →
      ((s.Apply L).result w).1 =
        { Total := 0, Success := ((s.applyPrivileges L).result w).1, Failed := 0,
          Skipped := 0, UsersCreated := 0, RepositoriesCreated := 0, RolesCreated := 0,
          PrivilegesCreated := ((s.applyPrivileges L).result w).1,
          Errors := [err], Warnings := [] }) ∧
    (∀ err, ((s.applyPrivileges L).result w).2 = none →
      ((s.applyRoles L).result ((s.applyPrivileges L).final w)).2 = none →
      ((s.applyRepositories L).result ((s.applyRoles L).final
        ((s.applyPrivileges L).final w))).2 = some err →
      ((s.Apply L).result w).1 =
        { Total := 0
          Success := ((s.applyPrivileges L).result w).1 +
            ((s.applyRoles L).result ((s.applyPrivileges L).final w)).1
          Failed := 0, Skipped := 0, UsersCreated := 0, RepositoriesCreated := 0
          RolesCreated := ((s.applyRoles L).result ((s.applyPrivileges L).final w)).1
          PrivilegesCreated := ((s.applyPrivileges L).result w).1
          Errors := [err], Warnings := [] }) ∧
    (∀ err, ((s.applyPrivileges L).result w).2 = none →
      ((s.applyRoles L).result ((s.applyPrivileges L).final w)).2 = none →
      ((s.applyRepositories L).result ((s.applyRoles L).final
        ((s.applyPrivileges L).final w))).2 = none →
      ((s.applyUsers L).result ((s.applyRepositories L).final ((s.applyRoles L).final
        ((s.applyPrivileges L).final w)))).2 = some err →
      ((s.Apply L).result w).1 =
        { Total := 0
          Success := ((s.applyPrivileges L).result w).1 +
            ((s.applyRoles L).result ((s.applyPrivileges L).final w)).1 +
            ((s.applyRepositories L).result ((s.applyRoles L).final
              ((s.applyPrivileges L).final w))).1
          Failed := 0, Skipped := 0, UsersCreated := 0
          RepositoriesCreated := ((s.applyRepositories L).result ((s.applyRoles L).final
            ((s.applyPrivileges L).final w))).1
          RolesCreated := ((s.applyRoles L).result ((s.applyPrivileges L).final w)).1
          PrivilegesCreated := ((s.applyPrivileges L).result w).1
          Errors := [err], Warnings := [] }) ∧
    (∀ err, ((s.applyPrivileges L).result w).2 = none →
      ((s.applyRoles L).result ((s.applyPrivileges L).final w)).2 = none →
      ((s.applyRepositories L).result ((s.applyRoles L).final
        ((s.applyPrivileges L).final w))).2 = none →
      ((s.applyUsers L).result ((s.applyRepositories L).final ((s.applyRoles L).final
        ((s.applyPrivileges L).final w)))).2 = none →
      ((s.applyUserRepositoryPermissions L).result ((s.applyUsers L).final
        ((s.applyRepositories L).final ((s.applyRoles L).final
          ((s.applyPrivileges L).final w))))).2 = some err →
      ((s.Apply L).result w).1 =
        { Total := 0
          Success := ((s.applyPrivileges L).result w).1 +
            ((s.applyRoles L).result ((s.applyPrivileges L).final w)).1 +
            ((s.applyRepositories L).result ((s.applyRoles L).final
              ((s.applyPrivileges L).final w))).1 +
            ((s.applyUsers L).result ((s.applyRepositories L).final
              ((s.applyRoles L).final ((s.applyPrivileges L).final w)))).1
          Failed := 0, Skipped := 0
          UsersCreated := ((s.applyUsers L).result ((s.applyRepositories L).final
            ((s.applyRoles L).final ((s.applyPrivileges L).final w)))).1
          RepositoriesCreated := ((s.applyRepositories L).result ((s.applyRoles L).final
            ((s.applyPrivileges L).final w))).1
          RolesCreated := ((s.applyRoles L).result ((s.applyPrivileges L).final w)).1
          PrivilegesCreated := ((s.applyPrivileges L).result w).1
          Errors := [err], Warnings := [] }) ∧
    (((s.Apply L).result w).2 ≠ none ↔ ((s.Apply L).result w).1.Errors.length = 1) ∧
    (((s.Apply L).result w).2 = none ↔ ((s.Apply L).result w).1.Errors = []) := by
  refine ⟨?_, ?_, ?_, ?_, ?_, ?_⟩
  · intro err h1
    simp [ApplyService.Apply, h1, ApplyService.emptyResult]
  · intro err h1 h2
    simp [ApplyService.Apply, h1, h2, ApplyService.emptyResult]
  · intro err h1 h2 h3
    simp [ApplyService.Apply, h1, h2, h3, ApplyService.emptyResult]
  · intro err h1 h2 h3 h4
    simp [ApplyService.Apply, h1, h2, h3, h4, ApplyService.emptyResult]
  · intro err h1 h2 h3 h4 h5
    simp [ApplyService.Apply, h1, h2, h3, h4, h5, ApplyService.emptyResult]
  · simp only [ApplyService.Apply, Gw.result_bind, Gw.final_bind, formatter.final_Info]
    obtain h1 | ⟨e1, h1⟩ := Option.eq_none_or_eq_some ((s.applyPrivileges L).result w).2
    swap
    · simp [h1, ApplyService.emptyResult]
    obtain h2 | ⟨e2, h2⟩ := Option.eq_none_or_eq_some
      ((s.applyRoles L).result ((s.applyPrivileges L).final w)).2
    swap
    · simp [h1, h2, ApplyService.emptyResult]
    obtain h3 | ⟨e3, h3⟩ := Option.eq_none_or_eq_some
      ((s.applyRepositories L).result ((s.applyRoles L).final
        ((s.applyPrivileges L).final w))).2
    swap
    · simp [h1, h2, h3, ApplyService.emptyResult]
    obtain h4 | ⟨e4, h4⟩ := Option.eq_none_or_eq_some
      ((s.applyUsers L).result ((s.applyRepositories L).final ((s.applyRoles L).final
        ((s.applyPrivileges L).final w)))).2
    swap
    · simp [h1, h2, h3, h4, ApplyService.emptyResult]
    obtain h5 | ⟨e5, h5⟩ := Option.eq_none_or_eq_some
      ((s.applyUserRepositoryPermissions L).result ((s.applyUsers L).final
        ((s.applyRepositories L).final ((s.applyRoles L).final
          ((s.applyPrivileges L).final w))))).2 <;>
      simp [h1, h2, h3, h4, h5, ApplyService.emptyResult]

/-- Witness of C28: of five privileges, the create of the third fails after two
were created.  The step returns the count 2 with its error, and the result of
`Apply` has `PrivilegesCreated = 0`, `Success = 0`, `Total = 0` and the one error. -/
theorem ApplyService.third_privilege_result :
    (example_.thirdCreateFails.applyPrivileges model.lib).result example_.fresh =
      (2, some ("failed to create privilege p3: failed to create privilege p3: " ++
        "request failed with status 500: Internal Server Error")) ∧
    ((example_.thirdCreateFails.Apply model.lib).result example_.fresh).1 =
      { Total := 0, Success := 0, Failed := 0, Skipped := 0, UsersCreated := 0,
        RepositoriesCreated := 0, RolesCreated := 0, PrivilegesCreated := 0,
        Errors := ["failed to create privilege p3: failed to create privilege p3: " ++
          "request failed with status 500: Internal Server Error"],
        Warnings := [] } :=
  ⟨by decide,
   (ApplyService.Apply_aborted_result model.lib example_.thirdCreateFails example_.fresh).1
     _ (by decide)⟩

end service

/-! ## Credentials from the environment -/

namespace config

/-- C25. `GetNexusCredentials` as a function of the environment.  It returns an
error exactly when one of `NEXUS_URL`, `NEXUS_USERNAME`, `NEXUS_PASSWORD` is empty
or unset; the error names the first missing one in that order, and the three
strings returned with it are empty.  When all three are non-empty it returns them
unchanged and no error. -/
theorem GetNexusCredentials_spec (getenv : String → String) :
    ((GetNexusCredentials getenv).2 ≠ none ↔
      (getenv "NEXUS_URL" = "" ∨ getenv "NEXUS_USERNAME" = "" ∨
        getenv "NEXUS_PASSWORD" = "")) ∧
    (getenv "NEXUS_URL" = "" →
      GetNexusCredentials getenv =
        (("", "", ""), some "NEXUS_URL environment variable is not set")) ∧
    (getenv "NEXUS_URL" ≠ "" → getenv "NEXUS_USERNAME" = "" →
      GetNexusCredentials getenv =
        (("", "", ""), some "NEXUS_USERNAME environment variable is not set")) ∧
    (getenv "NEXUS_URL" ≠ "" → getenv "NEXUS_USERNAME" ≠ "" →
      getenv "NEXUS_PASSWORD" = "" →
      GetNexusCredentials getenv =
        (("", "", ""), some "NEXUS_PASSWORD environment variable is not set")) ∧
    (getenv "NEXUS_URL" ≠ "" → getenv "NEXUS_USERNAME" ≠ "" →
      getenv "NEXUS_PASSWORD" ≠ "" →
      GetNexusCredentials getenv =
        ((getenv "NEXUS_URL", getenv "NEXUS_USERNAME", getenv "NEXUS_PASSWORD"), none)) := by
  refine ⟨?_, ?_, ?_, ?_, ?_⟩
  · by_cases h1 : getenv "NEXUS_URL" = ""
    · simp [GetNexusCredentials, h1]
    · by_cases h2 : getenv "NEXUS_USERNAME" = ""
      · simp [GetNexusCredentials, h1, h2]
      · by_cases h3 : getenv "NEXUS_PASSWORD" = ""
        · simp [GetNexusCredentials, h1, h2, h3]
        · simp [GetNexusCredentials, h1, h2, h3]
  · intro h1
    simp [GetNexusCredentials, h1]
  · intro h1 h2
    simp [GetNexusCredentials, h1, h2]
  · intro h1 h2 h3
    simp [GetNexusCredentials, h1, h2, h3]
  · intro h1 h2 h3
    simp [GetNexusCredentials, h1, h2, h3]

/-- Witness of C25: the four cases of `TestGetNexusCredentials`, and an
environment in which two variables are missing. -/
theorem GetNexusCredentials_test_cases :
    GetNexusCredentials (example_.environment "http://localhost:8081" "admin" "admin123") =
      ((example_.environment "http://localhost:8081" "admin" "admin123" "NEXUS_URL",
        example_.environment "http://localhost:8081" "admin" "admin123" "NEXUS_USERNAME",
        example_.environment "http://localhost:8081" "admin" "admin123" "NEXUS_PASSWORD"),
        none) ∧
    GetNexusCredentials (example_.environment "" "admin" "admin123") =
      (("", "", ""), some "NEXUS_URL environment variable is not set") ∧
    GetNexusCredentials (example_.environment "http://localhost:8081" "" "admin123") =
      (("", "", ""), some "NEXUS_USERNAME environment variable is not set") ∧
    GetNexusCredentials (example_.environment "http://localhost:8081" "admin" "") =
      (("", "", ""), some "NEXUS_PASSWORD environment variable is not set") ∧
    GetNexusCredentials (example_.environment "http://localhost:8081" "" "") =
      (("", "", ""), some "NEXUS_USERNAME environment variable is not set") ∧
    GetNexusCredentials (example_.environment "http://localhost:8081" "admin" "admin123") =
      (("http://localhost:8081", "admin", "admin123"), none) :=
  ⟨(GetNexusCredentials_spec _).2.2.2.2 (by decide) (by decide) (by decide),
   (GetNexusCredentials_spec _).2.1 (by decide),
   (GetNexusCredentials_spec _).2.2.1 (by decide) (by decide),
   (GetNexusCredentials_spec _).2.2.2.1 (by decide) (by decide) (by decide),
   (GetNexusCredentials_spec _).2.2.1 (by decide) (by decide),
   by decide⟩

end config

/-! ## The base URL of a client -/

theorem rdropWhile_slashes (p : Char → Bool) (hp : ∀ c, p c = true → c = '/') (l : List Char) :
    ∃ n, l = l.rdropWhile p ++ List.replicate n '/' := by
  induction l using List.reverseRecOn with
  | nil => exact ⟨0, by simp⟩
  | append_singleton l x ih =>
    rw [List.rdropWhile_concat]
    by_cases hx : p x = true
    · obtain ⟨n, hn⟩ := ih
      refine ⟨n + 1, ?_⟩
      rw [if_pos hx, List.replicate_succ', ← List.append_assoc, ← hn, hp x hx]
    · exact ⟨0, by simp [hx]⟩

theorem rdropWhile_no_trailing (p : Char → Bool) (c : Char) (hc : p c = true)
    (l pre : List Char) : l.rdropWhile p ≠ pre ++ [c] := by
  induction l using List.reverseRecOn with
  | nil => simp
  | append_singleton l x ih =>
    rw [List.rdropWhile_concat]
    by_cases hx : p x = true
    · rw [if_pos hx]; exact ih
    · rw [if_neg hx]
      intro h
      have := List.append_inj' h rfl
      simp only [List.cons.injEq, and_true] at this
      rw [this.2] at hx
      exact hx hc

namespace nexus

variable {σ β : Type}

/-- C26. `NewClient` keeps the username and the password and stores the base URL
without trailing slashes: the stored URL does not end with `/`, the input is the
stored URL followed by slashes only, and a stored URL given to `NewClient` again is
stored as it is.  `http://localhost:8081/` and `http://localhost:8081` are both
stored as `http://localhost:8081`. -/
theorem NewClient_spec (baseURL username password : String) (httpClient : HttpClient σ β) :
    (NewClient baseURL username password httpClient).username = username ∧
    (NewClient baseURL username password httpClient).password = password ∧
    (∀ pre : String,
      (NewClient baseURL username password httpClient).baseURL ≠ pre ++ "/") ∧
    (∃ n, baseURL = (NewClient baseURL username password httpClient).baseURL ++
      String.mk (List.replicate n '/')) ∧
    (NewClient (NewClient baseURL username password httpClient).baseURL username password
      httpClient).baseURL = (NewClient baseURL username password httpClient).baseURL ∧
    (NewClient "http://localhost:8081/" username password httpClient).baseURL
      = "http://localhost:8081" ∧
    (NewClient "http://localhost:8081" username password httpClient).baseURL
      = "http://localhost:8081" := by
  have hp : ∀ c : Char, ("/".data.contains c) = true → c = '/' := by
    intro c h
    simpa using h
  have e1 : stringsTrimRight "http://localhost:8081/" "/" = "http://localhost:8081" := by
    decide
  have e2 : stringsTrimRight "http://localhost:8081" "/" = "http://localhost:8081" := by
    decide
  refine ⟨rfl, rfl, ?_, ?_, ?_, e1, e2⟩
  · intro pre h
    have hd := congrArg String.data h
    simp only [NewClient, stringsTrimRight, String.data_append] at hd
    exact rdropWhile_no_trailing _ '/' (by decide) baseURL.data pre.data hd
  · obtain ⟨n, hn⟩ := rdropWhile_slashes (fun c => "/".data.contains c) hp baseURL.data
    refine ⟨n, ?_⟩
    apply String.ext
    simp only [NewClient, stringsTrimRight, String.data_append]
    exact hn
  · simp only [NewClient, stringsTrimRight]
    rw [List.rdropWhile_idempotent]

/-- Witness of C26: a URL with three trailing slashes is stored without them, and
the stored URL is not the input with one slash removed. -/
theorem NewClient_examples :
    (NewClient "http://localhost:8081///" "admin" "admin123"
        (model.server "http://localhost:8081")).baseURL = "http://localhost:8081" ∧
    (NewClient "http://localhost:8081///" "admin" "admin123"
        (model.server "http://localhost:8081")).baseURL ≠ "http://localhost:8081//" ++ "/" ∧
    (NewClient "http://localhost:8081///" "admin" "admin123"
        (model.server "http://localhost:8081")).username = "admin" :=
  ⟨(by decide : stringsTrimRight "http://localhost:8081///" "/" = "http://localhost:8081"),
   (NewClient_spec "http://localhost:8081///" "admin" "admin123"
      (model.server "http://localhost:8081")).2.2.1 "http://localhost:8081//",
   (NewClient_spec "http://localhost:8081///" "admin" "admin123"
      (model.server "http://localhost:8081")).1⟩

end nexus

/-! ## The payload of a user update -/

namespace service

open nexus

variable {σ β : Type}

end service

/-! ## Grants whose derived roles collide -/

namespace service

open nexus

/-- C29. The derived role identifier does not determine the grant.  The grants
(`a-b`, `c`) and (`a`, `b-c`) differ in user and repository, and both
`applyUserRepositoryPermissions` and `deleteUserRepositoryPermissionRoles` compute
the identifier `a-b-c-role` for each.  On the model server, applying the two grants
creates the role for the first and then updates it for the second: the role ends up
with the privileges of the second grant only, and both users are assigned it. -/
theorem derived_role_identifier_collides :
    (example_.grantAB.UserID, example_.grantAB.Repository)
      ≠ (example_.grantBC.UserID, example_.grantBC.Repository) ∧
    ApplyService.permissionRoleName example_.grantAB = "a-b-c-role" ∧
    ApplyService.permissionRoleName example_.grantBC = "a-b-c-role" ∧
    ((example_.teamDelete.deleteUserRepositoryPermissionRole model.lib example_.grantAB).calls
        model.Store.empty).map (fun r => r.url) =
      ["http://nexus:8081/service/rest/v1/security/roles/a-b-c-role"] ∧
    ((example_.teamDelete.deleteUserRepositoryPermissionRole model.lib example_.grantBC).calls
        model.Store.empty).map (fun r => r.url) =
      ["http://nexus:8081/service/rest/v1/security/roles/a-b-c-role"] ∧
    (((model.applyService "http://nexus:8081" example_.collidingManifest).Apply
        model.lib).result example_.collidingStore).2 = none ∧
    (((model.applyService "http://nexus:8081" example_.collidingManifest).Apply
        model.lib).calls example_.collidingStore).filterMap (fun r =>
          match r.body with
          | .role req => some (r.method, req.ID, req.Privileges)
          | _ => none) =
      [("POST", "a-b-c-role", ["nx-repository-view-maven2-c-read"]),
       ("PUT", "a-b-c-role", ["nx-repository-view-npm-b-c-write"])] ∧
    ((((model.applyService "http://nexus:8081" example_.collidingManifest).Apply
        model.lib).final example_.collidingStore).roles "a-b-c-role").map
          (fun r => (r.Name, r.Privileges)) =
      some ("a access to b-c", ["nx-repository-view-npm-b-c-write"]) ∧
    ((((model.applyService "http://nexus:8081" example_.collidingManifest).Apply
        model.lib).final example_.collidingStore).users "a-b").map (fun u => u.user.Roles)
      = some ["a-b-c-role"] ∧
    ((((model.applyService "http://nexus:8081" example_.collidingManifest).Apply
        model.lib).final example_.collidingStore).users "a").map (fun u => u.user.Roles)
      = some ["a-b-c-role"] := by
  decide

end service
